import Mathlib

/-!
MD5 two-block collision search (`md5coll.c`).

A shallow embedding of `md5coll.c` and proofs about it.

Conventions.
* A `uint32_t` is a `Nat`; every addition, subtraction and left shift is reduced
  modulo `2^32` at the place where C wraps (`add32`, `sub32`, `shl32`).
* A C array of `n` words is a `Words n`.  The trail `Q = QandIV + 3` of the source is
  stored as the array `QandIV`: the source's `Q[n]` is entry `n + 3`, so `Q[-3]` is
  entry `0` and `Q[24]` is entry `27`.
* `time(NULL)` is the argument `time`; the pseudo-random stream of a run is the
  xorshift64* stream seeded from it, exactly as in the source.
* `MD5Transform` is declared in `md5.h`, which is not part of the source file.  The two
  engines take it as the argument `Compress`; `MD5Transform` below is the standard
  compression function, used where a concrete one is needed.
* `assert` is modelled by the flag `asserts`: with `asserts = true` a failing assertion
  ends the run in `Outcome.assertFailed`; with `asserts = false` (the build with
  `-DNDEBUG`) assertions are skipped.
* The unbounded `while(1)` loops take a `fuel` argument bounding the number of outer
  iterations; `Outcome.outOfFuel` means that the loop was still running.
* The default build is modelled: `JPEGHACK`, `PDFHACK` and `PROFILING` are undefined,
  and `printf` is dropped.
-/

namespace Md5Coll

/-! ## Machine words -/

/-- Addition of two `uint32_t`. -/
@[irreducible] def add32 (a b : Nat) : Nat := (a + b) % 4294967296

/-- Subtraction of two `uint32_t`. -/
@[irreducible] def sub32 (a b : Nat) : Nat := (a + (4294967296 - b % 4294967296)) % 4294967296

/-- Bitwise complement `~a` of a `uint32_t`. -/
def not32 (a : Nat) : Nat := 4294967295 ^^^ a

/-- Left shift `a << s` of a `uint32_t`. -/
def shl32 (a s : Nat) : Nat := (a <<< s) % 4294967296

/-- The expression `w<<s | w>>(32-s)` of `MD5STEP`. -/
def rotl32 (w s : Nat) : Nat := shl32 w s ||| (w >>> (32 - s))

/-- The expression `x<<(32-s) | x>>s` of `MD5UNSTEP`. -/
def rotr32 (x s : Nat) : Nat := shl32 x (32 - s) ||| (x >>> s)

/-- A C array of `n` words. -/
structure Words (n : Nat) where
  data : List Nat
  len : data.length = n
deriving DecidableEq

/-- Read `v[i]`. -/
def Words.get {n : Nat} (v : Words n) (i : Nat) : Nat := v.data.getD i 0

/-- Write `v[i] = x`. -/
def Words.set {n : Nat} (v : Words n) (i : Nat) (x : Nat) : Words n :=
  ⟨v.data.set i x, by rw [List.length_set]; exact v.len⟩

/-! ## The four core functions and the MD5 step -/

/-- `#define F1(x, y, z) (z ^ (x & (y ^ z)))`. -/
def F1 (x y z : Nat) : Nat := z ^^^ (x &&& (y ^^^ z))

/-- `#define F2(x, y, z) F1(z, x, y)`. -/
def F2 (x y z : Nat) : Nat := F1 z x y

/-- `#define F3(x, y, z) (x ^ y ^ z)`. -/
def F3 (x y z : Nat) : Nat := x ^^^ y ^^^ z

/-- `#define F4(x, y, z) (y ^ (x | ~z))`. -/
def F4 (x y z : Nat) : Nat := y ^^^ (x ||| not32 z)

/-- The macro `MD5STEP(f, w, x, y, z, data, s)`: the new value of `w` after
`w += f(x, y, z) + data,  w = w<<s | w>>(32-s),  w += x`. -/
def MD5STEP (f : Nat → Nat → Nat → Nat) (w x y z data s : Nat) : Nat :=
  add32 (rotl32 (add32 w (add32 (f x y z) data)) s) x

/-- The macro `MD5UNSTEP(Q, n, k, s)`; `Q[n+1], Q[n], Q[n-1], Q[n-2], Q[n-3]` are the
entries `n+4, n+3, n+2, n+1, n` of `QandIV`. -/
def MD5UNSTEP {m : Nat} (Q : Words m) (n k s : Nat) : Nat :=
  sub32 (sub32 (sub32 (rotr32 (sub32 (Q.get (n + 4)) (Q.get (n + 3))) s)
    (F1 (Q.get (n + 3)) (Q.get (n + 2)) (Q.get (n + 1)))) k) (Q.get n)

/-- The macro `MD5UNSTEP2(Q, n, k, s)`: as `MD5UNSTEP`, with `F2`. -/
def MD5UNSTEP2 {m : Nat} (Q : Words m) (n k s : Nat) : Nat :=
  sub32 (sub32 (sub32 (rotr32 (sub32 (Q.get (n + 4)) (Q.get (n + 3))) s)
    (F2 (Q.get (n + 3)) (Q.get (n + 2)) (Q.get (n + 1)))) k) (Q.get n)

/-! ## Condition tables -/

/-- The record `struct qcond`. -/
structure qcond where
  mask : Nat
  pmask : Nat
  inv : Nat
  cbits : Nat
deriving DecidableEq

/-- The table `qconds` (first block); row 0 is the empty initialiser `{}`. -/
def qconds : List qcond :=
  [⟨0x00000000, 0x00000000, 0x00000000, 0x00000000⟩,
   ⟨0xffffffff, 0x00000000, 0x00000000, 0x00000000⟩,
   ⟨0xffffffff, 0x00000000, 0x00000000, 0x00000000⟩,
   ⟨0xfe87bc3f, 0x00000000, 0x017841c0, 0x017843c0⟩,
   ⟨0x44000033, 0x0287bc00, 0x000002c0, 0x83ffffc8⟩,
   ⟨0x00000000, 0x04000033, 0x41ffffc8, 0xffffffff⟩,
   ⟨0x00000000, 0x00000000, 0xb84b82d6, 0xffffffff⟩,
   ⟨0x68000084, 0x00000000, 0x02401b43, 0x97ffff7b⟩,
   ⟨0x2b8f6e04, 0x40000000, 0x405090d3, 0xd47091fb⟩,
   ⟨0x00000000, 0x40020000, 0x60040068, 0xf14690e9⟩,
   ⟨0x40000000, 0x00000000, 0x1040b089, 0xbfffff9f⟩,
   ⟨0x10408008, 0x40002000, 0x4fbb5f16, 0xefbf7ff7⟩,
   ⟨0x1ed9df7f, 0x40200000, 0x40222080, 0xe1262080⟩,
   ⟨0x5efb4f77, 0x00000000, 0x20049008, 0xa104b088⟩,
   ⟨0x1fff5f77, 0x40000000, 0x4000a088, 0xe000a088⟩,
   ⟨0x5efe7ff7, 0x00010000, 0x80018000, 0xa1018008⟩,
   ⟨0x1ffdffff, 0x40020000, 0xe0020000, 0xe0020000⟩,
   ⟨0x3ffd7ff7, 0x40008008, 0xc0000000, 0xc0028008⟩,
   ⟨0x5ffdffff, 0x20000000, 0x80020000, 0xa0020000⟩,
   ⟨0x7ffdffff, 0x00000000, 0x80000000, 0x80020000⟩,
   ⟨0x7ffbffff, 0x00040000, 0x80040000, 0x80040000⟩,
   ⟨0x7ffdffff, 0x00020000, 0x80000000, 0x80020000⟩,
   ⟨0x7fffffff, 0x00000000, 0x80000000, 0x80000000⟩,
   ⟨0x7fffffff, 0x00000000, 0x00000000, 0x80000000⟩,
   ⟨0x7fffffff, 0x00000000, 0x80000000, 0x80000000⟩]

/-- The table `qc00` (second block, path 0). -/
def qc00 : List qcond :=
  [⟨0x00000000, 0x00000000, 0x00000000, 0x00000000⟩,
   ⟨0x7dfdf7be, 0x80000000, 0x00020800, 0x82020841⟩,
   ⟨0x49a0e73e, 0x80000000, 0x201f0080, 0xb65f18c1⟩,
   ⟨0x0000040c, 0x8000e000, 0x3dcc1230, 0xfffffbf3⟩,
   ⟨0x00000004, 0x80000008, 0x93af7963, 0xfffffffb⟩,
   ⟨0x00000004, 0x00000000, 0xbc429940, 0xfffffffb⟩,
   ⟨0x00001044, 0x00000000, 0x22576eb9, 0xffffefbb⟩,
   ⟨0x00200806, 0x00000000, 0xbd0430b0, 0xffdff7f9⟩,
   ⟨0x60050110, 0x00000004, 0x09581e2a, 0x9ffafeef⟩,
   ⟨0x40044000, 0x00000000, 0xb9c20041, 0xbbca92ed⟩,
   ⟨0x00000000, 0x00044000, 0xf28aa209, 0xf7ffffdf⟩,
   ⟨0x12888008, 0x00012000, 0xa4754f57, 0xed777ff7⟩,
   ⟨0x1ed98d7f, 0x00200000, 0x41221200, 0xe1267280⟩,
   ⟨0x0efb1d77, 0x00000000, 0x3100c008, 0xf104e288⟩,
   ⟨0x0fff5d77, 0x00000000, 0x2000a288, 0xf000a288⟩,
   ⟨0x0efe7ff7, 0x00010000, 0xe0010008, 0xf1018008⟩,
   ⟨0x0ffdffff, 0x00020000, 0x50020000, 0xf0020000⟩,
   ⟨0x7ffd7ff7, 0x00008008, 0x80000000, 0x80028008⟩,
   ⟨0x5ffdffff, 0x20000000, 0x00020000, 0xa0020000⟩,
   ⟨0x7ffdffff, 0x00000000, 0x00020000, 0x80020000⟩,
   ⟨0x7ffbffff, 0x00040000, 0x00040000, 0x80040000⟩,
   ⟨0x7ffdffff, 0x00020000, 0x00000000, 0x80020000⟩,
   ⟨0x7fffffff, 0x00000000, 0x00000000, 0x80000000⟩,
   ⟨0x7fffffff, 0x00000000, 0x00000000, 0x80000000⟩,
   ⟨0x7fffffff, 0x00000000, 0x80000000, 0x80000000⟩]

/-- The table `qc01` (second block, path 1). -/
def qc01 : List qcond :=
  [⟨0x00000000, 0x00000000, 0x00000000, 0x00000000⟩,
   ⟨0x7dfff39e, 0x80000020, 0x00000020, 0x82000c61⟩,
   ⟨0x4db0e03e, 0x80000000, 0x30460400, 0xb24f1fc1⟩,
   ⟨0x0c000008, 0x80800002, 0x103c32b0, 0xf3fffff7⟩,
   ⟨0x00000000, 0x88000000, 0xd157efd1, 0xffffffff⟩,
   ⟨0x82000000, 0x00000000, 0x151900ab, 0x7dffffff⟩,
   ⟨0x80000000, 0x00000000, 0x3347f06f, 0x7fffffff⟩,
   ⟨0x00010130, 0x00000000, 0x79ea9e46, 0xfffefecf⟩,
   ⟨0x40200800, 0x00000000, 0xa548136d, 0xbfdff7ff⟩,
   ⟨0x00044000, 0x00000000, 0x394002f1, 0x3bca92fd⟩,
   ⟨0x00000000, 0x00044000, 0xb288a208, 0xf7ffffcf⟩,
   ⟨0x12808008, 0x00012000, 0xe4754f47, 0xed7f7ff7⟩,
   ⟨0x1ef18d7f, 0x00000000, 0x810a1200, 0xe10e7280⟩,
   ⟨0x1efb1d77, 0x00000000, 0x6104c008, 0xe104e288⟩,
   ⟨0x1fff5d77, 0x00000000, 0xe000a288, 0xe000a288⟩,
   ⟨0x1efe7ff7, 0x00010000, 0xa0010008, 0xe1018008⟩,
   ⟨0x1ffdffff, 0x00020000, 0x80020000, 0xe0020000⟩,
   ⟨0x7ffd7ff7, 0x00008008, 0x00000000, 0x80028008⟩,
   ⟨0x5ffdffff, 0x20000000, 0x80020000, 0xa0020000⟩,
   ⟨0x7ffdffff, 0x00000000, 0x80020000, 0x80020000⟩,
   ⟨0x7ffbffff, 0x00040000, 0x80040000, 0x80040000⟩,
   ⟨0x7ffdffff, 0x00020000, 0x80000000, 0x80020000⟩,
   ⟨0x7fffffff, 0x00000000, 0x80000000, 0x80000000⟩,
   ⟨0x7fffffff, 0x00000000, 0x00000000, 0x80000000⟩,
   ⟨0x7fffffff, 0x00000000, 0x80000000, 0x80000000⟩]

/-- The table `qc10` (second block, path 2). -/
def qc10 : List qcond :=
  [⟨0x00000000, 0x00000000, 0x00000000, 0x00000000⟩,
   ⟨0x7dfdf6be, 0x80000000, 0x00000940, 0x82020941⟩,
   ⟨0x79b0c6ba, 0x80000000, 0x004c3800, 0x864f3945⟩,
   ⟨0x19300210, 0x80000082, 0x2401012c, 0xe6cffdef⟩,
   ⟨0x10300000, 0x01000030, 0x6287dacb, 0xefcfffff⟩,
   ⟨0x10000000, 0x00300000, 0x0289955c, 0xefffffff⟩,
   ⟨0x00000000, 0x00000000, 0x919b0066, 0xffffffff⟩,
   ⟨0x20444000, 0x00000000, 0x41091e65, 0xdfbbbfff⟩,
   ⟨0x09040000, 0x00000000, 0xa0d81e79, 0xf6fbffff⟩,
   ⟨0x00050000, 0x00000000, 0x508851c1, 0xdb8ad9d5⟩,
   ⟨0x00010080, 0x00040000, 0x028aeb11, 0xf7feff7b⟩,
   ⟨0x128b8110, 0x20002280, 0x2474446b, 0xed747eef⟩,
   ⟨0x3ef38d7f, 0x00080000, 0x81081200, 0xc10c7280⟩,
   ⟨0x3efb1d77, 0x00000000, 0x8104c008, 0xc104e288⟩,
   ⟨0x5fff5d77, 0x00000000, 0x0000a288, 0xa000a288⟩,
   ⟨0x1efe7ff7, 0x00010000, 0xe0010008, 0xe1018008⟩,
   ⟨0x5ffdffff, 0x00020000, 0x80020000, 0xa0020000⟩,
   ⟨0x7ffd7ff7, 0x00008008, 0x00000000, 0x80028008⟩,
   ⟨0x5ffdffff, 0x20000000, 0x80020000, 0xa0020000⟩,
   ⟨0x7ffdffff, 0x00000000, 0x80020000, 0x80020000⟩,
   ⟨0x7ffbffff, 0x00040000, 0x80040000, 0x80040000⟩,
   ⟨0x7ffdffff, 0x00020000, 0x80000000, 0x80020000⟩,
   ⟨0x7fffffff, 0x00000000, 0x80000000, 0x80000000⟩,
   ⟨0x7fffffff, 0x00000000, 0x00000000, 0x80000000⟩,
   ⟨0x7fffffff, 0x00000000, 0x80000000, 0x80000000⟩]

/-- The table `qc11` (second block, path 3). -/
def qc11 : List qcond :=
  [⟨0x00000000, 0x00000000, 0x00000000, 0x00000000⟩,
   ⟨0x7dfff79e, 0x80000020, 0x00000860, 0x82000861⟩,
   ⟨0x75bef63e, 0x80000000, 0x08410000, 0x8a4109c1⟩,
   ⟨0x10345614, 0x84000002, 0x0002a1a0, 0xefcba9eb⟩,
   ⟨0x00145400, 0x00000014, 0x660aa0ca, 0xffebabff⟩,
   ⟨0x80000000, 0x00145400, 0x1423a220, 0x7fffffff⟩,
   ⟨0x00000000, 0x80000000, 0x89d40058, 0xffffffff⟩,
   ⟨0x40000880, 0x00000000, 0x394bd45b, 0xbffff77f⟩,
   ⟨0x00002090, 0x00000000, 0xa1d85c09, 0xffffdf6f⟩,
   ⟨0x00044000, 0x00000000, 0x7a803161, 0x7b8ab16d⟩,
   ⟨0x00002000, 0x00044000, 0xf28a82c9, 0xf7ffdfdf⟩,
   ⟨0x128a8108, 0x00012280, 0x84754c57, 0xed757ef7⟩,
   ⟨0x9edb8d7f, 0x00200000, 0x21201200, 0x61247280⟩,
   ⟨0x3efb1d77, 0x80000000, 0x4104c008, 0xc104e288⟩,
   ⟨0x1fff5d77, 0x00000000, 0x8000a288, 0xe000a288⟩,
   ⟨0x1efe7ff7, 0x00010000, 0x20010008, 0xe1018008⟩,
   ⟨0x1ffdffff, 0x40020000, 0xc0020000, 0xe0020000⟩,
   ⟨0x3ffd7ff7, 0x40008008, 0xc0000000, 0xc0028008⟩,
   ⟨0x5ffdffff, 0x20000000, 0x00020000, 0xa0020000⟩,
   ⟨0x7ffdffff, 0x00000000, 0x00020000, 0x80020000⟩,
   ⟨0x7ffbffff, 0x00040000, 0x00040000, 0x80040000⟩,
   ⟨0x7ffdffff, 0x00020000, 0x00000000, 0x80020000⟩,
   ⟨0x7fffffff, 0x00000000, 0x00000000, 0x80000000⟩,
   ⟨0x7fffffff, 0x00000000, 0x00000000, 0x80000000⟩,
   ⟨0x7fffffff, 0x00000000, 0x80000000, 0x80000000⟩]
/-- The table `qconds2[4] = { qc00, qc01, qc10, qc11 }`. -/
def qconds2 : List (List qcond) := [qc00, qc01, qc10, qc11]

/-- The table `q9m9masks[4]` (second block). -/
def q9m9masks : List Nat := [0x04310d12, 0x44310d02, 0x2470042a, 0x04710c12]

/-- The table `q9q10masks[4]` (second block). -/
def q9q10masks : List Nat := [0x08002020, 0x88002030, 0x08002204, 0x880002a0]

/-- `#define Q10MASK 0x8000034`. -/
def Q10MASK : Nat := 0x8000034

/-- `#define Q9M9MASK 0x0eb94f16`. -/
def Q9M9MASK : Nat := 0x0eb94f16

/-- Row `qc[n]` of a condition table. -/
def qrow (qc : List qcond) (n : Nat) : qcond := qc.getD n ⟨0, 0, 0, 0⟩

/-- The macro `Q_BAD(Q, n, qc)`; `Q[n], Q[n-1]` are the entries `n+3, n+2` of `QandIV`. -/
def Q_BAD {m : Nat} (Q : Words m) (n : Nat) (qc : List qcond) : Bool :=
  ((Q.get (n + 3) &&& (qrow qc n).cbits) ^^^ (Q.get (n + 2) &&& (qrow qc n).pmask))
    != (qrow qc n).inv

/-! ## Pseudo-random numbers -/

/-- The function `xorshift64star`: the returned value and the new `*state`. -/
def xorshift64star (state : Nat) : Nat × Nat :=
  let x := state
  let x := x ^^^ (x >>> 12)
  let x := x ^^^ ((x <<< 25) % 18446744073709551616)
  let x := x ^^^ (x >>> 27)
  ((x * 0x2545F4914F6CDD1D) % 18446744073709551616, x)

/-- The function `getrand32`: the 32-bit draw and the new `*state`. -/
def getrand32 (state : Nat) : Nat × Nat :=
  ((xorshift64star state).1 % 4294967296, (xorshift64star state).2)

/-- The seeding `rs = time(NULL) ^ c; rs = xorshift64star(&rs);`. -/
def seedState (time c : Nat) : Nat :=
  (xorshift64star ((time % 18446744073709551616) ^^^ c)).1

/-! ## Bad characters -/

/-- The macro `HAS_BAD_CHARS(a)`; `badchars = none` is the `NULL` pointer. -/
def HAS_BAD_CHARS (badchars : Option (List Nat)) (a : Nat) : Bool :=
  match badchars with
  | none => false
  | some t =>
    t.getD (a &&& 255) 0 != 0 || t.getD ((a >>> 8) &&& 255) 0 != 0 ||
    t.getD ((a >>> 16) &&& 255) 0 != 0 || t.getD ((a >>> 24) &&& 255) 0 != 0

/-! ## Control flow -/

/-- What one pass through a loop body does: fall through or `continue` with the
variables `s` (`next`), leave the loop by `break` or `return` with `r` (`done`), or
fail an `assert` (`abort`). -/
inductive Ctl (σ ρ : Type) where
  | next (s : σ) : Ctl σ ρ
  | done (r : ρ) : Ctl σ ρ
  | abort : Ctl σ ρ
deriving DecidableEq

/-- How a call ends. -/
inductive Outcome (ρ : Type) where
  | returned (r : ρ) : Outcome ρ
  | assertFailed : Outcome ρ
  | outOfFuel : Outcome ρ
deriving DecidableEq

/-- The loop `for(int i = i0; i < i0 + n; i++) body`. -/
def forLoop {σ ρ : Type} (body : Nat → σ → Ctl σ ρ) : Nat → Nat → σ → Ctl σ ρ
  | 0, _, s => Ctl.next s
  | n + 1, i, s =>
    match body i s with
    | Ctl.next s1 => forLoop body n (i + 1) s1
    | Ctl.done r => Ctl.done r
    | Ctl.abort => Ctl.abort

/-- The loop `while(1) body`, cut off after `fuel` iterations. -/
def whileLoop {σ ρ : Type} (body : σ → Ctl σ ρ) : Nat → σ → Outcome ρ
  | 0, _ => Outcome.outOfFuel
  | fuel + 1, s =>
    match body s with
    | Ctl.next s1 => whileLoop body fuel s1
    | Ctl.done r => Outcome.returned r
    | Ctl.abort => Outcome.assertFailed

/-- The variables of an engine that live across loop iterations: the generator state
`rs`, the array `QandIV` (of `m` words) and the output buffer `block`. -/
structure St (m : Nat) where
  rs : Nat
  Q : Words m
  block : Words 16
deriving DecidableEq

/-- Read `Q[n]` for `n ≥ 0`. -/
def St.q {m : Nat} (s : St m) (n : Nat) : Nat := s.Q.get (n + 3)

/-- Write `Q[n] = v` for `n ≥ 0`. -/
def St.setQ {m : Nat} (s : St m) (n v : Nat) : St m := { s with Q := s.Q.set (n + 3) v }

/-- Read `block[i]`. -/
def St.b {m : Nat} (s : St m) (i : Nat) : Nat := s.block.get i

/-- Write `block[i] = v`. -/
def St.setB {m : Nat} (s : St m) (i v : Nat) : St m := { s with block := s.block.set i v }

/-- The statement `Q[i] = ((getrand32(&rs) & qc[i].mask) | (Q[i-1] & qc[i].pmask)) ^ qc[i].inv`. -/
def sampleQ {m : Nat} (qc : List qcond) (i : Nat) (s : St m) : St m :=
  { s with
    rs := (getrand32 s.rs).2
    Q := s.Q.set (i + 3)
      ((((getrand32 s.rs).1 &&& (qrow qc i).mask) ||| (s.Q.get (i + 2) &&& (qrow qc i).pmask))
        ^^^ (qrow qc i).inv) }

/-- The loop `for(i = i0; i < i0 + n; i++) Q[i] = ...` that samples a run of the trail. -/
def sampleLoop {m : Nat} (qc : List qcond) : Nat → Nat → St m → St m
  | 0, _, s => s
  | n + 1, i, s => sampleLoop qc n (i + 1) (sampleQ qc i s)

/-- What an engine hands back when it returns: its variables at the `return`, and the
registers `a, b, c, d` after step 64. -/
structure Ret (m : Nat) where
  st : St m
  a : Nat
  b : Nat
  c : Nat
  d : Nat
deriving DecidableEq

/-! ## The first block -/

/-- Steps 25 to 64 of `MD5CollideBlock0` with their early exits: `none` is `continue`,
`some (a, b, c, d)` are the registers after step 64. -/
def tail0 (block : Words 16) (a b c d : Nat) : Option (Nat × Nat × Nat × Nat) :=
  let a := MD5STEP F2 a b c d (add32 (block.get 9) 0x21e1cde6) 5
  let d := MD5STEP F2 d a b c (add32 (block.get 14) 0xc33707d6) 9
  let c := MD5STEP F2 c d a b (add32 (block.get 3) 0xf4d50d87) 14
  let b := MD5STEP F2 b c d a (add32 (block.get 8) 0x455a14ed) 20
  let a := MD5STEP F2 a b c d (add32 (block.get 13) 0xa9e3e905) 5
  let d := MD5STEP F2 d a b c (add32 (block.get 2) 0xfcefa3f8) 9
  let c := MD5STEP F2 c d a b (add32 (block.get 7) 0x676f02d9) 14
  let b := MD5STEP F2 b c d a (add32 (block.get 12) 0x8d2a4c8a) 20
  let a := MD5STEP F3 a b c d (add32 (block.get 5) 0xfffa3942) 4
  let d := MD5STEP F3 d a b c (add32 (block.get 8) 0x8771f681) 11
  let c := add32 c (add32 (add32 (F3 d a b) (block.get 11)) 0x6d9d6122)
  if c &&& (1 <<< 15) != 0 then none else
  let c := shl32 c 16 ||| (c >>> 16)
  let c := add32 c d
  let b := MD5STEP F3 b c d a (add32 (block.get 14) 0xfde5380c) 23
  let a := MD5STEP F3 a b c d (add32 (block.get 1) 0xa4beea44) 4
  let d := MD5STEP F3 d a b c (add32 (block.get 4) 0x4bdecfa9) 11
  let c := MD5STEP F3 c d a b (add32 (block.get 7) 0xf6bb4b60) 16
  let b := MD5STEP F3 b c d a (add32 (block.get 10) 0xbebfbc70) 23
  let a := MD5STEP F3 a b c d (add32 (block.get 13) 0x289b7ec6) 4
  let d := MD5STEP F3 d a b c (add32 (block.get 0) 0xeaa127fa) 11
  let c := MD5STEP F3 c d a b (add32 (block.get 3) 0xd4ef3085) 16
  let b := MD5STEP F3 b c d a (add32 (block.get 6) 0x04881d05) 23
  let a := MD5STEP F3 a b c d (add32 (block.get 9) 0xd9d4d039) 4
  let d := MD5STEP F3 d a b c (add32 (block.get 12) 0xe6db99e5) 11
  let c := MD5STEP F3 c d a b (add32 (block.get 15) 0x1fa27cf8) 16
  let b := MD5STEP F3 b c d a (add32 (block.get 2) 0xc4ac5665) 23
  if (d ^^^ b) &&& 0x80000000 != 0 then none else
  let a := MD5STEP F4 a b c d (add32 (block.get 0) 0xf4292244) 6
  if (a ^^^ c) &&& 0x80000000 != 0 then none else
  let d := MD5STEP F4 d a b c (add32 (block.get 7) 0x432aff97) 10
  if (d ^^^ b) &&& 0x80000000 == 0 then none else
  let c := MD5STEP F4 c d a b (add32 (block.get 14) 0xab9423a7) 15
  if (a ^^^ c) &&& 0x80000000 != 0 then none else
  let b := MD5STEP F4 b c d a (add32 (block.get 5) 0xfc93a039) 21
  if (d ^^^ b) &&& 0x80000000 != 0 then none else
  let a := MD5STEP F4 a b c d (add32 (block.get 12) 0x655b59c3) 6
  if (a ^^^ c) &&& 0x80000000 != 0 then none else
  let d := MD5STEP F4 d a b c (add32 (block.get 3) 0x8f0ccc92) 10
  if (d ^^^ b) &&& 0x80000000 != 0 then none else
  let c := MD5STEP F4 c d a b (add32 (block.get 10) 0xffeff47d) 15
  if (a ^^^ c) &&& 0x80000000 != 0 then none else
  let b := MD5STEP F4 b c d a (add32 (block.get 1) 0x85845dd1) 21
  if (d ^^^ b) &&& 0x80000000 != 0 then none else
  let a := MD5STEP F4 a b c d (add32 (block.get 8) 0x6fa87e4f) 6
  if (a ^^^ c) &&& 0x80000000 != 0 then none else
  let d := MD5STEP F4 d a b c (add32 (block.get 15) 0xfe2ce6e0) 10
  if (d ^^^ b) &&& 0x80000000 != 0 then none else
  let c := MD5STEP F4 c d a b (add32 (block.get 6) 0xa3014314) 15
  if (a ^^^ c) &&& 0x80000000 != 0 then none else
  let b := MD5STEP F4 b c d a (add32 (block.get 13) 0x4e0811a1) 21
  if (d ^^^ b) &&& 0x80000000 == 0 then none else
  let a := MD5STEP F4 a b c d (add32 (block.get 4) 0xf7537e82) 6
  if (a ^^^ c) &&& 0x80000000 != 0 then none else
  let d := MD5STEP F4 d a b c (add32 (block.get 11) 0xbd3af235) 10
  if (d ^^^ b) &&& 0x80000000 != 0 then none else
  let c := MD5STEP F4 c d a b (add32 (block.get 2) 0x2ad7d2bb) 15
  if (a ^^^ c) &&& 0x80000000 != 0 then none else
  let b := MD5STEP F4 b c d a (add32 (block.get 9) 0xeb86d391) 21
  some (a, b, c, d)

/-- The paired block of `MD5CollideBlock0`: `block2[4] += 1U<<31; block2[11] += 1U<<15;
block2[14] += 1U<<31`. -/
def pairBlock0 (block : Words 16) : Words 16 :=
  let block2 := block
  let block2 := block2.set 4 (add32 (block2.get 4) (1 <<< 31))
  let block2 := block2.set 11 (add32 (block2.get 11) (1 <<< 15))
  block2.set 14 (add32 (block2.get 14) (1 <<< 31))

section Block0

variable (asserts : Bool) (Compress : Words 4 → Words 16 → Words 4) (iv : Words 4)
  (badchars : Option (List Nat))

/-- The last part of the innermost loop body of `MD5CollideBlock0`, from
`uint32_t newiv1 = ...` to the `return`. -/
def finish0 (s : St 28) (a b c d : Nat) : Ctl (St 28) (Ret 28) :=
  let newiv1 := add32 (iv.get 1) b
  let newiv2 := add32 (iv.get 2) c
  let newiv3 := add32 (iv.get 3) d
  if newiv1 &&& 0x02000000 != 0 || (newiv2 ^^^ newiv1) &&& 0x82000000 != 0 ||
      (newiv3 ^^^ newiv2) &&& 0x82000000 != 0 || (newiv2 ^^^ newiv1) &&& 1 != 0 then
    Ctl.next s
  else
    let block2 := pairBlock0 s.block
    let iv1 := Compress iv s.block
    let iv2 := Compress iv block2
    if asserts && !(add32 (iv.get 0) a == iv1.get 0 && add32 (iv.get 1) b == iv1.get 1 &&
        add32 (iv.get 2) c == iv1.get 2 && add32 (iv.get 3) d == iv1.get 3) then
      Ctl.abort
    else if iv2.get 0 == add32 (iv1.get 0) 0x80000000 &&
        iv2.get 1 == add32 (iv1.get 1) 0x82000000 &&
        iv2.get 2 == add32 (iv1.get 2) 0x82000000 &&
        iv2.get 3 == add32 (iv1.get 3) 0x82000000 then
      Ctl.done ⟨s, a, b, c, d⟩
    else
      Ctl.next s

/-- The body of the loop `for(int q9ctr = 0; q9ctr < (1<<16); q9ctr++)` of
`MD5CollideBlock0`. -/
def q9body0 (part8 part9 part12 q9base : Nat) (q9ctr : Nat) (s : St 28) :
    Ctl (St 28) (Ret 28) :=
  let s := s.setQ 9 (q9base ||| ((q9ctr ^^^ (q9ctr <<< 8) ^^^ (q9ctr <<< 14)) &&& Q9M9MASK))
  let s := s.setB 8 (sub32 (rotr32 (sub32 (s.q 9) (s.q 8)) 7) part8)
  if asserts && s.b 8 != MD5UNSTEP s.Q 8 0x698098d8 7 then Ctl.abort else
  if HAS_BAD_CHARS badchars (s.b 8) then Ctl.next s else
  let s := s.setB 9
    (sub32 (sub32 (rotr32 (sub32 (s.q 10) (s.q 9)) 12) (F1 (s.q 9) (s.q 8) (s.q 7))) part9)
  if asserts && s.b 9 != MD5UNSTEP s.Q 9 0x8b44f7af 12 then Ctl.abort else
  if HAS_BAD_CHARS badchars (s.b 9) then Ctl.next s else
  if asserts && s.b 10 != MD5UNSTEP s.Q 10 0xffff5bb1 17 then Ctl.abort else
  if asserts && s.b 11 != MD5UNSTEP s.Q 11 0x895cd7be 22 then Ctl.abort else
  let s := s.setB 12 (sub32 part12 (s.q 9))
  if asserts && s.b 12 != MD5UNSTEP s.Q 12 0x6b901122 7 then Ctl.abort else
  if HAS_BAD_CHARS badchars (s.b 12) then Ctl.next s else
  match tail0 s.block (s.q 21) (s.q 24) (s.q 23) (s.q 22) with
  | none => Ctl.next s
  | some (a, b, c, d) => finish0 asserts Compress iv s a b c d

/-- The body of the loop `for(int q4ctr = 0; q4ctr < 16; q4ctr++)` of `MD5CollideBlock0`. -/
def q4body0 (part8 part9 part12 q9base : Nat) (q4ctr : Nat) (s : St 28) :
    Ctl (St 28) (Ret 28) :=
  let s := s.setQ 4
    ((s.q 4 &&& not32 0x38000004) ||| (((q4ctr <<< 2) ||| (q4ctr <<< 26)) &&& 0x38000004))
  let s := s.setB 3 (MD5UNSTEP s.Q 3 0xc1bdceee 22)
  if HAS_BAD_CHARS badchars (s.b 3) then Ctl.next s else
  let s := s.setB 4 (MD5UNSTEP s.Q 4 0xf57c0faf 7)
  if HAS_BAD_CHARS badchars (s.b 4) || HAS_BAD_CHARS badchars (add32 (s.b 4) (1 <<< 31)) then
    Ctl.next s else
  if asserts && s.b 5 != MD5UNSTEP s.Q 5 0x4787c62a 12 then Ctl.abort else
  if asserts && s.b 6 != MD5UNSTEP s.Q 6 0xa8304613 17 then Ctl.abort else
  let s := s.setB 7 (MD5UNSTEP s.Q 7 0xfd469501 22)
  if HAS_BAD_CHARS badchars (s.b 7) then Ctl.next s else
  let s := s.setQ 24
    (MD5STEP F2 (s.q 20) (s.q 23) (s.q 22) (s.q 21) (add32 (s.b 4) 0xe7d3fbc8) 20)
  if s.q 24 &&& 0x80000000 == 0 then Ctl.next s else
  if asserts && (Q_BAD s.Q 17 qconds || Q_BAD s.Q 18 qconds || Q_BAD s.Q 19 qconds ||
      Q_BAD s.Q 20 qconds || Q_BAD s.Q 21 qconds || Q_BAD s.Q 22 qconds ||
      Q_BAD s.Q 23 qconds || Q_BAD s.Q 24 qconds) then Ctl.abort else
  forLoop (q9body0 asserts Compress iv badchars part8 part9 part12 q9base) 65536 0 s

/-- The body of the loop `for(int q10ctr = 0; q10ctr < 8; q10ctr++)` of
`MD5CollideBlock0`. -/
def q10body0 (q10ctr : Nat) (s : St 28) : Ctl (St 28) (Ret 28) :=
  let s := s.setQ 9 ((s.q 9 &&& not32 0x00002000) ||| ((q10ctr <<< 13) &&& 0x00002000))
  let s := s.setQ 10 ((s.q 10 &&& not32 0x00000060) ||| ((q10ctr <<< 4) &&& 0x00000060))
  let s := s.setB 10 (MD5UNSTEP s.Q 10 0xffff5bb1 17)
  if HAS_BAD_CHARS badchars (s.b 10) then Ctl.next s else
  if asserts && s.b 11 != MD5UNSTEP s.Q 11 0x895cd7be 22 then Ctl.abort else
  let s := s.setB 13 (MD5UNSTEP s.Q 13 0xfd987193 12)
  if HAS_BAD_CHARS badchars (s.b 13) then Ctl.next s else
  let s := s.setQ 22
    (MD5STEP F2 (s.q 18) (s.q 21) (s.q 20) (s.q 19) (add32 (s.b 10) 0x02441453) 9)
  if s.q 22 &&& 0x80000000 == 0 then Ctl.next s else
  let s := s.setQ 23
    (MD5STEP F2 (s.q 19) (s.q 22) (s.q 21) (s.q 20) (add32 (s.b 15) 0xd8a1e681) 14)
  if s.q 23 &&& 0x80000000 != 0 then Ctl.next s else
  let t := add32 (add32 (add32 (s.q 19) (F2 (s.q 22) (s.q 21) (s.q 20))) (s.b 15)) 0xd8a1e681
  if t &&& (1 <<< 17) != 0 then Ctl.next s else
  let t := shl32 t 14 ||| (t >>> (32 - 14))
  let t := add32 t (s.q 22)
  if asserts && s.q 23 != t then Ctl.abort else
  let part8 := add32 (add32 (F1 (s.q 8) (s.q 7) (s.q 6)) 0x698098d8) (s.q 5)
  let part9 := add32 0x8b44f7af (s.q 6)
  let part12 := sub32 (sub32 (rotr32 (sub32 (s.q 13) (s.q 12)) 7)
    (F1 (s.q 12) (s.q 11) (s.q 10))) 0x6b901122
  let q9base := s.q 9 &&& not32 Q9M9MASK
  forLoop (q4body0 asserts Compress iv badchars part8 part9 part12 q9base) 16 0 s

/-- The body of the loop `for(int i = 0; i < 100; i++)` of `MD5CollideBlock0` that
chooses `Q[17]`; `done` is the `break` with `success = 1`. -/
def q17body0 (_i : Nat) (s : St 28) : Ctl (St 28) (St 28) :=
  let s := { s with
    rs := (getrand32 s.rs).2
    Q := s.Q.set (17 + 3)
      ((((getrand32 s.rs).1 &&& 0x3ffd7ff7) ||| (s.q 16 &&& 0x40008008)) ^^^ 0xc0000000) }
  let s := s.setQ 18
    (MD5STEP F2 (s.q 14) (s.q 17) (s.q 16) (s.q 15) (add32 (s.b 6) 0xc040b340) 9)
  if Q_BAD s.Q 18 qconds then Ctl.next s else
  let s := s.setQ 19
    (MD5STEP F2 (s.q 15) (s.q 18) (s.q 17) (s.q 16) (add32 (s.b 11) 0x265e5a51) 14)
  if Q_BAD s.Q 19 qconds then Ctl.next s else
  let s := s.setQ 20
    (MD5STEP F2 (s.q 16) (s.q 19) (s.q 18) (s.q 17) (add32 (s.b 0) 0xe9b6c7aa) 20)
  if Q_BAD s.Q 20 qconds then Ctl.next s else
  let s := s.setB 1 (MD5UNSTEP2 s.Q 16 0xf61e2562 5)
  let s := s.setQ 2
    (MD5STEP F1 (s.Q.get (3 - 2)) (s.q 1) (s.q 0) (s.Q.get (3 - 1)) (add32 (s.b 1) 0xe8c7b756) 12)
  if HAS_BAD_CHARS badchars (s.b 1) then Ctl.next s else
  let s := s.setB 5 (MD5UNSTEP s.Q 5 0x4787c62a 12)
  let s := s.setQ 21
    (MD5STEP F2 (s.q 17) (s.q 20) (s.q 19) (s.q 18) (add32 (s.b 5) 0xd62f105d) 5)
  if Q_BAD s.Q 21 qconds then Ctl.next s else
  if HAS_BAD_CHARS badchars (s.b 5) then Ctl.next s else
  let s := s.setB 2 (MD5UNSTEP s.Q 2 0x242070db 17)
  if HAS_BAD_CHARS badchars (s.b 2) then Ctl.next s else
  Ctl.done s

/-- The body of the loop `while(1)` of `MD5CollideBlock0`. -/
def outerBody0 (s : St 28) : Ctl (St 28) (Ret 28) :=
  let s := sampleLoop qconds 16 1 s
  let s := s.setB 0 (MD5UNSTEP s.Q 0 0xd76aa478 7)
  if HAS_BAD_CHARS badchars (s.b 0) then Ctl.next s else
  let s := s.setB 6 (MD5UNSTEP s.Q 6 0xa8304613 17)
  if HAS_BAD_CHARS badchars (s.b 6) then Ctl.next s else
  let s := s.setB 11 (MD5UNSTEP s.Q 11 0x895cd7be 22)
  if HAS_BAD_CHARS badchars (s.b 11) || HAS_BAD_CHARS badchars (add32 (s.b 11) (1 <<< 15)) then
    Ctl.next s else
  let s := s.setB 14 (MD5UNSTEP s.Q 14 0xa679438e 17)
  if HAS_BAD_CHARS badchars (s.b 14) || HAS_BAD_CHARS badchars (add32 (s.b 14) (1 <<< 31)) then
    Ctl.next s else
  let s := s.setB 15 (MD5UNSTEP s.Q 15 0x49b40821 22)
  if HAS_BAD_CHARS badchars (s.b 15) then Ctl.next s else
  match forLoop (q17body0 badchars) 100 0 s with
  | Ctl.next s1 => Ctl.next s1
  | Ctl.done s1 => forLoop (q10body0 asserts Compress iv badchars) 8 0 s1
  | Ctl.abort => Ctl.abort

/-- The initial array `uint32_t QandIV[28] = { iv[0], iv[3], iv[2], iv[1] }`. -/
def initQ0 : Words 28 :=
  ⟨[iv.get 0, iv.get 3, iv.get 2, iv.get 1, 0, 0, 0, 0, 0, 0, 0, 0, 0, 0, 0, 0, 0, 0, 0, 0, 0,
    0, 0, 0, 0, 0, 0, 0], rfl⟩

/-- The function `MD5CollideBlock0` with all its variables at the `return`: `time` is
the value of `time(NULL)`, `block` the contents of the output buffer at the call. -/
def MD5CollideBlock0Run (time : Nat) (block : Words 16) (fuel : Nat) : Outcome (Ret 28) :=
  whileLoop (outerBody0 asserts Compress iv badchars) fuel
    ⟨seedState time 0xfeedface, initQ0 iv, block⟩

/-- The function `MD5CollideBlock0`: the contents of `block` at the `return`. -/
def MD5CollideBlock0 (time : Nat) (block : Words 16) (fuel : Nat) : Outcome (Words 16) :=
  match MD5CollideBlock0Run asserts Compress iv badchars time block fuel with
  | Outcome.returned r => Outcome.returned r.st.block
  | Outcome.assertFailed => Outcome.assertFailed
  | Outcome.outOfFuel => Outcome.outOfFuel

end Block0

/-! ## The second block -/

/-- Steps 25 to 64 of `MD5CollideBlock1` with their early exits: `none` is `continue`,
`some (a, b, c, d)` are the registers after step 64. -/
def tail1 (block : Words 16) (a b c d : Nat) : Option (Nat × Nat × Nat × Nat) :=
  let a := MD5STEP F2 a b c d (add32 (block.get 9) 0x21e1cde6) 5
  let d := MD5STEP F2 d a b c (add32 (block.get 14) 0xc33707d6) 9
  let c := MD5STEP F2 c d a b (add32 (block.get 3) 0xf4d50d87) 14
  let b := MD5STEP F2 b c d a (add32 (block.get 8) 0x455a14ed) 20
  let a := MD5STEP F2 a b c d (add32 (block.get 13) 0xa9e3e905) 5
  let d := MD5STEP F2 d a b c (add32 (block.get 2) 0xfcefa3f8) 9
  let c := MD5STEP F2 c d a b (add32 (block.get 7) 0x676f02d9) 14
  let b := MD5STEP F2 b c d a (add32 (block.get 12) 0x8d2a4c8a) 20
  let a := MD5STEP F3 a b c d (add32 (block.get 5) 0xfffa3942) 4
  let d := MD5STEP F3 d a b c (add32 (block.get 8) 0x8771f681) 11
  let c := add32 c (add32 (add32 (F3 d a b) (block.get 11)) 0x6d9d6122)
  if c &&& (1 <<< 15) == 0 then none else
  let c := shl32 c 16 ||| (c >>> 16)
  let c := add32 c d
  let b := MD5STEP F3 b c d a (add32 (block.get 14) 0xfde5380c) 23
  let a := MD5STEP F3 a b c d (add32 (block.get 1) 0xa4beea44) 4
  let d := MD5STEP F3 d a b c (add32 (block.get 4) 0x4bdecfa9) 11
  let c := MD5STEP F3 c d a b (add32 (block.get 7) 0xf6bb4b60) 16
  let b := MD5STEP F3 b c d a (add32 (block.get 10) 0xbebfbc70) 23
  let a := MD5STEP F3 a b c d (add32 (block.get 13) 0x289b7ec6) 4
  let d := MD5STEP F3 d a b c (add32 (block.get 0) 0xeaa127fa) 11
  let c := MD5STEP F3 c d a b (add32 (block.get 3) 0xd4ef3085) 16
  let b := MD5STEP F3 b c d a (add32 (block.get 6) 0x04881d05) 23
  let a := MD5STEP F3 a b c d (add32 (block.get 9) 0xd9d4d039) 4
  let d := MD5STEP F3 d a b c (add32 (block.get 12) 0xe6db99e5) 11
  let c := MD5STEP F3 c d a b (add32 (block.get 15) 0x1fa27cf8) 16
  let b := MD5STEP F3 b c d a (add32 (block.get 2) 0xc4ac5665) 23
  if (d ^^^ b) &&& 0x80000000 != 0 then none else
  let a := MD5STEP F4 a b c d (add32 (block.get 0) 0xf4292244) 6
  if (a ^^^ c) &&& 0x80000000 != 0 then none else
  let d := MD5STEP F4 d a b c (add32 (block.get 7) 0x432aff97) 10
  if (d ^^^ b) &&& 0x80000000 == 0 then none else
  let c := MD5STEP F4 c d a b (add32 (block.get 14) 0xab9423a7) 15
  if (a ^^^ c) &&& 0x80000000 != 0 then none else
  let b := MD5STEP F4 b c d a (add32 (block.get 5) 0xfc93a039) 21
  if (d ^^^ b) &&& 0x80000000 != 0 then none else
  let a := MD5STEP F4 a b c d (add32 (block.get 12) 0x655b59c3) 6
  if (a ^^^ c) &&& 0x80000000 != 0 then none else
  let d := MD5STEP F4 d a b c (add32 (block.get 3) 0x8f0ccc92) 10
  if (d ^^^ b) &&& 0x80000000 != 0 then none else
  let c := MD5STEP F4 c d a b (add32 (block.get 10) 0xffeff47d) 15
  if (a ^^^ c) &&& 0x80000000 != 0 then none else
  let b := MD5STEP F4 b c d a (add32 (block.get 1) 0x85845dd1) 21
  if (d ^^^ b) &&& 0x80000000 != 0 then none else
  let a := MD5STEP F4 a b c d (add32 (block.get 8) 0x6fa87e4f) 6
  if (a ^^^ c) &&& 0x80000000 != 0 then none else
  let d := MD5STEP F4 d a b c (add32 (block.get 15) 0xfe2ce6e0) 10
  if (d ^^^ b) &&& 0x80000000 != 0 then none else
  let c := MD5STEP F4 c d a b (add32 (block.get 6) 0xa3014314) 15
  if (a ^^^ c) &&& 0x80000000 != 0 then none else
  let b := MD5STEP F4 b c d a (add32 (block.get 13) 0x4e0811a1) 21
  if (d ^^^ b) &&& 0x80000000 == 0 then none else
  let a := MD5STEP F4 a b c d (add32 (block.get 4) 0xf7537e82) 6
  if (a ^^^ c) &&& 0x80000000 != 0 then none else
  let d := MD5STEP F4 d a b c (add32 (block.get 11) 0xbd3af235) 10
  if (d ^^^ b) &&& 0x80000000 != 0 then none else
  let c := MD5STEP F4 c d a b (add32 (block.get 2) 0x2ad7d2bb) 15
  if (a ^^^ c) &&& 0x80000000 != 0 then none else
  let b := MD5STEP F4 b c d a (add32 (block.get 9) 0xeb86d391) 21
  some (a, b, c, d)

/-- The paired block of `MD5CollideBlock1`: `block2[4] -= 1U<<31; block2[11] -= 1U<<15;
block2[14] -= 1U<<31`. -/
def pairBlock1 (block : Words 16) : Words 16 :=
  let block2 := block
  let block2 := block2.set 4 (sub32 (block2.get 4) (1 <<< 31))
  let block2 := block2.set 11 (sub32 (block2.get 11) (1 <<< 15))
  block2.set 14 (sub32 (block2.get 14) (1 <<< 31))

/-- The shifted chaining value of `MD5CollideBlock1`: `iv2[0] = iv1[0] + 0x80000000;
iv2[1] = iv1[1] + 0x82000000; iv2[2] = iv1[2] + 0x82000000; iv2[3] = iv1[3] + 0x82000000`. -/
def shiftIV (iv : Words 4) : Words 4 :=
  ⟨[add32 (iv.get 0) 0x80000000, add32 (iv.get 1) 0x82000000, add32 (iv.get 2) 0x82000000,
    add32 (iv.get 3) 0x82000000], rfl⟩

/-- The loop `while((mask & (1U<<offset)) == 0) offset++;`: the offset of the next set
bit of `mask`, or `none` when the scan leaves the word (a shift by 32 or more, which C
leaves undefined).  The first argument bounds the number of iterations. -/
def skipClear (mask : Nat) : Nat → Nat → Option Nat
  | 0, _ => none
  | fuel + 1, offset =>
    if offset ≥ 32 then none
    else if mask &&& shl32 1 offset == 0 then skipClear mask fuel (offset + 1)
    else some offset

/-- The loop `for(int j = 0; j < 9; j++)` that spreads the bits of `i` over the set bits
of `mask`: the final `bits` and `offset`.  The arguments are the number of iterations
left, `j`, `bits` and `offset`. -/
def m9inner (mask i : Nat) : Nat → Nat → Nat → Nat → Option (Nat × Nat)
  | 0, _, bits, offset => some (bits, offset)
  | n + 1, j, bits, offset =>
    match skipClear mask 33 offset with
    | none => none
    | some offset1 =>
      m9inner mask i n (j + 1)
        (if i &&& (1 <<< j) != 0 then bits ||| shl32 1 offset1 else bits) (offset1 + 1)

/-- The loop `for(int i = 0; i < (1<<9); i++)` that fills `q9m9bits`.  The arguments are
the number of iterations left, `i`, and the entries `q9m9bits[i-1], ..., q9m9bits[0]`
written so far (last written first). -/
def m9loop (asserts : Bool) (mask : Nat) : Nat → Nat → List Nat → Outcome (List Nat)
  | 0, _, acc => Outcome.returned acc.reverse
  | n + 1, i, acc =>
    match m9inner mask i 9 0 0 0 with
    | none => Outcome.outOfFuel
    | some (bits, offset) =>
      if asserts && !(decide (offset ≤ 32)) then Outcome.assertFailed else
      if asserts && (bits &&& mask) != bits then Outcome.assertFailed else
      if asserts && decide (i > 0) && !(decide (bits > acc.headD 0)) then Outcome.assertFailed
      else m9loop asserts mask n (i + 1) (bits :: acc)

/-- The loop `while(offset<32 && (mask & (1U<<offset)) == 0) offset++;`.  The first
argument bounds the number of iterations; 32 are enough. -/
def skipClearTo32 (mask : Nat) : Nat → Nat → Nat
  | 0, offset => offset
  | fuel + 1, offset =>
    if offset < 32 && mask &&& shl32 1 offset == 0 then skipClearTo32 mask fuel (offset + 1)
    else offset

/-- The loop `for(int j = 0; i > (1<<j)-1 ; j++)` of the `q9q10bits` precomputation: the
final `bits` and `offset` (`offset = 33` after the `break`).  The arguments are a bound
on the number of iterations, `j`, `bits` and `offset`. -/
def m10inner (mask i : Nat) : Nat → Nat → Nat → Nat → Nat × Nat
  | 0, _, bits, offset => (bits, offset)
  | fuel + 1, j, bits, offset =>
    if i > (1 <<< j) - 1 then
      if skipClearTo32 mask 32 offset ≥ 32 then (bits, 33)
      else
        m10inner mask i fuel (j + 1)
          (if i &&& (1 <<< j) != 0 then bits ||| shl32 1 (skipClearTo32 mask 32 offset)
            else bits)
          (skipClearTo32 mask 32 offset + 1)
    else (bits, offset)

/-- The loop `for(int i = 0; ; i++)` that fills `q9q10bits` and sets `numq9q10`: the
table and `numq9q10`.  The arguments are a bound on the number of iterations, `i`, and
the entries written so far (last written first).  A write past the 64 entries of the
array is `outOfFuel`. -/
def m10loop (asserts : Bool) (mask : Nat) : Nat → Nat → List Nat → Outcome (List Nat × Nat)
  | 0, _, _ => Outcome.outOfFuel
  | fuel + 1, i, acc =>
    if (m10inner mask i 33 0 0 0).2 > 32 then Outcome.returned (acc.reverse, i) else
    if asserts && ((m10inner mask i 33 0 0 0).1 &&& mask) != (m10inner mask i 33 0 0 0).1 then
      Outcome.assertFailed else
    if asserts && decide (i > 0) && !(decide ((m10inner mask i 33 0 0 0).1 > acc.headD 0)) then
      Outcome.assertFailed else
    if i ≥ 64 then Outcome.outOfFuel else
    m10loop asserts mask fuel (i + 1) ((m10inner mask i 33 0 0 0).1 :: acc)

/-- What `MD5CollideBlock1` hands back when it returns: its variables at the `return`,
the registers `a, b, c, d` after step 64 and the registers `a2, b2, c2, d2` after
step 24. -/
structure Ret1 where
  st : St 25
  a : Nat
  b : Nat
  c : Nat
  d : Nat
  a2 : Nat
  b2 : Nat
  c2 : Nat
  d2 : Nat
deriving DecidableEq

section Block1

variable (asserts : Bool) (Compress : Words 4 → Words 16 → Words 4) (iv : Words 4)
  (badchars : Option (List Nat))

/-- The selector `int path = (iv[1]&1) | ((iv[1] >> 5) & 2)`. -/
def pathOf : Nat := (iv.get 1 &&& 1) ||| ((iv.get 1 >>> 5) &&& 2)

/-- The last part of the innermost loop body of `MD5CollideBlock1`, from
`uint32_t block2[16]` to the `return`. -/
def finish1 (s : St 25) (a b c d a2 b2 c2 d2 : Nat) : Ctl (St 25) Ret1 :=
  let block2 := pairBlock1 s.block
  let iv1 := Compress iv s.block
  let iv2 := Compress (shiftIV iv) block2
  if asserts && !(add32 (iv.get 0) a == iv1.get 0 && add32 (iv.get 1) b == iv1.get 1 &&
      add32 (iv.get 2) c == iv1.get 2 && add32 (iv.get 3) d == iv1.get 3) then
    Ctl.abort
  else if iv2.get 0 == iv1.get 0 && iv2.get 1 == iv1.get 1 && iv2.get 2 == iv1.get 2 &&
      iv2.get 3 == iv1.get 3 then
    Ctl.done ⟨s, a, b, c, d, a2, b2, c2, d2⟩
  else
    Ctl.next s

/-- The body of the loop `for(int q9ctr = 0; q9ctr < (1<<9); q9ctr++)` of
`MD5CollideBlock1`. -/
def q9body1 (q9m9bits : List Nat) (a2 b2 c2 d2 q9save : Nat) (q9ctr : Nat) (s : St 25) :
    Ctl (St 25) Ret1 :=
  let s := s.setQ 9 (q9save ||| q9m9bits.getD q9ctr 0)
  let s := s.setB 8 (MD5UNSTEP s.Q 8 0x698098d8 7)
  if HAS_BAD_CHARS badchars (s.b 8) then Ctl.next s else
  let s := s.setB 9 (MD5UNSTEP s.Q 9 0x8b44f7af 12)
  if HAS_BAD_CHARS badchars (s.b 9) then Ctl.next s else
  if asserts && s.b 10 != MD5UNSTEP s.Q 10 0xffff5bb1 17 then Ctl.abort else
  if asserts && s.b 11 != MD5UNSTEP s.Q 11 0x895cd7be 22 then Ctl.abort else
  let s := s.setB 12 (MD5UNSTEP s.Q 12 0x6b901122 7)
  if HAS_BAD_CHARS badchars (s.b 12) then Ctl.next s else
  match tail1 s.block a2 b2 c2 d2 with
  | none => Ctl.next s
  | some (a, b, c, d) => finish1 asserts Compress iv s a b c d a2 b2 c2 d2

/-- The body of the loop `for(int q10ctr = 0; q10ctr < numq9q10; q10ctr++)` of
`MD5CollideBlock1`. -/
def q10body1 (qc : List qcond) (q9m9bits q9q10bits : List Nat) (q9base q10base : Nat)
    (q10ctr : Nat) (s : St 25) : Ctl (St 25) Ret1 :=
  let s := s.setQ 9 (q9base ||| (q9q10bits.getD q10ctr 0 &&& not32 Q10MASK))
  let q9save := s.q 9
  let s := s.setQ 10 (q10base ||| (q9q10bits.getD q10ctr 0 &&& Q10MASK))
  let s := s.setB 10 (MD5UNSTEP s.Q 10 0xffff5bb1 17)
  if HAS_BAD_CHARS badchars (s.b 10) then Ctl.next s else
  if asserts && s.b 11 != MD5UNSTEP s.Q 11 0x895cd7be 22 then Ctl.abort else
  let a2 := s.q 21
  let b2 := s.q 20
  let c2 := s.q 19
  let d2 := s.q 18
  let d2 := MD5STEP F2 d2 a2 b2 c2 (add32 (s.b 10) 0x02441453) 9
  if d2 &&& 0x80000000 != (qrow qc 22).inv then Ctl.next s else
  let c2 := add32 (add32 (add32 c2 (F2 d2 a2 b2)) (s.b 15)) 0xd8a1e681
  if c2 &&& (1 <<< 17) == 0 then Ctl.next s else
  let c2 := shl32 c2 14 ||| (c2 >>> (32 - 14))
  let c2 := add32 c2 d2
  if c2 &&& 0x80000000 != (qrow qc 23).inv then Ctl.next s else
  let b2 := MD5STEP F2 b2 c2 d2 a2 (add32 (s.b 4) 0xe7d3fbc8) 20
  if b2 &&& 0x80000000 == 0 then Ctl.next s else
  let s := s.setB 13 (MD5UNSTEP s.Q 13 0xfd987193 12)
  if HAS_BAD_CHARS badchars (s.b 13) then Ctl.next s else
  forLoop (q9body1 asserts Compress iv badchars q9m9bits a2 b2 c2 d2 q9save) 512 0 s

/-- The body of the loop `for(int i = 0; i < 2000; i++)` of `MD5CollideBlock1` that
chooses `Q[1]`; `done` is the `break` with `success = 1`. -/
def q1body1 (qc : List qcond) (_i : Nat) (s : St 25) : Ctl (St 25) (St 25) :=
  let s := { s with
    rs := (getrand32 s.rs).2
    Q := s.Q.set (1 + 3)
      ((((getrand32 s.rs).1 &&& (qrow qc 1).mask) ||| (s.q 0 &&& (qrow qc 1).pmask))
        ^^^ (qrow qc 1).inv) }
  let s := s.setB 0 (MD5UNSTEP s.Q 0 0xd76aa478 7)
  if HAS_BAD_CHARS badchars (s.b 0) then Ctl.next s else
  let s := s.setB 1 (MD5UNSTEP s.Q 1 0xe8c7b756 12)
  if HAS_BAD_CHARS badchars (s.b 1) then Ctl.next s else
  let s := s.setB 3 (MD5UNSTEP s.Q 3 0xc1bdceee 22)
  if HAS_BAD_CHARS badchars (s.b 3) then Ctl.next s else
  let s := s.setB 4 (MD5UNSTEP s.Q 4 0xf57c0faf 7)
  if HAS_BAD_CHARS badchars (s.b 4) || HAS_BAD_CHARS badchars (sub32 (s.b 4) (1 <<< 31)) then
    Ctl.next s else
  let s := s.setQ 17
    (MD5STEP F2 (s.q 13) (s.q 16) (s.q 15) (s.q 14) (add32 (s.b 1) 0xf61e2562) 5)
  if Q_BAD s.Q 17 qc then Ctl.next s else
  let s := s.setQ 18
    (MD5STEP F2 (s.q 14) (s.q 17) (s.q 16) (s.q 15) (add32 (s.b 6) 0xc040b340) 9)
  if Q_BAD s.Q 18 qc then Ctl.next s else
  let s := s.setQ 19
    (MD5STEP F2 (s.q 15) (s.q 18) (s.q 17) (s.q 16) (add32 (s.b 11) 0x265e5a51) 14)
  if Q_BAD s.Q 19 qc then Ctl.next s else
  let s := s.setQ 20
    (MD5STEP F2 (s.q 16) (s.q 19) (s.q 18) (s.q 17) (add32 (s.b 0) 0xe9b6c7aa) 20)
  if Q_BAD s.Q 20 qc then Ctl.next s else
  let s := s.setQ 21
    (MD5STEP F2 (s.q 17) (s.q 20) (s.q 19) (s.q 18) (add32 (s.b 5) 0xd62f105d) 5)
  if Q_BAD s.Q 21 qc then Ctl.next s else
  let s := s.setB 2 (MD5UNSTEP s.Q 2 0x242070db 17)
  if HAS_BAD_CHARS badchars (s.b 2) then Ctl.next s else
  Ctl.done s

/-- The part of the body of the loop `while(1)` of `MD5CollideBlock1` that follows
`if(!success) continue;`. -/
def tunnels1 (qc : List qcond) (m9mask m9m10mask : Nat) (q9m9bits q9q10bits : List Nat)
    (numq9q10 : Nat) (s : St 25) : Ctl (St 25) Ret1 :=
  let q9base := s.q 9
  if asserts && (q9base &&& m9mask) != 0 then Ctl.abort else
  if asserts && (q9base &&& m9m10mask &&& not32 Q10MASK) != 0 then Ctl.abort else
  let q10base := s.q 10
  if asserts && (q10base &&& m9m10mask &&& Q10MASK) != 0 then Ctl.abort else
  forLoop (q10body1 asserts Compress iv badchars qc q9m9bits q9q10bits q9base q10base)
    numq9q10 0 s

/-- The body of the loop `while(1)` of `MD5CollideBlock1`; `m9mask` and `m9m10mask` are
`q9m9masks[path]` and `q9q10masks[path]`. -/
def outerBody1 (qc : List qcond) (m9mask m9m10mask : Nat) (q9m9bits q9q10bits : List Nat)
    (numq9q10 : Nat) (s : St 25) : Ctl (St 25) Ret1 :=
  let s := { s with
    rs := (getrand32 s.rs).2
    Q := s.Q.set (2 + 3)
      ((((getrand32 s.rs).1 &&& (qrow qc 2).mask) ||| (s.q 0 &&& (qrow qc 2).pmask))
        ^^^ (qrow qc 2).inv) }
  let s := sampleLoop qc 14 3 s
  let s := s.setB 5 (MD5UNSTEP s.Q 5 0x4787c62a 12)
  if HAS_BAD_CHARS badchars (s.b 5) then Ctl.next s else
  let s := s.setB 6 (MD5UNSTEP s.Q 6 0xa8304613 17)
  if HAS_BAD_CHARS badchars (s.b 6) then Ctl.next s else
  let s := s.setB 7 (MD5UNSTEP s.Q 7 0xfd469501 22)
  if HAS_BAD_CHARS badchars (s.b 7) then Ctl.next s else
  let s := s.setB 11 (MD5UNSTEP s.Q 11 0x895cd7be 22)
  if HAS_BAD_CHARS badchars (s.b 11) || HAS_BAD_CHARS badchars (sub32 (s.b 11) (1 <<< 15)) then
    Ctl.next s else
  let s := s.setB 14 (MD5UNSTEP s.Q 14 0xa679438e 17)
  if HAS_BAD_CHARS badchars (s.b 14) || HAS_BAD_CHARS badchars (sub32 (s.b 14) (1 <<< 31)) then
    Ctl.next s else
  let s := s.setB 15 (MD5UNSTEP s.Q 15 0x49b40821 22)
  if HAS_BAD_CHARS badchars (s.b 15) then Ctl.next s else
  match forLoop (q1body1 badchars qc) 2000 0 s with
  | Ctl.next s1 => Ctl.next s1
  | Ctl.done s1 =>
    tunnels1 asserts Compress iv badchars qc m9mask m9m10mask q9m9bits q9q10bits numq9q10 s1
  | Ctl.abort => Ctl.abort

/-- The initial array `uint32_t QandIV[25] = { iv[0], iv[3], iv[2], iv[1] }`. -/
def initQ1 : Words 25 :=
  ⟨[iv.get 0, iv.get 3, iv.get 2, iv.get 1, 0, 0, 0, 0, 0, 0, 0, 0, 0, 0, 0, 0, 0, 0, 0, 0, 0,
    0, 0, 0, 0], rfl⟩

/-- The function `MD5CollideBlock1` with all its variables at the `return`: `time` is
the value of `time(NULL)`, `block` the contents of the output buffer at the call. -/
def MD5CollideBlock1Run (time : Nat) (block : Words 16) (fuel : Nat) : Outcome Ret1 :=
  match m9loop asserts (q9m9masks.getD (pathOf iv) 0) 512 0 [] with
  | Outcome.assertFailed => Outcome.assertFailed
  | Outcome.outOfFuel => Outcome.outOfFuel
  | Outcome.returned q9m9bits =>
    match m10loop asserts (q9q10masks.getD (pathOf iv) 0) 65 0 [] with
    | Outcome.assertFailed => Outcome.assertFailed
    | Outcome.outOfFuel => Outcome.outOfFuel
    | Outcome.returned (q9q10bits, numq9q10) =>
      whileLoop
        (outerBody1 asserts Compress iv badchars (qconds2.getD (pathOf iv) [])
          (q9m9masks.getD (pathOf iv) 0) (q9q10masks.getD (pathOf iv) 0)
          q9m9bits q9q10bits numq9q10)
        fuel ⟨seedState time 0xdeadf00d, initQ1 iv, block⟩

/-- The function `MD5CollideBlock1`: the contents of `block` at the `return`. -/
def MD5CollideBlock1 (time : Nat) (block : Words 16) (fuel : Nat) : Outcome (Words 16) :=
  match MD5CollideBlock1Run asserts Compress iv badchars time block fuel with
  | Outcome.returned r => Outcome.returned r.st.block
  | Outcome.assertFailed => Outcome.assertFailed
  | Outcome.outOfFuel => Outcome.outOfFuel

end Block1

/-! ## The compression function -/

/-- Modelled from the spec: the additive constants of the 64 steps of `MD5Transform`
(`md5.c` is not part of the source file), the standard ones. -/
def md5K : List Nat :=
  [0xd76aa478, 0xe8c7b756, 0x242070db, 0xc1bdceee,
   0xf57c0faf, 0x4787c62a, 0xa8304613, 0xfd469501,
   0x698098d8, 0x8b44f7af, 0xffff5bb1, 0x895cd7be,
   0x6b901122, 0xfd987193, 0xa679438e, 0x49b40821,
   0xf61e2562, 0xc040b340, 0x265e5a51, 0xe9b6c7aa,
   0xd62f105d, 0x02441453, 0xd8a1e681, 0xe7d3fbc8,
   0x21e1cde6, 0xc33707d6, 0xf4d50d87, 0x455a14ed,
   0xa9e3e905, 0xfcefa3f8, 0x676f02d9, 0x8d2a4c8a,
   0xfffa3942, 0x8771f681, 0x6d9d6122, 0xfde5380c,
   0xa4beea44, 0x4bdecfa9, 0xf6bb4b60, 0xbebfbc70,
   0x289b7ec6, 0xeaa127fa, 0xd4ef3085, 0x04881d05,
   0xd9d4d039, 0xe6db99e5, 0x1fa27cf8, 0xc4ac5665,
   0xf4292244, 0x432aff97, 0xab9423a7, 0xfc93a039,
   0x655b59c3, 0x8f0ccc92, 0xffeff47d, 0x85845dd1,
   0x6fa87e4f, 0xfe2ce6e0, 0xa3014314, 0x4e0811a1,
   0xf7537e82, 0xbd3af235, 0x2ad7d2bb, 0xeb86d391]

/-- Modelled from the spec: the rotation amounts of the 64 steps of `MD5Transform`, the
standard ones. -/
def md5S : List Nat :=
  [7, 12, 17, 22, 7, 12, 17, 22, 7, 12, 17, 22, 7, 12, 17, 22,
   5, 9, 14, 20, 5, 9, 14, 20, 5, 9, 14, 20, 5, 9, 14, 20,
   4, 11, 16, 23, 4, 11, 16, 23, 4, 11, 16, 23, 4, 11, 16, 23,
   6, 10, 15, 21, 6, 10, 15, 21, 6, 10, 15, 21, 6, 10, 15, 21]

/-- Modelled from the spec: the message word read by step `i` of `MD5Transform`, the
standard order. -/
def md5G (i : Nat) : Nat :=
  if i < 16 then i else if i < 32 then (5 * i + 1) % 16
  else if i < 48 then (3 * i + 5) % 16 else (7 * i) % 16

/-- Modelled from the spec: the round function of step `i` of `MD5Transform`. -/
def md5F (i : Nat) : Nat → Nat → Nat → Nat :=
  if i < 16 then F1 else if i < 32 then F2 else if i < 48 then F3 else F4

/-- Modelled from the spec: steps `i, i+1, ...` of `MD5Transform` (as many as the first
argument says) on the registers `a, b, c, d`. -/
def md5Steps (block : Words 16) : Nat → Nat → Nat → Nat → Nat → Nat → Nat × Nat × Nat × Nat
  | 0, _, a, b, c, d => (a, b, c, d)
  | n + 1, i, a, b, c, d =>
    md5Steps block n (i + 1) d
      (MD5STEP (md5F i) a b c d (add32 (block.get (md5G i)) (md5K.getD i 0)) (md5S.getD i 0))
      b c

/-- Modelled from the spec: `MD5Transform` of `md5.c`, which is not part of the source
file: the MD5 compression function (four rounds, 64 steps, on 32-bit words) applied to
the chaining value `iv` and the 16-word block `block`. -/
def MD5Transform (iv : Words 4) (block : Words 16) : Words 4 :=
  match md5Steps block 64 0 (iv.get 0) (iv.get 1) (iv.get 2) (iv.get 3) with
  | (a, b, c, d) =>
    ⟨[add32 (iv.get 0) a, add32 (iv.get 1) b, add32 (iv.get 2) c, add32 (iv.get 3) d], rfl⟩

/-! ## The message differences and the reference inputs -/

/-- The block `block` with the first-block difference added: `2^31` to word 4, `2^15` to
word 11 and `2^31` to word 14. -/
def addDelta0 (block : Words 16) : Words 16 :=
  ((block.set 4 (add32 (block.get 4) (2 ^ 31))).set 11 (add32 (block.get 11) (2 ^ 15))).set 14
    (add32 (block.get 14) (2 ^ 31))

/-- The block `block` with the second-block difference subtracted: `2^31` from word 4,
`2^15` from word 11 and `2^31` from word 14. -/
def subDelta1 (block : Words 16) : Words 16 :=
  ((block.set 4 (sub32 (block.get 4) (2 ^ 31))).set 11 (sub32 (block.get 11) (2 ^ 15))).set 14
    (sub32 (block.get 14) (2 ^ 31))

/-- The chaining value `iv` with `(2^31, 2^31+2^25, 2^31+2^25, 2^31+2^25)` added. -/
def addDeltaIV (iv : Words 4) : Words 4 :=
  ⟨[add32 (iv.get 0) (2 ^ 31), add32 (iv.get 1) (2 ^ 31 + 2 ^ 25),
    add32 (iv.get 2) (2 ^ 31 + 2 ^ 25), add32 (iv.get 3) (2 ^ 31 + 2 ^ 25)], rfl⟩

/-- The MD5 initial chaining value, the `iv` of `main`. -/
def stdIV : Words 4 := ⟨[0x67452301, 0xefcdab89, 0x98badcfe, 0x10325476], rfl⟩

/-- An output buffer filled with zeros. -/
def zeroBlock : Words 16 := ⟨[0, 0, 0, 0, 0, 0, 0, 0, 0, 0, 0, 0, 0, 0, 0, 0], rfl⟩

/-- The table `unclean_map` of `main`. -/
def unclean_map : List Nat :=
  [1,0,0,0,0,0,0,0,0,1,1,0,1,1,0,0,0,0,0,0,0,0,0,0,0,0,0,0,0,0,0,0,
   1,0,0,1,0,1,0,0,1,1,0,0,0,0,0,1,0,0,0,0,0,0,0,0,0,0,0,0,1,0,1,0,
   0,0,0,0,0,0,0,0,0,0,0,0,0,0,0,0,0,0,0,0,0,0,0,0,0,0,0,1,0,1,0,0,
   0,0,0,0,0,0,0,0,0,0,0,0,0,0,0,0,0,0,0,0,0,0,0,0,0,0,0,1,0,1,0,0,
   1,0,0,0,0,0,0,0,0,0,0,0,0,0,0,0,0,0,0,0,0,0,0,0,0,0,0,0,0,0,0,0,
   0,0,0,0,0,0,0,0,0,0,0,0,0,0,0,0,0,0,0,0,0,0,0,0,0,0,0,0,0,0,0,0,
   0,0,0,0,0,0,0,0,0,0,0,0,0,0,0,0,0,0,0,0,0,0,0,0,0,0,0,0,0,0,0,0,
   0,0,0,0,0,0,0,0,0,0,0,0,0,0,0,0,0,0,0,0,0,0,0,0,0,0,0,0,0,0,0,1]

/-- The lines of `main` that turn the two blocks into the paired message:
`block[4] += 1U<<31; block[11] += 1U<<15; block[14] += 1U<<31; block2[4] -= 1U<<31;
block2[11] -= 1U<<15; block2[14] -= 1U<<31`. -/
def mainPair (block block2 : Words 16) : Words 16 × Words 16 :=
  let block := block.set 4 (add32 (block.get 4) (1 <<< 31))
  let block := block.set 11 (add32 (block.get 11) (1 <<< 15))
  let block := block.set 14 (add32 (block.get 14) (1 <<< 31))
  let block2 := block2.set 4 (sub32 (block2.get 4) (1 <<< 31))
  let block2 := block2.set 11 (sub32 (block2.get 11) (1 <<< 15))
  let block2 := block2.set 14 (sub32 (block2.get 14) (1 <<< 31))
  (block, block2)

/-! ## Predicates used in the proofs -/

/-- A loop-body result meets `Inv` when it goes on and `Post` when it leaves. -/
def Ctl.Sat {σ ρ : Type} (Inv : σ → Prop) (Post : ρ → Prop) : Ctl σ ρ → Prop
  | Ctl.next s => Inv s
  | Ctl.done r => Post r
  | Ctl.abort => True

/-- The test that guards the `return` of `MD5CollideBlock0`. -/
def Closes0 (Compress : Words 4 → Words 16 → Words 4) (iv : Words 4) (block : Words 16) : Prop :=
  (Compress iv (pairBlock0 block)).get 0 = add32 ((Compress iv block).get 0) 0x80000000 ∧
  (Compress iv (pairBlock0 block)).get 1 = add32 ((Compress iv block).get 1) 0x82000000 ∧
  (Compress iv (pairBlock0 block)).get 2 = add32 ((Compress iv block).get 2) 0x82000000 ∧
  (Compress iv (pairBlock0 block)).get 3 = add32 ((Compress iv block).get 3) 0x82000000

/-- The test that guards the `return` of `MD5CollideBlock1`. -/
def Closes1 (Compress : Words 4 → Words 16 → Words 4) (iv : Words 4) (block : Words 16) : Prop :=
  (Compress (shiftIV iv) (pairBlock1 block)).get 0 = (Compress iv block).get 0 ∧
  (Compress (shiftIV iv) (pairBlock1 block)).get 1 = (Compress iv block).get 1 ∧
  (Compress (shiftIV iv) (pairBlock1 block)).get 2 = (Compress iv block).get 2 ∧
  (Compress (shiftIV iv) (pairBlock1 block)).get 3 = (Compress iv block).get 3

/-- The round function of round 1 as the comment of the source keeps it:
`(x & y | ~x & z)`. -/
def F1_unoptimized (x y z : Nat) : Nat := (x &&& y) ||| (not32 x &&& z)

/-- The standard round function of round 2: `(x & z) | (y & ~z)`. -/
def F2_standard (x y z : Nat) : Nat := (x &&& z) ||| (y &&& not32 z)

/-- The standard round function of round 3: `x ^ y ^ z`. -/
def F3_standard (x y z : Nat) : Nat := x ^^^ y ^^^ z

/-- The standard round function of round 4: `y ^ (x | ~z)`. -/
def F4_standard (x y z : Nat) : Nat := y ^^^ (x ||| not32 z)

/-- A first block that `MD5CollideBlock0` returns: its variables at the `return` of the
run on `stdIV` with the table `unclean_map` and `time(NULL) = 1612755449`. -/
def exRet0 : Ret 28 :=
  ⟨⟨7762847545107688698,
    ⟨[1732584193, 271733878, 2562383102, 4023233417, 1180082504, 4207232469, 2281431494,
      1115923138, 1107296202, 3091956438, 708844483, 1137766611, 537207932, 1346416841,
      532414230, 1390130658, 581227646, 1344732383, 3364472067, 2944817232, 4166543954,
      3796241411, 2727371966, 3132001821, 3712104976, 4244039676, 1720976168, 2724605155],
      rfl⟩,
    ⟨[2806148468, 1895054688, 1238420858, 2863871655, 459563500, 670479859, 3648974431,
      2575966681, 3991715070, 1996639584, 2035748847, 2175317971, 2607720340, 413005412,
      2598315023, 4086867225], rfl⟩⟩,
   573225640, 2775713383, 1626020202, 3042398395⟩

/-- The chaining value after the first block `exRet0.st.block`. -/
def exIV1 : Words 4 := ⟨[2305809833, 2503979504, 4188403304, 3314132273], rfl⟩

/-- A second block that `MD5CollideBlock1` returns: its variables at the `return` of the
run on `exIV1` with the table `unclean_map` and `time(NULL) = 1635797866`. -/
def exRet1 : Ret1 :=
  ⟨⟨8071511469494311781,
    ⟨[2305809833, 3314132273, 4188403304, 2503979504, 2978761584, 2834102826, 2887844654,
      1654119147, 312055132, 2442854502, 1632181861, 2715295353, 1353208267, 42724113,
      880109435, 2411435598, 2301415694, 1421208223, 3930594076, 3614655463, 369689667,
      2605587243, 4082855782, 3458077310, 3376619354], rfl⟩,
    ⟨[3451413169, 1680892939, 823938663, 3400870785, 2481882667, 293707096, 1209058249,
      3364380570, 4160246731, 1438779319, 3138668917, 2902254501, 3246985261, 3682510190,
      2988526450, 2450442023], rfl⟩⟩,
   4215847344, 332963386, 2639026227, 3069718756, 3376619354, 3924517776, 1929409148,
   2759047589⟩

/-- Condition `i` of the table `qc`, as the spec writes it:
`((Q[i] & cbits) ^ (Q[i-1] & pmask)) == inv`. -/
def CondHolds {m : Nat} (qc : List qcond) (Q : Words m) (i : Nat) : Prop :=
  ((Q.get (i + 3) &&& (qrow qc i).cbits) ^^^ (Q.get (i + 2) &&& (qrow qc i).pmask))
    = (qrow qc i).inv

/-- Conditions `lo, ..., hi` of the table `qc` hold on the trail `Q`. -/
def CondsIn {m : Nat} (qc : List qcond) (Q : Words m) (lo hi : Nat) : Prop :=
  ∀ i, lo ≤ i → i ≤ hi → CondHolds qc Q i

/-- A row of a condition table from which sampling gives a register that passes the
check: the checked bits are not random, and the copied and the fixed bits are checked. -/
def rowOK (r : qcond) : Bool :=
  r.mask &&& r.cbits == 0 && r.pmask &&& r.cbits == r.pmask && r.inv &&& r.cbits == r.inv

/-- The facts about a second-block path that its conditions rest on: sampling rows
1 to 16 passes the check, the bit of `Q[1]` that condition 2 reads is copied from
`Q[0]`, the tunnel bits of `Q[9]` and `Q[10]` are outside the conditions 9, 10 and 11,
and conditions 22, 23 and 24 read a most significant bit. -/
def pathFacts (qc : List qcond) (m9mask m9m10mask : Nat) : Bool :=
  (List.range 17).all (fun i => i == 0 || rowOK (qrow qc i)) &&
  (qrow qc 1).mask &&& (qrow qc 2).pmask == 0 &&
  (qrow qc 1).inv &&& (qrow qc 2).pmask == 0 &&
  (qrow qc 2).pmask &&& (qrow qc 1).pmask == (qrow qc 2).pmask &&
  m9mask &&& (qrow qc 9).cbits == 0 &&
  m9mask &&& (qrow qc 10).pmask == 0 &&
  (m9m10mask &&& not32 Q10MASK) &&& (qrow qc 9).cbits == 0 &&
  (m9m10mask &&& not32 Q10MASK) &&& (qrow qc 10).pmask == 0 &&
  (m9m10mask &&& Q10MASK) &&& (qrow qc 10).cbits == 0 &&
  (m9m10mask &&& Q10MASK) &&& (qrow qc 11).pmask == 0 &&
  (qrow qc 22).cbits == 0x80000000 && (qrow qc 22).pmask == 0 &&
  (qrow qc 23).cbits == 0x80000000 && (qrow qc 23).pmask == 0 &&
  (qrow qc 24).cbits == 0x80000000 && (qrow qc 24).pmask == 0 &&
  (qrow qc 24).inv == 0x80000000

/-- Conditions 22, 23 and 24 of the table `qc` on the registers `d2, c2, b2` of
`MD5CollideBlock1`, which hold `Q[22], Q[23], Q[24]`; `q21` is `Q[21]`. -/
def CondsRegs (qc : List qcond) (q21 d2 c2 b2 : Nat) : Prop :=
  ((d2 &&& (qrow qc 22).cbits) ^^^ (q21 &&& (qrow qc 22).pmask)) = (qrow qc 22).inv ∧
  ((c2 &&& (qrow qc 23).cbits) ^^^ (d2 &&& (qrow qc 23).pmask)) = (qrow qc 23).inv ∧
  ((b2 &&& (qrow qc 24).cbits) ^^^ (c2 &&& (qrow qc 24).pmask)) = (qrow qc 24).inv

/-- The facts of `pathFacts`, as propositions. -/
structure PathOK (qc : List qcond) (m9mask m9m10mask : Nat) : Prop where
  rows : ∀ i, 1 ≤ i → i ≤ 16 → rowOK (qrow qc i) = true
  m1p2 : (qrow qc 1).mask &&& (qrow qc 2).pmask = 0
  i1p2 : (qrow qc 1).inv &&& (qrow qc 2).pmask = 0
  p2p1 : (qrow qc 2).pmask &&& (qrow qc 1).pmask = (qrow qc 2).pmask
  t9c9 : m9mask &&& (qrow qc 9).cbits = 0
  t9p10 : m9mask &&& (qrow qc 10).pmask = 0
  u9c9 : (m9m10mask &&& not32 Q10MASK) &&& (qrow qc 9).cbits = 0
  u9p10 : (m9m10mask &&& not32 Q10MASK) &&& (qrow qc 10).pmask = 0
  u10c10 : (m9m10mask &&& Q10MASK) &&& (qrow qc 10).cbits = 0
  u10p11 : (m9m10mask &&& Q10MASK) &&& (qrow qc 11).pmask = 0
  c22 : (qrow qc 22).cbits = 0x80000000
  p22 : (qrow qc 22).pmask = 0
  c23 : (qrow qc 23).cbits = 0x80000000
  p23 : (qrow qc 23).pmask = 0
  c24 : (qrow qc 24).cbits = 0x80000000
  p24 : (qrow qc 24).pmask = 0
  i24 : (qrow qc 24).inv = 0x80000000

/-- The values `q9base` and `q10base` agree with `Q[9]` and `Q[10]` on the bits that
conditions 9, 10 and 11 read. -/
def TunnelRel (qc : List qcond) (q9base q10base : Nat) (Q : Words 25) : Prop :=
  q9base &&& (qrow qc 9).cbits = Q.get 12 &&& (qrow qc 9).cbits ∧
  q9base &&& (qrow qc 10).pmask = Q.get 12 &&& (qrow qc 10).pmask ∧
  q10base &&& (qrow qc 10).cbits = Q.get 13 &&& (qrow qc 10).cbits ∧
  q10base &&& (qrow qc 11).pmask = Q.get 13 &&& (qrow qc 11).pmask

/-- Condition 2 of the table `qc` with `Q[0]` in the place of `Q[1]`, as `Q[2]` is
sampled. -/
def Cond2vs0 (qc : List qcond) (Q : Words 25) : Prop :=
  ((Q.get 5 &&& (qrow qc 2).cbits) ^^^ (Q.get 3 &&& (qrow qc 2).pmask)) = (qrow qc 2).inv

/-- None of the four bytes of the word `w` is marked in the table `t`. -/
def Clean (t : List Nat) (w : Nat) : Prop :=
  t.getD (w &&& 255) 0 = 0 ∧ t.getD ((w >>> 8) &&& 255) 0 = 0 ∧
  t.getD ((w >>> 16) &&& 255) 0 = 0 ∧ t.getD ((w >>> 24) &&& 255) 0 = 0

/-- The word `w` at position `i` of a first block passes the bad-character test, and so
does its shifted variant when `i` is 4, 11 or 14. -/
def WordOK0 (badchars : Option (List Nat)) (i w : Nat) : Prop :=
  HAS_BAD_CHARS badchars w = false ∧
  (i = 4 → HAS_BAD_CHARS badchars (add32 w (1 <<< 31)) = false) ∧
  (i = 11 → HAS_BAD_CHARS badchars (add32 w (1 <<< 15)) = false) ∧
  (i = 14 → HAS_BAD_CHARS badchars (add32 w (1 <<< 31)) = false)

/-- The word `w` at position `i` of a second block passes the bad-character test, and so
does its shifted variant when `i` is 4, 11 or 14. -/
def WordOK1 (badchars : Option (List Nat)) (i w : Nat) : Prop :=
  HAS_BAD_CHARS badchars w = false ∧
  (i = 4 → HAS_BAD_CHARS badchars (sub32 w (1 <<< 31)) = false) ∧
  (i = 11 → HAS_BAD_CHARS badchars (sub32 w (1 <<< 15)) = false) ∧
  (i = 14 → HAS_BAD_CHARS badchars (sub32 w (1 <<< 31)) = false)

/-- The words of `block` at the positions listed in `L` satisfy `W`. -/
def GoodOn (W : Nat → Nat → Prop) (block : Words 16) (L : List Nat) : Prop :=
  ∀ i, i ∈ L → W i (block.get i)


/-! ## Definitions for the tunnels and the precomputed tables -/

/-- The expression `((q9ctr)^(q9ctr<<8)^(q9ctr<<14))&Q9M9MASK` that the innermost loop of
`MD5CollideBlock0` ors into `Q[9]`. -/
def perm9 (q9ctr : Nat) : Nat := (q9ctr ^^^ (q9ctr <<< 8) ^^^ (q9ctr <<< 14)) &&& Q9M9MASK

/-- The counter whose image under `perm9` is the subset `y` of `Q9M9MASK`: the sixteen
counter bits, solved from the sixteen bits of `y` under the mask. -/
def unperm9 (y : Nat) : Nat :=
  let x1 := y.testBit 1
  let x2 := y.testBit 2
  let x4 := y.testBit 4
  let x11 := y.testBit 25
  let x12 := y.testBit 26
  let x13 := y.testBit 27
  let x9 := Bool.xor (y.testBit 9) x1
  let x10 := Bool.xor (y.testBit 10) x2
  let x3 := Bool.xor (y.testBit 11) x11
  let x8 := Bool.xor (y.testBit 16) x2
  let x0 := Bool.xor (y.testBit 8) x8
  let x5 := Bool.xor (y.testBit 19) x11
  let x6 := Bool.xor (y.testBit 20) x12
  let x7 := Bool.xor (y.testBit 21) x13
  let x15 := Bool.xor (y.testBit 23) x9
  let x14 := Bool.xor (Bool.xor (y.testBit 14) x6) x0
  Nat.bit x0 (Nat.bit x1 (Nat.bit x2 (Nat.bit x3 (Nat.bit x4 (Nat.bit x5 (Nat.bit x6
    (Nat.bit x7 (Nat.bit x8 (Nat.bit x9 (Nat.bit x10 (Nat.bit x11 (Nat.bit x12
      (Nat.bit x13 (Nat.bit x14 (Nat.bit x15 0)))))))))))))))

/-- The test `P` holds for every number below the bound. -/
def allBelow (P : Nat → Bool) : Nat → Bool
  | 0 => true
  | n + 1 => P n && allBelow P n

/-- The positions of the set bits of the 32-bit word `mask`, lowest first. -/
def bitsOf (mask : Nat) : List Nat := (List.range 32).filter (fun i => mask.testBit i)

/-- The test `P` holds for `acc` with any choice of the listed bits added. -/
def allSubsets (P : Nat → Bool) : List Nat → Nat → Bool
  | [], acc => P acc
  | b :: bs, acc => allSubsets P bs acc && allSubsets P bs (acc ||| 2 ^ b)

/-- Following the spec's words: bit `j`, `j + 1`, ... of `i` placed at the positions
listed in the second argument (the set bits of a mask, lowest first). -/
def depositAt (i : Nat) : List Nat → Nat → Nat
  | [], _ => 0
  | b :: bs, j => (if i.testBit j then 2 ^ b else 0) ||| depositAt i bs (j + 1)

/-- Following the spec's words: the word obtained by placing bit `j` of `i` at the
position of the `j`-th lowest set bit of `mask`. -/
def deposit (mask i : Nat) : Nat := depositAt i (bitsOf mask) 0

/-- The bits of `y` at the listed positions, gathered at bit `j`, `j + 1`, ... -/
def extractAt (y : Nat) : List Nat → Nat → Nat
  | [], _ => 0
  | b :: bs, j => (if y.testBit b then 2 ^ j else 0) ||| extractAt y bs (j + 1)

/-- The index of the subset `y` of `mask` in the enumeration `deposit mask`. -/
def extract (mask y : Nat) : Nat := extractAt y (bitsOf mask) 0

/-- The list is strictly increasing. -/
def increasing : List Nat → Bool
  | a :: b :: l => decide (a < b) && increasing (b :: l)
  | _ => true

/-- The facts about the table `q9m9bits` of a mask, as one test: the precomputation
loop returns the table of the 512 values of `deposit` without a failing `assert`, every
inner loop ends with `offset ≤ 32` and the bits of the table entry, the table is strictly
increasing, the mask is a 32-bit word with nine set bits, and every subset of the mask is
the table entry at its index `extract`. -/
def m9tableOK (mask : Nat) : Bool :=
  m9loop true mask 512 0 [] == Outcome.returned ((List.range 512).map (deposit mask)) &&
  allBelow (fun i =>
    match m9inner mask i 9 0 0 0 with
    | some r => decide (r.2 ≤ 32) && r.1 == deposit mask i
    | none => false) 512 &&
  increasing ((List.range 512).map (deposit mask)) &&
  decide (mask < 4294967296) && (bitsOf mask).length == 9 &&
  allSubsets (fun y => decide (extract mask y < 512) && deposit mask (extract mask y) == y)
    (bitsOf mask) 0

/-- The facts about the table `q9q10bits` of a mask, as one test: the precomputation
loop returns `num` and the table of the first `num` values of `deposit` without a failing
`assert` and without a write past the array, `num` is two to the number of set bits of
the mask and at most 64, and the table is strictly increasing. -/
def m10tableOK (mask num : Nat) : Bool :=
  m10loop true mask 65 0 [] == Outcome.returned ((List.range num).map (deposit mask), num) &&
  num == 2 ^ (bitsOf mask).length && decide (num ≤ 64) &&
  increasing ((List.range num).map (deposit mask))

/-- A bad-character table that marks all 256 byte values. -/
def allBadChars : List Nat := List.replicate 256 1

/-! ## Predicates for the step consistency of the trail -/

/-- As `Ctl.Sat`, for a loop body that fails an `assert` only if `A` holds. -/
def Ctl.SatA {σ ρ : Type} (A : Prop) (Inv : σ → Prop) (Post : ρ → Prop) : Ctl σ ρ → Prop
  | Ctl.next s => Inv s
  | Ctl.done r => Post r
  | Ctl.abort => A

/-- A call meets `Post` when it returns, and fails an `assert` only if `A` holds. -/
def Outcome.SatA {ρ : Type} (A : Prop) (Post : ρ → Prop) : Outcome ρ → Prop
  | Outcome.returned r => Post r
  | Outcome.assertFailed => A
  | Outcome.outOfFuel => True

/-- The function `Compress` is not the MD5 compression function on the chaining value
`iv`: it differs from `MD5Transform` on some block. -/
def Differs (Compress : Words 4 → Words 16 → Words 4) (iv : Words 4) : Prop :=
  ∃ block, Compress iv block ≠ MD5Transform iv block

/-- Step-unstep consistency of word `i`: `block[i]` is `MD5UNSTEP` of the trail at step
`i`, with the constant and the shift of that step. -/
def Cons {m : Nat} (Q : Words m) (block : Words 16) (i : Nat) : Prop :=
  block.get i = MD5UNSTEP Q i (md5K.getD i 0) (md5S.getD i 0)

/-- Step-unstep consistency of the words listed in `L`. -/
def ConsOn {m : Nat} (Q : Words m) (block : Words 16) (L : List Nat) : Prop :=
  ∀ i, i ∈ L → Cons Q block i

/-- The trail entry `Q[i+1]` is the result of step `i` (counted from 0) of the
compression function on the entries before it and the block. -/
def Fwd {m : Nat} (Q : Words m) (block : Words 16) (i : Nat) : Prop :=
  Q.get (i + 4) = MD5STEP (md5F i) (Q.get i) (Q.get (i + 3)) (Q.get (i + 2)) (Q.get (i + 1))
    (add32 (block.get (md5G i)) (md5K.getD i 0)) (md5S.getD i 0)

/-- The steps listed in `F` hold on the trail. -/
def FwdOn {m : Nat} (Q : Words m) (block : Words 16) (F : List Nat) : Prop :=
  ∀ i, i ∈ F → Fwd Q block i

/-- The trail entries `Q[1], Q[2], ...` are 32-bit words. -/
def Bnd {m : Nat} (Q : Words m) : Prop := ∀ n, 4 ≤ n → Q.get n < 4294967296

/-- The first four entries of `QandIV` are `iv[0], iv[3], iv[2], iv[1]`. -/
def IVQ {m : Nat} (iv : Words 4) (Q : Words m) : Prop :=
  Q.get 0 = iv.get 0 ∧ Q.get 1 = iv.get 3 ∧ Q.get 2 = iv.get 2 ∧ Q.get 3 = iv.get 1

/-- The facts about the variables of an engine that hold at a point of the search: the
chaining value is in place, the trail is made of 32-bit words, the block words listed in
`L` are consistent with the trail and the steps listed in `F` hold. -/
structure Base {m : Nat} (iv : Words 4) (L F : List Nat) (s : St m) : Prop where
  ivq : IVQ iv s.Q
  bnd : Bnd s.Q
  cons : ConsOn s.Q s.block L
  fwd : FwdOn s.Q s.block F

/-- The words `x` and `y` agree on every bit outside `T`. -/
def AgreeOff (T x y : Nat) : Prop := ∀ i, T.testBit i = false → x.testBit i = y.testBit i

/-- The bits of `Q[5], Q[6], Q[10], Q[11]` that make the tunnels of the first block
invisible in `block[5], block[6], block[10], block[11]`. -/
def Tun0 (Q : Words 28) : Prop :=
  Q.get 8 &&& 0x38000004 = 0 ∧ Q.get 9 &&& 0x38000004 = 0x38000004 ∧
  Q.get 13 &&& Q9M9MASK = 0 ∧ Q.get 14 &&& Q9M9MASK = Q9M9MASK ∧
  Q.get 14 &&& 0x00002000 = 0x00002000 ∧ Q.get 14 &&& 0x00000060 = 0

/-- The hoisted partial sums `part8, part9, part12` of `MD5CollideBlock0` have the values
that the current trail gives them. -/
def Parts0 (part8 part9 part12 : Nat) (s : St 28) : Prop :=
  part8 = add32 (add32 (F1 (s.q 8) (s.q 7) (s.q 6)) 0x698098d8) (s.q 5) ∧
  part9 = add32 0x8b44f7af (s.q 6) ∧
  part12 = sub32 (sub32 (rotr32 (sub32 (s.q 13) (s.q 12)) 7)
    (F1 (s.q 12) (s.q 11) (s.q 10))) 0x6b901122

/-- What holds when `MD5CollideBlock0` returns: all sixteen words are consistent with the
trail, steps 17 to 24 hold on the trail, and the registers are those of steps 25 to 64. -/
def Post0 (iv : Words 4) (r : Ret 28) : Prop :=
  Base iv [12, 9, 8, 7, 4, 3, 13, 10, 2, 5, 1, 15, 14, 11, 6, 0]
    [23, 22, 21, 20, 16, 19, 18, 17] r.st ∧
  tail0 r.st.block (r.st.q 21) (r.st.q 24) (r.st.q 23) (r.st.q 22) = some (r.a, r.b, r.c, r.d)

/-- The tunnel bits of `Q[9]`: `q9m9masks[path] | (q9q10masks[path] & ~Q10MASK)`. -/
def tun9 (m9mask m9m10mask : Nat) : Nat := m9mask ||| (m9m10mask &&& not32 Q10MASK)

/-- The tunnel bits of `Q[10]`: `q9q10masks[path] & Q10MASK`. -/
def tun10 (m9m10mask : Nat) : Nat := m9m10mask &&& Q10MASK

/-- The bits of `Q[10]` and `Q[11]` that make the tunnels of the second block invisible
in `block[10]` and `block[11]`. -/
def Tun1 (m9mask m9m10mask : Nat) (Q : Words 25) : Prop :=
  Q.get 13 &&& m9mask = 0 ∧
  Q.get 14 &&& tun9 m9mask m9m10mask = tun9 m9mask m9m10mask ∧
  Q.get 14 &&& tun10 m9m10mask = 0

/-- The three assertions on `q9base` and `q10base`: the tunnel bits of `Q[9]` and `Q[10]`
are clear. -/
def Clean1 (m9mask m9m10mask : Nat) (Q : Words 25) : Prop :=
  Q.get 12 &&& m9mask = 0 ∧ Q.get 12 &&& m9m10mask &&& not32 Q10MASK = 0 ∧
  Q.get 13 &&& m9m10mask &&& Q10MASK = 0

/-- The facts about the condition rows 9, 10 and 11 of a second-block path that its
tunnels rest on, as one test: sampling leaves the tunnel bits of `Q[9]` and `Q[10]`
clear, forces `Q[10]` to 0 on the nine-bit tunnel, and forces `Q[11]` to 1 on the tunnel
bits of `Q[9]` and to 0 on those of `Q[10]`. -/
def tunFacts1 (qc : List qcond) (m9mask m9m10mask : Nat) : Bool :=
  ((qrow qc 9).mask ||| (qrow qc 9).pmask ||| (qrow qc 9).inv) &&& tun9 m9mask m9m10mask == 0 &&
  ((qrow qc 10).mask ||| (qrow qc 10).pmask ||| (qrow qc 10).inv) &&& tun10 m9m10mask == 0 &&
  ((qrow qc 10).mask ||| (qrow qc 10).pmask) &&& tun9 m9mask m9m10mask == 0 &&
  (qrow qc 10).inv &&& m9mask == 0 &&
  (qrow qc 11).mask &&& tun9 m9mask m9m10mask == 0 &&
  (((qrow qc 10).inv &&& (qrow qc 11).pmask) ^^^ (qrow qc 11).inv) &&& tun9 m9mask m9m10mask
    == tun9 m9mask m9m10mask &&
  ((qrow qc 11).mask ||| (qrow qc 11).pmask ||| (qrow qc 11).inv) &&& tun10 m9m10mask == 0 &&
  m9mask &&& tun10 m9m10mask == 0 && decide (m9mask < 4294967296) &&
  decide (m9m10mask < 4294967296) &&
  (List.range 17).all (fun i => decide ((qrow qc i).mask < 4294967296) &&
    decide ((qrow qc i).pmask < 4294967296) && decide ((qrow qc i).inv < 4294967296))

/-- The registers `a2, b2, c2, d2` of `MD5CollideBlock1` are those of steps 22, 23 and 24
on the current trail and block. -/
def Regs1 (s : St 25) (a2 b2 c2 d2 : Nat) : Prop :=
  a2 = s.q 21 ∧
  d2 = MD5STEP F2 (s.q 18) (s.q 21) (s.q 20) (s.q 19) (add32 (s.b 10) 0x02441453) 9 ∧
  c2 = MD5STEP F2 (s.q 19) d2 (s.q 21) (s.q 20) (add32 (s.b 15) 0xd8a1e681) 14 ∧
  b2 = MD5STEP F2 (s.q 20) c2 d2 (s.q 21) (add32 (s.b 4) 0xe7d3fbc8) 20

/-- What holds when `MD5CollideBlock1` returns: all sixteen words are consistent with the
trail, steps 17 to 21 hold on the trail, the registers `a2, b2, c2, d2` are those of steps
22 to 24 and the registers `a, b, c, d` those of steps 25 to 64. -/
def Post1 (iv : Words 4) (r : Ret1) : Prop :=
  Base iv [12, 9, 8, 13, 10, 2, 4, 3, 1, 0, 15, 14, 11, 7, 6, 5] [20, 19, 18, 17, 16] r.st ∧
  Regs1 r.st r.a2 r.b2 r.c2 r.d2 ∧
  tail1 r.st.block r.a2 r.b2 r.c2 r.d2 = some (r.a, r.b, r.c, r.d)

/-- The first part of the body of the loop `while(1)` of `MD5CollideBlock1`, up to
`if(!success) continue;`: `next` is a `continue`, `done` the state in which
`q9base = Q[9]` is read. -/
def sample1 (badchars : Option (List Nat)) (qc : List qcond) (s : St 25) :
    Ctl (St 25) (St 25) :=
  let s := { s with
    rs := (getrand32 s.rs).2
    Q := s.Q.set (2 + 3)
      ((((getrand32 s.rs).1 &&& (qrow qc 2).mask) ||| (s.q 0 &&& (qrow qc 2).pmask))
        ^^^ (qrow qc 2).inv) }
  let s := sampleLoop qc 14 3 s
  let s := s.setB 5 (MD5UNSTEP s.Q 5 0x4787c62a 12)
  if HAS_BAD_CHARS badchars (s.b 5) then Ctl.next s else
  let s := s.setB 6 (MD5UNSTEP s.Q 6 0xa8304613 17)
  if HAS_BAD_CHARS badchars (s.b 6) then Ctl.next s else
  let s := s.setB 7 (MD5UNSTEP s.Q 7 0xfd469501 22)
  if HAS_BAD_CHARS badchars (s.b 7) then Ctl.next s else
  let s := s.setB 11 (MD5UNSTEP s.Q 11 0x895cd7be 22)
  if HAS_BAD_CHARS badchars (s.b 11) || HAS_BAD_CHARS badchars (sub32 (s.b 11) (1 <<< 15)) then
    Ctl.next s else
  let s := s.setB 14 (MD5UNSTEP s.Q 14 0xa679438e 17)
  if HAS_BAD_CHARS badchars (s.b 14) || HAS_BAD_CHARS badchars (sub32 (s.b 14) (1 <<< 31)) then
    Ctl.next s else
  let s := s.setB 15 (MD5UNSTEP s.Q 15 0x49b40821 22)
  if HAS_BAD_CHARS badchars (s.b 15) then Ctl.next s else
  forLoop (q1body1 badchars qc) 2000 0 s

/-- What holds of the variables of `MD5CollideBlock0` at the head of its loop
`while(1)`. -/
def Inv0 (iv : Words 4) (s : St 28) : Prop := Base iv [] [] s

/-- What holds of the variables of `MD5CollideBlock0` at the head of the loop that
chooses `Q[17]`. -/
def Inv17 (iv : Words 4) (s : St 28) : Prop :=
  Base iv [15, 14, 11, 6, 0] [] s ∧ Tun0 s.Q

/-- What holds of the variables of `MD5CollideBlock0` at the head of the loop over
`q10ctr`. -/
def Inv10 (iv : Words 4) (s : St 28) : Prop :=
  Base iv [2, 5, 1, 15, 14, 11, 6, 0] [20, 16, 19, 18, 17] s ∧ Tun0 s.Q ∧
  CondsIn qconds s.Q 17 21

/-- What holds of the variables of `MD5CollideBlock0` at the head of the loop over
`q4ctr`. -/
def Inv4 (iv : Words 4) (part8 part9 part12 q9base : Nat) (s : St 28) : Prop :=
  Base iv [13, 10, 2, 5, 1, 15, 14, 11, 6, 0] [22, 21, 20, 16, 19, 18, 17] s ∧ Tun0 s.Q ∧
  CondsIn qconds s.Q 17 23 ∧ AgreeOff Q9M9MASK (s.q 9) q9base ∧ q9base < 4294967296 ∧
  Parts0 part8 part9 part12 s

/-- What holds of the variables of `MD5CollideBlock0` at the head of the loop over
`q9ctr`. -/
def Inv9 (iv : Words 4) (part8 part9 part12 q9base : Nat) (s : St 28) : Prop :=
  Base iv [7, 4, 3, 13, 10, 2, 5, 1, 15, 14, 11, 6, 0] [23, 22, 21, 20, 16, 19, 18, 17] s ∧
  Tun0 s.Q ∧ CondsIn qconds s.Q 17 23 ∧ AgreeOff Q9M9MASK (s.q 9) q9base ∧
  q9base < 4294967296 ∧ Parts0 part8 part9 part12 s

/-- The trail entry `Q[j]` has the form that sampling with row `j` of `qc` gives it:
`((r & mask) | (Q[j-1] & pmask)) ^ inv` for some word `r`. -/
def Shape {m : Nat} (qc : List qcond) (Q : Words m) (j : Nat) : Prop :=
  ∃ r, Q.get (j + 3) = ((r &&& (qrow qc j).mask) ||| (Q.get (j + 2) &&& (qrow qc j).pmask))
    ^^^ (qrow qc j).inv

/-- The facts of `tunFacts1`, as propositions. -/
structure TunOK (qc : List qcond) (m9mask m9m10mask : Nat) : Prop where
  f9 : ((qrow qc 9).mask ||| (qrow qc 9).pmask ||| (qrow qc 9).inv) &&& tun9 m9mask m9m10mask = 0
  f10 : ((qrow qc 10).mask ||| (qrow qc 10).pmask ||| (qrow qc 10).inv) &&& tun10 m9m10mask = 0
  g10 : ((qrow qc 10).mask ||| (qrow qc 10).pmask) &&& tun9 m9mask m9m10mask = 0
  i10 : (qrow qc 10).inv &&& m9mask = 0
  m11 : (qrow qc 11).mask &&& tun9 m9mask m9m10mask = 0
  x11 : (((qrow qc 10).inv &&& (qrow qc 11).pmask) ^^^ (qrow qc 11).inv)
    &&& tun9 m9mask m9m10mask = tun9 m9mask m9m10mask
  f11 : ((qrow qc 11).mask ||| (qrow qc 11).pmask ||| (qrow qc 11).inv) &&& tun10 m9m10mask = 0
  dis : m9mask &&& tun10 m9m10mask = 0
  b9 : m9mask < 4294967296
  b10 : m9m10mask < 4294967296
  rows : ∀ i, i ≤ 16 → (qrow qc i).mask < 4294967296 ∧ (qrow qc i).pmask < 4294967296 ∧
    (qrow qc i).inv < 4294967296

/-- What holds of the variables of `MD5CollideBlock1` at the head of its loop
`while(1)`. -/
def Inv1 (iv : Words 4) (s : St 25) : Prop := Base iv [] [] s

/-- What holds of the variables of `MD5CollideBlock1` at the head of the loop that
chooses `Q[1]`. -/
def InvS1 (iv : Words 4) (m9mask m9m10mask : Nat) (s : St 25) : Prop :=
  Base iv [15, 14, 11, 7, 6, 5] [] s ∧ Tun1 m9mask m9m10mask s.Q ∧ Clean1 m9mask m9m10mask s.Q

/-- What holds of the variables of `MD5CollideBlock1` after the loop that chooses `Q[1]`
has left with `success = 1`. -/
def PostS1 (iv : Words 4) (m9mask m9m10mask : Nat) (s : St 25) : Prop :=
  Base iv [2, 4, 3, 1, 0, 15, 14, 11, 7, 6, 5] [20, 19, 18, 17, 16] s ∧
  Tun1 m9mask m9m10mask s.Q ∧ Clean1 m9mask m9m10mask s.Q

/-- What holds of the variables of `MD5CollideBlock1` at the head of the loop over
`q10ctr`. -/
def Inv10b (iv : Words 4) (m9mask m9m10mask q9base q10base : Nat) (s : St 25) : Prop :=
  Base iv [2, 4, 3, 1, 0, 15, 14, 11, 7, 6, 5] [20, 19, 18, 17, 16] s ∧
  Tun1 m9mask m9m10mask s.Q ∧ AgreeOff (tun9 m9mask m9m10mask) (s.q 9) q9base ∧
  AgreeOff (tun10 m9m10mask) (s.q 10) q10base ∧ q9base < 4294967296 ∧ q10base < 4294967296

/-- What holds of the variables of `MD5CollideBlock1` at the head of the loop over
`q9ctr`. -/
def Inv9b (iv : Words 4) (m9mask m9m10mask q9base q10base q9save a2 b2 c2 d2 : Nat)
    (s : St 25) : Prop :=
  Base iv [13, 10, 2, 4, 3, 1, 0, 15, 14, 11, 7, 6, 5] [20, 19, 18, 17, 16] s ∧
  Tun1 m9mask m9m10mask s.Q ∧ AgreeOff (tun9 m9mask m9m10mask) (s.q 9) q9base ∧
  AgreeOff (tun10 m9m10mask) (s.q 10) q10base ∧ q9base < 4294967296 ∧ q10base < 4294967296 ∧
  AgreeOff m9mask (s.q 9) q9save ∧ q9save < 4294967296 ∧
  AgreeOff (tun9 m9mask m9m10mask) q9save q9base ∧ Regs1 s a2 b2 c2 d2

/-- The variables of `MD5CollideBlock1` at the head of the second pass through its loop
`while(1)`, in the run on `exIV1` with the table `unclean_map` and
`time(NULL) = 1635797866`. -/
def exSample : St 25 :=
  ⟨8281943432909611991,
    ⟨[2305809833, 3314132273, 4188403304, 2503979504, 0, 2304538760, 2769355692, 1939331819,
      43619676, 2442854502, 1632198245, 2698518137, 1351176641, 42724113, 880732011,
      2435880523, 2540094731, 275441565, 3905115576, 3718277723, 0, 0, 0, 0, 0], rfl⟩,
    ⟨[0, 0, 0, 0, 0, 942874236, 2132853579, 0, 0, 0, 0, 0, 0, 0, 0, 0], rfl⟩⟩

/-- The variables of `MD5CollideBlock1` after `Q[2], ..., Q[16]` and `Q[1]` are accepted in
that pass. -/
def exSampled : St 25 :=
  ⟨8071511469494311781,
    ⟨[2305809833, 3314132273, 4188403304, 2503979504, 2978761584, 2834102826, 2887844654,
      1654119147, 312055132, 2442854502, 1632181861, 2715295353, 1351111105, 42724113,
      880109435, 2411435598, 2301415694, 1421208223, 3930594076, 3614655463, 369689667,
      2605587243, 4082855782, 3458077310, 3376619354], rfl⟩,
    ⟨[3451413169, 1680892939, 823938663, 3400870785, 2481882667, 293707096, 1209058249,
      3364380570, 0, 0, 0, 2902254501, 0, 0, 2988526450, 2450442023], rfl⟩⟩

/-! ## Definitions for the tables, the tunnel of `Q[4]`, the drivers and the generator -/

/-- The five condition tables `qconds`, `qc00`, `qc01`, `qc10`, `qc11`. -/
def condTables : List (List qcond) := [qconds, qc00, qc01, qc10, qc11]

/-- The update of `Q[4]` at the head of the loop over `q4ctr` in `MD5CollideBlock0`:
`(Q[4] & ~0x38000004) | (((q4ctr<<2)|(q4ctr<<26)) & 0x38000004)`. -/
def tunnel4 (q4 q4ctr : Nat) : Nat :=
  (q4 &&& not32 0x38000004) ||| (((q4ctr <<< 2) ||| (q4ctr <<< 26)) &&& 0x38000004)

/-- The condition of the loop `do { ... } while(...)` of `main` that draws the IV: `true`
when the IV is drawn again. -/
def ivRedraw (iv : Words 4) : Bool :=
  ((iv.get 2 >>> 25) &&& 1) == ((iv.get 2 >>> 24) &&& 1) ||
  ((iv.get 3 >>> 25) &&& 1) != ((iv.get 3 >>> 24) &&& 1)

/-- The body `for(int i = 0; i < 4; i++) iv[i] = getrand32(&rs);` followed by the test of
the loop `do { ... } while(...)` of `main`; the variables are `iv` and `rs`. -/
def drawBody (s : Words 4 × Nat) : Ctl (Words 4 × Nat) (Words 4 × Nat) :=
  let r0 := getrand32 s.2
  let r1 := getrand32 r0.2
  let r2 := getrand32 r1.2
  let r3 := getrand32 r2.2
  let iv : Words 4 := ⟨[r0.1, r1.1, r2.1, r3.1], rfl⟩
  if ivRedraw iv then Ctl.next (iv, r3.2) else Ctl.done (iv, r3.2)

/-- The start of `main`: `rs = time(NULL); rs = xorshift64star(&rs);` and the loop that
draws the IV, cut off after `fuel` passes. -/
def drawIV (time fuel : Nat) : Outcome (Words 4 × Nat) :=
  whileLoop drawBody fuel (stdIV, seedState time 0)

/-- The block-0 IV precondition as the specification states it:
`((IV[2]>>25)&1) != ((IV[2]>>24)&1)` and `((IV[3]>>25)&1) == ((IV[3]>>24)&1)`. -/
def IVPrecondition (iv : Words 4) : Prop :=
  ((iv.get 2 >>> 25) &&& 1) ≠ ((iv.get 2 >>> 24) &&& 1) ∧
  ((iv.get 3 >>> 25) &&& 1) = ((iv.get 3 >>> 24) &&& 1)

/-- The generator state after `n` calls of `getrand32`. -/
def stateAfter : Nat → Nat → Nat
  | 0, rs => rs
  | n + 1, rs => stateAfter n (getrand32 rs).2

/-- The `n`-th 32-bit draw (counted from 0) of the generator started in state `rs`. -/
def drawAt (n rs : Nat) : Nat := (getrand32 (stateAfter n rs)).1

/-- The registers `(a, b, c, d)`, under the names of the source, from the tuple that
`md5Steps` returns after `m` steps (modulo 4): `md5Steps` rotates the registers by one
place per step, this undoes the rotation. -/
def unrotate (m : Nat) (t : Nat × Nat × Nat × Nat) : Nat × Nat × Nat × Nat :=
  match t, m with
  | (w, x, y, z), 0 => (w, x, y, z)
  | (w, x, y, z), 1 => (x, y, z, w)
  | (w, x, y, z), 2 => (y, z, w, x)
  | (w, x, y, z), _ => (z, w, x, y)

/-- The registers `(a, b, c, d)`, under the names of the source, after step `k` of MD5
on `block` (`24 ≤ k ≤ 64`), when `a b c d` are the registers after step 24. -/
def regsAfter (block : Words 16) (a b c d : Nat) (k : Nat) : Nat × Nat × Nat × Nat :=
  unrotate (k % 4) (md5Steps block (k - 24) 24 a b c d)

/-- Register number `j` of `(a, b, c, d)`: 0 is `a`, 1 is `b`, 2 is `c`, 3 is `d`. -/
def regOf (r : Nat × Nat × Nat × Nat) (j : Nat) : Nat :=
  match j with
  | 0 => r.1
  | 1 => r.2.1
  | 2 => r.2.2.1
  | _ => r.2.2.2

/-- The column "register written" of the Round-4 parity table of the specification, as a
register number: `a, d, c, b` in rotation, `a` at the steps `k` with `k % 4 = 1`. -/
def regWritten (k : Nat) : Nat :=
  match k % 4 with
  | 1 => 0
  | 2 => 3
  | 3 => 2
  | _ => 1

/-- The column "required" of the Round-4 parity table of the specification for step `k`
(row 48 is the line "after step 48"), on the registers `(a, b, c, d)` after that step:
`(a ^ c) & 2^31 = 0` after a step that writes `a` or `c`, `(d ^ b) & 2^31 != 0` after
steps 50 and 60, `(d ^ b) & 2^31 = 0` after the other steps that write `d` or `b`. -/
def parityRow (k : Nat) (r : Nat × Nat × Nat × Nat) : Prop :=
  match r with
  | (a, b, c, d) =>
    if k % 2 = 1 then (a ^^^ c) &&& 0x80000000 = 0
    else if k = 50 ∨ k = 60 then (d ^^^ b) &&& 0x80000000 ≠ 0
    else (d ^^^ b) &&& 0x80000000 = 0

/-- The pre-rotate sum of step 35, `c + (F3(d, a, b) + block[11] + 0x6d9d6122)`, on the
registers `(a, b, c, d)` after step 34. -/
def preSum35 (block : Words 16) (r : Nat × Nat × Nat × Nat) : Nat :=
  match r with
  | (a, b, c, d) => add32 c (add32 (add32 (F3 d a b) (block.get 11)) 0x6d9d6122)

/-- The pre-rotate sum of step 23, `Q[19] + F2(Q[22], Q[21], Q[20]) + block[15] +
0xd8a1e681` (in the second block `c2 + F2(d2, a2, b2) + block[15] + 0xd8a1e681`); `w` is
the word `block[15]`. -/
def preSum23 (q19 q22 q21 q20 w : Nat) : Nat :=
  add32 (add32 (add32 q19 (F2 q22 q21 q20)) w) 0xd8a1e681

/-! ## Two runs side by side -/

/-- Two passes through a loop body take the same exit: both fall through, with variables
related by `R`, or both leave the loop, with results related by `P`, or both fail an
`assert`. -/
def Ctl.Rel {σ ρ : Type} (R : σ → σ → Prop) (P : ρ → ρ → Prop) : Ctl σ ρ → Ctl σ ρ → Prop
  | Ctl.next s, Ctl.next s1 => R s s1
  | Ctl.done r, Ctl.done r1 => P r r1
  | Ctl.abort, Ctl.abort => True
  | _, _ => False

/-- The variables `s` and `s1` of two runs hold the same generator state and the same
trail, and their buffers `block` agree on the words listed in `W`. -/
def SameOn {m : Nat} (W : List Nat) (s s1 : St m) : Prop :=
  s1.rs = s.rs ∧ s1.Q = s.Q ∧ ∀ i, i ∈ W → s1.block.get i = s.block.get i
/-! ## Bit-level lemmas -/

theorem testBit_of_lt32 {x : Nat} (hx : x < 4294967296) {i : Nat} (hi : 32 ≤ i) :
    x.testBit i = false := by
  apply Nat.testBit_lt_two_pow
  calc x < 2 ^ 32 := by simpa using hx
    _ ≤ 2 ^ i := Nat.pow_le_pow_right (by decide) hi

theorem testBit_shl32 (x s i : Nat) :
    (shl32 x s).testBit i = (decide (i < 32) && (decide (s ≤ i) && x.testBit (i - s))) := by
  have h : (4294967296 : Nat) = 2 ^ 32 := by norm_num
  unfold shl32
  rw [h, Nat.testBit_mod_two_pow, Nat.testBit_shiftLeft]

theorem shl32_lt (x s : Nat) : shl32 x s < 4294967296 := Nat.mod_lt _ (by decide)

theorem add32_lt (a b : Nat) : add32 a b < 4294967296 := by
  unfold add32
  exact Nat.mod_lt _ (by decide)

theorem sub32_lt (a b : Nat) : sub32 a b < 4294967296 := by
  unfold sub32
  exact Nat.mod_lt _ (by decide)

theorem testBit_rotl32 (w s i : Nat) :
    (rotl32 w s).testBit i
      = ((decide (i < 32) && (decide (s ≤ i) && w.testBit (i - s))) || w.testBit (32 - s + i)) := by
  unfold rotl32
  rw [Nat.testBit_or, testBit_shl32, Nat.testBit_shiftRight]

theorem testBit_rotr32 (x s i : Nat) :
    (rotr32 x s).testBit i
      = ((decide (i < 32) && (decide (32 - s ≤ i) && x.testBit (i - (32 - s)))) ||
          x.testBit (s + i)) := by
  unfold rotr32
  rw [Nat.testBit_or, testBit_shl32, Nat.testBit_shiftRight]

theorem rotl32_rotr32 {x s : Nat} (hx : x < 4294967296) (hs : s ≤ 32) :
    rotl32 (rotr32 x s) s = x := by
  apply Nat.eq_of_testBit_eq
  intro i
  rw [testBit_rotl32, testBit_rotr32, testBit_rotr32]
  by_cases h32 : i < 32
  · by_cases hsi : s ≤ i
    · have e1 : s + (i - s) = i := by omega
      have e2 : ¬ (32 - s ≤ i - s) ∨ s = 0 := by omega
      have e3 : ¬ (32 - s + i < 32) := by omega
      have e4 : x.testBit (s + (32 - s + i)) = false := testBit_of_lt32 hx (by omega)
      rcases e2 with e2 | e2
      · simp [h32, hsi, e1, e2, e3, e4]
      · subst e2
        have e5 : ¬ 32 ≤ i := by omega
        have e6 : x.testBit (32 + i) = false := testBit_of_lt32 hx (by omega)
        simp [e5, e6, h32]
    · have e1 : 32 - s + i - (32 - s) = i := by omega
      have e3 : 32 - s + i < 32 := by omega
      have e4 : x.testBit (s + (32 - s + i)) = false := testBit_of_lt32 hx (by omega)
      simp [h32, hsi, e1, e3, e4]
  · have e0 : x.testBit i = false := testBit_of_lt32 hx (by omega)
    have e3 : ¬ (32 - s + i < 32) := by omega
    have e4 : x.testBit (s + (32 - s + i)) = false := testBit_of_lt32 hx (by omega)
    simp [h32, e0, e3, e4]

theorem rotr32_rotl32 {x s : Nat} (hx : x < 4294967296) (hs : s ≤ 32) :
    rotr32 (rotl32 x s) s = x := by
  apply Nat.eq_of_testBit_eq
  intro i
  rw [testBit_rotr32, testBit_rotl32, testBit_rotl32]
  by_cases h32 : i < 32
  · by_cases hsi : 32 - s ≤ i
    · have e1 : 32 - s + (i - (32 - s)) = i := by omega
      have e2 : ¬ (s ≤ i - (32 - s)) ∨ s = 32 := by omega
      have e3 : ¬ (s + i < 32) := by omega
      have e4 : x.testBit (32 - s + (s + i)) = false := testBit_of_lt32 hx (by omega)
      rcases e2 with e2 | e2
      · simp [h32, hsi, e1, e2, e3, e4]
      · subst e2
        have e5 : ¬ 32 ≤ i := by omega
        have e6 : x.testBit (32 + i) = false := testBit_of_lt32 hx (by omega)
        simp [e5, e6, h32]
    · have e1 : s + i - s = i := by omega
      have e3 : s + i < 32 := by omega
      have e4 : x.testBit (32 - s + (s + i)) = false := testBit_of_lt32 hx (by omega)
      simp [h32, hsi, e1, e3, e4]
  · have e0 : x.testBit i = false := testBit_of_lt32 hx (by omega)
    have e3 : ¬ (s + i < 32) := by omega
    have e4 : x.testBit (32 - s + (s + i)) = false := testBit_of_lt32 hx (by omega)
    simp [h32, e0, e3, e4]

theorem rotl32_lt {w : Nat} (hw : w < 4294967296) (s : Nat) :
    rotl32 w s < 4294967296 := by
  have h : (4294967296 : Nat) = 2 ^ 32 := by norm_num
  rw [h]
  apply Nat.lt_pow_two_of_testBit
  intro i hi
  rw [testBit_rotl32]
  have e1 : ¬ (i < 32) := by omega
  have e2 : w.testBit (32 - s + i) = false := by
    by_cases hs32 : s ≤ 32
    · exact testBit_of_lt32 hw (by omega)
    · have : 32 - s + i = i := by omega
      rw [this]; exact testBit_of_lt32 hw (by omega)
  simp [e1, e2]

/-! ## Arrays -/

theorem Words.get_set {n : Nat} (v : Words n) (i j x : Nat) :
    (v.set i x).get j = if i = j ∧ i < n then x else v.get j := by
  unfold Words.get Words.set
  simp only [List.getD_eq_getElem?_getD, List.getElem?_set]
  by_cases hij : i = j
  · subst hij
    by_cases hi : i < n
    · have : i < v.data.length := by rw [v.len]; exact hi
      simp [hi, this]
    · have h1 : ¬ i < v.data.length := by rw [v.len]; exact hi
      have h2 : v.data[i]? = none := by
        apply List.getElem?_eq_none; omega
      simp [hi, h1, h2]
  · simp [hij]

theorem Words.get_set_ne {n : Nat} (v : Words n) {i j : Nat} (x : Nat) (h : i ≠ j) :
    (v.set i x).get j = v.get j := by
  rw [Words.get_set]; simp [h]

theorem Words.get_set_eq {n : Nat} (v : Words n) {i : Nat} (x : Nat) (h : i < n) :
    (v.set i x).get i = x := by
  rw [Words.get_set]; simp [h]

theorem Words.get_mk4 (a b c d : Nat) (h : [a, b, c, d].length = 4) :
    (⟨[a, b, c, d], h⟩ : Words 4).get 0 = a ∧ (⟨[a, b, c, d], h⟩ : Words 4).get 1 = b ∧
    (⟨[a, b, c, d], h⟩ : Words 4).get 2 = c ∧ (⟨[a, b, c, d], h⟩ : Words 4).get 3 = d :=
  ⟨rfl, rfl, rfl, rfl⟩

@[simp] theorem St.setB_Q {m : Nat} (s : St m) (i v : Nat) : (s.setB i v).Q = s.Q := rfl

@[simp] theorem St.setQ_block {m : Nat} (s : St m) (n v : Nat) : (s.setQ n v).block = s.block := rfl

@[simp] theorem St.setQ_Q {m : Nat} (s : St m) (n v : Nat) : (s.setQ n v).Q = s.Q.set (n + 3) v := rfl

@[simp] theorem St.setB_block {m : Nat} (s : St m) (i v : Nat) :
    (s.setB i v).block = s.block.set i v := rfl

/-! ## Loops -/

theorem Ctl.Sat.mono {σ ρ : Type} {Inv Inv1 : σ → Prop} {Post Post1 : ρ → Prop}
    (hI : ∀ s, Inv s → Inv1 s) (hP : ∀ r, Post r → Post1 r) {c : Ctl σ ρ}
    (h : c.Sat Inv Post) : c.Sat Inv1 Post1 := by
  cases c with
  | next s => exact hI s h
  | done r => exact hP r h
  | abort => trivial

theorem forLoop_sat {σ ρ : Type} (body : Nat → σ → Ctl σ ρ) (Inv : σ → Prop) (Post : ρ → Prop)
    (hbody : ∀ i s, Inv s → (body i s).Sat Inv Post) :
    ∀ n i s, Inv s → (forLoop body n i s).Sat Inv Post := by
  intro n
  induction n with
  | zero => intro i s hs; exact hs
  | succ n ih =>
    intro i s hs
    have hb := hbody i s hs
    unfold forLoop
    cases hc : body i s with
    | next s1 => rw [hc] at hb; exact ih (i + 1) s1 hb
    | done r => rw [hc] at hb; exact hb
    | abort => trivial

theorem whileLoop_sat {σ ρ : Type} (body : σ → Ctl σ ρ) (Inv : σ → Prop) (Post : ρ → Prop)
    (hbody : ∀ s, Inv s → (body s).Sat Inv Post) :
    ∀ fuel s r, Inv s → whileLoop body fuel s = Outcome.returned r → Post r := by
  intro fuel
  induction fuel with
  | zero => intro s r _ h; simp [whileLoop] at h
  | succ n ih =>
    intro s r hs h
    have hb := hbody s hs
    unfold whileLoop at h
    cases hc : body s with
    | next s1 => rw [hc] at hb h; exact ih s1 r hb h
    | done r1 =>
      rw [hc] at hb h
      simp only [Outcome.returned.injEq] at h
      rw [← h]; exact hb
    | abort => rw [hc] at h; simp at h

/-! ## Every `return` passes the final test -/

theorem q9body0_onlyFinish (asserts : Bool) (Compress : Words 4 → Words 16 → Words 4)
    (iv : Words 4) (badchars : Option (List Nat)) (Post : Ret 28 → Prop)
    (hfin : ∀ s a b c d, (finish0 asserts Compress iv s a b c d).Sat (fun _ => True) Post)
    (p8 p9 p12 q9base i : Nat) (s : St 28) :
    (q9body0 asserts Compress iv badchars p8 p9 p12 q9base i s).Sat (fun _ => True) Post := by
  unfold q9body0
  lift_lets
  intro s1 s2 s3 s4
  split_ifs
  all_goals first
    | trivial
    | (split
       · trivial
       · exact hfin _ _ _ _ _)

theorem q4body0_onlyFinish (asserts : Bool) (Compress : Words 4 → Words 16 → Words 4)
    (iv : Words 4) (badchars : Option (List Nat)) (Post : Ret 28 → Prop)
    (hfin : ∀ s a b c d, (finish0 asserts Compress iv s a b c d).Sat (fun _ => True) Post)
    (p8 p9 p12 q9base i : Nat) (s : St 28) :
    (q4body0 asserts Compress iv badchars p8 p9 p12 q9base i s).Sat (fun _ => True) Post := by
  unfold q4body0
  lift_lets
  intro s1 s2 s3 s4 s5
  split_ifs
  all_goals first
    | trivial
    | exact forLoop_sat _ _ _
        (fun j t _ => q9body0_onlyFinish asserts Compress iv badchars Post hfin _ _ _ _ j t)
        _ _ _ trivial

theorem q10body0_onlyFinish (asserts : Bool) (Compress : Words 4 → Words 16 → Words 4)
    (iv : Words 4) (badchars : Option (List Nat)) (Post : Ret 28 → Prop)
    (hfin : ∀ s a b c d, (finish0 asserts Compress iv s a b c d).Sat (fun _ => True) Post)
    (i : Nat) (s : St 28) :
    (q10body0 asserts Compress iv badchars i s).Sat (fun _ => True) Post := by
  unfold q10body0
  lift_lets
  intro s1 s2 s3 s4 s5 s6 t1 t2 t3 p8 p9 p12 q9base
  split_ifs
  all_goals first
    | trivial
    | exact forLoop_sat _ _ _
        (fun j t _ => q4body0_onlyFinish asserts Compress iv badchars Post hfin _ _ _ _ j t)
        _ _ _ trivial

theorem outerBody0_onlyFinish (asserts : Bool) (Compress : Words 4 → Words 16 → Words 4)
    (iv : Words 4) (badchars : Option (List Nat)) (Post : Ret 28 → Prop)
    (hfin : ∀ s a b c d, (finish0 asserts Compress iv s a b c d).Sat (fun _ => True) Post)
    (s : St 28) :
    (outerBody0 asserts Compress iv badchars s).Sat (fun _ => True) Post := by
  unfold outerBody0
  lift_lets
  intro s1 s2 s3 s4 s5 s6
  split_ifs
  all_goals first
    | trivial
    | (split
       · trivial
       · exact forLoop_sat _ _ _
           (fun j t _ => q10body0_onlyFinish asserts Compress iv badchars Post hfin j t)
           _ _ _ trivial
       · trivial)

theorem MD5CollideBlock0Run_onlyFinish (asserts : Bool)
    (Compress : Words 4 → Words 16 → Words 4) (iv : Words 4) (badchars : Option (List Nat))
    (Post : Ret 28 → Prop)
    (hfin : ∀ s a b c d, (finish0 asserts Compress iv s a b c d).Sat (fun _ => True) Post)
    (time : Nat) (block0 : Words 16) (fuel : Nat) (r : Ret 28)
    (h : MD5CollideBlock0Run asserts Compress iv badchars time block0 fuel = Outcome.returned r) :
    Post r :=
  whileLoop_sat _ (fun _ => True) Post
    (fun s _ => outerBody0_onlyFinish asserts Compress iv badchars Post hfin s) fuel _ r trivial h

theorem MD5CollideBlock0_eq_returned {asserts : Bool} {Compress : Words 4 → Words 16 → Words 4}
    {iv : Words 4} {badchars : Option (List Nat)} {time : Nat} {block0 : Words 16} {fuel : Nat}
    {block : Words 16}
    (h : MD5CollideBlock0 asserts Compress iv badchars time block0 fuel = Outcome.returned block) :
    ∃ r, MD5CollideBlock0Run asserts Compress iv badchars time block0 fuel = Outcome.returned r ∧
      r.st.block = block := by
  unfold MD5CollideBlock0 at h
  split at h
  · rename_i r hr
    simp only [Outcome.returned.injEq] at h
    exact ⟨r, hr, h⟩
  · simp at h
  · simp at h

/-! ## Differential closure of the first block -/

theorem finish0_closes (asserts : Bool) (Compress : Words 4 → Words 16 → Words 4) (iv : Words 4)
    (s : St 28) (a b c d : Nat) :
    (finish0 asserts Compress iv s a b c d).Sat (fun _ => True)
      (fun r => Closes0 Compress iv r.st.block) := by
  unfold finish0
  lift_lets
  intro n1 n2 n3 block2 iv1 iv2
  split_ifs with h1 h2 h3
  · trivial
  · trivial
  · simp only [Bool.and_eq_true, beq_iff_eq] at h3
    exact ⟨h3.1.1.1, h3.1.1.2, h3.1.2, h3.2⟩
  · trivial

theorem pairBlock0_eq (block : Words 16) : pairBlock0 block = addDelta0 block := by
  unfold pairBlock0 addDelta0
  simp only [Words.get_set_ne _ _ (show (4 : Nat) ≠ 11 by decide),
    Words.get_set_ne _ _ (show (4 : Nat) ≠ 14 by decide),
    Words.get_set_ne _ _ (show (11 : Nat) ≠ 14 by decide)]
  rfl

theorem sub32_add32_cancel (b D : Nat) (hD : D < 4294967296) :
    sub32 (add32 b D) b = D := by
  unfold sub32 add32
  omega

/-- C1.  Differential closure of the first block: whenever `MD5CollideBlock0` returns
(for every chaining value, bad-character table or none, seed `time` of the random stream,
initial buffer contents and build mode), the returned block `block` and its pair
`addDelta0 block` are compressed from `iv` to chaining values whose componentwise
difference modulo `2^32` is `(2^31, 2^31+2^25, 2^31+2^25, 2^31+2^25)`. -/
theorem MD5CollideBlock0_differential_closure (asserts : Bool)
    (Compress : Words 4 → Words 16 → Words 4) (iv : Words 4) (badchars : Option (List Nat))
    (time : Nat) (block0 : Words 16) (fuel : Nat) (block : Words 16)
    (h : MD5CollideBlock0 asserts Compress iv badchars time block0 fuel
      = Outcome.returned block) :
    sub32 ((Compress iv (addDelta0 block)).get 0) ((Compress iv block).get 0) = 2 ^ 31 ∧
    sub32 ((Compress iv (addDelta0 block)).get 1) ((Compress iv block).get 1)
      = 2 ^ 31 + 2 ^ 25 ∧
    sub32 ((Compress iv (addDelta0 block)).get 2) ((Compress iv block).get 2)
      = 2 ^ 31 + 2 ^ 25 ∧
    sub32 ((Compress iv (addDelta0 block)).get 3) ((Compress iv block).get 3)
      = 2 ^ 31 + 2 ^ 25 := by
  obtain ⟨r, hr, hb⟩ := MD5CollideBlock0_eq_returned h
  have hc := MD5CollideBlock0Run_onlyFinish asserts Compress iv badchars
    (fun r => Closes0 Compress iv r.st.block) (finish0_closes asserts Compress iv)
    time block0 fuel r hr
  simp only [] at hc
  rw [hb] at hc
  unfold Closes0 at hc
  rw [pairBlock0_eq] at hc
  obtain ⟨h0, h1, h2, h3⟩ := hc
  rw [h0, h1, h2, h3]
  exact ⟨sub32_add32_cancel _ _ (by norm_num), sub32_add32_cancel _ _ (by norm_num),
    sub32_add32_cancel _ _ (by norm_num), sub32_add32_cancel _ _ (by norm_num)⟩

/-! ## Every `return` of the second block passes the final test -/

theorem q9body1_onlyFinish (asserts : Bool) (Compress : Words 4 → Words 16 → Words 4)
    (iv : Words 4) (badchars : Option (List Nat)) (Post : Ret1 → Prop)
    (hfin : ∀ s a b c d a2 b2 c2 d2,
      (finish1 asserts Compress iv s a b c d a2 b2 c2 d2).Sat (fun _ => True) Post)
    (q9m9bits : List Nat) (a2 b2 c2 d2 q9save i : Nat) (s : St 25) :
    (q9body1 asserts Compress iv badchars q9m9bits a2 b2 c2 d2 q9save i s).Sat
      (fun _ => True) Post := by
  unfold q9body1
  lift_lets
  intro s1 s2 s3 s4
  split_ifs
  all_goals first
    | trivial
    | (split
       · trivial
       · exact hfin _ _ _ _ _ _ _ _ _)

theorem q10body1_onlyFinish (asserts : Bool) (Compress : Words 4 → Words 16 → Words 4)
    (iv : Words 4) (badchars : Option (List Nat)) (Post : Ret1 → Prop)
    (hfin : ∀ s a b c d a2 b2 c2 d2,
      (finish1 asserts Compress iv s a b c d a2 b2 c2 d2).Sat (fun _ => True) Post)
    (qc : List qcond) (q9m9bits q9q10bits : List Nat) (q9base q10base i : Nat) (s : St 25) :
    (q10body1 asserts Compress iv badchars qc q9m9bits q9q10bits q9base q10base i s).Sat
      (fun _ => True) Post := by
  unfold q10body1
  lift_lets
  intro s1 q9save s2 s3 a2 b2 c2 d2 d2a c2a c2b c2c b2a s4
  split_ifs
  all_goals first
    | trivial
    | exact forLoop_sat _ _ _
        (fun j t _ => q9body1_onlyFinish asserts Compress iv badchars Post hfin _ _ _ _ _ _ j t)
        _ _ _ trivial

theorem tunnels1_onlyFinish (asserts : Bool) (Compress : Words 4 → Words 16 → Words 4)
    (iv : Words 4) (badchars : Option (List Nat)) (Post : Ret1 → Prop)
    (hfin : ∀ s a b c d a2 b2 c2 d2,
      (finish1 asserts Compress iv s a b c d a2 b2 c2 d2).Sat (fun _ => True) Post)
    (qc : List qcond) (m9mask m9m10mask : Nat) (q9m9bits q9q10bits : List Nat) (num : Nat)
    (s : St 25) :
    (tunnels1 asserts Compress iv badchars qc m9mask m9m10mask q9m9bits q9q10bits num s).Sat
      (fun _ => True) Post := by
  unfold tunnels1
  lift_lets
  intro q9base q10base
  split_ifs
  all_goals first
    | trivial
    | exact forLoop_sat _ _ _
        (fun j t _ => q10body1_onlyFinish asserts Compress iv badchars Post hfin _ _ _ _ _ j t)
        _ _ _ trivial

theorem outerBody1_onlyFinish (asserts : Bool) (Compress : Words 4 → Words 16 → Words 4)
    (iv : Words 4) (badchars : Option (List Nat)) (Post : Ret1 → Prop)
    (hfin : ∀ s a b c d a2 b2 c2 d2,
      (finish1 asserts Compress iv s a b c d a2 b2 c2 d2).Sat (fun _ => True) Post)
    (qc : List qcond) (m9mask m9m10mask : Nat) (q9m9bits q9q10bits : List Nat) (num : Nat)
    (s : St 25) :
    (outerBody1 asserts Compress iv badchars qc m9mask m9m10mask q9m9bits q9q10bits num s).Sat
      (fun _ => True) Post := by
  unfold outerBody1
  lift_lets
  intro s1 s2 s3 s4 s5 s6 s7 s8
  split_ifs
  all_goals first
    | trivial
    | (split
       · trivial
       · exact tunnels1_onlyFinish asserts Compress iv badchars Post hfin _ _ _ _ _ _ _
       · trivial)

theorem MD5CollideBlock1Run_onlyFinish (asserts : Bool)
    (Compress : Words 4 → Words 16 → Words 4) (iv : Words 4) (badchars : Option (List Nat))
    (Post : Ret1 → Prop)
    (hfin : ∀ s a b c d a2 b2 c2 d2,
      (finish1 asserts Compress iv s a b c d a2 b2 c2 d2).Sat (fun _ => True) Post)
    (time : Nat) (block0 : Words 16) (fuel : Nat) (r : Ret1)
    (h : MD5CollideBlock1Run asserts Compress iv badchars time block0 fuel = Outcome.returned r) :
    Post r := by
  unfold MD5CollideBlock1Run at h
  split at h
  · simp at h
  · simp at h
  · split at h
    · simp at h
    · simp at h
    · exact whileLoop_sat _ (fun _ => True) Post
        (fun s _ => outerBody1_onlyFinish asserts Compress iv badchars Post hfin _ _ _ _ _ _ s)
        fuel _ r trivial h

theorem MD5CollideBlock1_eq_returned {asserts : Bool} {Compress : Words 4 → Words 16 → Words 4}
    {iv : Words 4} {badchars : Option (List Nat)} {time : Nat} {block0 : Words 16} {fuel : Nat}
    {block : Words 16}
    (h : MD5CollideBlock1 asserts Compress iv badchars time block0 fuel = Outcome.returned block) :
    ∃ r, MD5CollideBlock1Run asserts Compress iv badchars time block0 fuel = Outcome.returned r ∧
      r.st.block = block := by
  unfold MD5CollideBlock1 at h
  split at h
  · rename_i r hr
    simp only [Outcome.returned.injEq] at h
    exact ⟨r, hr, h⟩
  · simp at h
  · simp at h

/-! ## Differential closure of the second block -/

theorem finish1_closes (asserts : Bool) (Compress : Words 4 → Words 16 → Words 4) (iv : Words 4)
    (s : St 25) (a b c d a2 b2 c2 d2 : Nat) :
    (finish1 asserts Compress iv s a b c d a2 b2 c2 d2).Sat (fun _ => True)
      (fun r => Closes1 Compress iv r.st.block) := by
  unfold finish1
  lift_lets
  intro block2 iv1 iv2
  split_ifs with h1 h2
  · trivial
  · simp only [Bool.and_eq_true, beq_iff_eq] at h2
    exact ⟨h2.1.1.1, h2.1.1.2, h2.1.2, h2.2⟩
  · trivial

theorem pairBlock1_eq (block : Words 16) : pairBlock1 block = subDelta1 block := by
  unfold pairBlock1 subDelta1
  simp only [Words.get_set_ne _ _ (show (4 : Nat) ≠ 11 by decide),
    Words.get_set_ne _ _ (show (4 : Nat) ≠ 14 by decide),
    Words.get_set_ne _ _ (show (11 : Nat) ≠ 14 by decide)]
  rfl

theorem shiftIV_eq (iv : Words 4) : shiftIV iv = addDeltaIV iv := by
  unfold shiftIV addDeltaIV
  norm_num

theorem Words.ext_get {n : Nat} {v w : Words n} (h : ∀ i, i < n → v.get i = w.get i) : v = w := by
  cases v with
  | mk dv lv =>
    cases w with
    | mk dw lw =>
      have hd : dv = dw := by
        apply List.ext_getElem (by rw [lv, lw])
        intro i h1 h2
        have hi := h i (by rw [← lv]; exact h1)
        simp only [Words.get, List.getD_eq_getElem?_getD] at hi
        rw [List.getElem?_eq_getElem h1, List.getElem?_eq_getElem h2] at hi
        simpa using hi
      subst hd
      rfl

theorem MD5CollideBlock1_closes (asserts : Bool) (Compress : Words 4 → Words 16 → Words 4)
    (iv : Words 4) (badchars : Option (List Nat)) (time : Nat) (block0 : Words 16) (fuel : Nat)
    (block : Words 16)
    (h : MD5CollideBlock1 asserts Compress iv badchars time block0 fuel
      = Outcome.returned block) :
    Compress (addDeltaIV iv) (subDelta1 block) = Compress iv block := by
  obtain ⟨r, hr, hb⟩ := MD5CollideBlock1_eq_returned h
  have hc := MD5CollideBlock1Run_onlyFinish asserts Compress iv badchars
    (fun r => Closes1 Compress iv r.st.block) (finish1_closes asserts Compress iv)
    time block0 fuel r hr
  simp only [] at hc
  rw [hb] at hc
  unfold Closes1 at hc
  rw [pairBlock1_eq, shiftIV_eq] at hc
  obtain ⟨h0, h1, h2, h3⟩ := hc
  apply Words.ext_get
  intro i hi
  have : i = 0 ∨ i = 1 ∨ i = 2 ∨ i = 3 := by omega
  rcases this with rfl | rfl | rfl | rfl
  · exact h0
  · exact h1
  · exact h2
  · exact h3

/-- C2.  Differential closure of the second block: whenever `MD5CollideBlock1` returns
(for every chaining value, bad-character table or none, seed `time` of the random stream,
initial buffer contents and build mode), compressing the paired block `subDelta1 block`
from `iv + (2^31, 2^31+2^25, 2^31+2^25, 2^31+2^25)` gives the same four words as
compressing the returned block from `iv`. -/
theorem MD5CollideBlock1_differential_closure (asserts : Bool)
    (Compress : Words 4 → Words 16 → Words 4) (iv : Words 4) (badchars : Option (List Nat))
    (time : Nat) (block0 : Words 16) (fuel : Nat) (block : Words 16)
    (h : MD5CollideBlock1 asserts Compress iv badchars time block0 fuel
      = Outcome.returned block) :
    (Compress (addDeltaIV iv) (subDelta1 block)).get 0 = (Compress iv block).get 0 ∧
    (Compress (addDeltaIV iv) (subDelta1 block)).get 1 = (Compress iv block).get 1 ∧
    (Compress (addDeltaIV iv) (subDelta1 block)).get 2 = (Compress iv block).get 2 ∧
    (Compress (addDeltaIV iv) (subDelta1 block)).get 3 = (Compress iv block).get 3 := by
  have hc := MD5CollideBlock1_closes asserts Compress iv badchars time block0 fuel block h
  rw [hc]
  exact ⟨rfl, rfl, rfl, rfl⟩

theorem MD5CollideBlock0_closes (asserts : Bool) (Compress : Words 4 → Words 16 → Words 4)
    (iv : Words 4) (badchars : Option (List Nat)) (time : Nat) (block0 : Words 16) (fuel : Nat)
    (block : Words 16)
    (h : MD5CollideBlock0 asserts Compress iv badchars time block0 fuel
      = Outcome.returned block) :
    Compress iv (addDelta0 block) = addDeltaIV (Compress iv block) := by
  obtain ⟨r, hr, hb⟩ := MD5CollideBlock0_eq_returned h
  have hc := MD5CollideBlock0Run_onlyFinish asserts Compress iv badchars
    (fun r => Closes0 Compress iv r.st.block) (finish0_closes asserts Compress iv)
    time block0 fuel r hr
  simp only [] at hc
  rw [hb] at hc
  unfold Closes0 at hc
  rw [pairBlock0_eq] at hc
  obtain ⟨h0, h1, h2, h3⟩ := hc
  rw [← shiftIV_eq]
  have hg := Words.get_mk4 (add32 ((Compress iv block).get 0) 0x80000000)
    (add32 ((Compress iv block).get 1) 0x82000000) (add32 ((Compress iv block).get 2) 0x82000000)
    (add32 ((Compress iv block).get 3) 0x82000000) (Eq.refl 4)
  apply Words.ext_get
  intro i hi
  have : i = 0 ∨ i = 1 ∨ i = 2 ∨ i = 3 := by omega
  rcases this with rfl | rfl | rfl | rfl
  · rw [h0]; exact hg.1.symm
  · rw [h1]; exact hg.2.1.symm
  · rw [h2]; exact hg.2.2.1.symm
  · rw [h3]; exact hg.2.2.2.symm

/-- C3.  End-to-end collision: if `B0` is returned by `MD5CollideBlock0` on `iv` and `B1`
is returned by `MD5CollideBlock1` on the chaining value `Compress iv B0`, then the
two-block messages `B0, B1` and `addDelta0 B0, subDelta1 B1` are compressed from `iv` to
the same chaining value. -/
theorem two_block_collision (asserts0 asserts1 : Bool)
    (Compress : Words 4 → Words 16 → Words 4) (iv : Words 4)
    (badchars0 badchars1 : Option (List Nat)) (time0 time1 : Nat) (buf0 buf1 : Words 16)
    (fuel0 fuel1 : Nat) (B0 B1 : Words 16)
    (h0 : MD5CollideBlock0 asserts0 Compress iv badchars0 time0 buf0 fuel0
      = Outcome.returned B0)
    (h1 : MD5CollideBlock1 asserts1 Compress (Compress iv B0) badchars1 time1 buf1 fuel1
      = Outcome.returned B1) :
    Compress (Compress iv B0) B1 = Compress (Compress iv (addDelta0 B0)) (subDelta1 B1) := by
  rw [MD5CollideBlock0_closes asserts0 Compress iv badchars0 time0 buf0 fuel0 B0 h0]
  exact (MD5CollideBlock1_closes asserts1 Compress (Compress iv B0) badchars1 time1 buf1 fuel1
    B1 h1).symm

/-! ## The paired messages written by `main` -/

theorem add32_pow31_ne (x : Nat) : add32 x (1 <<< 31) ≠ x := by
  unfold add32
  norm_num
  omega

theorem add32_pow15_ne (x : Nat) : add32 x (1 <<< 15) ≠ x := by
  unfold add32
  norm_num
  omega

theorem sub32_pow31_ne (x : Nat) : sub32 x (1 <<< 31) ≠ x := by
  unfold sub32
  norm_num
  omega

theorem sub32_pow15_ne (x : Nat) : sub32 x (1 <<< 15) ≠ x := by
  unfold sub32
  norm_num
  omega

theorem mainPair_fst_get (block block2 : Words 16) (i : Nat) :
    (mainPair block block2).1.get i =
      if i = 4 then add32 (block.get 4) (1 <<< 31)
      else if i = 11 then add32 (block.get 11) (1 <<< 15)
      else if i = 14 then add32 (block.get 14) (1 <<< 31)
      else block.get i := by
  unfold mainPair
  simp only [Words.get_set]
  by_cases h4 : i = 4
  · subst h4; simp
  · by_cases h11 : i = 11
    · subst h11; simp
    · by_cases h14 : i = 14
      · subst h14; simp
      · simp [h4, h11, h14, Ne.symm h4, Ne.symm h11, Ne.symm h14]

theorem mainPair_snd_get (block block2 : Words 16) (i : Nat) :
    (mainPair block block2).2.get i =
      if i = 4 then sub32 (block2.get 4) (1 <<< 31)
      else if i = 11 then sub32 (block2.get 11) (1 <<< 15)
      else if i = 14 then sub32 (block2.get 14) (1 <<< 31)
      else block2.get i := by
  unfold mainPair
  simp only [Words.get_set]
  by_cases h4 : i = 4
  · subst h4; simp
  · by_cases h11 : i = 11
    · subst h11; simp
    · by_cases h14 : i = 14
      · subst h14; simp
      · simp [h4, h11, h14, Ne.symm h4, Ne.symm h11, Ne.symm h14]

/-- C4.  The paired message written by `main` differs from `(B0, B1)` in exactly six
words: for each of the two blocks, word `i` is changed if and only if `i` is 4, 11 or 14
(so the other 26 words are equal), and the two 32-word messages are never equal. -/
theorem mainPair_differs_in_six_words (B0 B1 : Words 16) :
    (∀ i, i < 16 → ((mainPair B0 B1).1.get i ≠ B0.get i ↔ (i = 4 ∨ i = 11 ∨ i = 14))) ∧
    (∀ i, i < 16 → ((mainPair B0 B1).2.get i ≠ B1.get i ↔ (i = 4 ∨ i = 11 ∨ i = 14))) ∧
    (mainPair B0 B1).1.data ++ (mainPair B0 B1).2.data ≠ B0.data ++ B1.data := by
  refine ⟨?_, ?_, ?_⟩
  · intro i _
    rw [mainPair_fst_get]
    by_cases h4 : i = 4
    · subst h4; simpa using add32_pow31_ne _
    · by_cases h11 : i = 11
      · subst h11; simpa using add32_pow15_ne _
      · by_cases h14 : i = 14
        · subst h14; simpa using add32_pow31_ne _
        · simp [h4, h11, h14]
  · intro i _
    rw [mainPair_snd_get]
    by_cases h4 : i = 4
    · subst h4; simpa using sub32_pow31_ne _
    · by_cases h11 : i = 11
      · subst h11; simpa using sub32_pow15_ne _
      · by_cases h14 : i = 14
        · subst h14; simpa using sub32_pow31_ne _
        · simp [h4, h11, h14]
  · intro h
    have hl : (mainPair B0 B1).1.data.length = B0.data.length := by
      rw [(mainPair B0 B1).1.len, B0.len]
    have h1 := (List.append_inj h hl).1
    have h2 : (mainPair B0 B1).1.get 4 = B0.get 4 := by
      unfold Words.get; rw [h1]
    rw [mainPair_fst_get] at h2
    exact add32_pow31_ne _ (by simpa using h2)

/-! ## The bad-character test -/

/-- C6.  `HAS_BAD_CHARS(w)` is true exactly when one of the four table entries selected by
the bytes of `w` is nonzero, and it is false for every `w` when `badchars` is `NULL`. -/
theorem HAS_BAD_CHARS_iff (w : Nat) :
    (∀ t : List Nat, HAS_BAD_CHARS (some t) w = true ↔
      (t.getD (w &&& 255) 0 ≠ 0 ∨ t.getD ((w >>> 8) &&& 255) 0 ≠ 0 ∨
        t.getD ((w >>> 16) &&& 255) 0 ≠ 0 ∨ t.getD ((w >>> 24) &&& 255) 0 ≠ 0)) ∧
    HAS_BAD_CHARS none w = false := by
  constructor
  · intro t
    simp only [HAS_BAD_CHARS, Bool.or_eq_true, bne_iff_ne, ne_eq, or_assoc]
  · rfl

/-! ## Step and unstep -/

theorem testBit_not32 (x i : Nat) :
    (not32 x).testBit i = (decide (i < 32) ^^ x.testBit i) := by
  have h : (4294967295 : Nat) = 2 ^ 32 - 1 := by norm_num
  unfold not32
  rw [Nat.testBit_xor, h, Nat.testBit_two_pow_sub_one]

theorem rotr32_lt {x : Nat} (hx : x < 4294967296) (s : Nat) : rotr32 x s < 4294967296 := by
  have h : (4294967296 : Nat) = 2 ^ 32 := by norm_num
  rw [h]
  apply Nat.lt_pow_two_of_testBit
  intro i hi
  rw [testBit_rotr32]
  have e1 : ¬ (i < 32) := by omega
  have e2 : x.testBit (s + i) = false := testBit_of_lt32 hx (by omega)
  simp [e1, e2]

theorem step_of_unstep (f w q3 q4 k s : Nat) (hs : s ≤ 32) (h4 : q4 < 4294967296) :
    add32 (rotl32 (add32 w (add32 f (add32
      (sub32 (sub32 (sub32 (rotr32 (sub32 q4 q3) s) f) k) w) k))) s) q3 = q4 := by
  have hX : sub32 q4 q3 < 4294967296 := sub32_lt _ _
  have hR : rotr32 (sub32 q4 q3) s < 4294967296 := rotr32_lt hX s
  have e1 : add32 w (add32 f (add32
      (sub32 (sub32 (sub32 (rotr32 (sub32 q4 q3) s) f) k) w) k)) = rotr32 (sub32 q4 q3) s := by
    generalize rotr32 (sub32 q4 q3) s = R at hR ⊢
    unfold add32 sub32
    omega
  rw [e1, rotl32_rotr32 hX hs]
  unfold add32 sub32
  omega

theorem unstep_of_step (f w q3 q4 k s mw : Nat) (hs : s ≤ 32) (hm : mw < 4294967296)
    (h : q4 = add32 (rotl32 (add32 w (add32 f (add32 mw k))) s) q3) :
    sub32 (sub32 (sub32 (rotr32 (sub32 q4 q3) s) f) k) w = mw := by
  have hW : add32 w (add32 f (add32 mw k)) < 4294967296 := add32_lt _ _
  have hL : rotl32 (add32 w (add32 f (add32 mw k))) s < 4294967296 := rotl32_lt hW s
  have e1 : sub32 q4 q3 = rotl32 (add32 w (add32 f (add32 mw k))) s := by
    rw [h]
    generalize rotl32 (add32 w (add32 f (add32 mw k))) s = L at hL ⊢
    unfold add32 sub32
    omega
  rw [e1, rotr32_rotl32 hW hs]
  unfold add32 sub32
  omega

/-- C7.  Step and unstep are mutual inverses.  For a trail `Q` with a 32-bit `Q[n+1]`, a step
`n`, a constant `k` and a shift `1 ≤ s ≤ 31`: the forward step `MD5STEP` from `Q[n-3]`
with `Q[n], Q[n-1], Q[n-2]` on the message word `MD5UNSTEP(Q, n, k, s)` plus `k` yields
`Q[n+1]`; and if `Q[n+1]` is the result of that forward step on a 32-bit message word `mw`
then `MD5UNSTEP(Q, n, k, s)` is `mw`.  The same holds for `MD5UNSTEP2` with `F2`. -/
theorem MD5STEP_MD5UNSTEP_inverse {m : Nat} (Q : Words m) (n k s : Nat)
    (hs : 1 ≤ s ∧ s ≤ 31) (hQ : Q.get (n + 4) < 2 ^ 32) :
    MD5STEP F1 (Q.get n) (Q.get (n + 3)) (Q.get (n + 2)) (Q.get (n + 1))
        (add32 (MD5UNSTEP Q n k s) k) s = Q.get (n + 4) ∧
    (∀ mw, mw < 2 ^ 32 →
      Q.get (n + 4) = MD5STEP F1 (Q.get n) (Q.get (n + 3)) (Q.get (n + 2)) (Q.get (n + 1))
        (add32 mw k) s → MD5UNSTEP Q n k s = mw) ∧
    MD5STEP F2 (Q.get n) (Q.get (n + 3)) (Q.get (n + 2)) (Q.get (n + 1))
        (add32 (MD5UNSTEP2 Q n k s) k) s = Q.get (n + 4) ∧
    (∀ mw, mw < 2 ^ 32 →
      Q.get (n + 4) = MD5STEP F2 (Q.get n) (Q.get (n + 3)) (Q.get (n + 2)) (Q.get (n + 1))
        (add32 mw k) s → MD5UNSTEP2 Q n k s = mw) := by
  have h4 : Q.get (n + 4) < 4294967296 := by simpa using hQ
  have hs32 : s ≤ 32 := by omega
  refine ⟨?_, ?_, ?_, ?_⟩
  · unfold MD5STEP MD5UNSTEP
    exact step_of_unstep _ _ _ _ _ _ hs32 h4
  · intro mw hm h
    unfold MD5UNSTEP
    unfold MD5STEP at h
    exact unstep_of_step _ _ _ _ _ _ mw hs32 (by simpa using hm) h
  · unfold MD5STEP MD5UNSTEP2
    exact step_of_unstep _ _ _ _ _ _ hs32 h4
  · intro mw hm h
    unfold MD5UNSTEP2
    unfold MD5STEP at h
    exact unstep_of_step _ _ _ _ _ _ mw hs32 (by simpa using hm) h

/-! ## The round functions -/

theorem F1_eq_unoptimized {x y z : Nat} (hz : z < 4294967296) :
    F1 x y z = F1_unoptimized x y z := by
  apply Nat.eq_of_testBit_eq
  intro i
  unfold F1 F1_unoptimized
  simp only [Nat.testBit_xor, Nat.testBit_and, Nat.testBit_or, testBit_not32]
  by_cases hi : i < 32
  · simp only [hi, decide_True]
    cases x.testBit i <;> cases y.testBit i <;> cases z.testBit i <;> rfl
  · have hzi : z.testBit i = false := testBit_of_lt32 hz (by omega)
    simp only [hi, hzi, decide_False]
    cases x.testBit i <;> cases y.testBit i <;> rfl

/-- C8.  The four round functions are the standard MD5 ones on 32-bit words (the bound on
`x` is not needed): the
optimised `F1` equals `(x & y) | (~x & z)`, `F2` equals `(x & z) | (y & ~z)`, `F3` is
`x ^ y ^ z` and `F4` is `y ^ (x | ~z)`. -/
theorem round_functions_standard (x y z : Nat) (hy : y < 2 ^ 32) (hz : z < 2 ^ 32) :
    F1 x y z = F1_unoptimized x y z ∧ F2 x y z = F2_standard x y z ∧
    F3 x y z = F3_standard x y z ∧ F4 x y z = F4_standard x y z := by
  have hy1 : y < 4294967296 := by simpa using hy
  have hz1 : z < 4294967296 := by simpa using hz
  refine ⟨F1_eq_unoptimized hz1, ?_, ?_, ?_⟩
  · apply Nat.eq_of_testBit_eq
    intro i
    unfold F2 F1 F2_standard
    simp only [Nat.testBit_xor, Nat.testBit_and, Nat.testBit_or, testBit_not32]
    by_cases hi : i < 32
    · simp only [hi, decide_True]
      cases x.testBit i <;> cases y.testBit i <;> cases z.testBit i <;> rfl
    · have hyi : y.testBit i = false := testBit_of_lt32 hy1 (by omega)
      have hzi : z.testBit i = false := testBit_of_lt32 hz1 (by omega)
      simp only [hi, hyi, hzi, decide_False]
      cases x.testBit i <;> rfl
  · unfold F3 F3_standard
    exact Eq.refl _
  · unfold F4 F4_standard
    exact Eq.refl _

/-! ## Two runs that return -/

set_option maxRecDepth 1000000 in
theorem run0_example :
    MD5CollideBlock0Run true MD5Transform stdIV (some unclean_map) 1612755449 zeroBlock 1
      = Outcome.returned exRet0 := by
  decide!

set_option maxRecDepth 1000000 in
theorem transform_example : MD5Transform stdIV exRet0.st.block = exIV1 := by
  decide!

set_option maxRecDepth 1000000 in
theorem run1_example :
    MD5CollideBlock1Run true MD5Transform exIV1 (some unclean_map) 1635797866 zeroBlock 2
      = Outcome.returned exRet1 := by
  decide!

theorem block0_example :
    MD5CollideBlock0 true MD5Transform stdIV (some unclean_map) 1612755449 zeroBlock 1
      = Outcome.returned exRet0.st.block := by
  unfold MD5CollideBlock0
  rw [run0_example]

theorem block1_example :
    MD5CollideBlock1 true MD5Transform exIV1 (some unclean_map) 1635797866 zeroBlock 2
      = Outcome.returned exRet1.st.block := by
  unfold MD5CollideBlock1
  rw [run1_example]

/-! ## Bitwise facts behind the conditions -/

theorem sample_passes (r p mask pmask inv cbits : Nat) (h1 : mask &&& cbits = 0)
    (h2 : pmask &&& cbits = pmask) (h3 : inv &&& cbits = inv) :
    ((((r &&& mask) ||| (p &&& pmask)) ^^^ inv) &&& cbits) ^^^ (p &&& pmask) = inv := by
  apply Nat.eq_of_testBit_eq
  intro i
  have e1 := congrArg (fun z => Nat.testBit z i) h1
  have e2 := congrArg (fun z => Nat.testBit z i) h2
  have e3 := congrArg (fun z => Nat.testBit z i) h3
  simp only [Nat.testBit_and, Nat.testBit_or, Nat.testBit_xor, Nat.zero_testBit] at e1 e2 e3 ⊢
  revert e1 e2 e3
  cases r.testBit i <;> cases p.testBit i <;> cases mask.testBit i <;> cases pmask.testBit i <;>
    cases inv.testBit i <;> cases cbits.testBit i <;> simp

theorem testBit_of_lt32_true {c : Nat} (hc : c < 4294967296) {i : Nat} (h : c.testBit i = true) :
    i < 32 := by
  by_contra hi
  rw [testBit_of_lt32 hc (by omega)] at h
  exact Bool.false_ne_true h

theorem masked_write_and (x y t c : Nat) (h : t &&& c = 0) (hc : c < 4294967296) :
    ((x &&& not32 t) ||| (y &&& t)) &&& c = x &&& c := by
  apply Nat.eq_of_testBit_eq
  intro i
  have e1 := congrArg (fun z => Nat.testBit z i) h
  simp only [Nat.testBit_and, Nat.testBit_or, Nat.zero_testBit, testBit_not32] at e1 ⊢
  by_cases hci : c.testBit i = true
  · have hi : i < 32 := testBit_of_lt32_true hc hci
    rw [hci] at e1
    simp only [hci, hi, decide_True]
    revert e1
    cases x.testBit i <;> cases y.testBit i <;> cases t.testBit i <;> simp
  · simp only [Bool.not_eq_true] at hci
    simp [hci]

theorem and_not32_and (x t c : Nat) (h : t &&& c = 0) (hc : c < 4294967296) :
    (x &&& not32 t) &&& c = x &&& c := by
  apply Nat.eq_of_testBit_eq
  intro i
  have e1 := congrArg (fun z => Nat.testBit z i) h
  simp only [Nat.testBit_and, Nat.zero_testBit, testBit_not32] at e1 ⊢
  by_cases hci : c.testBit i = true
  · have hi : i < 32 := testBit_of_lt32_true hc hci
    rw [hci] at e1
    simp only [hci, hi, decide_True]
    revert e1
    cases x.testBit i <;> cases t.testBit i <;> simp
  · simp only [Bool.not_eq_true] at hci
    simp [hci]

theorem or_masked_and (x y t c : Nat) (h : t &&& c = 0) :
    (x ||| (y &&& t)) &&& c = x &&& c := by
  apply Nat.eq_of_testBit_eq
  intro i
  have e1 := congrArg (fun z => Nat.testBit z i) h
  simp only [Nat.testBit_and, Nat.testBit_or, Nat.zero_testBit] at e1 ⊢
  revert e1
  cases x.testBit i <;> cases y.testBit i <;> cases t.testBit i <;> cases c.testBit i <;> simp

theorem or_sub_and (x b t c : Nat) (hb : b &&& t = b) (h : t &&& c = 0) :
    (x ||| b) &&& c = x &&& c := by
  apply Nat.eq_of_testBit_eq
  intro i
  have e1 := congrArg (fun z => Nat.testBit z i) h
  have e2 := congrArg (fun z => Nat.testBit z i) hb
  simp only [Nat.testBit_and, Nat.testBit_or, Nat.zero_testBit] at e1 e2 ⊢
  revert e1 e2
  cases x.testBit i <;> cases b.testBit i <;> cases t.testBit i <;> cases c.testBit i <;> simp

theorem and_msb (x : Nat) : x &&& 0x80000000 = 0 ∨ x &&& 0x80000000 = 0x80000000 := by
  have h : (0x80000000 : Nat) = 2 ^ 31 := by norm_num
  rw [h]
  by_cases hx : x.testBit 31 = true
  · right
    apply Nat.eq_of_testBit_eq
    intro i
    rw [Nat.testBit_and, Nat.testBit_two_pow]
    by_cases hi : 31 = i
    · subst hi; simp [hx]
    · simp [hi]
  · left
    apply Nat.eq_of_testBit_eq
    intro i
    rw [Nat.testBit_and, Nat.testBit_two_pow, Nat.zero_testBit]
    by_cases hi : 31 = i
    · subst hi; simpa using hx
    · simp [hi]

/-! ## Conditions and writes to the trail -/

theorem Q_BAD_false_iff {m : Nat} (Q : Words m) (i : Nat) (qc : List qcond) :
    Q_BAD Q i qc = false ↔ CondHolds qc Q i := by
  unfold Q_BAD CondHolds
  simp only [bne_eq_false_iff_eq]

theorem CondHolds_set {m : Nat} (qc : List qcond) (Q : Words m) (k v i : Nat)
    (hc : i + 3 = k → v &&& (qrow qc i).cbits = Q.get k &&& (qrow qc i).cbits)
    (hp : i + 2 = k → v &&& (qrow qc i).pmask = Q.get k &&& (qrow qc i).pmask)
    (h : CondHolds qc Q i) : CondHolds qc (Q.set k v) i := by
  have g1 : (Q.set k v).get (i + 3) &&& (qrow qc i).cbits
      = Q.get (i + 3) &&& (qrow qc i).cbits := by
    rw [Words.get_set]
    split_ifs with hk
    · have e := hc hk.1.symm
      rw [hk.1] at e
      exact e
    · rfl
  have g2 : (Q.set k v).get (i + 2) &&& (qrow qc i).pmask
      = Q.get (i + 2) &&& (qrow qc i).pmask := by
    rw [Words.get_set]
    split_ifs with hk
    · have e := hp hk.1.symm
      rw [hk.1] at e
      exact e
    · rfl
  unfold CondHolds at h ⊢
  rw [g1, g2]
  exact h

theorem CondsIn_set {m : Nat} (qc : List qcond) (Q : Words m) (k v lo hi : Nat)
    (hc : ∀ i, lo ≤ i → i ≤ hi → i + 3 = k →
      v &&& (qrow qc i).cbits = Q.get k &&& (qrow qc i).cbits)
    (hp : ∀ i, lo ≤ i → i ≤ hi → i + 2 = k →
      v &&& (qrow qc i).pmask = Q.get k &&& (qrow qc i).pmask)
    (h : CondsIn qc Q lo hi) : CondsIn qc (Q.set k v) lo hi := by
  intro i h1 h2
  exact CondHolds_set qc Q k v i (hc i h1 h2) (hp i h1 h2) (h i h1 h2)

theorem CondsIn_set_high {m : Nat} (qc : List qcond) (Q : Words m) (k v lo hi : Nat)
    (hk : hi + 3 < k) (h : CondsIn qc Q lo hi) : CondsIn qc (Q.set k v) lo hi := by
  apply CondsIn_set qc Q k v lo hi _ _ h
  · intro i _ h2 h3; omega
  · intro i _ h2 h3; omega

theorem CondsIn_set_low {m : Nat} (qc : List qcond) (Q : Words m) (k v lo hi : Nat)
    (hk : k < lo + 2) (h : CondsIn qc Q lo hi) : CondsIn qc (Q.set k v) lo hi := by
  apply CondsIn_set qc Q k v lo hi _ _ h
  · intro i h1 _ h3; omega
  · intro i h1 _ h3; omega

theorem CondsIn_succ {m : Nat} (qc : List qcond) (Q : Words m) (lo hi : Nat)
    (h : CondsIn qc Q lo hi) (h1 : CondHolds qc Q (hi + 1)) : CondsIn qc Q lo (hi + 1) := by
  intro i hi1 hi2
  by_cases hi : i = hi + 1
  · rw [hi]; exact h1
  · exact h i hi1 (by omega)

theorem CondsIn_pred {m : Nat} (qc : List qcond) (Q : Words m) (lo hi : Nat)
    (h : CondsIn qc Q (lo + 1) hi) (h1 : CondHolds qc Q lo) : CondsIn qc Q lo hi := by
  intro i hi1 hi2
  by_cases hi : i = lo
  · rw [hi]; exact h1
  · exact h i (by omega) hi2

theorem CondsIn_mono {m : Nat} (qc : List qcond) (Q : Words m) {lo hi k : Nat} (hk : k ≤ hi)
    (h : CondsIn qc Q lo hi) : CondsIn qc Q lo k := by
  intro i hi1 hi2
  exact h i hi1 (by omega)

theorem CondHolds_sample {m : Nat} (qc : List qcond) (Q : Words m) (i r : Nat)
    (hi : i + 3 < m) (hrow : rowOK (qrow qc i) = true) :
    CondHolds qc (Q.set (i + 3)
      (((r &&& (qrow qc i).mask) ||| (Q.get (i + 2) &&& (qrow qc i).pmask))
        ^^^ (qrow qc i).inv)) i := by
  unfold rowOK at hrow
  simp only [Bool.and_eq_true, beq_iff_eq] at hrow
  unfold CondHolds
  rw [Words.get_set_eq _ _ hi, Words.get_set_ne _ _ (by omega)]
  exact sample_passes _ _ _ _ _ _ hrow.1.1 hrow.1.2 hrow.2

theorem sampleLoop_conds {m : Nat} (qc : List qcond) (lo top : Nat) (htop : top + 3 < m)
    (hrows : ∀ i, lo ≤ i → i ≤ top → rowOK (qrow qc i) = true) :
    ∀ n i (s : St m), lo ≤ i → i + n = top + 1 → (∀ j, lo ≤ j → j < i → CondHolds qc s.Q j) →
      CondsIn qc (sampleLoop qc n i s).Q lo top := by
  intro n
  induction n with
  | zero =>
    intro i s _ hin h j hj1 hj2
    exact h j hj1 (by omega)
  | succ n ih =>
    intro i s hi hin h
    unfold sampleLoop
    apply ih (i + 1) _ (by omega) (by omega)
    intro j hj1 hj2
    by_cases hji : j = i
    · rw [hji]
      exact CondHolds_sample qc s.Q i (getrand32 s.rs).1 (by omega) (hrows i hi (by omega))
    · exact CondHolds_set qc s.Q (i + 3) _ j (by omega) (by omega) (h j hj1 (by omega))

/-! ## Condition satisfaction, first block -/

theorem rows_qconds_ok : ∀ i, 1 ≤ i → i ≤ 17 → rowOK (qrow qconds i) = true := by
  intro i h1 h2
  interval_cases i <;> rfl

theorem finish0_keeps (asserts : Bool) (Compress : Words 4 → Words 16 → Words 4) (iv : Words 4)
    (P : St 28 → Prop) (s : St 28) (a b c d : Nat) (hs : P s) :
    (finish0 asserts Compress iv s a b c d).Sat P (fun r => P r.st) := by
  unfold finish0
  lift_lets
  intro n1 n2 n3 block2 iv1 iv2
  split_ifs
  all_goals trivial

theorem CondHolds_msb_set {m : Nat} (qc : List qcond) (Q : Words m) (i : Nat)
    (hrow : qrow qc i = ⟨0x7fffffff, 0, 0x80000000, 0x80000000⟩)
    (h : Q.get (i + 3) &&& 0x80000000 ≠ 0) : CondHolds qc Q i := by
  unfold CondHolds
  rw [hrow]
  simp only [Nat.and_zero, Nat.xor_zero]
  rcases and_msb (Q.get (i + 3)) with h0 | h1
  · exact absurd h0 h
  · exact h1

theorem CondHolds_msb_clear {m : Nat} (qc : List qcond) (Q : Words m) (i : Nat)
    (hrow : qrow qc i = ⟨0x7fffffff, 0, 0, 0x80000000⟩)
    (h : Q.get (i + 3) &&& 0x80000000 = 0) : CondHolds qc Q i := by
  unfold CondHolds
  rw [hrow]
  simp only [Nat.and_zero, Nat.xor_zero]
  exact h

theorem q9body0_conds (asserts : Bool) (Compress : Words 4 → Words 16 → Words 4)
    (iv : Words 4) (badchars : Option (List Nat)) (p8 p9 p12 q9base i : Nat) (s : St 28)
    (hs : CondsIn qconds s.Q 1 24 ∧
      q9base &&& (qrow qconds 9).cbits = s.Q.get 12 &&& (qrow qconds 9).cbits) :
    (q9body0 asserts Compress iv badchars p8 p9 p12 q9base i s).Sat
      (fun s => CondsIn qconds s.Q 1 24 ∧
        q9base &&& (qrow qconds 9).cbits = s.Q.get 12 &&& (qrow qconds 9).cbits)
      (fun r => CondsIn qconds r.st.Q 1 24) := by
  unfold q9body0
  lift_lets
  intro s1 s2 s3 s4
  have hv : (q9base ||| ((i ^^^ (i <<< 8) ^^^ (i <<< 14)) &&& Q9M9MASK))
      &&& (qrow qconds 9).cbits = q9base &&& (qrow qconds 9).cbits :=
    or_masked_and _ _ _ _ (by decide)
  have h1 : CondsIn qconds s1.Q 1 24 ∧
      q9base &&& (qrow qconds 9).cbits = s1.Q.get 12 &&& (qrow qconds 9).cbits := by
    constructor
    · apply CondsIn_set qconds s.Q (9 + 3) _ 1 24 _ _ hs.1
      · intro j _ _ hj
        have : j = 9 := by omega
        subst this
        rw [hv]
        exact hs.2
      · intro j _ _ hj
        have : j = 10 := by omega
        subst this
        have e : (qrow qconds 10).pmask = 0 := rfl
        rw [e, Nat.and_zero, Nat.and_zero]
    · have e : s1.Q.get 12 = q9base ||| ((i ^^^ (i <<< 8) ^^^ (i <<< 14)) &&& Q9M9MASK) :=
        Words.get_set_eq _ _ (by decide)
      rw [e, hv]
  have h2 : CondsIn qconds s2.Q 1 24 ∧
      q9base &&& (qrow qconds 9).cbits = s2.Q.get 12 &&& (qrow qconds 9).cbits := h1
  have h3 : CondsIn qconds s3.Q 1 24 ∧
      q9base &&& (qrow qconds 9).cbits = s3.Q.get 12 &&& (qrow qconds 9).cbits := h2
  have h4 : CondsIn qconds s4.Q 1 24 ∧
      q9base &&& (qrow qconds 9).cbits = s4.Q.get 12 &&& (qrow qconds 9).cbits := h3
  split_ifs
  all_goals first
    | trivial
    | exact h2
    | exact h3
    | exact h4
    | (split
       · exact h4
       · exact (finish0_keeps asserts Compress iv _ s4 _ _ _ _ h4).mono (fun _ h => h)
           (fun _ h => h.1))

theorem q4body0_conds (asserts : Bool) (Compress : Words 4 → Words 16 → Words 4)
    (iv : Words 4) (badchars : Option (List Nat)) (p8 p9 p12 q9base i : Nat) (s : St 28)
    (hs : CondsIn qconds s.Q 1 23 ∧
      q9base &&& (qrow qconds 9).cbits = s.Q.get 12 &&& (qrow qconds 9).cbits) :
    (q4body0 asserts Compress iv badchars p8 p9 p12 q9base i s).Sat
      (fun s => CondsIn qconds s.Q 1 23 ∧
        q9base &&& (qrow qconds 9).cbits = s.Q.get 12 &&& (qrow qconds 9).cbits)
      (fun r => CondsIn qconds r.st.Q 1 24) := by
  unfold q4body0
  lift_lets
  intro s1 s2 s3 s4 s5
  have h1 : CondsIn qconds s1.Q 1 23 ∧
      q9base &&& (qrow qconds 9).cbits = s1.Q.get 12 &&& (qrow qconds 9).cbits := by
    constructor
    · apply CondsIn_set qconds s.Q (4 + 3) _ 1 23 _ _ hs.1
      · intro j _ _ hj
        have : j = 4 := by omega
        subst this
        exact masked_write_and _ _ _ _ (by decide) (by decide)
      · intro j _ _ hj
        have : j = 5 := by omega
        subst this
        exact masked_write_and _ _ _ _ (by decide) (by decide)
    · have e : s1.Q.get 12 = s.Q.get 12 := Words.get_set_ne _ _ (by decide)
      rw [e]
      exact hs.2
  have h2 : CondsIn qconds s2.Q 1 23 ∧
      q9base &&& (qrow qconds 9).cbits = s2.Q.get 12 &&& (qrow qconds 9).cbits := h1
  have h3 : CondsIn qconds s3.Q 1 23 ∧
      q9base &&& (qrow qconds 9).cbits = s3.Q.get 12 &&& (qrow qconds 9).cbits := h2
  have h4 : CondsIn qconds s4.Q 1 23 ∧
      q9base &&& (qrow qconds 9).cbits = s4.Q.get 12 &&& (qrow qconds 9).cbits := h3
  have h5 : CondsIn qconds s5.Q 1 23 ∧
      q9base &&& (qrow qconds 9).cbits = s5.Q.get 12 &&& (qrow qconds 9).cbits := by
    constructor
    · exact CondsIn_set_high qconds s4.Q (24 + 3) _ 1 23 (by decide) h4.1
    · have e : s5.Q.get 12 = s4.Q.get 12 := Words.get_set_ne _ _ (by decide)
      rw [e]
      exact h4.2
  split_ifs with b3 b4 a5 a6 b7 c24 aq
  · exact h2
  · exact h3
  · trivial
  · trivial
  · exact h4
  · exact h5
  · trivial
  · have c24a : s5.Q.get (24 + 3) &&& 0x80000000 ≠ 0 := by
      simpa [St.q] using c24
    have k24 : CondsIn qconds s5.Q 1 24 :=
      CondsIn_succ qconds s5.Q 1 23 h5.1 (CondHolds_msb_set qconds s5.Q 24 rfl c24a)
    exact (forLoop_sat _ _ _
      (fun j t ht => q9body0_conds asserts Compress iv badchars p8 p9 p12 q9base j t ht)
      65536 0 s5 ⟨k24, h5.2⟩).mono
      (fun _ h => ⟨CondsIn_mono qconds _ (by decide) h.1, h.2⟩) (fun _ h => h)

theorem q10body0_conds (asserts : Bool) (Compress : Words 4 → Words 16 → Words 4)
    (iv : Words 4) (badchars : Option (List Nat)) (i : Nat) (s : St 28)
    (hs : CondsIn qconds s.Q 1 21) :
    (q10body0 asserts Compress iv badchars i s).Sat
      (fun s => CondsIn qconds s.Q 1 21) (fun r => CondsIn qconds r.st.Q 1 24) := by
  unfold q10body0
  lift_lets
  intro s1 s2 s3 s4 s5 s6 t1 t2 t3 p8 p9 p12 q9base
  have h1 : CondsIn qconds s1.Q 1 21 := by
    apply CondsIn_set qconds s.Q (9 + 3) _ 1 21 _ _ hs
    · intro j _ _ hj
      have : j = 9 := by omega
      subst this
      exact masked_write_and _ _ _ _ (by decide) (by decide)
    · intro j _ _ hj
      have : j = 10 := by omega
      subst this
      exact masked_write_and _ _ _ _ (by decide) (by decide)
  have h2 : CondsIn qconds s2.Q 1 21 := by
    apply CondsIn_set qconds s1.Q (10 + 3) _ 1 21 _ _ h1
    · intro j _ _ hj
      have : j = 10 := by omega
      subst this
      exact masked_write_and _ _ _ _ (by decide) (by decide)
    · intro j _ _ hj
      have : j = 11 := by omega
      subst this
      exact masked_write_and _ _ _ _ (by decide) (by decide)
  have h3 : CondsIn qconds s3.Q 1 21 := h2
  have h4 : CondsIn qconds s4.Q 1 21 := h3
  have h5 : CondsIn qconds s5.Q 1 21 :=
    CondsIn_set_high qconds s4.Q (22 + 3) _ 1 21 (by decide) h4
  have h6 : CondsIn qconds s6.Q 1 21 :=
    CondsIn_set_high qconds s5.Q (23 + 3) _ 1 21 (by decide) h5
  split_ifs with b10 a11 b13 c22 c23 c17 at23
  · exact h3
  · trivial
  · exact h4
  · exact h5
  · exact h6
  · exact h6
  · trivial
  · have c22a : s5.Q.get (22 + 3) &&& 0x80000000 ≠ 0 := by
      simpa [St.q] using c22
    have c23a : s6.Q.get (23 + 3) &&& 0x80000000 = 0 := by
      simpa [St.q] using c23
    have k22 : CondsIn qconds s5.Q 1 22 :=
      CondsIn_succ qconds s5.Q 1 21 h5 (CondHolds_msb_set qconds s5.Q 22 rfl c22a)
    have k22a : CondsIn qconds s6.Q 1 22 :=
      CondsIn_set_high qconds s5.Q (23 + 3) _ 1 22 (by decide) k22
    have k23 : CondsIn qconds s6.Q 1 23 :=
      CondsIn_succ qconds s6.Q 1 22 k22a (CondHolds_msb_clear qconds s6.Q 23 rfl c23a)
    have hb : q9base &&& (qrow qconds 9).cbits = s6.Q.get 12 &&& (qrow qconds 9).cbits :=
      and_not32_and _ _ _ (by decide) (by decide)
    exact (forLoop_sat _ _ _
      (fun j t ht => q4body0_conds asserts Compress iv badchars p8 p9 p12 q9base j t ht)
      16 0 s6 ⟨k23, hb⟩).mono
      (fun _ h => CondsIn_mono qconds _ (by decide) h.1) (fun _ h => h)

theorem q17body0_conds (badchars : Option (List Nat)) (i : Nat) (s : St 28)
    (hs : CondsIn qconds s.Q 1 16) :
    (q17body0 badchars i s).Sat (fun s => CondsIn qconds s.Q 1 16)
      (fun s => CondsIn qconds s.Q 1 21) := by
  unfold q17body0
  lift_lets
  intro s1 s2 s3 s4 s5 s6 s7 s8 s9
  have h1 : CondsIn qconds s1.Q 1 16 :=
    CondsIn_set_high qconds s.Q (17 + 3) _ 1 16 (by decide) hs
  have h2 : CondsIn qconds s2.Q 1 16 :=
    CondsIn_set_high qconds s1.Q (18 + 3) _ 1 16 (by decide) h1
  have h3 : CondsIn qconds s3.Q 1 16 :=
    CondsIn_set_high qconds s2.Q (19 + 3) _ 1 16 (by decide) h2
  have h4 : CondsIn qconds s4.Q 1 16 :=
    CondsIn_set_high qconds s3.Q (20 + 3) _ 1 16 (by decide) h3
  have h5 : CondsIn qconds s5.Q 1 16 := h4
  have free2 : ∀ (Q : Words 28) (v n : Nat), CondsIn qconds Q 1 n →
      CondsIn qconds (Q.set (2 + 3) v) 1 n := by
    intro Q v n hQ
    apply CondsIn_set qconds Q (2 + 3) v 1 n _ _ hQ
    · intro j _ _ hj
      have : j = 2 := by omega
      subst this
      have e : (qrow qconds 2).cbits = 0 := rfl
      rw [e, Nat.and_zero, Nat.and_zero]
    · intro j _ _ hj
      have : j = 3 := by omega
      subst this
      have e : (qrow qconds 3).pmask = 0 := rfl
      rw [e, Nat.and_zero, Nat.and_zero]
  have h6 : CondsIn qconds s6.Q 1 16 := free2 _ _ _ h5
  have h7 : CondsIn qconds s7.Q 1 16 := h6
  have h8 : CondsIn qconds s8.Q 1 16 :=
    CondsIn_set_high qconds s7.Q (21 + 3) _ 1 16 (by decide) h7
  have h9 : CondsIn qconds s9.Q 1 16 := h8
  split_ifs with c18 c19 c20 b1 c21 b5 b2
  · exact h2
  · exact h3
  · exact h4
  · exact h6
  · exact h8
  · exact h8
  · exact h9
  · have c17 : CondHolds qconds s1.Q 17 :=
      CondHolds_sample qconds s.Q 17 (getrand32 s.rs).1 (by decide) (by decide)
    have k17 : CondsIn qconds s1.Q 1 17 := CondsIn_succ qconds s1.Q 1 16 h1 c17
    have k17a : CondsIn qconds s2.Q 1 17 :=
      CondsIn_set_high qconds s1.Q (18 + 3) _ 1 17 (by decide) k17
    have k18 : CondsIn qconds s2.Q 1 18 :=
      CondsIn_succ qconds s2.Q 1 17 k17a
        ((Q_BAD_false_iff s2.Q 18 qconds).1 (Bool.eq_false_iff.2 c18))
    have k18a : CondsIn qconds s3.Q 1 18 :=
      CondsIn_set_high qconds s2.Q (19 + 3) _ 1 18 (by decide) k18
    have k19 : CondsIn qconds s3.Q 1 19 :=
      CondsIn_succ qconds s3.Q 1 18 k18a
        ((Q_BAD_false_iff s3.Q 19 qconds).1 (Bool.eq_false_iff.2 c19))
    have k19a : CondsIn qconds s4.Q 1 19 :=
      CondsIn_set_high qconds s3.Q (20 + 3) _ 1 19 (by decide) k19
    have k20 : CondsIn qconds s4.Q 1 20 :=
      CondsIn_succ qconds s4.Q 1 19 k19a
        ((Q_BAD_false_iff s4.Q 20 qconds).1 (Bool.eq_false_iff.2 c20))
    have k20a : CondsIn qconds s6.Q 1 20 := free2 _ _ _ k20
    have k20b : CondsIn qconds s8.Q 1 20 :=
      CondsIn_set_high qconds s7.Q (21 + 3) _ 1 20 (by decide) k20a
    have k21 : CondsIn qconds s8.Q 1 21 :=
      CondsIn_succ qconds s8.Q 1 20 k20b
        ((Q_BAD_false_iff s8.Q 21 qconds).1 (Bool.eq_false_iff.2 c21))
    exact k21

theorem outerBody0_conds (asserts : Bool) (Compress : Words 4 → Words 16 → Words 4)
    (iv : Words 4) (badchars : Option (List Nat)) (s : St 28) :
    (outerBody0 asserts Compress iv badchars s).Sat (fun _ => True)
      (fun r => CondsIn qconds r.st.Q 1 24) := by
  unfold outerBody0
  lift_lets
  intro s1 s2 s3 s4 s5 s6
  have h1 : CondsIn qconds s1.Q 1 16 :=
    sampleLoop_conds qconds 1 16 (by decide)
      (fun i h1 h2 => rows_qconds_ok i h1 (by omega)) 16 1 s (by decide) (by decide)
      (fun j h1 h2 => by omega)
  have h6 : CondsIn qconds s6.Q 1 16 := h1
  have hloop := forLoop_sat (q17body0 badchars) _ _
    (fun j t ht => q17body0_conds badchars j t ht) 100 0 s6 h6
  split_ifs
  all_goals first
    | trivial
    | (split
       · trivial
       · rename_i s7 hres
         rw [hres] at hloop
         exact (forLoop_sat _ _ _
           (fun j t ht => q10body0_conds asserts Compress iv badchars j t ht) 8 0 s7
           hloop).mono (fun _ _ => trivial) (fun _ h => h)
       · trivial)

/-- C9.  Condition satisfaction, first block: whenever `MD5CollideBlock0` returns, every
condition `i = 1, ..., 24` of the table `qconds` holds on the final trail:
`((Q[i] & cbits) ^ (Q[i-1] & pmask)) == inv`. -/
theorem MD5CollideBlock0_conditions (asserts : Bool) (Compress : Words 4 → Words 16 → Words 4)
    (iv : Words 4) (badchars : Option (List Nat)) (time : Nat) (block0 : Words 16) (fuel : Nat)
    (r : Ret 28)
    (h : MD5CollideBlock0Run asserts Compress iv badchars time block0 fuel
      = Outcome.returned r) :
    ∀ i, 1 ≤ i → i ≤ 24 →
      ((r.st.Q.get (i + 3) &&& (qrow qconds i).cbits) ^^^
        (r.st.Q.get (i + 2) &&& (qrow qconds i).pmask)) = (qrow qconds i).inv := by
  have hc : CondsIn qconds r.st.Q 1 24 :=
    whileLoop_sat _ (fun _ => True) (fun r => CondsIn qconds r.st.Q 1 24)
      (fun s _ => outerBody0_conds asserts Compress iv badchars s) fuel _ r trivial h
  intro i h1 h2
  exact hc i h1 h2

/-- Witness of C9 on the run `run0_example`. -/
theorem MD5CollideBlock0_conditions_witness :
    MD5CollideBlock0Run true MD5Transform stdIV (some unclean_map) 1612755449 zeroBlock 1
      = Outcome.returned exRet0 ∧
    ∀ i, 1 ≤ i → i ≤ 24 →
      ((exRet0.st.Q.get (i + 3) &&& (qrow qconds i).cbits) ^^^
        (exRet0.st.Q.get (i + 2) &&& (qrow qconds i).pmask)) = (qrow qconds i).inv :=
  ⟨run0_example,
    MD5CollideBlock0_conditions true MD5Transform stdIV (some unclean_map) 1612755449 zeroBlock 1
      exRet0 run0_example⟩

/-! ## The enumeration tables of the second block stay inside their masks -/

theorem shl32_one (o : Nat) (ho : o < 32) : shl32 1 o = 2 ^ o := by
  unfold shl32
  rw [Nat.one_shiftLeft]
  apply Nat.mod_eq_of_lt
  calc 2 ^ o < 2 ^ 32 := Nat.pow_lt_pow_right (by decide) ho
    _ = 4294967296 := by norm_num

theorem bit_in_mask (mask o : Nat) (h : mask &&& 2 ^ o ≠ 0) : 2 ^ o &&& mask = 2 ^ o := by
  have hb : mask.testBit o = true := by
    by_contra hb
    apply h
    apply Nat.eq_of_testBit_eq
    intro i
    rw [Nat.testBit_and, Nat.testBit_two_pow, Nat.zero_testBit]
    by_cases hi : o = i
    · subst hi; simpa using hb
    · simp [hi]
  apply Nat.eq_of_testBit_eq
  intro i
  rw [Nat.testBit_and, Nat.testBit_two_pow]
  by_cases hi : o = i
  · subst hi; simp [hb]
  · simp [hi]

theorem or_bit_sub (bits mask o : Nat) (ho : o < 32) (hb : bits &&& mask = bits)
    (h : ¬ (mask &&& shl32 1 o == 0) = true) :
    (bits ||| shl32 1 o) &&& mask = bits ||| shl32 1 o := by
  rw [shl32_one o ho] at h ⊢
  have h1 : mask &&& 2 ^ o ≠ 0 := by simpa using h
  have h2 := bit_in_mask mask o h1
  apply Nat.eq_of_testBit_eq
  intro i
  have e1 := congrArg (fun z => Nat.testBit z i) hb
  have e2 := congrArg (fun z => Nat.testBit z i) h2
  simp only [Nat.testBit_and, Nat.testBit_or] at e1 e2 ⊢
  revert e1 e2
  cases bits.testBit i <;> cases mask.testBit i <;> cases (2 ^ o).testBit i <;> simp

theorem skipClear_some (mask : Nat) :
    ∀ fuel offset o, skipClear mask fuel offset = some o →
      o < 32 ∧ ¬ (mask &&& shl32 1 o == 0) = true := by
  intro fuel
  induction fuel with
  | zero => intro offset o h; simp [skipClear] at h
  | succ n ih =>
    intro offset o h
    unfold skipClear at h
    split_ifs at h with h1 h2
    · exact ih _ _ h
    · simp only [Option.some.injEq] at h
      subst h
      exact ⟨by omega, h2⟩

theorem m9inner_sub (mask i : Nat) :
    ∀ n j bits offset r, m9inner mask i n j bits offset = some r →
      bits &&& mask = bits → r.1 &&& mask = r.1 := by
  intro n
  induction n with
  | zero =>
    intro j bits offset r h hb
    simp only [m9inner, Option.some.injEq] at h
    rw [← h]; exact hb
  | succ n ih =>
    intro j bits offset r h hb
    unfold m9inner at h
    split at h
    · simp at h
    · rename_i o1 ho1
      have hs := skipClear_some mask _ _ _ ho1
      apply ih _ _ _ _ h
      split_ifs
      · exact or_bit_sub bits mask o1 hs.1 hb hs.2
      · exact hb

theorem m9loop_sub (asserts : Bool) (mask : Nat) :
    ∀ n i acc tbl, m9loop asserts mask n i acc = Outcome.returned tbl →
      (∀ x, x ∈ acc → x &&& mask = x) → ∀ x, x ∈ tbl → x &&& mask = x := by
  intro n
  induction n with
  | zero =>
    intro i acc tbl h hacc x hx
    simp only [m9loop, Outcome.returned.injEq] at h
    rw [← h] at hx
    exact hacc x (List.mem_reverse.1 hx)
  | succ n ih =>
    intro i acc tbl h hacc
    unfold m9loop at h
    split at h
    · simp at h
    · rename_i bits offset hin
      have hb : bits &&& mask = bits := by
        have := m9inner_sub mask i 9 0 0 0 (bits, offset) hin (by simp)
        exact this
      split_ifs at h
      apply ih _ _ _ h
      intro x hx
      rcases List.mem_cons.1 hx with rfl | hx
      · exact hb
      · exact hacc x hx

theorem skipClearTo32_bit (mask : Nat) :
    ∀ fuel offset, 32 ≤ offset + fuel → skipClearTo32 mask fuel offset < 32 →
      ¬ (mask &&& shl32 1 (skipClearTo32 mask fuel offset) == 0) = true := by
  intro fuel
  induction fuel with
  | zero =>
    intro offset h1 h2
    simp only [skipClearTo32] at h2
    omega
  | succ n ih =>
    intro offset h1 h2
    unfold skipClearTo32 at h2 ⊢
    split_ifs at h2 ⊢ with hc
    · exact ih _ (by omega) h2
    · simp only [Bool.and_eq_true, decide_eq_true_eq, not_and] at hc
      exact hc h2

theorem m10inner_sub (mask i : Nat) :
    ∀ fuel j bits offset, bits &&& mask = bits →
      (m10inner mask i fuel j bits offset).1 &&& mask = (m10inner mask i fuel j bits offset).1 := by
  intro fuel
  induction fuel with
  | zero => intro j bits offset hb; exact hb
  | succ n ih =>
    intro j bits offset hb
    unfold m10inner
    split_ifs with h1 h2 h3
    · exact hb
    · apply ih
      exact or_bit_sub bits mask _ (by omega) hb
        (skipClearTo32_bit mask 32 offset (by omega) (by omega))
    · exact ih _ _ _ hb
    · exact hb

theorem m10loop_sub (asserts : Bool) (mask : Nat) :
    ∀ fuel i acc r, m10loop asserts mask fuel i acc = Outcome.returned r →
      (∀ x, x ∈ acc → x &&& mask = x) → ∀ x, x ∈ r.1 → x &&& mask = x := by
  intro fuel
  induction fuel with
  | zero => intro i acc r h; simp [m10loop] at h
  | succ n ih =>
    intro i acc r h hacc
    unfold m10loop at h
    split_ifs at h
    · simp only [Outcome.returned.injEq] at h
      intro x hx
      rw [← h] at hx
      exact hacc x (List.mem_reverse.1 hx)
    · apply ih _ _ _ h
      intro x hx
      rcases List.mem_cons.1 hx with rfl | hx
      · exact m10inner_sub mask i 33 0 0 0 (by simp)
      · exact hacc x hx

theorem getD_sub (tbl : List Nat) (mask k : Nat) (h : ∀ x, x ∈ tbl → x &&& mask = x) :
    tbl.getD k 0 &&& mask = tbl.getD k 0 := by
  rw [List.getD_eq_getElem?_getD]
  by_cases hk : k < tbl.length
  · rw [List.getElem?_eq_getElem hk]
    exact h _ (List.getElem_mem hk)
  · rw [List.getElem?_eq_none (by omega)]
    simp

/-! ## Condition satisfaction, second block -/

theorem pathOK_of_facts (qc : List qcond) (m9mask m9m10mask : Nat)
    (h : pathFacts qc m9mask m9m10mask = true) : PathOK qc m9mask m9m10mask := by
  unfold pathFacts at h
  simp only [Bool.and_eq_true, beq_iff_eq, List.all_eq_true, List.mem_range, Bool.or_eq_true]
    at h
  obtain ⟨⟨⟨⟨⟨⟨⟨⟨⟨⟨⟨⟨⟨⟨⟨⟨h1, h2⟩, h3⟩, h4⟩, h5⟩, h6⟩, h7⟩, h8⟩, h9⟩, h10⟩, h11⟩, h12⟩, h13⟩, h14⟩,
    h15⟩, h16⟩, h17⟩ := h
  refine ⟨?_, h2, h3, h4, h5, h6, h7, h8, h9, h10, h11, h12, h13, h14, h15, h16, h17⟩
  intro i hi1 hi2
  rcases h1 i (by omega) with h0 | h0
  · omega
  · exact h0

theorem pathOK_path (p : Nat) (hp : p < 4) :
    PathOK (qconds2.getD p []) (q9m9masks.getD p 0) (q9q10masks.getD p 0) := by
  interval_cases p
  · exact pathOK_of_facts _ _ _ (by decide)
  · exact pathOK_of_facts _ _ _ (by decide)
  · exact pathOK_of_facts _ _ _ (by decide)
  · exact pathOK_of_facts _ _ _ (by decide)

theorem pathOf_lt (iv : Words 4) : pathOf iv < 4 := by
  unfold pathOf
  have h1 : iv.get 1 &&& 1 < 2 ^ 2 := by
    have := @Nat.and_le_right (iv.get 1) 1
    omega
  have h2 : (iv.get 1 >>> 5) &&& 2 < 2 ^ 2 := by
    have := @Nat.and_le_right (iv.get 1 >>> 5) 2
    omega
  have := Nat.or_lt_two_pow h1 h2
  omega

theorem sample_copy (r p mask pmask inv pm2 : Nat) (h1 : mask &&& pm2 = 0)
    (h2 : inv &&& pm2 = 0) (h3 : pm2 &&& pmask = pm2) :
    (((r &&& mask) ||| (p &&& pmask)) ^^^ inv) &&& pm2 = p &&& pm2 := by
  apply Nat.eq_of_testBit_eq
  intro i
  have e1 := congrArg (fun z => Nat.testBit z i) h1
  have e2 := congrArg (fun z => Nat.testBit z i) h2
  have e3 := congrArg (fun z => Nat.testBit z i) h3
  simp only [Nat.testBit_and, Nat.testBit_or, Nat.testBit_xor, Nat.zero_testBit] at e1 e2 e3 ⊢
  revert e1 e2 e3
  cases r.testBit i <;> cases p.testBit i <;> cases mask.testBit i <;> cases pmask.testBit i <;>
    cases inv.testBit i <;> cases pm2.testBit i <;> simp

theorem and_and_sub (b m n : Nat) (h : b &&& m = b) : (b &&& n) &&& (m &&& n) = b &&& n := by
  apply Nat.eq_of_testBit_eq
  intro i
  have e1 := congrArg (fun z => Nat.testBit z i) h
  simp only [Nat.testBit_and] at e1 ⊢
  revert e1
  cases b.testBit i <;> cases m.testBit i <;> cases n.testBit i <;> simp

theorem CondHolds_msb (qc : List qcond) (i x y : Nat)
    (hc : (qrow qc i).cbits = 0x80000000) (hp : (qrow qc i).pmask = 0)
    (h : x &&& 0x80000000 = (qrow qc i).inv) :
    ((x &&& (qrow qc i).cbits) ^^^ (y &&& (qrow qc i).pmask)) = (qrow qc i).inv := by
  rw [hc, hp, Nat.and_zero, Nat.xor_zero]
  exact h

theorem finish1_keeps (asserts : Bool) (Compress : Words 4 → Words 16 → Words 4) (iv : Words 4)
    (P : St 25 → Prop) (s : St 25) (a b c d a2 b2 c2 d2 : Nat) (hs : P s) :
    (finish1 asserts Compress iv s a b c d a2 b2 c2 d2).Sat P
      (fun r => P r.st ∧ r.a2 = a2 ∧ r.b2 = b2 ∧ r.c2 = c2 ∧ r.d2 = d2) := by
  unfold finish1
  lift_lets
  intro block2 iv1 iv2
  split_ifs
  · trivial
  · exact ⟨hs, rfl, rfl, rfl, rfl⟩
  · exact hs

theorem q9body1_conds (asserts : Bool) (Compress : Words 4 → Words 16 → Words 4)
    (iv : Words 4) (badchars : Option (List Nat)) (qc : List qcond) (m9mask : Nat)
    (q9m9bits : List Nat) (a2 b2 c2 d2 q9save q9base q10base i : Nat) (s : St 25)
    (h9c : m9mask &&& (qrow qc 9).cbits = 0) (h9p : m9mask &&& (qrow qc 10).pmask = 0)
    (htbl : ∀ x, x ∈ q9m9bits → x &&& m9mask = x)
    (hsc : q9save &&& (qrow qc 9).cbits = q9base &&& (qrow qc 9).cbits)
    (hsp : q9save &&& (qrow qc 10).pmask = q9base &&& (qrow qc 10).pmask)
    (hregs : ∀ q21, CondsRegs qc q21 d2 c2 b2)
    (hs : CondsIn qc s.Q 1 21 ∧ TunnelRel qc q9base q10base s.Q) :
    (q9body1 asserts Compress iv badchars q9m9bits a2 b2 c2 d2 q9save i s).Sat
      (fun s => CondsIn qc s.Q 1 21 ∧ TunnelRel qc q9base q10base s.Q)
      (fun r => CondsIn qc r.st.Q 1 21 ∧ CondsRegs qc (r.st.Q.get 24) r.d2 r.c2 r.b2) := by
  unfold q9body1
  lift_lets
  intro s1 s2 s3 s4
  have hvc : (q9save ||| q9m9bits.getD i 0) &&& (qrow qc 9).cbits
      = q9base &&& (qrow qc 9).cbits := by
    rw [or_sub_and _ _ _ _ (getD_sub q9m9bits m9mask i htbl) h9c]
    exact hsc
  have hvp : (q9save ||| q9m9bits.getD i 0) &&& (qrow qc 10).pmask
      = q9base &&& (qrow qc 10).pmask := by
    rw [or_sub_and _ _ _ _ (getD_sub q9m9bits m9mask i htbl) h9p]
    exact hsp
  have e12 : s1.Q.get 12 = q9save ||| q9m9bits.getD i 0 := Words.get_set_eq _ _ (by decide)
  have e13 : s1.Q.get 13 = s.Q.get 13 := Words.get_set_ne _ _ (by decide)
  have h1 : CondsIn qc s1.Q 1 21 ∧ TunnelRel qc q9base q10base s1.Q := by
    constructor
    · apply CondsIn_set qc s.Q (9 + 3) _ 1 21 _ _ hs.1
      · intro j _ _ hj
        have : j = 9 := by omega
        subst this
        rw [hvc]
        exact hs.2.1
      · intro j _ _ hj
        have : j = 10 := by omega
        subst this
        rw [hvp]
        exact hs.2.2.1
    · unfold TunnelRel
      rw [e12, e13, hvc, hvp]
      exact ⟨rfl, rfl, hs.2.2.2.1, hs.2.2.2.2⟩
  have h2 : CondsIn qc s2.Q 1 21 ∧ TunnelRel qc q9base q10base s2.Q := h1
  have h3 : CondsIn qc s3.Q 1 21 ∧ TunnelRel qc q9base q10base s3.Q := h2
  have h4 : CondsIn qc s4.Q 1 21 ∧ TunnelRel qc q9base q10base s4.Q := h3
  split_ifs
  all_goals first
    | trivial
    | exact h2
    | exact h3
    | exact h4
    | (split
       · exact h4
       · refine (finish1_keeps asserts Compress iv _ s4 _ _ _ _ _ _ _ _ h4).mono
           (fun _ h => h) ?_
         intro r hr
         obtain ⟨hr1, _, hb2, hc2, hd2⟩ := hr
         rw [hb2, hc2, hd2]
         exact ⟨hr1.1, hregs _⟩)

theorem q10body1_conds (asserts : Bool) (Compress : Words 4 → Words 16 → Words 4)
    (iv : Words 4) (badchars : Option (List Nat)) (qc : List qcond) (m9mask m9m10mask : Nat)
    (q9m9bits q9q10bits : List Nat) (q9base q10base i : Nat) (s : St 25)
    (hp : PathOK qc m9mask m9m10mask)
    (htbl9 : ∀ x, x ∈ q9m9bits → x &&& m9mask = x)
    (htbl10 : ∀ x, x ∈ q9q10bits → x &&& m9m10mask = x)
    (hs : CondsIn qc s.Q 1 21 ∧ TunnelRel qc q9base q10base s.Q) :
    (q10body1 asserts Compress iv badchars qc q9m9bits q9q10bits q9base q10base i s).Sat
      (fun s => CondsIn qc s.Q 1 21 ∧ TunnelRel qc q9base q10base s.Q)
      (fun r => CondsIn qc r.st.Q 1 21 ∧ CondsRegs qc (r.st.Q.get 24) r.d2 r.c2 r.b2) := by
  unfold q10body1
  lift_lets
  intro s1 q9save s2 s3 a2 b2 c2 d2 d2a c2a c2b c2c b2a s4
  have hb := getD_sub q9q10bits m9m10mask i htbl10
  have hv9c : (q9base ||| (q9q10bits.getD i 0 &&& not32 Q10MASK)) &&& (qrow qc 9).cbits
      = q9base &&& (qrow qc 9).cbits :=
    or_sub_and _ _ _ _ (and_and_sub _ _ _ hb) hp.u9c9
  have hv9p : (q9base ||| (q9q10bits.getD i 0 &&& not32 Q10MASK)) &&& (qrow qc 10).pmask
      = q9base &&& (qrow qc 10).pmask :=
    or_sub_and _ _ _ _ (and_and_sub _ _ _ hb) hp.u9p10
  have hv10c : (q10base ||| (q9q10bits.getD i 0 &&& Q10MASK)) &&& (qrow qc 10).cbits
      = q10base &&& (qrow qc 10).cbits :=
    or_sub_and _ _ _ _ (and_and_sub _ _ _ hb) hp.u10c10
  have hv10p : (q10base ||| (q9q10bits.getD i 0 &&& Q10MASK)) &&& (qrow qc 11).pmask
      = q10base &&& (qrow qc 11).pmask :=
    or_sub_and _ _ _ _ (and_and_sub _ _ _ hb) hp.u10p11
  have e12 : s1.Q.get 12 = q9base ||| (q9q10bits.getD i 0 &&& not32 Q10MASK) :=
    Words.get_set_eq _ _ (by decide)
  have e13 : s1.Q.get 13 = s.Q.get 13 := Words.get_set_ne _ _ (by decide)
  have h1 : CondsIn qc s1.Q 1 21 ∧ TunnelRel qc q9base q10base s1.Q := by
    constructor
    · apply CondsIn_set qc s.Q (9 + 3) _ 1 21 _ _ hs.1
      · intro j _ _ hj
        have : j = 9 := by omega
        subst this
        rw [hv9c]
        exact hs.2.1
      · intro j _ _ hj
        have : j = 10 := by omega
        subst this
        rw [hv9p]
        exact hs.2.2.1
    · unfold TunnelRel
      rw [e12, e13, hv9c, hv9p]
      exact ⟨rfl, rfl, hs.2.2.2.1, hs.2.2.2.2⟩
  have f12 : s2.Q.get 12 = s1.Q.get 12 := Words.get_set_ne _ _ (by decide)
  have f13 : s2.Q.get 13 = q10base ||| (q9q10bits.getD i 0 &&& Q10MASK) :=
    Words.get_set_eq _ _ (by decide)
  have h2 : CondsIn qc s2.Q 1 21 ∧ TunnelRel qc q9base q10base s2.Q := by
    constructor
    · apply CondsIn_set qc s1.Q (10 + 3) _ 1 21 _ _ h1.1
      · intro j _ _ hj
        have : j = 10 := by omega
        subst this
        rw [hv10c]
        exact h1.2.2.2.1
      · intro j _ _ hj
        have : j = 11 := by omega
        subst this
        rw [hv10p]
        exact h1.2.2.2.2
    · unfold TunnelRel
      rw [f12, f13, hv10c, hv10p]
      exact ⟨h1.2.1, h1.2.2.1, rfl, rfl⟩
  have h3 : CondsIn qc s3.Q 1 21 ∧ TunnelRel qc q9base q10base s3.Q := h2
  have h4 : CondsIn qc s4.Q 1 21 ∧ TunnelRel qc q9base q10base s4.Q := h3
  have hq9 : q9save = q9base ||| (q9q10bits.getD i 0 &&& not32 Q10MASK) := e12
  split_ifs with b10 a11 k22 k17 k23 k24 b13
  · exact h3
  · trivial
  · exact h3
  · exact h3
  · exact h3
  · exact h3
  · exact h4
  · have r22 : d2a &&& 0x80000000 = (qrow qc 22).inv := by simpa using k22
    have r23 : c2c &&& 0x80000000 = (qrow qc 23).inv := by simpa using k23
    have r24 : b2a &&& 0x80000000 = (qrow qc 24).inv := by
      have hne : b2a &&& 0x80000000 ≠ 0 := by simpa using k24
      rw [hp.i24]
      rcases and_msb b2a with h0 | h0
      · exact absurd h0 hne
      · exact h0
    have hregs : ∀ q21, CondsRegs qc q21 d2a c2c b2a := fun q21 =>
      ⟨CondHolds_msb qc 22 d2a q21 hp.c22 hp.p22 r22,
        CondHolds_msb qc 23 c2c d2a hp.c23 hp.p23 r23,
        CondHolds_msb qc 24 b2a c2c hp.c24 hp.p24 r24⟩
    exact forLoop_sat _ _ _
      (fun j t ht => q9body1_conds asserts Compress iv badchars qc m9mask q9m9bits a2 b2a c2c d2a
        q9save q9base q10base j t hp.t9c9 hp.t9p10 htbl9 (by rw [hq9]; exact hv9c)
        (by rw [hq9]; exact hv9p) hregs ht)
      512 0 s4 h4

set_option maxHeartbeats 2000000 in
theorem q1body1_conds (badchars : Option (List Nat)) (qc : List qcond) (m9mask m9m10mask : Nat)
    (hp : PathOK qc m9mask m9m10mask) (i : Nat) (s : St 25)
    (hs : CondsIn qc s.Q 3 16 ∧ Cond2vs0 qc s.Q) :
    (q1body1 badchars qc i s).Sat (fun s => CondsIn qc s.Q 3 16 ∧ Cond2vs0 qc s.Q)
      (fun s => CondsIn qc s.Q 1 21) := by
  unfold q1body1
  lift_lets
  intro s1 s2 s3 s4 s5 s6 s7 s8 s9 s10 s11
  have e5 : s1.Q.get 5 = s.Q.get 5 := Words.get_set_ne _ _ (by decide)
  have e3 : s1.Q.get 3 = s.Q.get 3 := Words.get_set_ne _ _ (by decide)
  have h1 : CondsIn qc s1.Q 3 16 ∧ Cond2vs0 qc s1.Q := by
    constructor
    · exact CondsIn_set_low qc s.Q (1 + 3) _ 3 16 (by decide) hs.1
    · unfold Cond2vs0
      rw [e5, e3]
      exact hs.2
  have keep : ∀ (Q : Words 25) (k v : Nat), 19 < k → CondsIn qc Q 3 16 ∧ Cond2vs0 qc Q →
      CondsIn qc (Q.set k v) 3 16 ∧ Cond2vs0 qc (Q.set k v) := by
    intro Q k v hk hQ
    constructor
    · exact CondsIn_set_high qc Q k v 3 16 (by omega) hQ.1
    · unfold Cond2vs0
      rw [Words.get_set_ne _ _ (by omega), Words.get_set_ne _ _ (by omega)]
      exact hQ.2
  have h5 : CondsIn qc s5.Q 3 16 ∧ Cond2vs0 qc s5.Q := h1
  have h6 : CondsIn qc s6.Q 3 16 ∧ Cond2vs0 qc s6.Q := keep s5.Q (17 + 3) _ (by decide) h5
  have h7 : CondsIn qc s7.Q 3 16 ∧ Cond2vs0 qc s7.Q := keep s6.Q (18 + 3) _ (by decide) h6
  have h8 : CondsIn qc s8.Q 3 16 ∧ Cond2vs0 qc s8.Q := keep s7.Q (19 + 3) _ (by decide) h7
  have h9 : CondsIn qc s9.Q 3 16 ∧ Cond2vs0 qc s9.Q := keep s8.Q (20 + 3) _ (by decide) h8
  have h10 : CondsIn qc s10.Q 3 16 ∧ Cond2vs0 qc s10.Q := keep s9.Q (21 + 3) _ (by decide) h9
  split_ifs with b0 b1 b3 b4 c17 c18 c19 c20 c21 b2
  · exact h1
  · exact h1
  · exact h1
  · exact h1
  · exact h6
  · exact h7
  · exact h8
  · exact h9
  · exact h10
  · exact h10
  · have c1 : CondHolds qc s1.Q 1 :=
      CondHolds_sample qc s.Q 1 (getrand32 s.rs).1 (by decide) (hp.rows 1 (by decide) (by decide))
    have e4 : s1.Q.get 4 = (((getrand32 s.rs).1 &&& (qrow qc 1).mask) |||
        (s.Q.get 3 &&& (qrow qc 1).pmask)) ^^^ (qrow qc 1).inv :=
      Words.get_set_eq _ _ (by decide)
    have c2 : CondHolds qc s1.Q 2 := by
      unfold CondHolds
      rw [e5, e4, sample_copy _ _ _ _ _ _ hp.m1p2 hp.i1p2 hp.p2p1]
      exact hs.2
    have k1 : CondsIn qc s1.Q 1 16 :=
      CondsIn_pred qc s1.Q 1 16 (CondsIn_pred qc s1.Q 2 16 h1.1 c2) c1
    have k6 : CondsIn qc s6.Q 1 16 := CondsIn_set_high qc s5.Q (17 + 3) _ 1 16 (by decide) k1
    have k17 : CondsIn qc s6.Q 1 17 :=
      CondsIn_succ qc s6.Q 1 16 k6 ((Q_BAD_false_iff s6.Q 17 qc).1 (Bool.eq_false_iff.2 c17))
    have k7 : CondsIn qc s7.Q 1 17 := CondsIn_set_high qc s6.Q (18 + 3) _ 1 17 (by decide) k17
    have k18 : CondsIn qc s7.Q 1 18 :=
      CondsIn_succ qc s7.Q 1 17 k7 ((Q_BAD_false_iff s7.Q 18 qc).1 (Bool.eq_false_iff.2 c18))
    have k8 : CondsIn qc s8.Q 1 18 := CondsIn_set_high qc s7.Q (19 + 3) _ 1 18 (by decide) k18
    have k19 : CondsIn qc s8.Q 1 19 :=
      CondsIn_succ qc s8.Q 1 18 k8 ((Q_BAD_false_iff s8.Q 19 qc).1 (Bool.eq_false_iff.2 c19))
    have k9 : CondsIn qc s9.Q 1 19 := CondsIn_set_high qc s8.Q (20 + 3) _ 1 19 (by decide) k19
    have k20 : CondsIn qc s9.Q 1 20 :=
      CondsIn_succ qc s9.Q 1 19 k9 ((Q_BAD_false_iff s9.Q 20 qc).1 (Bool.eq_false_iff.2 c20))
    have k10 : CondsIn qc s10.Q 1 20 := CondsIn_set_high qc s9.Q (21 + 3) _ 1 20 (by decide) k20
    have k21 : CondsIn qc s10.Q 1 21 :=
      CondsIn_succ qc s10.Q 1 20 k10 ((Q_BAD_false_iff s10.Q 21 qc).1 (Bool.eq_false_iff.2 c21))
    exact k21

theorem tunnels1_conds (asserts : Bool) (Compress : Words 4 → Words 16 → Words 4)
    (iv : Words 4) (badchars : Option (List Nat)) (qc : List qcond) (m9mask m9m10mask : Nat)
    (q9m9bits q9q10bits : List Nat) (num : Nat) (s : St 25)
    (hp : PathOK qc m9mask m9m10mask)
    (htbl9 : ∀ x, x ∈ q9m9bits → x &&& m9mask = x)
    (htbl10 : ∀ x, x ∈ q9q10bits → x &&& m9m10mask = x)
    (hs : CondsIn qc s.Q 1 21) :
    (tunnels1 asserts Compress iv badchars qc m9mask m9m10mask q9m9bits q9q10bits num s).Sat
      (fun _ => True)
      (fun r => CondsIn qc r.st.Q 1 21 ∧ CondsRegs qc (r.st.Q.get 24) r.d2 r.c2 r.b2) := by
  unfold tunnels1
  lift_lets
  intro q9base q10base
  split_ifs
  all_goals first
    | trivial
    | exact (forLoop_sat _ _ _
        (fun j t ht => q10body1_conds asserts Compress iv badchars qc m9mask m9m10mask q9m9bits
          q9q10bits q9base q10base j t hp htbl9 htbl10 ht)
        num 0 s ⟨hs, rfl, rfl, rfl, rfl⟩).mono (fun _ _ => trivial) (fun _ h => h)

theorem outerBody1_conds (asserts : Bool) (Compress : Words 4 → Words 16 → Words 4)
    (iv : Words 4) (badchars : Option (List Nat)) (qc : List qcond) (m9mask m9m10mask : Nat)
    (q9m9bits q9q10bits : List Nat) (num : Nat) (s : St 25)
    (hp : PathOK qc m9mask m9m10mask)
    (htbl9 : ∀ x, x ∈ q9m9bits → x &&& m9mask = x)
    (htbl10 : ∀ x, x ∈ q9q10bits → x &&& m9m10mask = x) :
    (outerBody1 asserts Compress iv badchars qc m9mask m9m10mask q9m9bits q9q10bits num s).Sat
      (fun _ => True)
      (fun r => CondsIn qc r.st.Q 1 21 ∧ CondsRegs qc (r.st.Q.get 24) r.d2 r.c2 r.b2) := by
  unfold outerBody1
  lift_lets
  intro s1 s2 s3 s4 s5 s6 s7 s8
  have e5 : s1.Q.get 5 = (((getrand32 s.rs).1 &&& (qrow qc 2).mask) |||
      (s.Q.get 3 &&& (qrow qc 2).pmask)) ^^^ (qrow qc 2).inv :=
    Words.get_set_eq _ _ (by decide)
  have e3 : s1.Q.get 3 = s.Q.get 3 := Words.get_set_ne _ _ (by decide)
  have g1 : Cond2vs0 qc s1.Q := by
    have hr := hp.rows 2 (by decide) (by decide)
    unfold rowOK at hr
    simp only [Bool.and_eq_true, beq_iff_eq] at hr
    unfold Cond2vs0
    rw [e5, e3]
    exact sample_passes _ _ _ _ _ _ hr.1.1 hr.1.2 hr.2
  have sampleLoop_keeps : ∀ n i (t : St 25), 3 ≤ i →
      (sampleLoop qc n i t).Q.get 5 = t.Q.get 5 ∧ (sampleLoop qc n i t).Q.get 3 = t.Q.get 3 := by
    intro n
    induction n with
    | zero => intro i t _; exact ⟨rfl, rfl⟩
    | succ n ih =>
      intro i t hi
      unfold sampleLoop
      have := ih (i + 1) (sampleQ qc i t) (by omega)
      rw [this.1, this.2]
      exact ⟨Words.get_set_ne _ _ (by omega), Words.get_set_ne _ _ (by omega)⟩
  have h2 : CondsIn qc s2.Q 3 16 ∧ Cond2vs0 qc s2.Q := by
    constructor
    · exact sampleLoop_conds qc 3 16 (by decide) (fun i h1 h2 => hp.rows i (by omega) h2)
        14 3 s1 (by decide) (by decide) (fun j h1 h2 => by omega)
    · unfold Cond2vs0
      rw [(sampleLoop_keeps 14 3 s1 (by decide)).1, (sampleLoop_keeps 14 3 s1 (by decide)).2]
      exact g1
  have h8 : CondsIn qc s8.Q 3 16 ∧ Cond2vs0 qc s8.Q := h2
  have hloop := forLoop_sat (q1body1 badchars qc) _ _
    (fun j t ht => q1body1_conds badchars qc m9mask m9m10mask hp j t ht) 2000 0 s8 h8
  split_ifs
  all_goals first
    | trivial
    | (split
       · trivial
       · rename_i s9 hres
         rw [hres] at hloop
         exact tunnels1_conds asserts Compress iv badchars qc m9mask m9m10mask q9m9bits
           q9q10bits num s9 hp htbl9 htbl10 hloop
       · trivial)

/-- C10.  Condition satisfaction, second block: whenever `MD5CollideBlock1` returns, with
`qc = qconds2[path]` the table of the path that `iv` selects, every condition
`i = 1, ..., 21` holds on the final trail, and conditions 22, 23 and 24 hold on the
registers `d2, c2, b2` that carry `Q[22], Q[23], Q[24]`. -/
theorem MD5CollideBlock1_conditions (asserts : Bool) (Compress : Words 4 → Words 16 → Words 4)
    (iv : Words 4) (badchars : Option (List Nat)) (time : Nat) (block0 : Words 16) (fuel : Nat)
    (r : Ret1)
    (h : MD5CollideBlock1Run asserts Compress iv badchars time block0 fuel
      = Outcome.returned r) :
    (∀ i, 1 ≤ i → i ≤ 21 →
      ((r.st.Q.get (i + 3) &&& (qrow (qconds2.getD (pathOf iv) []) i).cbits) ^^^
        (r.st.Q.get (i + 2) &&& (qrow (qconds2.getD (pathOf iv) []) i).pmask))
        = (qrow (qconds2.getD (pathOf iv) []) i).inv) ∧
    ((r.d2 &&& (qrow (qconds2.getD (pathOf iv) []) 22).cbits) ^^^
        (r.st.Q.get (21 + 3) &&& (qrow (qconds2.getD (pathOf iv) []) 22).pmask))
      = (qrow (qconds2.getD (pathOf iv) []) 22).inv ∧
    ((r.c2 &&& (qrow (qconds2.getD (pathOf iv) []) 23).cbits) ^^^
        (r.d2 &&& (qrow (qconds2.getD (pathOf iv) []) 23).pmask))
      = (qrow (qconds2.getD (pathOf iv) []) 23).inv ∧
    ((r.b2 &&& (qrow (qconds2.getD (pathOf iv) []) 24).cbits) ^^^
        (r.c2 &&& (qrow (qconds2.getD (pathOf iv) []) 24).pmask))
      = (qrow (qconds2.getD (pathOf iv) []) 24).inv := by
  have hp := pathOK_path (pathOf iv) (pathOf_lt iv)
  unfold MD5CollideBlock1Run at h
  split at h
  · simp at h
  · simp at h
  · rename_i q9m9bits h9
    split at h
    · simp at h
    · simp at h
    · rename_i q9q10bits num h10
      have htbl9 := m9loop_sub asserts _ 512 0 [] q9m9bits h9 (by simp)
      have htbl10 := m10loop_sub asserts _ 65 0 [] (q9q10bits, num) h10 (by simp)
      have hc := whileLoop_sat _ (fun _ => True)
        (fun r => CondsIn (qconds2.getD (pathOf iv) []) r.st.Q 1 21 ∧
          CondsRegs (qconds2.getD (pathOf iv) []) (r.st.Q.get 24) r.d2 r.c2 r.b2)
        (fun s _ => outerBody1_conds asserts Compress iv badchars _ _ _ q9m9bits q9q10bits num s
          hp htbl9 htbl10) fuel _ r trivial h
      exact ⟨fun i h1 h2 => hc.1 i h1 h2, hc.2.1, hc.2.2.1, hc.2.2.2⟩

/-- Witness of C10 on the run `run1_example` (path 2). -/
theorem MD5CollideBlock1_conditions_witness :
    (∀ i, 1 ≤ i → i ≤ 21 →
      ((exRet1.st.Q.get (i + 3) &&& (qrow (qconds2.getD (pathOf exIV1) []) i).cbits) ^^^
        (exRet1.st.Q.get (i + 2) &&& (qrow (qconds2.getD (pathOf exIV1) []) i).pmask))
        = (qrow (qconds2.getD (pathOf exIV1) []) i).inv) ∧
    ((exRet1.d2 &&& (qrow (qconds2.getD (pathOf exIV1) []) 22).cbits) ^^^
        (exRet1.st.Q.get (21 + 3) &&& (qrow (qconds2.getD (pathOf exIV1) []) 22).pmask))
      = (qrow (qconds2.getD (pathOf exIV1) []) 22).inv ∧
    ((exRet1.c2 &&& (qrow (qconds2.getD (pathOf exIV1) []) 23).cbits) ^^^
        (exRet1.d2 &&& (qrow (qconds2.getD (pathOf exIV1) []) 23).pmask))
      = (qrow (qconds2.getD (pathOf exIV1) []) 23).inv ∧
    ((exRet1.b2 &&& (qrow (qconds2.getD (pathOf exIV1) []) 24).cbits) ^^^
        (exRet1.c2 &&& (qrow (qconds2.getD (pathOf exIV1) []) 24).pmask))
      = (qrow (qconds2.getD (pathOf exIV1) []) 24).inv :=
  MD5CollideBlock1_conditions true MD5Transform exIV1 (some unclean_map) 1635797866 zeroBlock 2
    exRet1 run1_example

/-! ## Bad characters -/

theorem Ctl.Sat_ite {σ ρ : Type} {Inv : σ → Prop} {Post : ρ → Prop} {c : Prop} [Decidable c]
    {x y : Ctl σ ρ} (hx : c → x.Sat Inv Post) (hy : ¬ c → y.Sat Inv Post) :
    (if c then x else y).Sat Inv Post := by
  split_ifs with h
  · exact hx h
  · exact hy h

theorem GoodOn_set (W : Nat → Nat → Prop) (block : Words 16) (L : List Nat) (j v : Nat)
    (hj : j ∉ L) (h : GoodOn W block L) : GoodOn W (block.set j v) L := by
  intro i hi
  have hne : j ≠ i := by
    intro e
    rw [e] at hj
    exact hj hi
  rw [Words.get_set_ne _ _ hne]
  exact h i hi

theorem GoodOn_cons (W : Nat → Nat → Prop) (block : Words 16) (L : List Nat) (j : Nat)
    (hj : W j (block.get j)) (h : GoodOn W block L) : GoodOn W block (j :: L) := by
  intro i hi
  rcases List.mem_cons.1 hi with rfl | hi
  · exact hj
  · exact h i hi

theorem GoodOn_tail (W : Nat → Nat → Prop) (block : Words 16) (L : List Nat) (j : Nat)
    (h : GoodOn W block (j :: L)) : GoodOn W block L :=
  fun i hi => h i (List.mem_cons_of_mem j hi)

theorem WordOK0_plain (badchars : Option (List Nat)) (i w : Nat) (h4 : i ≠ 4) (h11 : i ≠ 11)
    (h14 : i ≠ 14) (h : ¬ HAS_BAD_CHARS badchars w = true) : WordOK0 badchars i w :=
  ⟨Bool.eq_false_iff.2 h, fun e => absurd e h4, fun e => absurd e h11, fun e => absurd e h14⟩

theorem WordOK1_plain (badchars : Option (List Nat)) (i w : Nat) (h4 : i ≠ 4) (h11 : i ≠ 11)
    (h14 : i ≠ 14) (h : ¬ HAS_BAD_CHARS badchars w = true) : WordOK1 badchars i w :=
  ⟨Bool.eq_false_iff.2 h, fun e => absurd e h4, fun e => absurd e h11, fun e => absurd e h14⟩

theorem or_false_split {a b : Bool} (h : ¬ (a || b) = true) : a = false ∧ b = false := by
  cases a <;> cases b <;> simp at h ⊢

theorem WordOK0_4 (badchars : Option (List Nat)) (w : Nat)
    (h : ¬ (HAS_BAD_CHARS badchars w || HAS_BAD_CHARS badchars (add32 w (1 <<< 31))) = true) :
    WordOK0 badchars 4 w :=
  ⟨(or_false_split h).1, fun _ => (or_false_split h).2, fun e => absurd e (by decide),
    fun e => absurd e (by decide)⟩

theorem WordOK0_11 (badchars : Option (List Nat)) (w : Nat)
    (h : ¬ (HAS_BAD_CHARS badchars w || HAS_BAD_CHARS badchars (add32 w (1 <<< 15))) = true) :
    WordOK0 badchars 11 w :=
  ⟨(or_false_split h).1, fun e => absurd e (by decide), fun _ => (or_false_split h).2,
    fun e => absurd e (by decide)⟩

theorem WordOK0_14 (badchars : Option (List Nat)) (w : Nat)
    (h : ¬ (HAS_BAD_CHARS badchars w || HAS_BAD_CHARS badchars (add32 w (1 <<< 31))) = true) :
    WordOK0 badchars 14 w :=
  ⟨(or_false_split h).1, fun e => absurd e (by decide), fun e => absurd e (by decide),
    fun _ => (or_false_split h).2⟩

theorem WordOK1_4 (badchars : Option (List Nat)) (w : Nat)
    (h : ¬ (HAS_BAD_CHARS badchars w || HAS_BAD_CHARS badchars (sub32 w (1 <<< 31))) = true) :
    WordOK1 badchars 4 w :=
  ⟨(or_false_split h).1, fun _ => (or_false_split h).2, fun e => absurd e (by decide),
    fun e => absurd e (by decide)⟩

theorem WordOK1_11 (badchars : Option (List Nat)) (w : Nat)
    (h : ¬ (HAS_BAD_CHARS badchars w || HAS_BAD_CHARS badchars (sub32 w (1 <<< 15))) = true) :
    WordOK1 badchars 11 w :=
  ⟨(or_false_split h).1, fun e => absurd e (by decide), fun _ => (or_false_split h).2,
    fun e => absurd e (by decide)⟩

theorem WordOK1_14 (badchars : Option (List Nat)) (w : Nat)
    (h : ¬ (HAS_BAD_CHARS badchars w || HAS_BAD_CHARS badchars (sub32 w (1 <<< 31))) = true) :
    WordOK1 badchars 14 w :=
  ⟨(or_false_split h).1, fun e => absurd e (by decide), fun e => absurd e (by decide),
    fun _ => (or_false_split h).2⟩

theorem q9body0_good (asserts : Bool) (Compress : Words 4 → Words 16 → Words 4)
    (iv : Words 4) (badchars : Option (List Nat)) (p8 p9 p12 q9base i : Nat) (s : St 28)
    (hs : GoodOn (WordOK0 badchars) s.block [7, 4, 3, 13, 10, 2, 5, 1, 15, 14, 11, 6, 0]) :
    (q9body0 asserts Compress iv badchars p8 p9 p12 q9base i s).Sat
      (fun s => GoodOn (WordOK0 badchars) s.block [7, 4, 3, 13, 10, 2, 5, 1, 15, 14, 11, 6, 0])
      (fun r => GoodOn (WordOK0 badchars) r.st.block
        [12, 9, 8, 7, 4, 3, 13, 10, 2, 5, 1, 15, 14, 11, 6, 0]) := by
  unfold q9body0
  lift_lets
  intro s1 s2 s3 s4
  have h2 : GoodOn (WordOK0 badchars) s2.block [7, 4, 3, 13, 10, 2, 5, 1, 15, 14, 11, 6, 0] :=
    GoodOn_set _ s1.block _ 8 _ (by decide) hs
  have h3 : GoodOn (WordOK0 badchars) s3.block [7, 4, 3, 13, 10, 2, 5, 1, 15, 14, 11, 6, 0] :=
    GoodOn_set _ s2.block _ 9 _ (by decide) h2
  have h4 : GoodOn (WordOK0 badchars) s4.block [7, 4, 3, 13, 10, 2, 5, 1, 15, 14, 11, 6, 0] :=
    GoodOn_set _ s3.block _ 12 _ (by decide) h3
  refine Ctl.Sat_ite (fun _ => trivial) (fun _ => ?_)
  refine Ctl.Sat_ite (fun _ => h2) (fun b8 => ?_)
  refine Ctl.Sat_ite (fun _ => trivial) (fun _ => ?_)
  refine Ctl.Sat_ite (fun _ => h3) (fun b9 => ?_)
  refine Ctl.Sat_ite (fun _ => trivial) (fun _ => ?_)
  refine Ctl.Sat_ite (fun _ => trivial) (fun _ => ?_)
  refine Ctl.Sat_ite (fun _ => trivial) (fun _ => ?_)
  refine Ctl.Sat_ite (fun _ => h4) (fun b12 => ?_)
  have g8 : GoodOn (WordOK0 badchars) s2.block
      [8, 7, 4, 3, 13, 10, 2, 5, 1, 15, 14, 11, 6, 0] :=
    GoodOn_cons _ _ _ 8 (WordOK0_plain _ _ _ (by decide) (by decide) (by decide) b8) h2
  have g8a : GoodOn (WordOK0 badchars) s3.block
      [8, 7, 4, 3, 13, 10, 2, 5, 1, 15, 14, 11, 6, 0] :=
    GoodOn_set _ s2.block _ 9 _ (by decide) g8
  have g9 : GoodOn (WordOK0 badchars) s3.block
      [9, 8, 7, 4, 3, 13, 10, 2, 5, 1, 15, 14, 11, 6, 0] :=
    GoodOn_cons _ _ _ 9 (WordOK0_plain _ _ _ (by decide) (by decide) (by decide) b9) g8a
  have g9a : GoodOn (WordOK0 badchars) s4.block
      [9, 8, 7, 4, 3, 13, 10, 2, 5, 1, 15, 14, 11, 6, 0] :=
    GoodOn_set _ s3.block _ 12 _ (by decide) g9
  have g12 : GoodOn (WordOK0 badchars) s4.block
      [12, 9, 8, 7, 4, 3, 13, 10, 2, 5, 1, 15, 14, 11, 6, 0] :=
    GoodOn_cons _ _ _ 12 (WordOK0_plain _ _ _ (by decide) (by decide) (by decide) b12) g9a
  split
  · exact h4
  · exact (finish0_keeps asserts Compress iv _ s4 _ _ _ _ g12).mono
      (fun _ h => GoodOn_tail _ _ _ _ (GoodOn_tail _ _ _ _ (GoodOn_tail _ _ _ _ h)))
      (fun _ h => h)

theorem q4body0_good (asserts : Bool) (Compress : Words 4 → Words 16 → Words 4)
    (iv : Words 4) (badchars : Option (List Nat)) (p8 p9 p12 q9base i : Nat) (s : St 28)
    (hs : GoodOn (WordOK0 badchars) s.block [13, 10, 2, 5, 1, 15, 14, 11, 6, 0]) :
    (q4body0 asserts Compress iv badchars p8 p9 p12 q9base i s).Sat
      (fun s => GoodOn (WordOK0 badchars) s.block [13, 10, 2, 5, 1, 15, 14, 11, 6, 0])
      (fun r => GoodOn (WordOK0 badchars) r.st.block
        [12, 9, 8, 7, 4, 3, 13, 10, 2, 5, 1, 15, 14, 11, 6, 0]) := by
  unfold q4body0
  lift_lets
  intro s1 s2 s3 s4 s5
  have h2 : GoodOn (WordOK0 badchars) s2.block [13, 10, 2, 5, 1, 15, 14, 11, 6, 0] :=
    GoodOn_set _ s1.block _ 3 _ (by decide) hs
  have h3 : GoodOn (WordOK0 badchars) s3.block [13, 10, 2, 5, 1, 15, 14, 11, 6, 0] :=
    GoodOn_set _ s2.block _ 4 _ (by decide) h2
  have h4 : GoodOn (WordOK0 badchars) s4.block [13, 10, 2, 5, 1, 15, 14, 11, 6, 0] :=
    GoodOn_set _ s3.block _ 7 _ (by decide) h3
  have h5 : GoodOn (WordOK0 badchars) s5.block [13, 10, 2, 5, 1, 15, 14, 11, 6, 0] := h4
  refine Ctl.Sat_ite (fun _ => h2) (fun b3 => ?_)
  refine Ctl.Sat_ite (fun _ => h3) (fun b4 => ?_)
  refine Ctl.Sat_ite (fun _ => trivial) (fun _ => ?_)
  refine Ctl.Sat_ite (fun _ => trivial) (fun _ => ?_)
  refine Ctl.Sat_ite (fun _ => h4) (fun b7 => ?_)
  refine Ctl.Sat_ite (fun _ => h5) (fun _ => ?_)
  refine Ctl.Sat_ite (fun _ => trivial) (fun _ => ?_)
  have g3 : GoodOn (WordOK0 badchars) s2.block [3, 13, 10, 2, 5, 1, 15, 14, 11, 6, 0] :=
    GoodOn_cons _ _ _ 3 (WordOK0_plain _ _ _ (by decide) (by decide) (by decide) b3) h2
  have g3a : GoodOn (WordOK0 badchars) s3.block [3, 13, 10, 2, 5, 1, 15, 14, 11, 6, 0] :=
    GoodOn_set _ s2.block _ 4 _ (by decide) g3
  have g4 : GoodOn (WordOK0 badchars) s3.block [4, 3, 13, 10, 2, 5, 1, 15, 14, 11, 6, 0] :=
    GoodOn_cons _ _ _ 4 (WordOK0_4 _ _ b4) g3a
  have g4a : GoodOn (WordOK0 badchars) s4.block [4, 3, 13, 10, 2, 5, 1, 15, 14, 11, 6, 0] :=
    GoodOn_set _ s3.block _ 7 _ (by decide) g4
  have g7 : GoodOn (WordOK0 badchars) s5.block [7, 4, 3, 13, 10, 2, 5, 1, 15, 14, 11, 6, 0] :=
    GoodOn_cons _ _ _ 7 (WordOK0_plain _ _ _ (by decide) (by decide) (by decide) b7) g4a
  exact (forLoop_sat _ _ _
    (fun j t ht => q9body0_good asserts Compress iv badchars p8 p9 p12 q9base j t ht)
    65536 0 s5 g7).mono
    (fun _ h => GoodOn_tail _ _ _ _ (GoodOn_tail _ _ _ _ (GoodOn_tail _ _ _ _ h)))
    (fun _ h => h)

theorem q10body0_good (asserts : Bool) (Compress : Words 4 → Words 16 → Words 4)
    (iv : Words 4) (badchars : Option (List Nat)) (i : Nat) (s : St 28)
    (hs : GoodOn (WordOK0 badchars) s.block [2, 5, 1, 15, 14, 11, 6, 0]) :
    (q10body0 asserts Compress iv badchars i s).Sat
      (fun s => GoodOn (WordOK0 badchars) s.block [2, 5, 1, 15, 14, 11, 6, 0])
      (fun r => GoodOn (WordOK0 badchars) r.st.block
        [12, 9, 8, 7, 4, 3, 13, 10, 2, 5, 1, 15, 14, 11, 6, 0]) := by
  unfold q10body0
  lift_lets
  intro s1 s2 s3 s4 s5 s6 t1 t2 t3 p8 p9 p12 q9base
  have h3 : GoodOn (WordOK0 badchars) s3.block [2, 5, 1, 15, 14, 11, 6, 0] :=
    GoodOn_set _ s2.block _ 10 _ (by decide) hs
  have h4 : GoodOn (WordOK0 badchars) s4.block [2, 5, 1, 15, 14, 11, 6, 0] :=
    GoodOn_set _ s3.block _ 13 _ (by decide) h3
  have h6 : GoodOn (WordOK0 badchars) s6.block [2, 5, 1, 15, 14, 11, 6, 0] := h4
  refine Ctl.Sat_ite (fun _ => h3) (fun b10 => ?_)
  refine Ctl.Sat_ite (fun _ => trivial) (fun _ => ?_)
  refine Ctl.Sat_ite (fun _ => h4) (fun b13 => ?_)
  refine Ctl.Sat_ite (fun _ => h6) (fun _ => ?_)
  refine Ctl.Sat_ite (fun _ => h6) (fun _ => ?_)
  refine Ctl.Sat_ite (fun _ => h6) (fun _ => ?_)
  refine Ctl.Sat_ite (fun _ => trivial) (fun _ => ?_)
  have g10 : GoodOn (WordOK0 badchars) s3.block [10, 2, 5, 1, 15, 14, 11, 6, 0] :=
    GoodOn_cons _ _ _ 10 (WordOK0_plain _ _ _ (by decide) (by decide) (by decide) b10) h3
  have g10a : GoodOn (WordOK0 badchars) s4.block [10, 2, 5, 1, 15, 14, 11, 6, 0] :=
    GoodOn_set _ s3.block _ 13 _ (by decide) g10
  have g13 : GoodOn (WordOK0 badchars) s6.block [13, 10, 2, 5, 1, 15, 14, 11, 6, 0] :=
    GoodOn_cons _ _ _ 13 (WordOK0_plain _ _ _ (by decide) (by decide) (by decide) b13) g10a
  exact (forLoop_sat _ _ _
    (fun j t ht => q4body0_good asserts Compress iv badchars p8 p9 p12 q9base j t ht)
    16 0 s6 g13).mono
    (fun _ h => GoodOn_tail _ _ _ _ (GoodOn_tail _ _ _ _ h)) (fun _ h => h)

theorem q17body0_good (badchars : Option (List Nat)) (i : Nat) (s : St 28)
    (hs : GoodOn (WordOK0 badchars) s.block [15, 14, 11, 6, 0]) :
    (q17body0 badchars i s).Sat
      (fun s => GoodOn (WordOK0 badchars) s.block [15, 14, 11, 6, 0])
      (fun s => GoodOn (WordOK0 badchars) s.block [2, 5, 1, 15, 14, 11, 6, 0]) := by
  unfold q17body0
  lift_lets
  intro s1 s2 s3 s4 s5 s6 s7 s8 s9
  have h4 : GoodOn (WordOK0 badchars) s4.block [15, 14, 11, 6, 0] := hs
  have h5 : GoodOn (WordOK0 badchars) s5.block [15, 14, 11, 6, 0] :=
    GoodOn_set _ s4.block _ 1 _ (by decide) h4
  have h6 : GoodOn (WordOK0 badchars) s6.block [15, 14, 11, 6, 0] := h5
  have h7 : GoodOn (WordOK0 badchars) s7.block [15, 14, 11, 6, 0] :=
    GoodOn_set _ s6.block _ 5 _ (by decide) h6
  have h8 : GoodOn (WordOK0 badchars) s8.block [15, 14, 11, 6, 0] := h7
  have h9 : GoodOn (WordOK0 badchars) s9.block [15, 14, 11, 6, 0] :=
    GoodOn_set _ s8.block _ 2 _ (by decide) h8
  refine Ctl.Sat_ite (fun _ => h4) (fun _ => ?_)
  refine Ctl.Sat_ite (fun _ => h4) (fun _ => ?_)
  refine Ctl.Sat_ite (fun _ => h4) (fun _ => ?_)
  refine Ctl.Sat_ite (fun _ => h6) (fun b1 => ?_)
  refine Ctl.Sat_ite (fun _ => h8) (fun _ => ?_)
  refine Ctl.Sat_ite (fun _ => h8) (fun b5 => ?_)
  refine Ctl.Sat_ite (fun _ => h9) (fun b2 => ?_)
  have g1 : GoodOn (WordOK0 badchars) s6.block [1, 15, 14, 11, 6, 0] :=
    GoodOn_cons _ _ _ 1 (WordOK0_plain _ _ _ (by decide) (by decide) (by decide) b1) h6
  have g1a : GoodOn (WordOK0 badchars) s7.block [1, 15, 14, 11, 6, 0] :=
    GoodOn_set _ s6.block _ 5 _ (by decide) g1
  have g5 : GoodOn (WordOK0 badchars) s8.block [5, 1, 15, 14, 11, 6, 0] :=
    GoodOn_cons _ _ _ 5 (WordOK0_plain _ _ _ (by decide) (by decide) (by decide) b5) g1a
  have g5a : GoodOn (WordOK0 badchars) s9.block [5, 1, 15, 14, 11, 6, 0] :=
    GoodOn_set _ s8.block _ 2 _ (by decide) g5
  exact GoodOn_cons _ _ _ 2 (WordOK0_plain _ _ _ (by decide) (by decide) (by decide) b2) g5a

theorem outerBody0_good (asserts : Bool) (Compress : Words 4 → Words 16 → Words 4)
    (iv : Words 4) (badchars : Option (List Nat)) (s : St 28) :
    (outerBody0 asserts Compress iv badchars s).Sat (fun _ => True)
      (fun r => GoodOn (WordOK0 badchars) r.st.block
        [12, 9, 8, 7, 4, 3, 13, 10, 2, 5, 1, 15, 14, 11, 6, 0]) := by
  unfold outerBody0
  lift_lets
  intro s1 s2 s3 s4 s5 s6
  refine Ctl.Sat_ite (fun _ => trivial) (fun b0 => ?_)
  refine Ctl.Sat_ite (fun _ => trivial) (fun b6 => ?_)
  refine Ctl.Sat_ite (fun _ => trivial) (fun b11 => ?_)
  refine Ctl.Sat_ite (fun _ => trivial) (fun b14 => ?_)
  refine Ctl.Sat_ite (fun _ => trivial) (fun b15 => ?_)
  have g0 : GoodOn (WordOK0 badchars) s2.block [0] :=
    GoodOn_cons _ _ _ 0 (WordOK0_plain _ _ _ (by decide) (by decide) (by decide) b0)
      (fun _ hi => absurd hi (List.not_mem_nil _))
  have g0a : GoodOn (WordOK0 badchars) s3.block [0] :=
    GoodOn_set _ s2.block _ 6 _ (by decide) g0
  have g6 : GoodOn (WordOK0 badchars) s3.block [6, 0] :=
    GoodOn_cons _ _ _ 6 (WordOK0_plain _ _ _ (by decide) (by decide) (by decide) b6) g0a
  have g6a : GoodOn (WordOK0 badchars) s4.block [6, 0] :=
    GoodOn_set _ s3.block _ 11 _ (by decide) g6
  have g11 : GoodOn (WordOK0 badchars) s4.block [11, 6, 0] :=
    GoodOn_cons _ _ _ 11 (WordOK0_11 _ _ b11) g6a
  have g11a : GoodOn (WordOK0 badchars) s5.block [11, 6, 0] :=
    GoodOn_set _ s4.block _ 14 _ (by decide) g11
  have g14 : GoodOn (WordOK0 badchars) s5.block [14, 11, 6, 0] :=
    GoodOn_cons _ _ _ 14 (WordOK0_14 _ _ b14) g11a
  have g14a : GoodOn (WordOK0 badchars) s6.block [14, 11, 6, 0] :=
    GoodOn_set _ s5.block _ 15 _ (by decide) g14
  have g15 : GoodOn (WordOK0 badchars) s6.block [15, 14, 11, 6, 0] :=
    GoodOn_cons _ _ _ 15 (WordOK0_plain _ _ _ (by decide) (by decide) (by decide) b15) g14a
  have hloop := forLoop_sat (q17body0 badchars) _ _
    (fun j t ht => q17body0_good badchars j t ht) 100 0 s6 g15
  split
  · trivial
  · rename_i s7 hres
    rw [hres] at hloop
    exact (forLoop_sat _ _ _
      (fun j t ht => q10body0_good asserts Compress iv badchars j t ht) 8 0 s7 hloop).mono
      (fun _ _ => trivial) (fun _ h => h)
  · trivial

theorem mem_all16 (i : Nat) (hi : i < 16) :
    i ∈ [12, 9, 8, 7, 4, 3, 13, 10, 2, 5, 1, 15, 14, 11, 6, 0] := by
  interval_cases i <;> simp

theorem MD5CollideBlock0Run_good (asserts : Bool) (Compress : Words 4 → Words 16 → Words 4)
    (iv : Words 4) (badchars : Option (List Nat)) (time : Nat) (block0 : Words 16) (fuel : Nat)
    (r : Ret 28)
    (h : MD5CollideBlock0Run asserts Compress iv badchars time block0 fuel
      = Outcome.returned r) :
    GoodOn (WordOK0 badchars) r.st.block
      [12, 9, 8, 7, 4, 3, 13, 10, 2, 5, 1, 15, 14, 11, 6, 0] := by
  unfold MD5CollideBlock0Run at h
  exact whileLoop_sat (outerBody0 asserts Compress iv badchars) (fun _ => True)
    (fun r => GoodOn (WordOK0 badchars) r.st.block
      [12, 9, 8, 7, 4, 3, 13, 10, 2, 5, 1, 15, 14, 11, 6, 0])
    (fun s _ => outerBody0_good asserts Compress iv badchars s) fuel _ r trivial h

theorem MD5CollideBlock0_good (asserts : Bool) (Compress : Words 4 → Words 16 → Words 4)
    (iv : Words 4) (badchars : Option (List Nat)) (time : Nat) (block0 : Words 16) (fuel : Nat)
    (block : Words 16)
    (h : MD5CollideBlock0 asserts Compress iv badchars time block0 fuel
      = Outcome.returned block) :
    ∀ i, i < 16 → WordOK0 badchars i (block.get i) := by
  obtain ⟨r, hr, hb⟩ := MD5CollideBlock0_eq_returned h
  have hg := MD5CollideBlock0Run_good asserts Compress iv badchars time block0 fuel r hr
  rw [hb] at hg
  intro i hi
  exact hg i (mem_all16 i hi)

theorem q9body1_good (asserts : Bool) (Compress : Words 4 → Words 16 → Words 4)
    (iv : Words 4) (badchars : Option (List Nat)) (q9m9bits : List Nat)
    (a2 b2 c2 d2 q9save i : Nat) (s : St 25)
    (hs : GoodOn (WordOK1 badchars) s.block [13, 10, 2, 4, 3, 1, 0, 15, 14, 11, 7, 6, 5]) :
    (q9body1 asserts Compress iv badchars q9m9bits a2 b2 c2 d2 q9save i s).Sat
      (fun s => GoodOn (WordOK1 badchars) s.block [13, 10, 2, 4, 3, 1, 0, 15, 14, 11, 7, 6, 5])
      (fun r => GoodOn (WordOK1 badchars) r.st.block
        [12, 9, 8, 13, 10, 2, 4, 3, 1, 0, 15, 14, 11, 7, 6, 5]) := by
  unfold q9body1
  lift_lets
  intro s1 s2 s3 s4
  have h2 : GoodOn (WordOK1 badchars) s2.block [13, 10, 2, 4, 3, 1, 0, 15, 14, 11, 7, 6, 5] :=
    GoodOn_set _ s1.block _ 8 _ (by decide) hs
  have h3 : GoodOn (WordOK1 badchars) s3.block [13, 10, 2, 4, 3, 1, 0, 15, 14, 11, 7, 6, 5] :=
    GoodOn_set _ s2.block _ 9 _ (by decide) h2
  have h4 : GoodOn (WordOK1 badchars) s4.block [13, 10, 2, 4, 3, 1, 0, 15, 14, 11, 7, 6, 5] :=
    GoodOn_set _ s3.block _ 12 _ (by decide) h3
  refine Ctl.Sat_ite (fun _ => h2) (fun b8 => ?_)
  refine Ctl.Sat_ite (fun _ => h3) (fun b9 => ?_)
  refine Ctl.Sat_ite (fun _ => trivial) (fun _ => ?_)
  refine Ctl.Sat_ite (fun _ => trivial) (fun _ => ?_)
  refine Ctl.Sat_ite (fun _ => h4) (fun b12 => ?_)
  have g8 : GoodOn (WordOK1 badchars) s2.block
      [8, 13, 10, 2, 4, 3, 1, 0, 15, 14, 11, 7, 6, 5] :=
    GoodOn_cons _ _ _ 8 (WordOK1_plain _ _ _ (by decide) (by decide) (by decide) b8) h2
  have g8a : GoodOn (WordOK1 badchars) s3.block
      [8, 13, 10, 2, 4, 3, 1, 0, 15, 14, 11, 7, 6, 5] :=
    GoodOn_set _ s2.block _ 9 _ (by decide) g8
  have g9 : GoodOn (WordOK1 badchars) s3.block
      [9, 8, 13, 10, 2, 4, 3, 1, 0, 15, 14, 11, 7, 6, 5] :=
    GoodOn_cons _ _ _ 9 (WordOK1_plain _ _ _ (by decide) (by decide) (by decide) b9) g8a
  have g9a : GoodOn (WordOK1 badchars) s4.block
      [9, 8, 13, 10, 2, 4, 3, 1, 0, 15, 14, 11, 7, 6, 5] :=
    GoodOn_set _ s3.block _ 12 _ (by decide) g9
  have g12 : GoodOn (WordOK1 badchars) s4.block
      [12, 9, 8, 13, 10, 2, 4, 3, 1, 0, 15, 14, 11, 7, 6, 5] :=
    GoodOn_cons _ _ _ 12 (WordOK1_plain _ _ _ (by decide) (by decide) (by decide) b12) g9a
  split
  · exact h4
  · exact (finish1_keeps asserts Compress iv _ s4 _ _ _ _ _ _ _ _ g12).mono
      (fun _ h => GoodOn_tail _ _ _ _ (GoodOn_tail _ _ _ _ (GoodOn_tail _ _ _ _ h)))
      (fun _ h => h.1)

theorem q10body1_good (asserts : Bool) (Compress : Words 4 → Words 16 → Words 4)
    (iv : Words 4) (badchars : Option (List Nat)) (qc : List qcond)
    (q9m9bits q9q10bits : List Nat) (q9base q10base i : Nat) (s : St 25)
    (hs : GoodOn (WordOK1 badchars) s.block [2, 4, 3, 1, 0, 15, 14, 11, 7, 6, 5]) :
    (q10body1 asserts Compress iv badchars qc q9m9bits q9q10bits q9base q10base i s).Sat
      (fun s => GoodOn (WordOK1 badchars) s.block [2, 4, 3, 1, 0, 15, 14, 11, 7, 6, 5])
      (fun r => GoodOn (WordOK1 badchars) r.st.block
        [12, 9, 8, 13, 10, 2, 4, 3, 1, 0, 15, 14, 11, 7, 6, 5]) := by
  unfold q10body1
  lift_lets
  intro s1 q9save s2 s3 a2 b2 c2 d2 d2a c2a c2b c2c b2a s4
  have h3 : GoodOn (WordOK1 badchars) s3.block [2, 4, 3, 1, 0, 15, 14, 11, 7, 6, 5] :=
    GoodOn_set _ s2.block _ 10 _ (by decide) hs
  have h4 : GoodOn (WordOK1 badchars) s4.block [2, 4, 3, 1, 0, 15, 14, 11, 7, 6, 5] :=
    GoodOn_set _ s3.block _ 13 _ (by decide) h3
  refine Ctl.Sat_ite (fun _ => h3) (fun b10 => ?_)
  refine Ctl.Sat_ite (fun _ => trivial) (fun _ => ?_)
  refine Ctl.Sat_ite (fun _ => h3) (fun _ => ?_)
  refine Ctl.Sat_ite (fun _ => h3) (fun _ => ?_)
  refine Ctl.Sat_ite (fun _ => h3) (fun _ => ?_)
  refine Ctl.Sat_ite (fun _ => h3) (fun _ => ?_)
  refine Ctl.Sat_ite (fun _ => h4) (fun b13 => ?_)
  have g10 : GoodOn (WordOK1 badchars) s3.block [10, 2, 4, 3, 1, 0, 15, 14, 11, 7, 6, 5] :=
    GoodOn_cons _ _ _ 10 (WordOK1_plain _ _ _ (by decide) (by decide) (by decide) b10) h3
  have g10a : GoodOn (WordOK1 badchars) s4.block [10, 2, 4, 3, 1, 0, 15, 14, 11, 7, 6, 5] :=
    GoodOn_set _ s3.block _ 13 _ (by decide) g10
  have g13 : GoodOn (WordOK1 badchars) s4.block
      [13, 10, 2, 4, 3, 1, 0, 15, 14, 11, 7, 6, 5] :=
    GoodOn_cons _ _ _ 13 (WordOK1_plain _ _ _ (by decide) (by decide) (by decide) b13) g10a
  exact (forLoop_sat _ _ _
    (fun j t ht => q9body1_good asserts Compress iv badchars q9m9bits a2 b2a c2c d2a q9save j t
      ht) 512 0 s4 g13).mono
    (fun _ h => GoodOn_tail _ _ _ _ (GoodOn_tail _ _ _ _ h)) (fun _ h => h)

theorem q1body1_good (badchars : Option (List Nat)) (qc : List qcond) (i : Nat) (s : St 25)
    (hs : GoodOn (WordOK1 badchars) s.block [15, 14, 11, 7, 6, 5]) :
    (q1body1 badchars qc i s).Sat
      (fun s => GoodOn (WordOK1 badchars) s.block [15, 14, 11, 7, 6, 5])
      (fun s => GoodOn (WordOK1 badchars) s.block [2, 4, 3, 1, 0, 15, 14, 11, 7, 6, 5]) := by
  unfold q1body1
  lift_lets
  intro s1 s2 s3 s4 s5 s6 s7 s8 s9 s10 s11
  have h2 : GoodOn (WordOK1 badchars) s2.block [15, 14, 11, 7, 6, 5] :=
    GoodOn_set _ s1.block _ 0 _ (by decide) hs
  have h3 : GoodOn (WordOK1 badchars) s3.block [15, 14, 11, 7, 6, 5] :=
    GoodOn_set _ s2.block _ 1 _ (by decide) h2
  have h4 : GoodOn (WordOK1 badchars) s4.block [15, 14, 11, 7, 6, 5] :=
    GoodOn_set _ s3.block _ 3 _ (by decide) h3
  have h5 : GoodOn (WordOK1 badchars) s5.block [15, 14, 11, 7, 6, 5] :=
    GoodOn_set _ s4.block _ 4 _ (by decide) h4
  have h10 : GoodOn (WordOK1 badchars) s10.block [15, 14, 11, 7, 6, 5] := h5
  have h11 : GoodOn (WordOK1 badchars) s11.block [15, 14, 11, 7, 6, 5] :=
    GoodOn_set _ s10.block _ 2 _ (by decide) h10
  refine Ctl.Sat_ite (fun _ => h2) (fun b0 => ?_)
  refine Ctl.Sat_ite (fun _ => h3) (fun b1 => ?_)
  refine Ctl.Sat_ite (fun _ => h4) (fun b3 => ?_)
  refine Ctl.Sat_ite (fun _ => h5) (fun b4 => ?_)
  refine Ctl.Sat_ite (fun _ => h10) (fun _ => ?_)
  refine Ctl.Sat_ite (fun _ => h10) (fun _ => ?_)
  refine Ctl.Sat_ite (fun _ => h10) (fun _ => ?_)
  refine Ctl.Sat_ite (fun _ => h10) (fun _ => ?_)
  refine Ctl.Sat_ite (fun _ => h10) (fun _ => ?_)
  refine Ctl.Sat_ite (fun _ => h11) (fun b2 => ?_)
  have g0 : GoodOn (WordOK1 badchars) s2.block [0, 15, 14, 11, 7, 6, 5] :=
    GoodOn_cons _ _ _ 0 (WordOK1_plain _ _ _ (by decide) (by decide) (by decide) b0) h2
  have g0a : GoodOn (WordOK1 badchars) s3.block [0, 15, 14, 11, 7, 6, 5] :=
    GoodOn_set _ s2.block _ 1 _ (by decide) g0
  have g1 : GoodOn (WordOK1 badchars) s3.block [1, 0, 15, 14, 11, 7, 6, 5] :=
    GoodOn_cons _ _ _ 1 (WordOK1_plain _ _ _ (by decide) (by decide) (by decide) b1) g0a
  have g1a : GoodOn (WordOK1 badchars) s4.block [1, 0, 15, 14, 11, 7, 6, 5] :=
    GoodOn_set _ s3.block _ 3 _ (by decide) g1
  have g3 : GoodOn (WordOK1 badchars) s4.block [3, 1, 0, 15, 14, 11, 7, 6, 5] :=
    GoodOn_cons _ _ _ 3 (WordOK1_plain _ _ _ (by decide) (by decide) (by decide) b3) g1a
  have g3a : GoodOn (WordOK1 badchars) s5.block [3, 1, 0, 15, 14, 11, 7, 6, 5] :=
    GoodOn_set _ s4.block _ 4 _ (by decide) g3
  have g4 : GoodOn (WordOK1 badchars) s10.block [4, 3, 1, 0, 15, 14, 11, 7, 6, 5] :=
    GoodOn_cons _ _ _ 4 (WordOK1_4 _ _ b4) g3a
  have g4a : GoodOn (WordOK1 badchars) s11.block [4, 3, 1, 0, 15, 14, 11, 7, 6, 5] :=
    GoodOn_set _ s10.block _ 2 _ (by decide) g4
  exact GoodOn_cons _ _ _ 2 (WordOK1_plain _ _ _ (by decide) (by decide) (by decide) b2) g4a

theorem tunnels1_good (asserts : Bool) (Compress : Words 4 → Words 16 → Words 4)
    (iv : Words 4) (badchars : Option (List Nat)) (qc : List qcond) (m9mask m9m10mask : Nat)
    (q9m9bits q9q10bits : List Nat) (num : Nat) (s : St 25)
    (hs : GoodOn (WordOK1 badchars) s.block [2, 4, 3, 1, 0, 15, 14, 11, 7, 6, 5]) :
    (tunnels1 asserts Compress iv badchars qc m9mask m9m10mask q9m9bits q9q10bits num s).Sat
      (fun _ => True)
      (fun r => GoodOn (WordOK1 badchars) r.st.block
        [12, 9, 8, 13, 10, 2, 4, 3, 1, 0, 15, 14, 11, 7, 6, 5]) := by
  unfold tunnels1
  lift_lets
  intro q9base q10base
  refine Ctl.Sat_ite (fun _ => trivial) (fun _ => ?_)
  refine Ctl.Sat_ite (fun _ => trivial) (fun _ => ?_)
  refine Ctl.Sat_ite (fun _ => trivial) (fun _ => ?_)
  exact (forLoop_sat _ _ _
    (fun j t ht => q10body1_good asserts Compress iv badchars qc q9m9bits q9q10bits q9base
      q10base j t ht) num 0 s hs).mono (fun _ _ => trivial) (fun _ h => h)

theorem outerBody1_good (asserts : Bool) (Compress : Words 4 → Words 16 → Words 4)
    (iv : Words 4) (badchars : Option (List Nat)) (qc : List qcond) (m9mask m9m10mask : Nat)
    (q9m9bits q9q10bits : List Nat) (num : Nat) (s : St 25) :
    (outerBody1 asserts Compress iv badchars qc m9mask m9m10mask q9m9bits q9q10bits num s).Sat
      (fun _ => True)
      (fun r => GoodOn (WordOK1 badchars) r.st.block
        [12, 9, 8, 13, 10, 2, 4, 3, 1, 0, 15, 14, 11, 7, 6, 5]) := by
  unfold outerBody1
  lift_lets
  intro s1 s2 s3 s4 s5 s6 s7 s8
  refine Ctl.Sat_ite (fun _ => trivial) (fun b5 => ?_)
  refine Ctl.Sat_ite (fun _ => trivial) (fun b6 => ?_)
  refine Ctl.Sat_ite (fun _ => trivial) (fun b7 => ?_)
  refine Ctl.Sat_ite (fun _ => trivial) (fun b11 => ?_)
  refine Ctl.Sat_ite (fun _ => trivial) (fun b14 => ?_)
  refine Ctl.Sat_ite (fun _ => trivial) (fun b15 => ?_)
  have g5 : GoodOn (WordOK1 badchars) s3.block [5] :=
    GoodOn_cons _ _ _ 5 (WordOK1_plain _ _ _ (by decide) (by decide) (by decide) b5)
      (fun _ hi => absurd hi (List.not_mem_nil _))
  have g5a : GoodOn (WordOK1 badchars) s4.block [5] :=
    GoodOn_set _ s3.block _ 6 _ (by decide) g5
  have g6 : GoodOn (WordOK1 badchars) s4.block [6, 5] :=
    GoodOn_cons _ _ _ 6 (WordOK1_plain _ _ _ (by decide) (by decide) (by decide) b6) g5a
  have g6a : GoodOn (WordOK1 badchars) s5.block [6, 5] :=
    GoodOn_set _ s4.block _ 7 _ (by decide) g6
  have g7 : GoodOn (WordOK1 badchars) s5.block [7, 6, 5] :=
    GoodOn_cons _ _ _ 7 (WordOK1_plain _ _ _ (by decide) (by decide) (by decide) b7) g6a
  have g7a : GoodOn (WordOK1 badchars) s6.block [7, 6, 5] :=
    GoodOn_set _ s5.block _ 11 _ (by decide) g7
  have g11 : GoodOn (WordOK1 badchars) s6.block [11, 7, 6, 5] :=
    GoodOn_cons _ _ _ 11 (WordOK1_11 _ _ b11) g7a
  have g11a : GoodOn (WordOK1 badchars) s7.block [11, 7, 6, 5] :=
    GoodOn_set _ s6.block _ 14 _ (by decide) g11
  have g14 : GoodOn (WordOK1 badchars) s7.block [14, 11, 7, 6, 5] :=
    GoodOn_cons _ _ _ 14 (WordOK1_14 _ _ b14) g11a
  have g14a : GoodOn (WordOK1 badchars) s8.block [14, 11, 7, 6, 5] :=
    GoodOn_set _ s7.block _ 15 _ (by decide) g14
  have g15 : GoodOn (WordOK1 badchars) s8.block [15, 14, 11, 7, 6, 5] :=
    GoodOn_cons _ _ _ 15 (WordOK1_plain _ _ _ (by decide) (by decide) (by decide) b15) g14a
  have hloop := forLoop_sat (q1body1 badchars qc) _ _
    (fun j t ht => q1body1_good badchars qc j t ht) 2000 0 s8 g15
  split
  · trivial
  · rename_i s9 hres
    rw [hres] at hloop
    exact tunnels1_good asserts Compress iv badchars qc m9mask m9m10mask q9m9bits q9q10bits
      num s9 hloop
  · trivial

theorem mem_all16b (i : Nat) (hi : i < 16) :
    i ∈ [12, 9, 8, 13, 10, 2, 4, 3, 1, 0, 15, 14, 11, 7, 6, 5] := by
  interval_cases i <;> simp

theorem MD5CollideBlock1_good (asserts : Bool) (Compress : Words 4 → Words 16 → Words 4)
    (iv : Words 4) (badchars : Option (List Nat)) (time : Nat) (block0 : Words 16) (fuel : Nat)
    (block : Words 16)
    (h : MD5CollideBlock1 asserts Compress iv badchars time block0 fuel
      = Outcome.returned block) :
    ∀ i, i < 16 → WordOK1 badchars i (block.get i) := by
  obtain ⟨r, hr, hb⟩ := MD5CollideBlock1_eq_returned h
  unfold MD5CollideBlock1Run at hr
  split at hr
  · simp at hr
  · simp at hr
  · rename_i q9m9bits h9
    split at hr
    · simp at hr
    · simp at hr
    · rename_i q9q10bits num h10
      have hg := whileLoop_sat
        (outerBody1 asserts Compress iv badchars (qconds2.getD (pathOf iv) [])
          (q9m9masks.getD (pathOf iv) 0) (q9q10masks.getD (pathOf iv) 0)
          q9m9bits q9q10bits num) (fun _ => True)
        (fun r => GoodOn (WordOK1 badchars) r.st.block
          [12, 9, 8, 13, 10, 2, 4, 3, 1, 0, 15, 14, 11, 7, 6, 5])
        (fun s _ => outerBody1_good asserts Compress iv badchars _ _ _ q9m9bits q9q10bits num s)
        fuel _ r trivial hr
      simp only [] at hg
      rw [hb] at hg
      intro i hi
      exact hg i (mem_all16b i hi)

theorem Clean_of_not_bad (t : List Nat) (w : Nat) (h : HAS_BAD_CHARS (some t) w = false) :
    Clean t w := by
  unfold HAS_BAD_CHARS at h
  simp only [Bool.or_eq_false_iff, bne_eq_false_iff_eq] at h
  exact ⟨h.1.1.1, h.1.1.2, h.1.2, h.2⟩

/-- C5.  Bad-character respect: if a table `t` is supplied and an engine returns, none of
the four bytes of any word of the returned block is marked in `t`, and the same holds for
the shifted variants of words 4, 11 and 14 (`+2^31, +2^15, +2^31` for the first block,
`-2^31, -2^15, -2^31` for the second). -/
theorem bad_characters_respected (asserts : Bool) (Compress : Words 4 → Words 16 → Words 4)
    (t : List Nat) (iv0 iv1 : Words 4) (time0 time1 : Nat) (buf0 buf1 : Words 16)
    (fuel0 fuel1 : Nat) (B0 B1 : Words 16) :
    (MD5CollideBlock0 asserts Compress iv0 (some t) time0 buf0 fuel0 = Outcome.returned B0 →
      (∀ i, i < 16 → Clean t (B0.get i)) ∧ Clean t (add32 (B0.get 4) (2 ^ 31)) ∧
        Clean t (add32 (B0.get 11) (2 ^ 15)) ∧ Clean t (add32 (B0.get 14) (2 ^ 31))) ∧
    (MD5CollideBlock1 asserts Compress iv1 (some t) time1 buf1 fuel1 = Outcome.returned B1 →
      (∀ i, i < 16 → Clean t (B1.get i)) ∧ Clean t (sub32 (B1.get 4) (2 ^ 31)) ∧
        Clean t (sub32 (B1.get 11) (2 ^ 15)) ∧ Clean t (sub32 (B1.get 14) (2 ^ 31))) := by
  have e31 : (1 <<< 31 : Nat) = 2 ^ 31 := by decide
  have e15 : (1 <<< 15 : Nat) = 2 ^ 15 := by decide
  constructor
  · intro h
    have hg := MD5CollideBlock0_good asserts Compress iv0 (some t) time0 buf0 fuel0 B0 h
    refine ⟨fun i hi => Clean_of_not_bad t _ (hg i hi).1, ?_, ?_, ?_⟩
    · have := (hg 4 (by decide)).2.1 rfl
      rw [e31] at this
      exact Clean_of_not_bad t _ this
    · have := (hg 11 (by decide)).2.2.1 rfl
      rw [e15] at this
      exact Clean_of_not_bad t _ this
    · have := (hg 14 (by decide)).2.2.2 rfl
      rw [e31] at this
      exact Clean_of_not_bad t _ this
  · intro h
    have hg := MD5CollideBlock1_good asserts Compress iv1 (some t) time1 buf1 fuel1 B1 h
    refine ⟨fun i hi => Clean_of_not_bad t _ (hg i hi).1, ?_, ?_, ?_⟩
    · have := (hg 4 (by decide)).2.1 rfl
      rw [e31] at this
      exact Clean_of_not_bad t _ this
    · have := (hg 11 (by decide)).2.2.1 rfl
      rw [e15] at this
      exact Clean_of_not_bad t _ this
    · have := (hg 14 (by decide)).2.2.2 rfl
      rw [e31] at this
      exact Clean_of_not_bad t _ this

/-- Witness of C5 on the runs `block0_example` and `block1_example`. -/
theorem bad_characters_respected_witness :
    ((∀ i, i < 16 → Clean unclean_map (exRet0.st.block.get i)) ∧
      Clean unclean_map (add32 (exRet0.st.block.get 4) (2 ^ 31)) ∧
      Clean unclean_map (add32 (exRet0.st.block.get 11) (2 ^ 15)) ∧
      Clean unclean_map (add32 (exRet0.st.block.get 14) (2 ^ 31))) ∧
    ((∀ i, i < 16 → Clean unclean_map (exRet1.st.block.get i)) ∧
      Clean unclean_map (sub32 (exRet1.st.block.get 4) (2 ^ 31)) ∧
      Clean unclean_map (sub32 (exRet1.st.block.get 11) (2 ^ 15)) ∧
      Clean unclean_map (sub32 (exRet1.st.block.get 14) (2 ^ 31))) :=
  ⟨(bad_characters_respected true MD5Transform unclean_map stdIV exIV1 1612755449 1635797866
      zeroBlock zeroBlock 1 2 exRet0.st.block exRet1.st.block).1 block0_example,
    (bad_characters_respected true MD5Transform unclean_map stdIV exIV1 1612755449 1635797866
      zeroBlock zeroBlock 1 2 exRet0.st.block exRet1.st.block).2 block1_example⟩
/-! ## The statements on the example run -/

/-- Witness of C1 on the run `block0_example`. -/
theorem MD5CollideBlock0_differential_closure_witness :
    sub32 ((MD5Transform stdIV (addDelta0 exRet0.st.block)).get 0)
      ((MD5Transform stdIV exRet0.st.block).get 0) = 2 ^ 31 ∧
    sub32 ((MD5Transform stdIV (addDelta0 exRet0.st.block)).get 1)
      ((MD5Transform stdIV exRet0.st.block).get 1) = 2 ^ 31 + 2 ^ 25 ∧
    sub32 ((MD5Transform stdIV (addDelta0 exRet0.st.block)).get 2)
      ((MD5Transform stdIV exRet0.st.block).get 2) = 2 ^ 31 + 2 ^ 25 ∧
    sub32 ((MD5Transform stdIV (addDelta0 exRet0.st.block)).get 3)
      ((MD5Transform stdIV exRet0.st.block).get 3) = 2 ^ 31 + 2 ^ 25 :=
  MD5CollideBlock0_differential_closure true MD5Transform stdIV (some unclean_map) 1612755449
    zeroBlock 1 exRet0.st.block block0_example

/-- Witness of C2 on the run `block1_example`. -/
theorem MD5CollideBlock1_differential_closure_witness :
    (MD5Transform (addDeltaIV exIV1) (subDelta1 exRet1.st.block)).get 0
      = (MD5Transform exIV1 exRet1.st.block).get 0 ∧
    (MD5Transform (addDeltaIV exIV1) (subDelta1 exRet1.st.block)).get 1
      = (MD5Transform exIV1 exRet1.st.block).get 1 ∧
    (MD5Transform (addDeltaIV exIV1) (subDelta1 exRet1.st.block)).get 2
      = (MD5Transform exIV1 exRet1.st.block).get 2 ∧
    (MD5Transform (addDeltaIV exIV1) (subDelta1 exRet1.st.block)).get 3
      = (MD5Transform exIV1 exRet1.st.block).get 3 :=
  MD5CollideBlock1_differential_closure true MD5Transform exIV1 (some unclean_map) 1635797866
    zeroBlock 2 exRet1.st.block block1_example

theorem block1_after_block0_example :
    MD5CollideBlock1 true MD5Transform (MD5Transform stdIV exRet0.st.block) (some unclean_map)
      1635797866 zeroBlock 2 = Outcome.returned exRet1.st.block := by
  rw [transform_example]
  exact block1_example

/-- Witness of C3: the two example runs in sequence, from the standard initial value. -/
theorem two_block_collision_witness :
    MD5Transform (MD5Transform stdIV exRet0.st.block) exRet1.st.block
      = MD5Transform (MD5Transform stdIV (addDelta0 exRet0.st.block))
          (subDelta1 exRet1.st.block) :=
  two_block_collision true true MD5Transform stdIV (some unclean_map) (some unclean_map)
    1612755449 1635797866 zeroBlock zeroBlock 1 2 exRet0.st.block exRet1.st.block
    block0_example block1_after_block0_example

/-- Witness of C7 on the first step of the trail of `exRet0`. -/
theorem MD5STEP_MD5UNSTEP_inverse_witness :
    MD5STEP F1 (exRet0.st.Q.get 0) (exRet0.st.Q.get (0 + 3)) (exRet0.st.Q.get (0 + 2))
        (exRet0.st.Q.get (0 + 1)) (add32 (MD5UNSTEP exRet0.st.Q 0 0xd76aa478 7) 0xd76aa478) 7
      = exRet0.st.Q.get (0 + 4) ∧
    (∀ mw, mw < 2 ^ 32 →
      exRet0.st.Q.get (0 + 4) = MD5STEP F1 (exRet0.st.Q.get 0) (exRet0.st.Q.get (0 + 3))
        (exRet0.st.Q.get (0 + 2)) (exRet0.st.Q.get (0 + 1)) (add32 mw 0xd76aa478) 7 →
        MD5UNSTEP exRet0.st.Q 0 0xd76aa478 7 = mw) ∧
    MD5STEP F2 (exRet0.st.Q.get 0) (exRet0.st.Q.get (0 + 3)) (exRet0.st.Q.get (0 + 2))
        (exRet0.st.Q.get (0 + 1)) (add32 (MD5UNSTEP2 exRet0.st.Q 0 0xd76aa478 7) 0xd76aa478) 7
      = exRet0.st.Q.get (0 + 4) ∧
    (∀ mw, mw < 2 ^ 32 →
      exRet0.st.Q.get (0 + 4) = MD5STEP F2 (exRet0.st.Q.get 0) (exRet0.st.Q.get (0 + 3))
        (exRet0.st.Q.get (0 + 2)) (exRet0.st.Q.get (0 + 1)) (add32 mw 0xd76aa478) 7 →
        MD5UNSTEP2 exRet0.st.Q 0 0xd76aa478 7 = mw) :=
  MD5STEP_MD5UNSTEP_inverse exRet0.st.Q 0 0xd76aa478 7 (by decide) (by decide)

/-- Witness of C8 on three words. -/
theorem round_functions_standard_witness :
    F1 0x67452301 0xefcdab89 0x98badcfe = F1_unoptimized 0x67452301 0xefcdab89 0x98badcfe ∧
    F2 0x67452301 0xefcdab89 0x98badcfe = F2_standard 0x67452301 0xefcdab89 0x98badcfe ∧
    F3 0x67452301 0xefcdab89 0x98badcfe = F3_standard 0x67452301 0xefcdab89 0x98badcfe ∧
    F4 0x67452301 0xefcdab89 0x98badcfe = F4_standard 0x67452301 0xefcdab89 0x98badcfe :=
  round_functions_standard 0x67452301 0xefcdab89 0x98badcfe (by decide) (by decide)
/-! ## The path selector of the second block -/

/-- C13.  For every chaining value, `path = (iv[1] & 1) | ((iv[1] >> 5) & 2)` is one of
0, 1, 2, 3, so the lookups `qconds2[path]`, `q9m9masks[path]` and `q9q10masks[path]` are
inside their four-entry tables, and the paths 0, 1, 2, 3 select `qc00`, `qc01`, `qc10`,
`qc11`. -/
theorem path_lookups_in_range (iv : Words 4) :
    pathOf iv = ((iv.get 1 &&& 1) ||| ((iv.get 1 >>> 5) &&& 2)) ∧
    (pathOf iv = 0 ∨ pathOf iv = 1 ∨ pathOf iv = 2 ∨ pathOf iv = 3) ∧
    qconds2.length = 4 ∧ q9m9masks.length = 4 ∧ q9q10masks.length = 4 ∧
    pathOf iv < qconds2.length ∧ pathOf iv < q9m9masks.length ∧
    pathOf iv < q9q10masks.length ∧
    qconds2.get? (pathOf iv) = some (qconds2.getD (pathOf iv) []) ∧
    q9m9masks.get? (pathOf iv) = some (q9m9masks.getD (pathOf iv) 0) ∧
    q9q10masks.get? (pathOf iv) = some (q9q10masks.getD (pathOf iv) 0) ∧
    qconds2.getD 0 [] = qc00 ∧ qconds2.getD 1 [] = qc01 ∧ qconds2.getD 2 [] = qc10 ∧
    qconds2.getD 3 [] = qc11 := by
  have h := pathOf_lt iv
  refine ⟨rfl, ?_, rfl, rfl, rfl, h, h, h, ?_, ?_, ?_, rfl, rfl, rfl, rfl⟩
  · omega
  · generalize pathOf iv = p at h
    interval_cases p <;> rfl
  · generalize pathOf iv = p at h
    interval_cases p <;> rfl
  · generalize pathOf iv = p at h
    interval_cases p <;> rfl

/-! ## Sampling and verification -/

theorem Q_BAD_sampleQ {m : Nat} (qc : List qcond) (i : Nat) (s : St m) (hi : i + 3 < m)
    (hrow : rowOK (qrow qc i) = true) : Q_BAD (sampleQ qc i s).Q i qc = false := by
  rw [Q_BAD_false_iff]
  unfold sampleQ
  exact CondHolds_sample qc s.Q i _ hi hrow

theorem row_sample_passes (row : qcond) (r p : Nat) (hrow : rowOK row = true) :
    ((((r &&& row.mask) ||| (p &&& row.pmask)) ^^^ row.inv) &&& row.cbits)
      ^^^ (p &&& row.pmask) = row.inv := by
  unfold rowOK at hrow
  simp only [Bool.and_eq_true, beq_iff_eq] at hrow
  exact sample_passes _ _ _ _ _ _ hrow.1.1 hrow.1.2 hrow.2

/-- C16.  Sampling implies verification: for the rows used for sampling (rows 1 to 17
of `qconds`, rows 1 to 16 of each table of `qconds2`), every draw `r` and every previous
register `p`, the sampled value `((r & mask) | (p & pmask)) ^ inv` satisfies
`((q & cbits) ^ (p & pmask)) == inv`; and `Q_BAD` is false for a register that the
sampling statement has just written. -/
theorem sampling_implies_verification (r p : Nat) :
    (∀ i, 1 ≤ i → i ≤ 17 →
      ((((r &&& (qrow qconds i).mask) ||| (p &&& (qrow qconds i).pmask))
        ^^^ (qrow qconds i).inv) &&& (qrow qconds i).cbits)
        ^^^ (p &&& (qrow qconds i).pmask) = (qrow qconds i).inv) ∧
    (∀ path, path < 4 → ∀ i, 1 ≤ i → i ≤ 16 →
      ((((r &&& (qrow (qconds2.getD path []) i).mask) |||
        (p &&& (qrow (qconds2.getD path []) i).pmask))
        ^^^ (qrow (qconds2.getD path []) i).inv) &&& (qrow (qconds2.getD path []) i).cbits)
        ^^^ (p &&& (qrow (qconds2.getD path []) i).pmask)
        = (qrow (qconds2.getD path []) i).inv) ∧
    (∀ (s : St 28) i, 1 ≤ i → i ≤ 17 → Q_BAD (sampleQ qconds i s).Q i qconds = false) ∧
    (∀ path, path < 4 → ∀ (s : St 25) i, 1 ≤ i → i ≤ 16 →
      Q_BAD (sampleQ (qconds2.getD path []) i s).Q i (qconds2.getD path []) = false) ∧
    (qrow qconds 17).mask = 0x3ffd7ff7 ∧ (qrow qconds 17).pmask = 0x40008008 ∧
    (qrow qconds 17).inv = 0xc0000000 := by
  refine ⟨?_, ?_, ?_, ?_, rfl, rfl, rfl⟩
  · intro i h1 h2
    exact row_sample_passes _ r p (rows_qconds_ok i h1 h2)
  · intro path hp i h1 h2
    exact row_sample_passes _ r p ((pathOK_path path hp).rows i h1 h2)
  · intro s i h1 h2
    exact Q_BAD_sampleQ qconds i s (by omega) (rows_qconds_ok i h1 h2)
  · intro path hp s i h1 h2
    exact Q_BAD_sampleQ _ i s (by omega) ((pathOK_path path hp).rows i h1 h2)

/-! ## The sixteen-bit tunnel of the first block -/

theorem testBit_perm9 (x p : Nat) :
    (perm9 x).testBit p = (Bool.xor (Bool.xor (x.testBit p) (decide (8 ≤ p) && x.testBit (p - 8)))
      (decide (14 ≤ p) && x.testBit (p - 14)) && Q9M9MASK.testBit p) := by
  unfold perm9
  simp only [Nat.testBit_and, Nat.testBit_xor, Nat.testBit_shiftLeft, ge_iff_le]

theorem bit_lt_two_pow (b : Bool) (n k : Nat) (h : n < 2 ^ k) : Nat.bit b n < 2 ^ (k + 1) := by
  rw [Nat.pow_succ]
  cases b <;> simp [Nat.bit] <;> omega

theorem bit16_lt (b0 b1 b2 b3 b4 b5 b6 b7 b8 b9 b10 b11 b12 b13 b14 b15 : Bool) :
    Nat.bit b0 (Nat.bit b1 (Nat.bit b2 (Nat.bit b3 (Nat.bit b4 (Nat.bit b5 (Nat.bit b6
      (Nat.bit b7 (Nat.bit b8 (Nat.bit b9 (Nat.bit b10 (Nat.bit b11 (Nat.bit b12
        (Nat.bit b13 (Nat.bit b14 (Nat.bit b15 0))))))))))))))) < 65536 := by
  have h0 : (0 : Nat) < 2 ^ 0 := by norm_num
  have h := bit_lt_two_pow b0 _ _ (bit_lt_two_pow b1 _ _ (bit_lt_two_pow b2 _ _
    (bit_lt_two_pow b3 _ _ (bit_lt_two_pow b4 _ _ (bit_lt_two_pow b5 _ _ (bit_lt_two_pow b6 _ _
    (bit_lt_two_pow b7 _ _ (bit_lt_two_pow b8 _ _ (bit_lt_two_pow b9 _ _ (bit_lt_two_pow b10 _ _
    (bit_lt_two_pow b11 _ _ (bit_lt_two_pow b12 _ _ (bit_lt_two_pow b13 _ _
    (bit_lt_two_pow b14 _ _ (bit_lt_two_pow b15 _ _ h0)))))))))))))))
  exact h

theorem unperm9_lt (y : Nat) : unperm9 y < 65536 := by
  unfold unperm9
  lift_lets
  intros
  apply bit16_lt

theorem testBit_of_lt16 {x : Nat} (hx : x < 65536) {i : Nat} (hi : 16 ≤ i) :
    x.testBit i = false := by
  apply Nat.testBit_lt_two_pow
  calc x < 2 ^ 16 := by norm_num; exact hx
    _ ≤ 2 ^ i := Nat.pow_le_pow_right (by norm_num) hi

theorem Q9M9MASK_bits :
    Q9M9MASK.testBit 1 = true ∧ Q9M9MASK.testBit 2 = true ∧ Q9M9MASK.testBit 4 = true ∧
    Q9M9MASK.testBit 8 = true ∧ Q9M9MASK.testBit 9 = true ∧ Q9M9MASK.testBit 10 = true ∧
    Q9M9MASK.testBit 11 = true ∧ Q9M9MASK.testBit 14 = true ∧ Q9M9MASK.testBit 16 = true ∧
    Q9M9MASK.testBit 19 = true ∧ Q9M9MASK.testBit 20 = true ∧ Q9M9MASK.testBit 21 = true ∧
    Q9M9MASK.testBit 23 = true ∧ Q9M9MASK.testBit 25 = true ∧ Q9M9MASK.testBit 26 = true ∧
    Q9M9MASK.testBit 27 = true := by
  decide
theorem unperm9_perm9 (x : Nat) (hx : x < 65536) : unperm9 (perm9 x) = x := by
  obtain ⟨m1, m2, m4, m8, m9, m10, m11, m14, m16, m19, m20, m21, m23, m25, m26, m27⟩ := Q9M9MASK_bits
  apply Nat.eq_of_testBit_eq
  intro j
  by_cases hj : j < 16
  · have f16 : x.testBit 16 = false := testBit_of_lt16 hx (by norm_num)
    have f17 : x.testBit 17 = false := testBit_of_lt16 hx (by norm_num)
    have f18 : x.testBit 18 = false := testBit_of_lt16 hx (by norm_num)
    have f19 : x.testBit 19 = false := testBit_of_lt16 hx (by norm_num)
    have f20 : x.testBit 20 = false := testBit_of_lt16 hx (by norm_num)
    have f21 : x.testBit 21 = false := testBit_of_lt16 hx (by norm_num)
    have f23 : x.testBit 23 = false := testBit_of_lt16 hx (by norm_num)
    have f25 : x.testBit 25 = false := testBit_of_lt16 hx (by norm_num)
    have f26 : x.testBit 26 = false := testBit_of_lt16 hx (by norm_num)
    have f27 : x.testBit 27 = false := testBit_of_lt16 hx (by norm_num)
    unfold unperm9
    simp only [testBit_perm9, f16, f17, f18, f19, f20, f21, f23, f25, f26, f27, m1, m2, m4, m8, m9, m10, m11, m14, m16, m19, m20, m21, m23, m25, m26, m27,
      Nat.reduceLeDiff, Nat.reduceSub, decide_True, decide_False, Bool.true_and, Bool.false_and, Bool.and_true, Bool.xor_false, Bool.false_xor, Nat.not_succ_le_zero]
    interval_cases j
    · simp only [Nat.testBit_bit_zero, Nat.testBit_bit_succ]
      all_goals (cases x.testBit 0 <;> cases x.testBit 2 <;> cases x.testBit 8 <;> rfl)
    · simp only [Nat.testBit_bit_zero, Nat.testBit_bit_succ]
    · simp only [Nat.testBit_bit_zero, Nat.testBit_bit_succ]
    · simp only [Nat.testBit_bit_zero, Nat.testBit_bit_succ]
      all_goals (cases x.testBit 3 <;> cases x.testBit 11 <;> rfl)
    · simp only [Nat.testBit_bit_zero, Nat.testBit_bit_succ]
    · simp only [Nat.testBit_bit_zero, Nat.testBit_bit_succ]
      all_goals (cases x.testBit 5 <;> cases x.testBit 11 <;> rfl)
    · simp only [Nat.testBit_bit_zero, Nat.testBit_bit_succ]
      all_goals (cases x.testBit 6 <;> cases x.testBit 12 <;> rfl)
    · simp only [Nat.testBit_bit_zero, Nat.testBit_bit_succ]
      all_goals (cases x.testBit 7 <;> cases x.testBit 13 <;> rfl)
    · simp only [Nat.testBit_bit_zero, Nat.testBit_bit_succ]
      all_goals (cases x.testBit 2 <;> cases x.testBit 8 <;> rfl)
    · simp only [Nat.testBit_bit_zero, Nat.testBit_bit_succ]
      all_goals (cases x.testBit 1 <;> cases x.testBit 9 <;> rfl)
    · simp only [Nat.testBit_bit_zero, Nat.testBit_bit_succ]
      all_goals (cases x.testBit 2 <;> cases x.testBit 10 <;> rfl)
    · simp only [Nat.testBit_bit_zero, Nat.testBit_bit_succ]
    · simp only [Nat.testBit_bit_zero, Nat.testBit_bit_succ]
    · simp only [Nat.testBit_bit_zero, Nat.testBit_bit_succ]
    · simp only [Nat.testBit_bit_zero, Nat.testBit_bit_succ]
      all_goals (cases x.testBit 0 <;> cases x.testBit 2 <;> cases x.testBit 6 <;> cases x.testBit 8 <;> cases x.testBit 12 <;> cases x.testBit 14 <;> rfl)
    · simp only [Nat.testBit_bit_zero, Nat.testBit_bit_succ]
      all_goals (cases x.testBit 1 <;> cases x.testBit 9 <;> cases x.testBit 15 <;> rfl)
  · rw [testBit_of_lt16 (unperm9_lt _) (by omega), testBit_of_lt16 hx (by omega)]

theorem perm9_unperm9 (y : Nat) (h : y &&& Q9M9MASK = y) : perm9 (unperm9 y) = y := by
  obtain ⟨m1, m2, m4, m8, m9, m10, m11, m14, m16, m19, m20, m21, m23, m25, m26, m27⟩ := Q9M9MASK_bits
  apply Nat.eq_of_testBit_eq
  intro p
  have hy : y.testBit p = (y.testBit p && Q9M9MASK.testBit p) := by
    have e := congrArg (fun z => Nat.testBit z p) h
    simp only [Nat.testBit_and] at e
    exact e.symm
  rw [testBit_perm9]
  by_cases hM : Q9M9MASK.testBit p = true
  · have hp : p < 28 := by
      by_contra hp
      have : Q9M9MASK.testBit p = false := by
        apply Nat.testBit_lt_two_pow
        calc Q9M9MASK < 2 ^ 28 := by decide
          _ ≤ 2 ^ p := Nat.pow_le_pow_right (by norm_num) (by omega)
      rw [this] at hM
      exact Bool.false_ne_true hM
    have f16 : (unperm9 y).testBit 16 = false := testBit_of_lt16 (unperm9_lt y) (by norm_num)
    have f17 : (unperm9 y).testBit 17 = false := testBit_of_lt16 (unperm9_lt y) (by norm_num)
    have f18 : (unperm9 y).testBit 18 = false := testBit_of_lt16 (unperm9_lt y) (by norm_num)
    have f19 : (unperm9 y).testBit 19 = false := testBit_of_lt16 (unperm9_lt y) (by norm_num)
    have f20 : (unperm9 y).testBit 20 = false := testBit_of_lt16 (unperm9_lt y) (by norm_num)
    have f21 : (unperm9 y).testBit 21 = false := testBit_of_lt16 (unperm9_lt y) (by norm_num)
    have f23 : (unperm9 y).testBit 23 = false := testBit_of_lt16 (unperm9_lt y) (by norm_num)
    have f25 : (unperm9 y).testBit 25 = false := testBit_of_lt16 (unperm9_lt y) (by norm_num)
    have f26 : (unperm9 y).testBit 26 = false := testBit_of_lt16 (unperm9_lt y) (by norm_num)
    have f27 : (unperm9 y).testBit 27 = false := testBit_of_lt16 (unperm9_lt y) (by norm_num)
    clear hy
    interval_cases p
    · exact absurd hM (by decide)
    · simp only [f16, f17, f18, f19, f20, f21, f23, f25, f26, f27, m1, m2, m4, m8, m9, m10, m11, m14, m16, m19, m20, m21, m23, m25, m26, m27,
        Nat.reduceLeDiff, Nat.reduceSub, decide_True, decide_False, Bool.true_and, Bool.false_and, Bool.and_true, Bool.xor_false, Bool.false_xor, Nat.not_succ_le_zero]
      unfold unperm9
      simp only [Nat.testBit_bit_zero, Nat.testBit_bit_succ]
    · simp only [f16, f17, f18, f19, f20, f21, f23, f25, f26, f27, m1, m2, m4, m8, m9, m10, m11, m14, m16, m19, m20, m21, m23, m25, m26, m27,
        Nat.reduceLeDiff, Nat.reduceSub, decide_True, decide_False, Bool.true_and, Bool.false_and, Bool.and_true, Bool.xor_false, Bool.false_xor, Nat.not_succ_le_zero]
      unfold unperm9
      simp only [Nat.testBit_bit_zero, Nat.testBit_bit_succ]
    · exact absurd hM (by decide)
    · simp only [f16, f17, f18, f19, f20, f21, f23, f25, f26, f27, m1, m2, m4, m8, m9, m10, m11, m14, m16, m19, m20, m21, m23, m25, m26, m27,
        Nat.reduceLeDiff, Nat.reduceSub, decide_True, decide_False, Bool.true_and, Bool.false_and, Bool.and_true, Bool.xor_false, Bool.false_xor, Nat.not_succ_le_zero]
      unfold unperm9
      simp only [Nat.testBit_bit_zero, Nat.testBit_bit_succ]
    · exact absurd hM (by decide)
    · exact absurd hM (by decide)
    · exact absurd hM (by decide)
    · simp only [f16, f17, f18, f19, f20, f21, f23, f25, f26, f27, m1, m2, m4, m8, m9, m10, m11, m14, m16, m19, m20, m21, m23, m25, m26, m27,
        Nat.reduceLeDiff, Nat.reduceSub, decide_True, decide_False, Bool.true_and, Bool.false_and, Bool.and_true, Bool.xor_false, Bool.false_xor, Nat.not_succ_le_zero]
      unfold unperm9
      simp only [Nat.testBit_bit_zero, Nat.testBit_bit_succ]
      all_goals (cases y.testBit 2 <;> cases y.testBit 8 <;> cases y.testBit 16 <;> rfl)
    · simp only [f16, f17, f18, f19, f20, f21, f23, f25, f26, f27, m1, m2, m4, m8, m9, m10, m11, m14, m16, m19, m20, m21, m23, m25, m26, m27,
        Nat.reduceLeDiff, Nat.reduceSub, decide_True, decide_False, Bool.true_and, Bool.false_and, Bool.and_true, Bool.xor_false, Bool.false_xor, Nat.not_succ_le_zero]
      unfold unperm9
      simp only [Nat.testBit_bit_zero, Nat.testBit_bit_succ]
      all_goals (cases y.testBit 1 <;> cases y.testBit 9 <;> rfl)
    · simp only [f16, f17, f18, f19, f20, f21, f23, f25, f26, f27, m1, m2, m4, m8, m9, m10, m11, m14, m16, m19, m20, m21, m23, m25, m26, m27,
        Nat.reduceLeDiff, Nat.reduceSub, decide_True, decide_False, Bool.true_and, Bool.false_and, Bool.and_true, Bool.xor_false, Bool.false_xor, Nat.not_succ_le_zero]
      unfold unperm9
      simp only [Nat.testBit_bit_zero, Nat.testBit_bit_succ]
      all_goals (cases y.testBit 2 <;> cases y.testBit 10 <;> rfl)
    · simp only [f16, f17, f18, f19, f20, f21, f23, f25, f26, f27, m1, m2, m4, m8, m9, m10, m11, m14, m16, m19, m20, m21, m23, m25, m26, m27,
        Nat.reduceLeDiff, Nat.reduceSub, decide_True, decide_False, Bool.true_and, Bool.false_and, Bool.and_true, Bool.xor_false, Bool.false_xor, Nat.not_succ_le_zero]
      unfold unperm9
      simp only [Nat.testBit_bit_zero, Nat.testBit_bit_succ]
      all_goals (cases y.testBit 11 <;> cases y.testBit 25 <;> rfl)
    · exact absurd hM (by decide)
    · exact absurd hM (by decide)
    · simp only [f16, f17, f18, f19, f20, f21, f23, f25, f26, f27, m1, m2, m4, m8, m9, m10, m11, m14, m16, m19, m20, m21, m23, m25, m26, m27,
        Nat.reduceLeDiff, Nat.reduceSub, decide_True, decide_False, Bool.true_and, Bool.false_and, Bool.and_true, Bool.xor_false, Bool.false_xor, Nat.not_succ_le_zero]
      unfold unperm9
      simp only [Nat.testBit_bit_zero, Nat.testBit_bit_succ]
      all_goals (cases y.testBit 2 <;> cases y.testBit 8 <;> cases y.testBit 14 <;> cases y.testBit 16 <;> cases y.testBit 20 <;> cases y.testBit 26 <;> rfl)
    · exact absurd hM (by decide)
    · simp only [f16, f17, f18, f19, f20, f21, f23, f25, f26, f27, m1, m2, m4, m8, m9, m10, m11, m14, m16, m19, m20, m21, m23, m25, m26, m27,
        Nat.reduceLeDiff, Nat.reduceSub, decide_True, decide_False, Bool.true_and, Bool.false_and, Bool.and_true, Bool.xor_false, Bool.false_xor, Nat.not_succ_le_zero]
      unfold unperm9
      simp only [Nat.testBit_bit_zero, Nat.testBit_bit_succ]
      all_goals (cases y.testBit 2 <;> cases y.testBit 16 <;> rfl)
    · exact absurd hM (by decide)
    · exact absurd hM (by decide)
    · simp only [f16, f17, f18, f19, f20, f21, f23, f25, f26, f27, m1, m2, m4, m8, m9, m10, m11, m14, m16, m19, m20, m21, m23, m25, m26, m27,
        Nat.reduceLeDiff, Nat.reduceSub, decide_True, decide_False, Bool.true_and, Bool.false_and, Bool.and_true, Bool.xor_false, Bool.false_xor, Nat.not_succ_le_zero]
      unfold unperm9
      simp only [Nat.testBit_bit_zero, Nat.testBit_bit_succ]
      all_goals (cases y.testBit 19 <;> cases y.testBit 25 <;> rfl)
    · simp only [f16, f17, f18, f19, f20, f21, f23, f25, f26, f27, m1, m2, m4, m8, m9, m10, m11, m14, m16, m19, m20, m21, m23, m25, m26, m27,
        Nat.reduceLeDiff, Nat.reduceSub, decide_True, decide_False, Bool.true_and, Bool.false_and, Bool.and_true, Bool.xor_false, Bool.false_xor, Nat.not_succ_le_zero]
      unfold unperm9
      simp only [Nat.testBit_bit_zero, Nat.testBit_bit_succ]
      all_goals (cases y.testBit 20 <;> cases y.testBit 26 <;> rfl)
    · simp only [f16, f17, f18, f19, f20, f21, f23, f25, f26, f27, m1, m2, m4, m8, m9, m10, m11, m14, m16, m19, m20, m21, m23, m25, m26, m27,
        Nat.reduceLeDiff, Nat.reduceSub, decide_True, decide_False, Bool.true_and, Bool.false_and, Bool.and_true, Bool.xor_false, Bool.false_xor, Nat.not_succ_le_zero]
      unfold unperm9
      simp only [Nat.testBit_bit_zero, Nat.testBit_bit_succ]
      all_goals (cases y.testBit 21 <;> cases y.testBit 27 <;> rfl)
    · exact absurd hM (by decide)
    · simp only [f16, f17, f18, f19, f20, f21, f23, f25, f26, f27, m1, m2, m4, m8, m9, m10, m11, m14, m16, m19, m20, m21, m23, m25, m26, m27,
        Nat.reduceLeDiff, Nat.reduceSub, decide_True, decide_False, Bool.true_and, Bool.false_and, Bool.and_true, Bool.xor_false, Bool.false_xor, Nat.not_succ_le_zero]
      unfold unperm9
      simp only [Nat.testBit_bit_zero, Nat.testBit_bit_succ]
      all_goals (cases y.testBit 1 <;> cases y.testBit 9 <;> cases y.testBit 23 <;> rfl)
    · exact absurd hM (by decide)
    · simp only [f16, f17, f18, f19, f20, f21, f23, f25, f26, f27, m1, m2, m4, m8, m9, m10, m11, m14, m16, m19, m20, m21, m23, m25, m26, m27,
        Nat.reduceLeDiff, Nat.reduceSub, decide_True, decide_False, Bool.true_and, Bool.false_and, Bool.and_true, Bool.xor_false, Bool.false_xor, Nat.not_succ_le_zero]
      unfold unperm9
      simp only [Nat.testBit_bit_zero, Nat.testBit_bit_succ]
    · simp only [f16, f17, f18, f19, f20, f21, f23, f25, f26, f27, m1, m2, m4, m8, m9, m10, m11, m14, m16, m19, m20, m21, m23, m25, m26, m27,
        Nat.reduceLeDiff, Nat.reduceSub, decide_True, decide_False, Bool.true_and, Bool.false_and, Bool.and_true, Bool.xor_false, Bool.false_xor, Nat.not_succ_le_zero]
      unfold unperm9
      simp only [Nat.testBit_bit_zero, Nat.testBit_bit_succ]
    · simp only [f16, f17, f18, f19, f20, f21, f23, f25, f26, f27, m1, m2, m4, m8, m9, m10, m11, m14, m16, m19, m20, m21, m23, m25, m26, m27,
        Nat.reduceLeDiff, Nat.reduceSub, decide_True, decide_False, Bool.true_and, Bool.false_and, Bool.and_true, Bool.xor_false, Bool.false_xor, Nat.not_succ_le_zero]
      unfold unperm9
      simp only [Nat.testBit_bit_zero, Nat.testBit_bit_succ]
  · simp only [Bool.not_eq_true] at hM
    rw [hy, hM]
    simp

theorem or_perm_and (a b m : Nat) (hm : m < 4294967296) (hb : b &&& m = b) :
    ((a &&& not32 m) ||| b) &&& m = b := by
  apply Nat.eq_of_testBit_eq
  intro i
  have e := congrArg (fun z => Nat.testBit z i) hb
  simp only [Nat.testBit_and, Nat.testBit_or, testBit_not32] at e ⊢
  by_cases hmi : m.testBit i = true
  · have hi : i < 32 := testBit_of_lt32_true hm hmi
    simp [hmi, hi]
  · simp only [Bool.not_eq_true] at hmi
    rw [hmi] at e ⊢
    simp only [Bool.and_false] at e ⊢
    exact e

theorem perm9_sub (x : Nat) : perm9 x &&& Q9M9MASK = perm9 x := by
  unfold perm9
  rw [Nat.and_assoc, Nat.and_self]

/-- C17.  The sixteen-bit tunnel of the first block: `perm9` is injective on the counters
below `2^16`; the mask `Q9M9MASK` has exactly 16 set bits; every value of `perm9` is a
subset of the mask and every subset of the mask is the value of `perm9` at a counter below
`2^16`; so for every subset `z` of the mask exactly one of the 65536 iterations writes a
`Q[9]` whose bits under the mask are `z`. -/
theorem perm9_visits_every_assignment_once :
    (∀ x y, x < 2 ^ 16 → y < 2 ^ 16 → perm9 x = perm9 y → x = y) ∧
    (bitsOf Q9M9MASK).length = 16 ∧
    (∀ x, perm9 x &&& Q9M9MASK = perm9 x) ∧
    (∀ z, z &&& Q9M9MASK = z → ∃ x, x < 2 ^ 16 ∧ perm9 x = z) ∧
    (∀ q9 z, z &&& Q9M9MASK = z →
      ∃! x, x < 2 ^ 16 ∧ ((q9 &&& not32 Q9M9MASK) ||| perm9 x) &&& Q9M9MASK = z) := by
  have e16 : (2 : Nat) ^ 16 = 65536 := by norm_num
  rw [e16]
  refine ⟨?_, by decide, perm9_sub, ?_, ?_⟩
  · intro x y hx hy h
    rw [← unperm9_perm9 x hx, ← unperm9_perm9 y hy, h]
  · intro z hz
    exact ⟨unperm9 z, unperm9_lt z, perm9_unperm9 z hz⟩
  · intro q9 z hz
    refine ⟨unperm9 z, ⟨unperm9_lt z, ?_⟩, ?_⟩
    · rw [or_perm_and _ _ _ (by decide) (perm9_sub _)]
      exact perm9_unperm9 z hz
    · intro x hx
      have h := hx.2
      rw [or_perm_and _ _ _ (by decide) (perm9_sub _)] at h
      rw [← h]
      exact (unperm9_perm9 x hx.1).symm

/-! ## The precomputed tables of the second block -/

theorem allBelow_spec (P : Nat → Bool) :
    ∀ n, allBelow P n = true → ∀ x, x < n → P x = true := by
  intro n
  induction n with
  | zero => intro _ x hx; omega
  | succ n ih =>
    intro h x hx
    unfold allBelow at h
    simp only [Bool.and_eq_true] at h
    by_cases hxn : x = n
    · rw [hxn]; exact h.1
    · exact ih h.2 x (by omega)

theorem increasing_spec : ∀ (l : List Nat) (a : Nat), increasing (a :: l) = true →
    (∀ x, x ∈ l → a < x) ∧ l.Pairwise (fun x y => x < y) := by
  intro l
  induction l with
  | nil => intro a _; exact ⟨fun x hx => absurd hx (List.not_mem_nil x), List.Pairwise.nil⟩
  | cons b l ih =>
    intro a h
    unfold increasing at h
    simp only [Bool.and_eq_true, decide_eq_true_eq] at h
    obtain ⟨h1, h2⟩ := ih b h.2
    constructor
    · intro x hx
      rcases List.mem_cons.1 hx with hxb | hxl
      · rw [hxb]; exact h.1
      · exact Nat.lt_trans h.1 (h1 x hxl)
    · exact List.pairwise_cons.2 ⟨h1, h2⟩

theorem increasing_pairwise (l : List Nat) (h : increasing l = true) :
    l.Pairwise (fun x y => x < y) := by
  cases l with
  | nil => exact List.Pairwise.nil
  | cons a l =>
    obtain ⟨h1, h2⟩ := increasing_spec l a h
    exact List.pairwise_cons.2 ⟨h1, h2⟩

theorem allSubsets_spec (P : Nat → Bool) :
    ∀ (bs : List Nat) (acc : Nat), allSubsets P bs acc = true →
      ∀ y, (∀ i, y.testBit i = true → i ∈ bs) → P (acc ||| y) = true := by
  intro bs
  induction bs with
  | nil =>
    intro acc h y hy
    have hy0 : y = 0 := by
      apply Nat.eq_of_testBit_eq
      intro i
      rw [Nat.zero_testBit]
      by_contra hne
      simp only [Bool.not_eq_false] at hne
      exact absurd (hy i hne) (List.not_mem_nil i)
    rw [hy0, Nat.or_zero]
    exact h
  | cons b bs ih =>
    intro acc h y hy
    unfold allSubsets at h
    simp only [Bool.and_eq_true] at h
    by_cases hb : y.testBit b = true
    · have hy1 : ∀ i, (y ^^^ 2 ^ b).testBit i = true → i ∈ bs := by
        intro i hi
        rw [Nat.testBit_xor, Nat.testBit_two_pow] at hi
        by_cases hbi : b = i
        · subst hbi
          rw [hb] at hi
          simp at hi
        · simp only [hbi, decide_False, Bool.xor_false] at hi
          rcases List.mem_cons.1 (hy i hi) with h1 | h1
          · exact absurd h1.symm hbi
          · exact h1
      have e : (acc ||| 2 ^ b) ||| (y ^^^ 2 ^ b) = acc ||| y := by
        apply Nat.eq_of_testBit_eq
        intro i
        simp only [Nat.testBit_or, Nat.testBit_xor, Nat.testBit_two_pow]
        by_cases hbi : b = i
        · subst hbi
          rw [hb]
          simp
        · simp [hbi]
      rw [← e]
      exact ih _ h.2 _ hy1
    · have hy1 : ∀ i, y.testBit i = true → i ∈ bs := by
        intro i hi
        rcases List.mem_cons.1 (hy i hi) with h1 | h1
        · rw [h1] at hi
          exact absurd hi hb
        · exact h1
      exact ih _ h.1 _ hy1

theorem mem_bitsOf (mask : Nat) (hm : mask < 4294967296) (i : Nat)
    (h : mask.testBit i = true) : i ∈ bitsOf mask := by
  unfold bitsOf
  rw [List.mem_filter, List.mem_range]
  exact ⟨testBit_of_lt32_true hm h, h⟩

theorem sub_bits (mask y : Nat) (hm : mask < 4294967296) (hy : y &&& mask = y) :
    ∀ i, y.testBit i = true → i ∈ bitsOf mask := by
  intro i hi
  have e := congrArg (fun z => Nat.testBit z i) hy
  simp only [Nat.testBit_and, hi, Bool.true_and] at e
  exact mem_bitsOf mask hm i e

theorem getD_map_range (f : Nat → Nat) (n i : Nat) (hi : i < n) :
    ((List.range n).map f).getD i 0 = f i := by
  rw [List.getD_eq_getElem _ _ (by simpa using hi)]
  simp

theorem getD_lt_of_pairwise (T : List Nat) (h : T.Pairwise (fun x y => x < y)) (i j : Nat)
    (hij : i < j) (hj : j < T.length) : T.getD i 0 < T.getD j 0 := by
  rw [List.getD_eq_getElem _ _ (by omega), List.getD_eq_getElem _ _ hj]
  exact List.pairwise_iff_getElem.1 h i j (by omega) hj hij

theorem getD_inj_of_pairwise (T : List Nat) (h : T.Pairwise (fun x y => x < y)) (i j : Nat)
    (hi : i < T.length) (hj : j < T.length) (e : T.getD i 0 = T.getD j 0) : i = j := by
  rcases Nat.lt_trichotomy i j with h1 | h1 | h1
  · have := getD_lt_of_pairwise T h i j h1 hj
    omega
  · exact h1
  · have := getD_lt_of_pairwise T h j i h1 hi
    omega

theorem m9loop_of_true (asserts : Bool) (mask : Nat) :
    ∀ n i acc T, m9loop true mask n i acc = Outcome.returned T →
      m9loop asserts mask n i acc = Outcome.returned T := by
  intro n
  induction n with
  | zero =>
    intro i acc T h
    simpa [m9loop] using h
  | succ n ih =>
    intro i acc T h
    unfold m9loop at h ⊢
    split at h
    · simp at h
    · rename_i bits offset hin
      simp only [Bool.true_and] at h
      split_ifs at h with h1 h2 h3
      have g1 : (asserts && !decide (offset ≤ 32)) = false := by
        simp only [Bool.not_eq_true] at h1; rw [h1]; simp
      have g2 : (asserts && (bits &&& mask) != bits) = false := by
        simp only [Bool.not_eq_true] at h2; rw [h2]; simp
      have g3 : (asserts && decide (i > 0) && !decide (bits > acc.headD 0)) = false := by
        simp only [Bool.not_eq_true] at h3
        cases asserts
        · simp
        · simpa using h3
      simp only [g1, g2, g3]
      exact ih _ _ _ h

theorem m10loop_of_true (asserts : Bool) (mask : Nat) :
    ∀ n i acc T, m10loop true mask n i acc = Outcome.returned T →
      m10loop asserts mask n i acc = Outcome.returned T := by
  intro n
  induction n with
  | zero =>
    intro i acc T h
    simp [m10loop] at h
  | succ n ih =>
    intro i acc T h
    unfold m10loop at h ⊢
    simp only [Bool.true_and] at h
    split_ifs at h with h0 h1 h2 h3
    · simp only [h0, if_true]
      exact h
    · have g1 : (asserts && ((m10inner mask i 33 0 0 0).1 &&& mask)
          != (m10inner mask i 33 0 0 0).1) = false := by
        simp only [Bool.not_eq_true] at h1; rw [h1]; simp
      have g2 : (asserts && decide (i > 0) &&
          !decide ((m10inner mask i 33 0 0 0).1 > acc.headD 0)) = false := by
        simp only [Bool.not_eq_true] at h2
        cases asserts
        · simp
        · simpa using h2
      simp only [h0, g1, g2, h3, if_false]
      exact ih _ _ _ h

theorem m9tableOK_spec (asserts : Bool) (mask : Nat) (h : m9tableOK mask = true) :
    m9loop asserts mask 512 0 [] = Outcome.returned ((List.range 512).map (deposit mask)) ∧
    (∀ i, i < 512 → ∃ bits offset, m9inner mask i 9 0 0 0 = some (bits, offset) ∧
      offset ≤ 32 ∧ bits = deposit mask i) ∧
    (∀ i, i < 512 → ((List.range 512).map (deposit mask)).getD i 0 = deposit mask i) ∧
    ((List.range 512).map (deposit mask)).Pairwise (fun x y => x < y) ∧
    (bitsOf mask).length = 9 ∧
    (∀ y, y &&& mask = y → ∃! i, i < 512 ∧ deposit mask i = y) := by
  unfold m9tableOK at h
  simp only [Bool.and_eq_true, beq_iff_eq, decide_eq_true_eq] at h
  obtain ⟨⟨⟨⟨⟨h1, h2⟩, h3⟩, h4⟩, h5⟩, h6⟩ := h
  have hpw := increasing_pairwise _ h3
  refine ⟨m9loop_of_true asserts mask _ _ _ _ h1, ?_, fun i hi => getD_map_range _ _ _ hi, hpw,
    h5, ?_⟩
  · intro i hi
    have hc := allBelow_spec _ 512 h2 i hi
    simp only [] at hc
    split at hc
    · rename_i r hr
      simp only [Bool.and_eq_true, beq_iff_eq, decide_eq_true_eq] at hc
      exact ⟨r.1, r.2, hr, hc.1, hc.2⟩
    · exact absurd hc Bool.false_ne_true
  · intro y hy
    have hc := allSubsets_spec _ _ _ h6 y (sub_bits mask y h4 hy)
    simp only [Nat.zero_or, Bool.and_eq_true, beq_iff_eq, decide_eq_true_eq] at hc
    refine ⟨extract mask y, ⟨hc.1, hc.2⟩, ?_⟩
    intro j hj
    have e : ((List.range 512).map (deposit mask)).getD j 0
        = ((List.range 512).map (deposit mask)).getD (extract mask y) 0 := by
      rw [getD_map_range _ _ _ hj.1, getD_map_range _ _ _ hc.1, hj.2, hc.2]
    exact getD_inj_of_pairwise _ hpw _ _ (by simpa using hj.1) (by simpa using hc.1) e

theorem m10tableOK_spec (asserts : Bool) (mask num : Nat) (h : m10tableOK mask num = true) :
    m10loop asserts mask 65 0 []
      = Outcome.returned ((List.range num).map (deposit mask), num) ∧
    num = 2 ^ (bitsOf mask).length ∧ num ≤ 64 ∧
    (∀ i, i < num → ((List.range num).map (deposit mask)).getD i 0 = deposit mask i ∧
      deposit mask i &&& mask = deposit mask i) ∧
    ((List.range num).map (deposit mask)).Pairwise (fun x y => x < y) := by
  unfold m10tableOK at h
  simp only [Bool.and_eq_true, beq_iff_eq, decide_eq_true_eq] at h
  obtain ⟨⟨⟨h1, h2⟩, h3⟩, h4⟩ := h
  have hsub := m10loop_sub true mask 65 0 [] _ h1 (fun x hx => absurd hx (List.not_mem_nil x))
  refine ⟨m10loop_of_true asserts mask _ _ _ _ h1, h2, h3, ?_, increasing_pairwise _ h4⟩
  intro i hi
  have e := getD_map_range (deposit mask) num i hi
  refine ⟨e, ?_⟩
  have hm := getD_sub _ mask i hsub
  simp only [] at hm
  rw [e] at hm
  exact hm

set_option maxRecDepth 100000 in
theorem m9tableOK_paths :
    m9tableOK (q9m9masks.getD 0 0) = true ∧ m9tableOK (q9m9masks.getD 1 0) = true ∧
    m9tableOK (q9m9masks.getD 2 0) = true ∧ m9tableOK (q9m9masks.getD 3 0) = true := by
  decide!

set_option maxRecDepth 100000 in
theorem m10tableOK_paths :
    m10tableOK (q9q10masks.getD 0 0) ([8, 32, 16, 32].getD 0 0) = true ∧
    m10tableOK (q9q10masks.getD 1 0) ([8, 32, 16, 32].getD 1 0) = true ∧
    m10tableOK (q9q10masks.getD 2 0) ([8, 32, 16, 32].getD 2 0) = true ∧
    m10tableOK (q9q10masks.getD 3 0) ([8, 32, 16, 32].getD 3 0) = true := by
  decide!

theorem m9loop_returns (asserts : Bool) (path : Nat) (hp : path < 4) :
    m9loop asserts (q9m9masks.getD path 0) 512 0 []
      = Outcome.returned ((List.range 512).map (deposit (q9m9masks.getD path 0))) := by
  obtain ⟨h0, h1, h2, h3⟩ := m9tableOK_paths
  interval_cases path
  · exact (m9tableOK_spec asserts _ h0).1
  · exact (m9tableOK_spec asserts _ h1).1
  · exact (m9tableOK_spec asserts _ h2).1
  · exact (m9tableOK_spec asserts _ h3).1

theorem m10loop_returns (asserts : Bool) (path : Nat) (hp : path < 4) :
    m10loop asserts (q9q10masks.getD path 0) 65 0 []
      = Outcome.returned
        ((List.range ([8, 32, 16, 32].getD path 0)).map (deposit (q9q10masks.getD path 0)),
          [8, 32, 16, 32].getD path 0) := by
  obtain ⟨h0, h1, h2, h3⟩ := m10tableOK_paths
  interval_cases path
  · exact (m10tableOK_spec asserts _ _ h0).1
  · exact (m10tableOK_spec asserts _ _ h1).1
  · exact (m10tableOK_spec asserts _ _ h2).1
  · exact (m10tableOK_spec asserts _ _ h3).1

/-- C18.  The precomputation of `q9m9bits`: for each of the four paths, and with
assertions on or off, the loop returns the table of 512 entries without a failing
`assert`; every inner loop ends with `offset ≤ 32`; entry `i` is `deposit mask i`, the word
that has bit `j` of `i` at the `j`-th lowest set bit of `q9m9masks[path]`; the table is
strictly increasing; the mask has exactly nine set bits; and every subset of the mask is
the entry of exactly one index. -/
theorem q9m9bits_precomputation (asserts : Bool) (path : Nat) (hp : path < 4) :
    m9loop asserts (q9m9masks.getD path 0) 512 0 []
      = Outcome.returned ((List.range 512).map (deposit (q9m9masks.getD path 0))) ∧
    (∀ i, i < 512 → ∃ bits offset,
      m9inner (q9m9masks.getD path 0) i 9 0 0 0 = some (bits, offset) ∧
      offset ≤ 32 ∧ bits = deposit (q9m9masks.getD path 0) i) ∧
    (∀ i, i < 512 → ((List.range 512).map (deposit (q9m9masks.getD path 0))).getD i 0
      = deposit (q9m9masks.getD path 0) i) ∧
    ((List.range 512).map (deposit (q9m9masks.getD path 0))).Pairwise (fun x y => x < y) ∧
    (bitsOf (q9m9masks.getD path 0)).length = 9 ∧
    (∀ y, y &&& q9m9masks.getD path 0 = y →
      ∃! i, i < 512 ∧ deposit (q9m9masks.getD path 0) i = y) := by
  obtain ⟨h0, h1, h2, h3⟩ := m9tableOK_paths
  interval_cases path
  · exact m9tableOK_spec asserts _ h0
  · exact m9tableOK_spec asserts _ h1
  · exact m9tableOK_spec asserts _ h2
  · exact m9tableOK_spec asserts _ h3

/-- Witness of C18 on path 0 with assertions on. -/
theorem q9m9bits_precomputation_witness :
    m9loop true (q9m9masks.getD 0 0) 512 0 []
      = Outcome.returned ((List.range 512).map (deposit (q9m9masks.getD 0 0))) ∧
    (∀ i, i < 512 → ∃ bits offset,
      m9inner (q9m9masks.getD 0 0) i 9 0 0 0 = some (bits, offset) ∧
      offset ≤ 32 ∧ bits = deposit (q9m9masks.getD 0 0) i) ∧
    (∀ i, i < 512 → ((List.range 512).map (deposit (q9m9masks.getD 0 0))).getD i 0
      = deposit (q9m9masks.getD 0 0) i) ∧
    ((List.range 512).map (deposit (q9m9masks.getD 0 0))).Pairwise (fun x y => x < y) ∧
    (bitsOf (q9m9masks.getD 0 0)).length = 9 ∧
    (∀ y, y &&& q9m9masks.getD 0 0 = y →
      ∃! i, i < 512 ∧ deposit (q9m9masks.getD 0 0) i = y) :=
  q9m9bits_precomputation true 0 (by decide)

/-- C19.  The precomputation of `q9q10bits`: for each of the four paths, and with
assertions on or off, the loop returns without a failing `assert` and without a write
past the 64 entries of the array; `numq9q10` is two to the number of set bits of
`q9q10masks[path]` (8, 32, 16, 32 for the paths 0 to 3), at most 64; entry `i` is
`deposit mask i`, a subset of the mask; and the table is strictly increasing. -/
theorem q9q10bits_precomputation (asserts : Bool) (path : Nat) (hp : path < 4) :
    m10loop asserts (q9q10masks.getD path 0) 65 0 []
      = Outcome.returned
        ((List.range ([8, 32, 16, 32].getD path 0)).map (deposit (q9q10masks.getD path 0)),
          [8, 32, 16, 32].getD path 0) ∧
    [8, 32, 16, 32].getD path 0 = 2 ^ (bitsOf (q9q10masks.getD path 0)).length ∧
    [8, 32, 16, 32].getD path 0 ≤ 64 ∧
    (∀ i, i < [8, 32, 16, 32].getD path 0 →
      ((List.range ([8, 32, 16, 32].getD path 0)).map
        (deposit (q9q10masks.getD path 0))).getD i 0 = deposit (q9q10masks.getD path 0) i ∧
      deposit (q9q10masks.getD path 0) i &&& q9q10masks.getD path 0
        = deposit (q9q10masks.getD path 0) i) ∧
    ((List.range ([8, 32, 16, 32].getD path 0)).map
      (deposit (q9q10masks.getD path 0))).Pairwise (fun x y => x < y) := by
  obtain ⟨h0, h1, h2, h3⟩ := m10tableOK_paths
  interval_cases path
  · exact m10tableOK_spec asserts _ _ h0
  · exact m10tableOK_spec asserts _ _ h1
  · exact m10tableOK_spec asserts _ _ h2
  · exact m10tableOK_spec asserts _ _ h3

/-- Witness of C19 on path 0 with assertions on. -/
theorem q9q10bits_precomputation_witness :
    m10loop true (q9q10masks.getD 0 0) 65 0 []
      = Outcome.returned
        ((List.range ([8, 32, 16, 32].getD 0 0)).map (deposit (q9q10masks.getD 0 0)),
          [8, 32, 16, 32].getD 0 0) ∧
    [8, 32, 16, 32].getD 0 0 = 2 ^ (bitsOf (q9q10masks.getD 0 0)).length ∧
    [8, 32, 16, 32].getD 0 0 ≤ 64 ∧
    (∀ i, i < [8, 32, 16, 32].getD 0 0 →
      ((List.range ([8, 32, 16, 32].getD 0 0)).map
        (deposit (q9q10masks.getD 0 0))).getD i 0 = deposit (q9q10masks.getD 0 0) i ∧
      deposit (q9q10masks.getD 0 0) i &&& q9q10masks.getD 0 0
        = deposit (q9q10masks.getD 0 0) i) ∧
    ((List.range ([8, 32, 16, 32].getD 0 0)).map
      (deposit (q9q10masks.getD 0 0))).Pairwise (fun x y => x < y) :=
  q9q10bits_precomputation true 0 (by decide)

/-! ## A table that marks every byte -/

theorem whileLoop_next {σ ρ : Type} (body : σ → Ctl σ ρ) (h : ∀ s, ∃ s1, body s = Ctl.next s1) :
    ∀ fuel s, whileLoop body fuel s = Outcome.outOfFuel := by
  intro fuel
  induction fuel with
  | zero => intro s; rfl
  | succ n ih =>
    intro s
    obtain ⟨s1, hs1⟩ := h s
    unfold whileLoop
    rw [hs1]
    exact ih s1

theorem HAS_BAD_CHARS_saturated (t : List Nat) (ht : ∀ b, b < 256 → t.getD b 0 ≠ 0) (w : Nat) :
    HAS_BAD_CHARS (some t) w = true := by
  have h1 : w &&& 255 < 256 := by
    have := @Nat.and_le_right w 255
    omega
  simp only [HAS_BAD_CHARS, Bool.or_eq_true, bne_iff_ne, ne_eq]
  exact Or.inl (Or.inl (Or.inl (ht _ h1)))

theorem sampleLoop_block {m : Nat} (qc : List qcond) :
    ∀ n i (s : St m), (sampleLoop qc n i s).block = s.block := by
  intro n
  induction n with
  | zero => intro i s; rfl
  | succ n ih =>
    intro i s
    unfold sampleLoop
    rw [ih]
    rfl

theorem outerBody0_saturated (asserts : Bool) (Compress : Words 4 → Words 16 → Words 4)
    (iv : Words 4) (t : List Nat) (ht : ∀ b, b < 256 → t.getD b 0 ≠ 0) (s : St 28) :
    ∃ s1, outerBody0 asserts Compress iv (some t) s = Ctl.next s1 ∧
      s1.block = s.block.set 0 (MD5UNSTEP s1.Q 0 0xd76aa478 7) := by
  unfold outerBody0
  lift_lets
  intro s1 s2
  refine ⟨s2, ?_, ?_⟩
  · rw [if_pos (HAS_BAD_CHARS_saturated t ht _)]
  · show (s1.block.set 0 (MD5UNSTEP s1.Q 0 0xd76aa478 7)) = _
    rw [show s1.block = s.block from sampleLoop_block qconds 16 1 s]
    rfl

theorem outerBody1_saturated (asserts : Bool) (Compress : Words 4 → Words 16 → Words 4)
    (iv : Words 4) (t : List Nat) (ht : ∀ b, b < 256 → t.getD b 0 ≠ 0) (qc : List qcond)
    (m9mask m9m10mask : Nat) (q9m9bits q9q10bits : List Nat) (num : Nat) (s : St 25) :
    ∃ s1, outerBody1 asserts Compress iv (some t) qc m9mask m9m10mask q9m9bits q9q10bits
        num s = Ctl.next s1 ∧
      s1.block = s.block.set 5 (MD5UNSTEP s1.Q 5 0x4787c62a 12) := by
  unfold outerBody1
  lift_lets
  intro s1 s2 s3
  refine ⟨s3, ?_, ?_⟩
  · rw [if_pos (HAS_BAD_CHARS_saturated t ht _)]
  · show (s2.block.set 5 (MD5UNSTEP s2.Q 5 0x4787c62a 12)) = _
    rw [show s2.block = s1.block from sampleLoop_block qc 14 3 s1]
    rfl

/-- C15.  A saturating table never terminates: if `t` marks all 256 byte values, then for
every chaining value, seed and number of outer iterations neither engine returns (the run
is still in its `while(1)` loop); every outer iteration is rejected at the first
bad-character test, having written only `block[0]` (first block) or `block[5]` (second
block). -/
theorem saturating_badchars_never_returns (asserts : Bool)
    (Compress : Words 4 → Words 16 → Words 4) (iv : Words 4) (t : List Nat)
    (ht : ∀ b, b < 256 → t.getD b 0 ≠ 0) (time : Nat) (block : Words 16) (fuel : Nat) :
    MD5CollideBlock0 asserts Compress iv (some t) time block fuel = Outcome.outOfFuel ∧
    MD5CollideBlock1 asserts Compress iv (some t) time block fuel = Outcome.outOfFuel ∧
    (∀ s, ∃ s1, outerBody0 asserts Compress iv (some t) s = Ctl.next s1 ∧
      s1.block = s.block.set 0 (MD5UNSTEP s1.Q 0 0xd76aa478 7)) ∧
    (∀ qc m9mask m9m10mask q9m9bits q9q10bits num s,
      ∃ s1, outerBody1 asserts Compress iv (some t) qc m9mask m9m10mask q9m9bits q9q10bits
          num s = Ctl.next s1 ∧
        s1.block = s.block.set 5 (MD5UNSTEP s1.Q 5 0x4787c62a 12)) := by
  refine ⟨?_, ?_, fun s => outerBody0_saturated asserts Compress iv t ht s,
    fun qc m9 m10 T9 T10 num s =>
      outerBody1_saturated asserts Compress iv t ht qc m9 m10 T9 T10 num s⟩
  · unfold MD5CollideBlock0 MD5CollideBlock0Run
    rw [whileLoop_next (outerBody0 asserts Compress iv (some t))
      (fun s => (outerBody0_saturated asserts Compress iv t ht s).imp (fun _ h => h.1))]
  · unfold MD5CollideBlock1 MD5CollideBlock1Run
    rw [m9loop_returns asserts (pathOf iv) (pathOf_lt iv),
      m10loop_returns asserts (pathOf iv) (pathOf_lt iv)]
    simp only []
    rw [whileLoop_next (outerBody1 asserts Compress iv (some t) _ _ _ _ _ _)
      (fun s => (outerBody1_saturated asserts Compress iv t ht _ _ _ _ _ _ s).imp
        (fun _ h => h.1))]

theorem allBadChars_marks (b : Nat) (hb : b < 256) : allBadChars.getD b 0 ≠ 0 := by
  unfold allBadChars
  rw [List.getD_eq_getElem?_getD, List.getElem?_replicate_of_lt hb]
  exact Nat.one_ne_zero

/-- Witness of C15 with the table `allBadChars`, the standard initial value and one
thousand outer iterations. -/
theorem saturating_badchars_never_returns_witness :
    MD5CollideBlock0 true MD5Transform stdIV (some allBadChars) 0 zeroBlock 1000
      = Outcome.outOfFuel ∧
    MD5CollideBlock1 true MD5Transform stdIV (some allBadChars) 0 zeroBlock 1000
      = Outcome.outOfFuel ∧
    (∀ s, ∃ s1, outerBody0 true MD5Transform stdIV (some allBadChars) s = Ctl.next s1 ∧
      s1.block = s.block.set 0 (MD5UNSTEP s1.Q 0 0xd76aa478 7)) ∧
    (∀ qc m9mask m9m10mask q9m9bits q9q10bits num s,
      ∃ s1, outerBody1 true MD5Transform stdIV (some allBadChars) qc m9mask m9m10mask
          q9m9bits q9q10bits num s = Ctl.next s1 ∧
        s1.block = s.block.set 5 (MD5UNSTEP s1.Q 5 0x4787c62a 12)) :=
  saturating_badchars_never_returns true MD5Transform stdIV allBadChars allBadChars_marks 0
    zeroBlock 1000

/-! ## Loop bodies that may fail an assertion -/

theorem Ctl.SatA.imp {σ ρ : Type} {A : Prop} {Inv Inv1 : σ → Prop} {Post Post1 : ρ → Prop}
    (hI : ∀ s, Inv s → Inv1 s) (hP : ∀ r, Post r → Post1 r) {c : Ctl σ ρ}
    (h : c.SatA A Inv Post) : c.SatA A Inv1 Post1 := by
  cases c with
  | next s => exact hI s h
  | done r => exact hP r h
  | abort => exact h

theorem Ctl.SatA.and_sat {σ ρ : Type} {A : Prop} {I1 I2 : σ → Prop} {P1 P2 : ρ → Prop}
    {c : Ctl σ ρ} (h1 : c.Sat I1 P1) (h2 : c.SatA A I2 P2) :
    c.SatA A (fun s => I1 s ∧ I2 s) (fun r => P1 r ∧ P2 r) := by
  cases c with
  | next s => exact ⟨h1, h2⟩
  | done r => exact ⟨h1, h2⟩
  | abort => exact h2

theorem Ctl.SatA_ite {σ ρ : Type} {A : Prop} {Inv : σ → Prop} {Post : ρ → Prop} {c : Prop}
    [Decidable c] {x y : Ctl σ ρ} (hx : c → x.SatA A Inv Post) (hy : ¬ c → y.SatA A Inv Post) :
    (if c then x else y).SatA A Inv Post := by
  split_ifs with h
  · exact hx h
  · exact hy h

theorem Ctl.SatA_assert {σ ρ : Type} {A : Prop} {Inv : σ → Prop} {Post : ρ → Prop}
    {asserts b : Bool} {y : Ctl σ ρ} (hb : b = false) (hy : y.SatA A Inv Post) :
    (if (asserts && b) = true then Ctl.abort else y).SatA A Inv Post := by
  have e : (asserts && b) = false := by rw [hb]; exact Bool.and_false asserts
  rw [e]
  exact hy

theorem bne_false_of_eq {x y : Nat} (h : x = y) : (x != y) = false := by
  rw [h]
  exact bne_self_eq_false y

theorem forLoop_satA {σ ρ : Type} (A : Prop) (body : Nat → σ → Ctl σ ρ) (Inv : σ → Prop)
    (Post : ρ → Prop) (hbody : ∀ i s, Inv s → (body i s).SatA A Inv Post) :
    ∀ n i s, Inv s → (forLoop body n i s).SatA A Inv Post := by
  intro n
  induction n with
  | zero => intro i s hs; exact hs
  | succ n ih =>
    intro i s hs
    have hb := hbody i s hs
    unfold forLoop
    cases hc : body i s with
    | next s1 => rw [hc] at hb; exact ih (i + 1) s1 hb
    | done r => rw [hc] at hb; exact hb
    | abort => rw [hc] at hb; exact hb

theorem whileLoop_satA {σ ρ : Type} (A : Prop) (body : σ → Ctl σ ρ) (Inv : σ → Prop)
    (Post : ρ → Prop) (hbody : ∀ s, Inv s → (body s).SatA A Inv Post) :
    ∀ fuel s, Inv s → (whileLoop body fuel s).SatA A Post := by
  intro fuel
  induction fuel with
  | zero => intro s _; trivial
  | succ n ih =>
    intro s hs
    have hb := hbody s hs
    unfold whileLoop
    cases hc : body s with
    | next s1 => rw [hc] at hb; exact ih s1 hb
    | done r => rw [hc] at hb; exact hb
    | abort => rw [hc] at hb; exact hb

/-! ## Bits that a tunnel may change -/

theorem AgreeOff.symm {T x y : Nat} (h : AgreeOff T x y) : AgreeOff T y x :=
  fun i hi => (h i hi).symm

theorem AgreeOff.trans {T x y z : Nat} (h1 : AgreeOff T x y) (h2 : AgreeOff T y z) :
    AgreeOff T x z :=
  fun i hi => (h1 i hi).trans (h2 i hi)

theorem AgreeOff.widen {T T1 x y : Nat} (hT : T &&& T1 = T) (h : AgreeOff T x y) :
    AgreeOff T1 x y := by
  intro i hi
  apply h
  have e := congrArg (fun z => Nat.testBit z i) hT
  simp only [Nat.testBit_and, hi, Bool.and_false] at e
  exact e.symm

theorem agree_masked (old w T : Nat) (ho : old < 4294967296) :
    AgreeOff T ((old &&& not32 T) ||| (w &&& T)) old := by
  intro i hi
  simp only [Nat.testBit_or, Nat.testBit_and, testBit_not32, hi, Bool.and_false, Bool.or_false,
    Bool.xor_false]
  by_cases h32 : i < 32
  · simp [h32]
  · rw [testBit_of_lt32 ho (by omega)]
    simp

theorem agree_and_not (x T : Nat) (hx : x < 4294967296) : AgreeOff T (x &&& not32 T) x := by
  intro i hi
  simp only [Nat.testBit_and, testBit_not32, hi, Bool.xor_false]
  by_cases h32 : i < 32
  · simp [h32]
  · rw [testBit_of_lt32 hx (by omega)]
    simp

theorem agree_or_and (base p T : Nat) : AgreeOff T (base ||| (p &&& T)) base := by
  intro i hi
  simp only [Nat.testBit_or, Nat.testBit_and, hi, Bool.and_false, Bool.or_false]

theorem agree_or_sub (base b T : Nat) (hb : b &&& T = b) : AgreeOff T (base ||| b) base := by
  intro i hi
  have e := congrArg (fun z => Nat.testBit z i) hb
  simp only [Nat.testBit_and, hi, Bool.and_false] at e
  simp only [Nat.testBit_or, ← e, Bool.or_false]

theorem F1_agree_y (T x y y1 z : Nat) (ha : AgreeOff T y y1) (hx : x &&& T = 0) :
    F1 x y z = F1 x y1 z := by
  apply Nat.eq_of_testBit_eq
  intro i
  have e := congrArg (fun z => Nat.testBit z i) hx
  simp only [Nat.testBit_and, Nat.zero_testBit] at e
  unfold F1
  simp only [Nat.testBit_xor, Nat.testBit_and]
  by_cases hT : T.testBit i = true
  · rw [hT] at e
    simp only [Bool.and_true] at e
    rw [e]
    simp
  · simp only [Bool.not_eq_true] at hT
    rw [ha i hT]

theorem F1_agree_z (T x y z z1 : Nat) (ha : AgreeOff T z z1) (hx : x &&& T = T) :
    F1 x y z = F1 x y z1 := by
  apply Nat.eq_of_testBit_eq
  intro i
  have e := congrArg (fun z => Nat.testBit z i) hx
  simp only [Nat.testBit_and] at e
  unfold F1
  simp only [Nat.testBit_xor, Nat.testBit_and]
  by_cases hT : T.testBit i = true
  · rw [hT] at e
    simp only [Bool.and_true] at e
    rw [e]
    cases y.testBit i <;> cases z.testBit i <;> cases z1.testBit i <;> rfl
  · simp only [Bool.not_eq_true] at hT
    rw [ha i hT]

theorem and_sub_full (x T T1 : Nat) (h : x &&& T = T) (hs : T1 &&& T = T1) : x &&& T1 = T1 := by
  apply Nat.eq_of_testBit_eq
  intro i
  have e1 := congrArg (fun z => Nat.testBit z i) h
  have e2 := congrArg (fun z => Nat.testBit z i) hs
  simp only [Nat.testBit_and] at e1 e2 ⊢
  revert e1 e2
  cases x.testBit i <;> cases T.testBit i <;> cases T1.testBit i <;> simp

theorem and_sub_zero (x T T1 : Nat) (h : x &&& T = 0) (hs : T1 &&& T = T1) : x &&& T1 = 0 := by
  apply Nat.eq_of_testBit_eq
  intro i
  have e1 := congrArg (fun z => Nat.testBit z i) h
  have e2 := congrArg (fun z => Nat.testBit z i) hs
  simp only [Nat.testBit_and, Nat.zero_testBit] at e1 e2 ⊢
  revert e1 e2
  cases x.testBit i <;> cases T.testBit i <;> cases T1.testBit i <;> simp

/-! ## Words that stay 32-bit words -/

theorem and_lt_right (x y : Nat) (hy : y < 4294967296) : x &&& y < 4294967296 :=
  Nat.lt_of_le_of_lt Nat.and_le_right hy

theorem and_lt_left (x y : Nat) (hx : x < 4294967296) : x &&& y < 4294967296 :=
  Nat.lt_of_le_of_lt Nat.and_le_left hx

theorem or_lt32 (x y : Nat) (hx : x < 4294967296) (hy : y < 4294967296) :
    x ||| y < 4294967296 := by
  have h : (4294967296 : Nat) = 2 ^ 32 := by norm_num
  rw [h] at hx hy ⊢
  exact Nat.or_lt_two_pow hx hy

theorem xor_lt32 (x y : Nat) (hx : x < 4294967296) (hy : y < 4294967296) :
    x ^^^ y < 4294967296 := by
  have h : (4294967296 : Nat) = 2 ^ 32 := by norm_num
  rw [h] at hx hy ⊢
  exact Nat.xor_lt_two_pow hx hy

theorem sample_lt (r p mask pmask inv : Nat) (hm : mask < 4294967296)
    (hp : pmask < 4294967296) (hi : inv < 4294967296) :
    ((r &&& mask) ||| (p &&& pmask)) ^^^ inv < 4294967296 :=
  xor_lt32 _ _ (or_lt32 _ _ (and_lt_right _ _ hm) (and_lt_right _ _ hp)) hi

theorem masked_lt (old w T : Nat) (ho : old < 4294967296) (hT : T < 4294967296) :
    (old &&& not32 T) ||| (w &&& T) < 4294967296 :=
  or_lt32 _ _ (and_lt_left _ _ ho) (and_lt_right _ _ hT)

theorem MD5STEP_lt (f : Nat → Nat → Nat → Nat) (w x y z data s : Nat) :
    MD5STEP f w x y z data s < 4294967296 := by
  unfold MD5STEP
  exact add32_lt _ _

theorem MD5UNSTEP_lt {m : Nat} (Q : Words m) (n k s : Nat) : MD5UNSTEP Q n k s < 4294967296 := by
  unfold MD5UNSTEP
  exact sub32_lt _ _

theorem MD5UNSTEP2_lt {m : Nat} (Q : Words m) (n k s : Nat) :
    MD5UNSTEP2 Q n k s < 4294967296 := by
  unfold MD5UNSTEP2
  exact sub32_lt _ _

/-! ## Consistency of block words and steps under writes -/

theorem MD5UNSTEP_congr {m : Nat} (Q Q1 : Words m) (i k s : Nat)
    (h4 : Q1.get (i + 4) = Q.get (i + 4)) (h3 : Q1.get (i + 3) = Q.get (i + 3))
    (hF : F1 (Q1.get (i + 3)) (Q1.get (i + 2)) (Q1.get (i + 1))
      = F1 (Q.get (i + 3)) (Q.get (i + 2)) (Q.get (i + 1)))
    (h0 : Q1.get i = Q.get i) : MD5UNSTEP Q1 i k s = MD5UNSTEP Q i k s := by
  unfold MD5UNSTEP
  rw [hF, h4, h3, h0]

theorem Cons_frame {m : Nat} {Q Q1 : Words m} {block block1 : Words 16} {i : Nat}
    (hb : block1.get i = block.get i)
    (h4 : Q1.get (i + 4) = Q.get (i + 4)) (h3 : Q1.get (i + 3) = Q.get (i + 3))
    (h2 : Q1.get (i + 2) = Q.get (i + 2)) (h1 : Q1.get (i + 1) = Q.get (i + 1))
    (h0 : Q1.get i = Q.get i) (h : Cons Q block i) : Cons Q1 block1 i := by
  unfold Cons at h ⊢
  rw [hb, h, MD5UNSTEP_congr Q Q1 i _ _ h4 h3 (by rw [h3, h2, h1]) h0]

theorem Cons.tunnel_y {m : Nat} {Q Q1 : Words m} {block block1 : Words 16} (T : Nat) {i : Nat}
    (hb : block1.get i = block.get i)
    (h4 : Q1.get (i + 4) = Q.get (i + 4)) (h3 : Q1.get (i + 3) = Q.get (i + 3))
    (ha : AgreeOff T (Q1.get (i + 2)) (Q.get (i + 2))) (hx : Q.get (i + 3) &&& T = 0)
    (h1 : Q1.get (i + 1) = Q.get (i + 1)) (h0 : Q1.get i = Q.get i) (h : Cons Q block i) :
    Cons Q1 block1 i := by
  unfold Cons at h ⊢
  rw [hb, h, MD5UNSTEP_congr Q Q1 i _ _ h4 h3
    (by rw [h3, h1]; exact F1_agree_y T _ _ _ _ ha hx) h0]

theorem Cons.tunnel_z {m : Nat} {Q Q1 : Words m} {block block1 : Words 16} (T : Nat) {i : Nat}
    (hb : block1.get i = block.get i)
    (h4 : Q1.get (i + 4) = Q.get (i + 4)) (h3 : Q1.get (i + 3) = Q.get (i + 3))
    (h2 : Q1.get (i + 2) = Q.get (i + 2))
    (ha : AgreeOff T (Q1.get (i + 1)) (Q.get (i + 1))) (hx : Q.get (i + 3) &&& T = T)
    (h0 : Q1.get i = Q.get i) (h : Cons Q block i) : Cons Q1 block1 i := by
  unfold Cons at h ⊢
  rw [hb, h, MD5UNSTEP_congr Q Q1 i _ _ h4 h3
    (by rw [h3, h2]; exact F1_agree_z T _ _ _ _ ha hx) h0]

theorem Cons_write {m : Nat} (Q : Words m) (block : Words 16) (i k sh : Nat) (hi : i < 16)
    (hk : md5K.getD i 0 = k) (hs : md5S.getD i 0 = sh) :
    Cons Q (block.set i (MD5UNSTEP Q i k sh)) i := by
  unfold Cons
  rw [Words.get_set_eq _ _ hi, hk, hs]

theorem ConsOn_setB {m : Nat} {Q : Words m} {block : Words 16} {L : List Nat} (j v : Nat)
    (hj : j ∉ L) (h : ConsOn Q block L) : ConsOn Q (block.set j v) L := by
  intro i hi
  have hne : j ≠ i := fun e => hj (e ▸ hi)
  exact Cons_frame (Words.get_set_ne _ _ hne) rfl rfl rfl rfl rfl (h i hi)

theorem ConsOn_setQ {m : Nat} {Q : Words m} {block : Words 16} {L : List Nat} (n v : Nat)
    (hn : ∀ i, i ∈ L → n < i ∨ i + 4 < n) (h : ConsOn Q block L) :
    ConsOn (Q.set n v) block L := by
  intro i hi
  have hni := hn i hi
  exact Cons_frame rfl (Words.get_set_ne _ _ (by omega)) (Words.get_set_ne _ _ (by omega))
    (Words.get_set_ne _ _ (by omega)) (Words.get_set_ne _ _ (by omega))
    (Words.get_set_ne _ _ (by omega)) (h i hi)

theorem Fwd_frame {m : Nat} {Q Q1 : Words m} {block block1 : Words 16} {i : Nat}
    (hb : block1.get (md5G i) = block.get (md5G i))
    (h4 : Q1.get (i + 4) = Q.get (i + 4)) (h3 : Q1.get (i + 3) = Q.get (i + 3))
    (h2 : Q1.get (i + 2) = Q.get (i + 2)) (h1 : Q1.get (i + 1) = Q.get (i + 1))
    (h0 : Q1.get i = Q.get i) (h : Fwd Q block i) : Fwd Q1 block1 i := by
  unfold Fwd at h ⊢
  rw [hb, h4, h3, h2, h1, h0]
  exact h

theorem FwdOn_setB {m : Nat} {Q : Words m} {block : Words 16} {F : List Nat} (j v : Nat)
    (hj : ∀ i, i ∈ F → md5G i ≠ j) (h : FwdOn Q block F) : FwdOn Q (block.set j v) F := by
  intro i hi
  exact Fwd_frame (Words.get_set_ne _ _ (fun e => hj i hi e.symm)) rfl rfl rfl rfl rfl (h i hi)

theorem FwdOn_setQ {m : Nat} {Q : Words m} {block : Words 16} {F : List Nat} (n v : Nat)
    (hn : ∀ i, i ∈ F → n < i ∨ i + 4 < n) (h : FwdOn Q block F) :
    FwdOn (Q.set n v) block F := by
  intro i hi
  have hni := hn i hi
  exact Fwd_frame rfl (Words.get_set_ne _ _ (by omega)) (Words.get_set_ne _ _ (by omega))
    (Words.get_set_ne _ _ (by omega)) (Words.get_set_ne _ _ (by omega))
    (Words.get_set_ne _ _ (by omega)) (h i hi)

theorem Fwd_write {m : Nat} (Q : Words m) (block : Words 16) (j g k sh : Nat)
    (f : Nat → Nat → Nat → Nat) (hm : j + 4 < m) (hf : md5F j = f) (hg : md5G j = g)
    (hk : md5K.getD j 0 = k) (hs : md5S.getD j 0 = sh) :
    Fwd (Q.set (j + 4) (MD5STEP f (Q.get j) (Q.get (j + 3)) (Q.get (j + 2)) (Q.get (j + 1))
      (add32 (block.get g) k) sh)) block j := by
  unfold Fwd
  rw [Words.get_set_eq _ _ hm, Words.get_set_ne _ _ (by omega), Words.get_set_ne _ _ (by omega),
    Words.get_set_ne _ _ (by omega), Words.get_set_ne _ _ (by omega), hf, hg, hk, hs]

theorem Bnd_set {m : Nat} {Q : Words m} (n v : Nat) (hv : v < 4294967296) (h : Bnd Q) :
    Bnd (Q.set n v) := by
  intro k hk
  rw [Words.get_set]
  split_ifs
  · exact hv
  · exact h k hk

theorem IVQ_set {m : Nat} {iv : Words 4} {Q : Words m} (n v : Nat) (hn : 4 ≤ n)
    (h : IVQ iv Q) : IVQ iv (Q.set n v) := by
  unfold IVQ at h ⊢
  rw [Words.get_set_ne _ _ (by omega), Words.get_set_ne _ _ (by omega),
    Words.get_set_ne _ _ (by omega), Words.get_set_ne _ _ (by omega)]
  exact h

theorem Base.restrict {m : Nat} {iv : Words 4} {L F L1 F1 : List Nat} {s : St m}
    (hL : ∀ x, x ∈ L1 → x ∈ L) (hF : ∀ x, x ∈ F1 → x ∈ F) (h : Base iv L F s) :
    Base iv L1 F1 s :=
  ⟨h.ivq, h.bnd, fun i hi => h.cons i (hL i hi), fun i hi => h.fwd i (hF i hi)⟩

theorem Base_setB {m : Nat} {iv : Words 4} {L F : List Nat} {s s1 : St m}
    (h : Base iv L F s) (j v : Nat)
    (hQ : s1.Q = s.Q) (hB : s1.block = s.block.set j v) (hL : j ∉ L)
    (hF : ∀ i, i ∈ F → md5G i ≠ j) : Base iv L F s1 := by
  refine ⟨?_, ?_, ?_, ?_⟩
  · rw [hQ]; exact h.ivq
  · rw [hQ]; exact h.bnd
  · rw [hQ, hB]; exact ConsOn_setB j v hL h.cons
  · rw [hQ, hB]; exact FwdOn_setB j v hF h.fwd

theorem Base_setQ {m : Nat} {iv : Words 4} {L F : List Nat} {s s1 : St m}
    (h : Base iv L F s) (n v : Nat)
    (hQ : s1.Q = s.Q.set n v) (hB : s1.block = s.block) (hn : 4 ≤ n) (hv : v < 4294967296)
    (hL : ∀ i, i ∈ L → n < i ∨ i + 4 < n) (hF : ∀ i, i ∈ F → n < i ∨ i + 4 < n) :
    Base iv L F s1 := by
  refine ⟨?_, ?_, ?_, ?_⟩
  · rw [hQ]; exact IVQ_set n v hn h.ivq
  · rw [hQ]; exact Bnd_set n v hv h.bnd
  · rw [hQ, hB]; exact ConsOn_setQ n v hL h.cons
  · rw [hQ, hB]; exact FwdOn_setQ n v hF h.fwd

theorem Base.addCons {m : Nat} {iv : Words 4} {L F : List Nat} {s : St m} (i : Nat)
    (hc : Cons s.Q s.block i) (h : Base iv L F s) : Base iv (i :: L) F s := by
  refine ⟨h.ivq, h.bnd, ?_, h.fwd⟩
  intro x hx
  rcases List.mem_cons.1 hx with e | e
  · rw [e]; exact hc
  · exact h.cons x e

theorem Base.addFwd {m : Nat} {iv : Words 4} {L F : List Nat} {s : St m} (j : Nat)
    (hc : Fwd s.Q s.block j) (h : Base iv L F s) : Base iv L (j :: F) s := by
  refine ⟨h.ivq, h.bnd, h.cons, ?_⟩
  intro x hx
  rcases List.mem_cons.1 hx with e | e
  · rw [e]; exact hc
  · exact h.fwd x e

theorem Base.writeB {m : Nat} {iv : Words 4} {L F : List Nat} {s s1 : St m}
    (h : Base iv L F s) (i k sh : Nat)
    (hQ : s1.Q = s.Q) (hB : s1.block = s.block.set i (MD5UNSTEP s.Q i k sh)) (hi : i < 16)
    (hk : md5K.getD i 0 = k) (hs : md5S.getD i 0 = sh) (hL : i ∉ L)
    (hF : ∀ j, j ∈ F → md5G j ≠ i) : Base iv (i :: L) F s1 := by
  apply Base.addCons i _ (Base_setB h i _ hQ hB hL hF)
  rw [hQ, hB]
  exact Cons_write s.Q s.block i k sh hi hk hs

theorem Base.stepQ {m : Nat} {iv : Words 4} {L F : List Nat} {s s1 : St m}
    (h : Base iv L F s) (j g k sh : Nat) (f : Nat → Nat → Nat → Nat)
    (hQ : s1.Q = s.Q.set (j + 4) (MD5STEP f (s.Q.get j) (s.Q.get (j + 3)) (s.Q.get (j + 2))
      (s.Q.get (j + 1)) (add32 (s.block.get g) k) sh))
    (hB : s1.block = s.block) (hm : j + 4 < m) (hf : md5F j = f) (hg : md5G j = g)
    (hk : md5K.getD j 0 = k) (hs : md5S.getD j 0 = sh)
    (hL : ∀ i, i ∈ L → j + 4 < i ∨ i + 4 < j + 4) (hF : ∀ i, i ∈ F → j + 4 < i ∨ i + 4 < j + 4) :
    Base iv L (j :: F) s1 := by
  apply Base.addFwd j _ (Base_setQ h (j + 4) _ hQ hB (by omega) (MD5STEP_lt _ _ _ _ _ _ _) hL hF)
  rw [hQ, hB]
  exact Fwd_write s.Q s.block j g k sh f hm hf hg hk hs

/-! ## The unrolled steps 25 to 64 -/

theorem md5Steps_succ (block : Words 16) (n i a b c d : Nat) :
    md5Steps block (n + 1) i a b c d = md5Steps block n (i + 1) d
      (MD5STEP (md5F i) a b c d (add32 (block.get (md5G i)) (md5K.getD i 0)) (md5S.getD i 0))
      b c := rfl

theorem md5Steps_cons (block : Words 16) (n i a b c d g k sh a1 : Nat)
    (f : Nat → Nat → Nat → Nat) (r : Nat × Nat × Nat × Nat)
    (hf : md5F i = f) (hg : md5G i = g) (hk : md5K.getD i 0 = k) (hs : md5S.getD i 0 = sh)
    (ha : a1 = MD5STEP f a b c d (add32 (block.get g) k) sh)
    (h : md5Steps block n (i + 1) d a1 b c = r) : md5Steps block (n + 1) i a b c d = r := by
  rw [md5Steps_succ, hf, hg, hk, hs, ← ha]
  exact h

theorem ite_none_some {α : Type} {c : Prop} [Decidable c] {x : Option α} {r : α}
    (h : (if c then none else x) = some r) : x = some r := by
  split_ifs at h
  exact h

theorem add32_assoc (x y z : Nat) : add32 (add32 x y) z = add32 x (add32 y z) := by
  unfold add32
  omega

theorem manual_step35 (c d a b w k : Nat) :
    add32 (shl32 (add32 c (add32 (add32 (F3 d a b) w) k)) 16 |||
      (add32 c (add32 (add32 (F3 d a b) w) k) >>> 16)) d
      = MD5STEP F3 c d a b (add32 w k) 16 := by
  unfold MD5STEP rotl32
  rw [add32_assoc (F3 d a b) w k]

theorem tail0_md5 (block : Words 16) (a b c d : Nat) (r : Nat × Nat × Nat × Nat) :
    tail0 block a b c d = some r → md5Steps block 40 24 a b c d = r := by
  unfold tail0
  lift_lets
  intro v25 v26 v27 v28 v29 v30 v31 v32 v33 v34 w35 x35 v35 v36 v37 v38 v39 v40 v41 v42 v43 v44
  intro v45 v46 v47 v48 v49 v50 v51 v52 v53 v54 v55 v56 v57 v58 v59 v60 v61 v62 v63 v64
  intro h
  replace h := ite_none_some h
  replace h := ite_none_some h
  replace h := ite_none_some h
  replace h := ite_none_some h
  replace h := ite_none_some h
  replace h := ite_none_some h
  replace h := ite_none_some h
  replace h := ite_none_some h
  replace h := ite_none_some h
  replace h := ite_none_some h
  replace h := ite_none_some h
  replace h := ite_none_some h
  replace h := ite_none_some h
  replace h := ite_none_some h
  replace h := ite_none_some h
  replace h := ite_none_some h
  replace h := ite_none_some h
  have e := Option.some.inj h
  rw [← e]
  refine md5Steps_cons block 39 24 a b c d 9 568446438 5 v25 F2 _
    rfl rfl rfl rfl rfl ?_
  refine md5Steps_cons block 38 25 d v25 b c 14 3275163606 9 v26 F2 _
    rfl rfl rfl rfl rfl ?_
  refine md5Steps_cons block 37 26 c v26 v25 b 3 4107603335 14 v27 F2 _
    rfl rfl rfl rfl rfl ?_
  refine md5Steps_cons block 36 27 b v27 v26 v25 8 1163531501 20 v28 F2 _
    rfl rfl rfl rfl rfl ?_
  refine md5Steps_cons block 35 28 v25 v28 v27 v26 13 2850285829 5 v29 F2 _
    rfl rfl rfl rfl rfl ?_
  refine md5Steps_cons block 34 29 v26 v29 v28 v27 2 4243563512 9 v30 F2 _
    rfl rfl rfl rfl rfl ?_
  refine md5Steps_cons block 33 30 v27 v30 v29 v28 7 1735328473 14 v31 F2 _
    rfl rfl rfl rfl rfl ?_
  refine md5Steps_cons block 32 31 v28 v31 v30 v29 12 2368359562 20 v32 F2 _
    rfl rfl rfl rfl rfl ?_
  refine md5Steps_cons block 31 32 v29 v32 v31 v30 5 4294588738 4 v33 F3 _
    rfl rfl rfl rfl rfl ?_
  refine md5Steps_cons block 30 33 v30 v33 v32 v31 8 2272392833 11 v34 F3 _
    rfl rfl rfl rfl rfl ?_
  refine md5Steps_cons block 29 34 v31 v34 v33 v32 11 1839030562 16 v35 F3 _
    rfl rfl rfl rfl (manual_step35 _ _ _ _ _ _) ?_
  refine md5Steps_cons block 28 35 v32 v35 v34 v33 14 4259657740 23 v36 F3 _
    rfl rfl rfl rfl rfl ?_
  refine md5Steps_cons block 27 36 v33 v36 v35 v34 1 2763975236 4 v37 F3 _
    rfl rfl rfl rfl rfl ?_
  refine md5Steps_cons block 26 37 v34 v37 v36 v35 4 1272893353 11 v38 F3 _
    rfl rfl rfl rfl rfl ?_
  refine md5Steps_cons block 25 38 v35 v38 v37 v36 7 4139469664 16 v39 F3 _
    rfl rfl rfl rfl rfl ?_
  refine md5Steps_cons block 24 39 v36 v39 v38 v37 10 3200236656 23 v40 F3 _
    rfl rfl rfl rfl rfl ?_
  refine md5Steps_cons block 23 40 v37 v40 v39 v38 13 681279174 4 v41 F3 _
    rfl rfl rfl rfl rfl ?_
  refine md5Steps_cons block 22 41 v38 v41 v40 v39 0 3936430074 11 v42 F3 _
    rfl rfl rfl rfl rfl ?_
  refine md5Steps_cons block 21 42 v39 v42 v41 v40 3 3572445317 16 v43 F3 _
    rfl rfl rfl rfl rfl ?_
  refine md5Steps_cons block 20 43 v40 v43 v42 v41 6 76029189 23 v44 F3 _
    rfl rfl rfl rfl rfl ?_
  refine md5Steps_cons block 19 44 v41 v44 v43 v42 9 3654602809 4 v45 F3 _
    rfl rfl rfl rfl rfl ?_
  refine md5Steps_cons block 18 45 v42 v45 v44 v43 12 3873151461 11 v46 F3 _
    rfl rfl rfl rfl rfl ?_
  refine md5Steps_cons block 17 46 v43 v46 v45 v44 15 530742520 16 v47 F3 _
    rfl rfl rfl rfl rfl ?_
  refine md5Steps_cons block 16 47 v44 v47 v46 v45 2 3299628645 23 v48 F3 _
    rfl rfl rfl rfl rfl ?_
  refine md5Steps_cons block 15 48 v45 v48 v47 v46 0 4096336452 6 v49 F4 _
    rfl rfl rfl rfl rfl ?_
  refine md5Steps_cons block 14 49 v46 v49 v48 v47 7 1126891415 10 v50 F4 _
    rfl rfl rfl rfl rfl ?_
  refine md5Steps_cons block 13 50 v47 v50 v49 v48 14 2878612391 15 v51 F4 _
    rfl rfl rfl rfl rfl ?_
  refine md5Steps_cons block 12 51 v48 v51 v50 v49 5 4237533241 21 v52 F4 _
    rfl rfl rfl rfl rfl ?_
  refine md5Steps_cons block 11 52 v49 v52 v51 v50 12 1700485571 6 v53 F4 _
    rfl rfl rfl rfl rfl ?_
  refine md5Steps_cons block 10 53 v50 v53 v52 v51 3 2399980690 10 v54 F4 _
    rfl rfl rfl rfl rfl ?_
  refine md5Steps_cons block 9 54 v51 v54 v53 v52 10 4293915773 15 v55 F4 _
    rfl rfl rfl rfl rfl ?_
  refine md5Steps_cons block 8 55 v52 v55 v54 v53 1 2240044497 21 v56 F4 _
    rfl rfl rfl rfl rfl ?_
  refine md5Steps_cons block 7 56 v53 v56 v55 v54 8 1873313359 6 v57 F4 _
    rfl rfl rfl rfl rfl ?_
  refine md5Steps_cons block 6 57 v54 v57 v56 v55 15 4264355552 10 v58 F4 _
    rfl rfl rfl rfl rfl ?_
  refine md5Steps_cons block 5 58 v55 v58 v57 v56 6 2734768916 15 v59 F4 _
    rfl rfl rfl rfl rfl ?_
  refine md5Steps_cons block 4 59 v56 v59 v58 v57 13 1309151649 21 v60 F4 _
    rfl rfl rfl rfl rfl ?_
  refine md5Steps_cons block 3 60 v57 v60 v59 v58 4 4149444226 6 v61 F4 _
    rfl rfl rfl rfl rfl ?_
  refine md5Steps_cons block 2 61 v58 v61 v60 v59 11 3174756917 10 v62 F4 _
    rfl rfl rfl rfl rfl ?_
  refine md5Steps_cons block 1 62 v59 v62 v61 v60 2 718787259 15 v63 F4 _
    rfl rfl rfl rfl rfl ?_
  refine md5Steps_cons block 0 63 v60 v63 v62 v61 9 3951481745 21 v64 F4 _
    rfl rfl rfl rfl rfl ?_
  rfl

theorem tail1_md5 (block : Words 16) (a b c d : Nat) (r : Nat × Nat × Nat × Nat) :
    tail1 block a b c d = some r → md5Steps block 40 24 a b c d = r := by
  unfold tail1
  lift_lets
  intro v25 v26 v27 v28 v29 v30 v31 v32 v33 v34 w35 x35 v35 v36 v37 v38 v39 v40 v41 v42 v43 v44
  intro v45 v46 v47 v48 v49 v50 v51 v52 v53 v54 v55 v56 v57 v58 v59 v60 v61 v62 v63 v64
  intro h
  replace h := ite_none_some h
  replace h := ite_none_some h
  replace h := ite_none_some h
  replace h := ite_none_some h
  replace h := ite_none_some h
  replace h := ite_none_some h
  replace h := ite_none_some h
  replace h := ite_none_some h
  replace h := ite_none_some h
  replace h := ite_none_some h
  replace h := ite_none_some h
  replace h := ite_none_some h
  replace h := ite_none_some h
  replace h := ite_none_some h
  replace h := ite_none_some h
  replace h := ite_none_some h
  replace h := ite_none_some h
  have e := Option.some.inj h
  rw [← e]
  refine md5Steps_cons block 39 24 a b c d 9 568446438 5 v25 F2 _
    rfl rfl rfl rfl rfl ?_
  refine md5Steps_cons block 38 25 d v25 b c 14 3275163606 9 v26 F2 _
    rfl rfl rfl rfl rfl ?_
  refine md5Steps_cons block 37 26 c v26 v25 b 3 4107603335 14 v27 F2 _
    rfl rfl rfl rfl rfl ?_
  refine md5Steps_cons block 36 27 b v27 v26 v25 8 1163531501 20 v28 F2 _
    rfl rfl rfl rfl rfl ?_
  refine md5Steps_cons block 35 28 v25 v28 v27 v26 13 2850285829 5 v29 F2 _
    rfl rfl rfl rfl rfl ?_
  refine md5Steps_cons block 34 29 v26 v29 v28 v27 2 4243563512 9 v30 F2 _
    rfl rfl rfl rfl rfl ?_
  refine md5Steps_cons block 33 30 v27 v30 v29 v28 7 1735328473 14 v31 F2 _
    rfl rfl rfl rfl rfl ?_
  refine md5Steps_cons block 32 31 v28 v31 v30 v29 12 2368359562 20 v32 F2 _
    rfl rfl rfl rfl rfl ?_
  refine md5Steps_cons block 31 32 v29 v32 v31 v30 5 4294588738 4 v33 F3 _
    rfl rfl rfl rfl rfl ?_
  refine md5Steps_cons block 30 33 v30 v33 v32 v31 8 2272392833 11 v34 F3 _
    rfl rfl rfl rfl rfl ?_
  refine md5Steps_cons block 29 34 v31 v34 v33 v32 11 1839030562 16 v35 F3 _
    rfl rfl rfl rfl (manual_step35 _ _ _ _ _ _) ?_
  refine md5Steps_cons block 28 35 v32 v35 v34 v33 14 4259657740 23 v36 F3 _
    rfl rfl rfl rfl rfl ?_
  refine md5Steps_cons block 27 36 v33 v36 v35 v34 1 2763975236 4 v37 F3 _
    rfl rfl rfl rfl rfl ?_
  refine md5Steps_cons block 26 37 v34 v37 v36 v35 4 1272893353 11 v38 F3 _
    rfl rfl rfl rfl rfl ?_
  refine md5Steps_cons block 25 38 v35 v38 v37 v36 7 4139469664 16 v39 F3 _
    rfl rfl rfl rfl rfl ?_
  refine md5Steps_cons block 24 39 v36 v39 v38 v37 10 3200236656 23 v40 F3 _
    rfl rfl rfl rfl rfl ?_
  refine md5Steps_cons block 23 40 v37 v40 v39 v38 13 681279174 4 v41 F3 _
    rfl rfl rfl rfl rfl ?_
  refine md5Steps_cons block 22 41 v38 v41 v40 v39 0 3936430074 11 v42 F3 _
    rfl rfl rfl rfl rfl ?_
  refine md5Steps_cons block 21 42 v39 v42 v41 v40 3 3572445317 16 v43 F3 _
    rfl rfl rfl rfl rfl ?_
  refine md5Steps_cons block 20 43 v40 v43 v42 v41 6 76029189 23 v44 F3 _
    rfl rfl rfl rfl rfl ?_
  refine md5Steps_cons block 19 44 v41 v44 v43 v42 9 3654602809 4 v45 F3 _
    rfl rfl rfl rfl rfl ?_
  refine md5Steps_cons block 18 45 v42 v45 v44 v43 12 3873151461 11 v46 F3 _
    rfl rfl rfl rfl rfl ?_
  refine md5Steps_cons block 17 46 v43 v46 v45 v44 15 530742520 16 v47 F3 _
    rfl rfl rfl rfl rfl ?_
  refine md5Steps_cons block 16 47 v44 v47 v46 v45 2 3299628645 23 v48 F3 _
    rfl rfl rfl rfl rfl ?_
  refine md5Steps_cons block 15 48 v45 v48 v47 v46 0 4096336452 6 v49 F4 _
    rfl rfl rfl rfl rfl ?_
  refine md5Steps_cons block 14 49 v46 v49 v48 v47 7 1126891415 10 v50 F4 _
    rfl rfl rfl rfl rfl ?_
  refine md5Steps_cons block 13 50 v47 v50 v49 v48 14 2878612391 15 v51 F4 _
    rfl rfl rfl rfl rfl ?_
  refine md5Steps_cons block 12 51 v48 v51 v50 v49 5 4237533241 21 v52 F4 _
    rfl rfl rfl rfl rfl ?_
  refine md5Steps_cons block 11 52 v49 v52 v51 v50 12 1700485571 6 v53 F4 _
    rfl rfl rfl rfl rfl ?_
  refine md5Steps_cons block 10 53 v50 v53 v52 v51 3 2399980690 10 v54 F4 _
    rfl rfl rfl rfl rfl ?_
  refine md5Steps_cons block 9 54 v51 v54 v53 v52 10 4293915773 15 v55 F4 _
    rfl rfl rfl rfl rfl ?_
  refine md5Steps_cons block 8 55 v52 v55 v54 v53 1 2240044497 21 v56 F4 _
    rfl rfl rfl rfl rfl ?_
  refine md5Steps_cons block 7 56 v53 v56 v55 v54 8 1873313359 6 v57 F4 _
    rfl rfl rfl rfl rfl ?_
  refine md5Steps_cons block 6 57 v54 v57 v56 v55 15 4264355552 10 v58 F4 _
    rfl rfl rfl rfl rfl ?_
  refine md5Steps_cons block 5 58 v55 v58 v57 v56 6 2734768916 15 v59 F4 _
    rfl rfl rfl rfl rfl ?_
  refine md5Steps_cons block 4 59 v56 v59 v58 v57 13 1309151649 21 v60 F4 _
    rfl rfl rfl rfl rfl ?_
  refine md5Steps_cons block 3 60 v57 v60 v59 v58 4 4149444226 6 v61 F4 _
    rfl rfl rfl rfl rfl ?_
  refine md5Steps_cons block 2 61 v58 v61 v60 v59 11 3174756917 10 v62 F4 _
    rfl rfl rfl rfl rfl ?_
  refine md5Steps_cons block 1 62 v59 v62 v61 v60 2 718787259 15 v63 F4 _
    rfl rfl rfl rfl rfl ?_
  refine md5Steps_cons block 0 63 v60 v63 v62 v61 9 3951481745 21 v64 F4 _
    rfl rfl rfl rfl rfl ?_
  rfl

/-! ## The trail and the compression function -/

theorem md5F_lt16 (i : Nat) (hi : i < 16) : md5F i = F1 := by
  unfold md5F
  rw [if_pos hi]

theorem md5G_lt16 (i : Nat) (hi : i < 16) : md5G i = i := by
  unfold md5G
  rw [if_pos hi]

theorem md5S_le (i : Nat) : md5S.getD i 0 ≤ 32 := by
  have h : ∀ x, x ∈ md5S → x ≤ 32 := by decide
  rw [List.getD_eq_getElem?_getD]
  by_cases hk : i < md5S.length
  · rw [List.getElem?_eq_getElem hk]
    exact h _ (List.getElem_mem hk)
  · rw [List.getElem?_eq_none (by omega)]
    exact Nat.zero_le 32

theorem Fwd_of_Cons {m : Nat} (Q : Words m) (block : Words 16) (i : Nat) (hi : i < 16)
    (hc : Cons Q block i) (hb : Q.get (i + 4) < 4294967296) : Fwd Q block i := by
  unfold Fwd
  unfold Cons at hc
  rw [md5F_lt16 i hi, md5G_lt16 i hi, hc]
  unfold MD5STEP MD5UNSTEP
  exact (step_of_unstep _ _ _ _ _ _ (md5S_le i) hb).symm

theorem Cons_of_Fwd {m : Nat} (Q : Words m) (block : Words 16) (i : Nat) (hi : i < 16)
    (hf : Fwd Q block i) (hb : block.get i < 4294967296) : Cons Q block i := by
  unfold Cons
  unfold Fwd at hf
  rw [md5F_lt16 i hi, md5G_lt16 i hi] at hf
  unfold MD5STEP at hf
  unfold MD5UNSTEP
  exact (unstep_of_step _ _ _ _ _ _ _ (md5S_le i) hb hf).symm

theorem Fwd16_of_unstep2 {m : Nat} (Q : Words m) (block : Words 16) (k : Nat)
    (hk : md5K.getD 16 0 = k) (hb : block.get 1 = MD5UNSTEP2 Q 16 k 5)
    (hq : Q.get 20 < 4294967296) : Fwd Q block 16 := by
  unfold Fwd
  rw [show md5F 16 = F2 from rfl, show md5G 16 = 1 from rfl, hk,
    show md5S.getD 16 0 = 5 from rfl, hb]
  unfold MD5STEP MD5UNSTEP2
  exact (step_of_unstep _ _ _ _ _ _ (by decide) hq).symm

theorem md5Steps_trail {m : Nat} (Q : Words m) (block : Words 16) (k : Nat) :
    ∀ n i, (∀ j, i ≤ j → j < i + n → Fwd Q block j) →
      md5Steps block (n + k) i (Q.get i) (Q.get (i + 3)) (Q.get (i + 2)) (Q.get (i + 1))
        = md5Steps block k (i + n) (Q.get (i + n)) (Q.get (i + n + 3)) (Q.get (i + n + 2))
          (Q.get (i + n + 1)) := by
  intro n
  induction n with
  | zero =>
    intro i _
    rw [Nat.zero_add]
    rfl
  | succ n ih =>
    intro i h
    have e : n + 1 + k = (n + k) + 1 := by omega
    have hf := h i (Nat.le_refl i) (by omega)
    unfold Fwd at hf
    rw [e, md5Steps_succ, ← hf]
    have e2 : i + (n + 1) = (i + 1) + n := by omega
    rw [e2]
    exact ih (i + 1) (fun j h1 h2 => h j (by omega) (by omega))

theorem MD5Transform_of_steps (iv : Words 4) (block : Words 16) (a b c d : Nat)
    (h : md5Steps block 64 0 (iv.get 0) (iv.get 1) (iv.get 2) (iv.get 3) = (a, b, c, d)) :
    MD5Transform iv block
      = ⟨[add32 (iv.get 0) a, add32 (iv.get 1) b, add32 (iv.get 2) c, add32 (iv.get 3) d],
        rfl⟩ := by
  unfold MD5Transform
  rw [h]

theorem manual_step23 (w x y z data k : Nat) :
    add32 (shl32 (add32 (add32 (add32 w (F2 x y z)) data) k) 14 |||
      (add32 (add32 (add32 w (F2 x y z)) data) k >>> (32 - 14))) x
      = MD5STEP F2 w x y z (add32 data k) 14 := by
  unfold MD5STEP rotl32
  rw [add32_assoc (add32 w (F2 x y z)) data k, add32_assoc w (F2 x y z) (add32 data k)]

theorem sub32_add3 (x f k q : Nat) :
    sub32 x (add32 (add32 f k) q) = sub32 (sub32 (sub32 x f) k) q := by
  unfold add32 sub32
  omega

theorem sub32_add2 (y k q : Nat) : sub32 y (add32 k q) = sub32 (sub32 y k) q := by
  unfold add32 sub32
  omega

/-! ## Step consistency, first block -/

theorem cond_force (q p cb pm inv T : Nat) (h : (q &&& cb) ^^^ (p &&& pm) = inv)
    (hT : T &&& cb = T) (hp : T &&& pm = 0) : q &&& T = inv &&& T := by
  apply Nat.eq_of_testBit_eq
  intro i
  have e1 := congrArg (fun z => Nat.testBit z i) h
  have e2 := congrArg (fun z => Nat.testBit z i) hT
  have e3 := congrArg (fun z => Nat.testBit z i) hp
  simp only [Nat.testBit_and, Nat.testBit_xor, Nat.zero_testBit] at e1 e2 e3 ⊢
  revert e1 e2 e3
  cases q.testBit i <;> cases p.testBit i <;> cases cb.testBit i <;> cases pm.testBit i <;>
    cases inv.testBit i <;> cases T.testBit i <;> simp

theorem cond_copy (q p cb pm inv T : Nat) (h : (q &&& cb) ^^^ (p &&& pm) = inv)
    (hT : T &&& cb = T) (hp : T &&& pm = T) (hi : inv &&& T = 0) : q &&& T = p &&& T := by
  apply Nat.eq_of_testBit_eq
  intro i
  have e1 := congrArg (fun z => Nat.testBit z i) h
  have e2 := congrArg (fun z => Nat.testBit z i) hT
  have e3 := congrArg (fun z => Nat.testBit z i) hp
  have e4 := congrArg (fun z => Nat.testBit z i) hi
  simp only [Nat.testBit_and, Nat.testBit_xor, Nat.zero_testBit] at e1 e2 e3 e4 ⊢
  revert e1 e2 e3 e4
  cases q.testBit i <;> cases p.testBit i <;> cases cb.testBit i <;> cases pm.testBit i <;>
    cases inv.testBit i <;> cases T.testBit i <;> simp

theorem Tun0_of_conds (Q : Words 28) (h : CondsIn qconds Q 1 16) : Tun0 Q := by
  have c5 := h 5 (by decide) (by decide)
  have c6 := h 6 (by decide) (by decide)
  have c10 := h 10 (by decide) (by decide)
  have c11 := h 11 (by decide) (by decide)
  unfold CondHolds at c5 c6 c10 c11
  refine ⟨?_, ?_, ?_, ?_, ?_, ?_⟩
  · rw [cond_force _ _ _ _ _ 0x38000004 c5 (by decide) (by decide)]
    decide
  · rw [cond_force _ _ _ _ _ 0x38000004 c6 (by decide) (by decide)]
    decide
  · rw [cond_force _ _ _ _ _ Q9M9MASK c10 (by decide) (by decide)]
    decide
  · rw [cond_force _ _ _ _ _ Q9M9MASK c11 (by decide) (by decide)]
    decide
  · rw [cond_copy _ _ _ _ _ 0x00002000 c11 (by decide) (by decide) (by decide),
      cond_force _ _ _ _ _ 0x00002000 c10 (by decide) (by decide)]
    decide
  · rw [cond_force _ _ _ _ _ 0x00000060 c11 (by decide) (by decide)]
    decide

theorem Tun0_frame {Q Q1 : Words 28} (h8 : Q1.get 8 = Q.get 8) (h9 : Q1.get 9 = Q.get 9)
    (h13 : Q1.get 13 = Q.get 13) (h14 : Q1.get 14 = Q.get 14) (h : Tun0 Q) : Tun0 Q1 := by
  unfold Tun0 at h ⊢
  rw [h8, h9, h13, h14]
  exact h

theorem Tun0_set (Q : Words 28) (n v : Nat) (h8 : n ≠ 8) (h9 : n ≠ 9) (h13 : n ≠ 13)
    (h14 : n ≠ 14) (h : Tun0 Q) : Tun0 (Q.set n v) :=
  Tun0_frame (Words.get_set_ne _ _ h8) (Words.get_set_ne _ _ h9) (Words.get_set_ne _ _ h13)
    (Words.get_set_ne _ _ h14) h

theorem getD_lt_of_all (l : List Nat) (B : Nat) (hB : 0 < B) (h : ∀ x, x ∈ l → x < B) (n : Nat) :
    l.getD n 0 < B := by
  rw [List.getD_eq_getElem?_getD]
  by_cases hk : n < l.length
  · rw [List.getElem?_eq_getElem hk]
    exact h _ (List.getElem_mem hk)
  · rw [List.getElem?_eq_none (by omega)]
    exact hB

theorem Base_initQ0 (iv : Words 4) (rs : Nat) (block : Words 16) :
    Base iv [] [] (⟨rs, initQ0 iv, block⟩ : St 28) := by
  refine ⟨⟨rfl, rfl, rfl, rfl⟩, ?_, ?_, ?_⟩
  · intro n hn
    obtain ⟨k, rfl⟩ := Nat.exists_eq_add_of_le hn
    have e : (initQ0 iv).get (4 + k) = (List.replicate 24 0).getD k 0 := by
      unfold initQ0 Words.get
      rw [Nat.add_comm 4 k]
      rfl
    show (initQ0 iv).get (4 + k) < 4294967296
    rw [e]
    exact getD_lt_of_all _ _ (by decide) (by decide) k
  · intro i hi
    exact absurd hi (List.not_mem_nil i)
  · intro i hi
    exact absurd hi (List.not_mem_nil i)

theorem sampleLoop_base {m : Nat} (iv : Words 4) (qc : List qcond) (top : Nat)
    (hrows : ∀ i, i ≤ top → (qrow qc i).mask < 4294967296 ∧ (qrow qc i).pmask < 4294967296 ∧
      (qrow qc i).inv < 4294967296) :
    ∀ n i (s : St m), 1 ≤ i → i + n ≤ top + 1 → IVQ iv s.Q ∧ Bnd s.Q →
      IVQ iv (sampleLoop qc n i s).Q ∧ Bnd (sampleLoop qc n i s).Q ∧
      (sampleLoop qc n i s).block = s.block := by
  intro n
  induction n with
  | zero =>
    intro i s _ _ h
    exact ⟨h.1, h.2, rfl⟩
  | succ n ih =>
    intro i s hi hin h
    unfold sampleLoop
    have hr := hrows i (by omega)
    have h1 : IVQ iv (sampleQ qc i s).Q ∧ Bnd (sampleQ qc i s).Q :=
      ⟨IVQ_set (i + 3) _ (by omega) h.1,
        Bnd_set (i + 3) _ (sample_lt _ _ _ _ _ hr.1 hr.2.1 hr.2.2) h.2⟩
    have h2 := ih (i + 1) (sampleQ qc i s) (by omega) (by omega) h1
    exact ⟨h2.1, h2.2.1, h2.2.2⟩

theorem rows_qconds_lt : ∀ i, i ≤ 16 → (qrow qconds i).mask < 4294967296 ∧
    (qrow qconds i).pmask < 4294967296 ∧ (qrow qconds i).inv < 4294967296 := by
  intro i hi
  interval_cases i <;> decide

theorem MD5Transform_of_Post0 (iv : Words 4) (s : St 28) (a b c d : Nat)
    (hb : Base iv [12, 9, 8, 7, 4, 3, 13, 10, 2, 5, 1, 15, 14, 11, 6, 0]
      [23, 22, 21, 20, 16, 19, 18, 17] s)
    (ht : tail0 s.block (s.q 21) (s.q 24) (s.q 23) (s.q 22) = some (a, b, c, d)) :
    MD5Transform iv s.block
      = ⟨[add32 (iv.get 0) a, add32 (iv.get 1) b, add32 (iv.get 2) c, add32 (iv.get 3) d],
        rfl⟩ := by
  have hfwd : ∀ j, 0 ≤ j → j < 0 + 24 → Fwd s.Q s.block j := by
    intro j _ hj
    by_cases h16 : j < 16
    · exact Fwd_of_Cons s.Q s.block j h16 (hb.cons j (mem_all16 j h16)) (hb.bnd _ (by omega))
    · apply hb.fwd j
      have h1 : 16 ≤ j := by omega
      have h2 : j < 24 := by omega
      interval_cases j <;> decide
  have e1 := md5Steps_trail s.Q s.block 40 24 0 hfwd
  have e2 := tail0_md5 _ _ _ _ _ _ ht
  apply MD5Transform_of_steps
  rw [← hb.ivq.1, ← hb.ivq.2.1, ← hb.ivq.2.2.1, ← hb.ivq.2.2.2]
  exact e1.trans e2

theorem finish0_full (asserts : Bool) (Compress : Words 4 → Words 16 → Words 4) (iv : Words 4)
    (Inv : St 28 → Prop) (s : St 28) (a b c d : Nat) (hI : Inv s)
    (hb : Base iv [12, 9, 8, 7, 4, 3, 13, 10, 2, 5, 1, 15, 14, 11, 6, 0]
      [23, 22, 21, 20, 16, 19, 18, 17] s)
    (ht : tail0 s.block (s.q 21) (s.q 24) (s.q 23) (s.q 22) = some (a, b, c, d)) :
    (finish0 asserts Compress iv s a b c d).SatA (Differs Compress iv) Inv (Post0 iv) := by
  have hmd := MD5Transform_of_Post0 iv s a b c d hb ht
  unfold finish0
  lift_lets
  intro n1 n2 n3 block2 iv1 iv2
  refine Ctl.SatA_ite (fun _ => hI) (fun _ => ?_)
  split_ifs with h1 h2
  · refine ⟨s.block, fun heq => ?_⟩
    have g := Words.get_mk4 (add32 (iv.get 0) a) (add32 (iv.get 1) b) (add32 (iv.get 2) c)
      (add32 (iv.get 3) d) rfl
    have g0 : iv1.get 0 = add32 (iv.get 0) a := by
      show (Compress iv s.block).get 0 = _
      rw [heq, hmd]; exact g.1
    have g1 : iv1.get 1 = add32 (iv.get 1) b := by
      show (Compress iv s.block).get 1 = _
      rw [heq, hmd]; exact g.2.1
    have g2 : iv1.get 2 = add32 (iv.get 2) c := by
      show (Compress iv s.block).get 2 = _
      rw [heq, hmd]; exact g.2.2.1
    have g3 : iv1.get 3 = add32 (iv.get 3) d := by
      show (Compress iv s.block).get 3 = _
      rw [heq, hmd]; exact g.2.2.2
    rw [g0, g1, g2, g3] at h1
    simp only [beq_self_eq_true, Bool.and_self, Bool.not_true, Bool.and_false] at h1
    exact Bool.noConfusion h1
  · exact ⟨hb, ht⟩
  · exact hI
theorem Parts0_frame {p8 p9 p12 : Nat} {s s1 : St 28} (h5 : s1.q 5 = s.q 5)
    (h6 : s1.q 6 = s.q 6) (h7 : s1.q 7 = s.q 7) (h8 : s1.q 8 = s.q 8) (h10 : s1.q 10 = s.q 10)
    (h11 : s1.q 11 = s.q 11) (h12 : s1.q 12 = s.q 12) (h13 : s1.q 13 = s.q 13)
    (h : Parts0 p8 p9 p12 s) : Parts0 p8 p9 p12 s1 := by
  unfold Parts0 at h ⊢
  rw [h5, h6, h7, h8, h10, h11, h12, h13]
  exact h

theorem q9body0_full (asserts : Bool) (Compress : Words 4 → Words 16 → Words 4)
    (iv : Words 4) (badchars : Option (List Nat)) (p8 p9 p12 q9base i : Nat) (s : St 28)
    (hs : Inv9 iv p8 p9 p12 q9base s) :
    (q9body0 asserts Compress iv badchars p8 p9 p12 q9base i s).SatA (Differs Compress iv)
      (Inv9 iv p8 p9 p12 q9base) (Post0 iv) := by
  obtain ⟨hb, ht, hc, ha, hq, hp⟩ := hs
  unfold q9body0
  lift_lets
  intro s1 s2 s3 s4
  have e12 : s1.Q.get 12 = q9base ||| ((i ^^^ (i <<< 8) ^^^ (i <<< 14)) &&& Q9M9MASK) :=
    Words.get_set_eq _ _ (by decide)
  have hag : AgreeOff Q9M9MASK (s1.Q.get 12) (s.Q.get 12) := by
    rw [e12]
    exact (agree_or_and _ _ _).trans ha.symm
  have hv : q9base ||| ((i ^^^ (i <<< 8) ^^^ (i <<< 14)) &&& Q9M9MASK) < 4294967296 :=
    or_lt32 _ _ hq (and_lt_right _ _ (by decide))
  have b0 : Base iv [7, 4, 3, 13, 2, 5, 1, 15, 14, 6, 0] [23, 22, 21, 20, 16, 19, 18, 17] s1 :=
    Base_setQ (hb.restrict (by decide) (fun _ h => h)) 12 _ rfl rfl (by decide) hv (by decide)
      (by decide)
  have c10 : Cons s1.Q s1.block 10 :=
    Cons.tunnel_y Q9M9MASK rfl (Words.get_set_ne _ _ (by decide))
      (Words.get_set_ne _ _ (by decide)) hag ht.2.2.1 (Words.get_set_ne _ _ (by decide))
      (Words.get_set_ne _ _ (by decide)) (hb.cons 10 (by decide))
  have c11 : Cons s1.Q s1.block 11 :=
    Cons.tunnel_z Q9M9MASK rfl (Words.get_set_ne _ _ (by decide))
      (Words.get_set_ne _ _ (by decide)) (Words.get_set_ne _ _ (by decide)) hag ht.2.2.2.1
      (Words.get_set_ne _ _ (by decide)) (hb.cons 11 (by decide))
  have b1 : Base iv [7, 4, 3, 13, 10, 2, 5, 1, 15, 14, 11, 6, 0]
      [23, 22, 21, 20, 16, 19, 18, 17] s1 :=
    (Base.addCons 10 c10 (Base.addCons 11 c11 b0)).restrict (by decide) (fun _ h => h)
  have t1 : Tun0 s1.Q :=
    Tun0_set _ _ _ (by decide) (by decide) (by decide) (by decide) ht
  have c1 : CondsIn qconds s1.Q 17 23 := CondsIn_set_low qconds s.Q (9 + 3) _ 17 23 (by decide) hc
  have a1 : AgreeOff Q9M9MASK (s1.q 9) q9base := by
    show AgreeOff _ (s1.Q.get 12) _
    rw [e12]
    exact agree_or_and _ _ _
  have p1 : Parts0 p8 p9 p12 s1 :=
    Parts0_frame (Words.get_set_ne _ _ (by decide)) (Words.get_set_ne _ _ (by decide))
      (Words.get_set_ne _ _ (by decide)) (Words.get_set_ne _ _ (by decide))
      (Words.get_set_ne _ _ (by decide)) (Words.get_set_ne _ _ (by decide))
      (Words.get_set_ne _ _ (by decide)) (Words.get_set_ne _ _ (by decide)) hp
  have c8 : Cons s2.Q s2.block 8 := by
    unfold Cons
    show (s1.block.set 8 _).get 8 = MD5UNSTEP s1.Q 8 _ _
    rw [Words.get_set_eq _ _ (by decide), p1.1, sub32_add3,
      show md5K.getD 8 0 = 0x698098d8 from rfl, show md5S.getD 8 0 = 7 from rfl]
    rfl
  have b2 : Base iv [8, 7, 4, 3, 13, 10, 2, 5, 1, 15, 14, 11, 6, 0]
      [23, 22, 21, 20, 16, 19, 18, 17] s2 :=
    Base.addCons 8 c8 (Base_setB b1 8 _ rfl rfl (by decide) (by decide))
  have i2 : Inv9 iv p8 p9 p12 q9base s2 :=
    ⟨b2.restrict (by decide) (fun _ h => h), t1, c1, a1, hq, p1⟩
  refine Ctl.SatA_assert (bne_false_of_eq c8) ?_
  refine Ctl.SatA_ite (fun _ => i2) (fun _ => ?_)
  have c9 : Cons s3.Q s3.block 9 := by
    unfold Cons
    show (s2.block.set 9 _).get 9 = MD5UNSTEP s1.Q 9 _ _
    rw [Words.get_set_eq _ _ (by decide), p1.2.1, sub32_add2,
      show md5K.getD 9 0 = 0x8b44f7af from rfl, show md5S.getD 9 0 = 12 from rfl]
    rfl
  have b3 : Base iv [9, 8, 7, 4, 3, 13, 10, 2, 5, 1, 15, 14, 11, 6, 0]
      [23, 22, 21, 20, 16, 19, 18, 17] s3 :=
    Base.addCons 9 c9 (Base_setB b2 9 _ rfl rfl (by decide) (by decide))
  have i3 : Inv9 iv p8 p9 p12 q9base s3 :=
    ⟨b3.restrict (by decide) (fun _ h => h), t1, c1, a1, hq, p1⟩
  refine Ctl.SatA_assert (bne_false_of_eq c9) ?_
  refine Ctl.SatA_ite (fun _ => i3) (fun _ => ?_)
  refine Ctl.SatA_assert (bne_false_of_eq (b3.cons 10 (by decide))) ?_
  refine Ctl.SatA_assert (bne_false_of_eq (b3.cons 11 (by decide))) ?_
  have c12 : Cons s4.Q s4.block 12 := by
    unfold Cons
    show (s3.block.set 12 _).get 12 = MD5UNSTEP s1.Q 12 _ _
    rw [Words.get_set_eq _ _ (by decide), p1.2.2,
      show md5K.getD 12 0 = 0x6b901122 from rfl, show md5S.getD 12 0 = 7 from rfl]
    rfl
  have b4 : Base iv [12, 9, 8, 7, 4, 3, 13, 10, 2, 5, 1, 15, 14, 11, 6, 0]
      [23, 22, 21, 20, 16, 19, 18, 17] s4 :=
    Base.addCons 12 c12 (Base_setB b3 12 _ rfl rfl (by decide) (by decide))
  have i4 : Inv9 iv p8 p9 p12 q9base s4 :=
    ⟨b4.restrict (by decide) (fun _ h => h), t1, c1, a1, hq, p1⟩
  refine Ctl.SatA_assert (bne_false_of_eq c12) ?_
  refine Ctl.SatA_ite (fun _ => i4) (fun _ => ?_)
  split
  · exact i4
  · rename_i a b c d heq
    exact finish0_full asserts Compress iv _ s4 a b c d i4 b4 heq
theorem Q_BAD_of_conds {m : Nat} (Q : Words m) (qc : List qcond) (lo hi n : Nat)
    (h : CondsIn qc Q lo hi) (h1 : lo ≤ n) (h2 : n ≤ hi) : Q_BAD Q n qc = false :=
  (Q_BAD_false_iff Q n qc).2 (h n h1 h2)

theorem q4body0_full (asserts : Bool) (Compress : Words 4 → Words 16 → Words 4)
    (iv : Words 4) (badchars : Option (List Nat)) (p8 p9 p12 q9base i : Nat) (s : St 28)
    (hs : Inv4 iv p8 p9 p12 q9base s) :
    (q4body0 asserts Compress iv badchars p8 p9 p12 q9base i s).SatA (Differs Compress iv)
      (Inv4 iv p8 p9 p12 q9base) (Post0 iv) := by
  obtain ⟨hb, ht, hc, ha, hq, hp⟩ := hs
  unfold q4body0
  lift_lets
  intro s1 s2 s3 s4 s5
  have hold : s.Q.get 7 < 4294967296 := hb.bnd 7 (by decide)
  have e7 : s1.Q.get 7 = (s.Q.get 7 &&& not32 0x38000004) |||
      (((i <<< 2) ||| (i <<< 26)) &&& 0x38000004) := Words.get_set_eq _ _ (by decide)
  have hag : AgreeOff 0x38000004 (s1.Q.get 7) (s.Q.get 7) := by
    rw [e7]
    exact agree_masked _ _ _ hold
  have b0 : Base iv [13, 10, 2, 1, 15, 14, 11, 0] [22, 21, 20, 16, 19, 18, 17] s1 :=
    Base_setQ (hb.restrict (by decide) (fun _ h => h)) 7 _ rfl rfl (by decide)
      (masked_lt _ _ _ hold (by decide)) (by decide) (by decide)
  have c5 : Cons s1.Q s1.block 5 :=
    Cons.tunnel_y 0x38000004 rfl (Words.get_set_ne _ _ (by decide))
      (Words.get_set_ne _ _ (by decide)) hag ht.1 (Words.get_set_ne _ _ (by decide))
      (Words.get_set_ne _ _ (by decide)) (hb.cons 5 (by decide))
  have c6 : Cons s1.Q s1.block 6 :=
    Cons.tunnel_z 0x38000004 rfl (Words.get_set_ne _ _ (by decide))
      (Words.get_set_ne _ _ (by decide)) (Words.get_set_ne _ _ (by decide)) hag ht.2.1
      (Words.get_set_ne _ _ (by decide)) (hb.cons 6 (by decide))
  have b1 : Base iv [13, 10, 2, 5, 1, 15, 14, 11, 6, 0] [22, 21, 20, 16, 19, 18, 17] s1 :=
    (Base.addCons 5 c5 (Base.addCons 6 c6 b0)).restrict (by decide) (fun _ h => h)
  have t1 : Tun0 s1.Q :=
    Tun0_set _ _ _ (by decide) (by decide) (by decide) (by decide) ht
  have c1 : CondsIn qconds s1.Q 17 23 := CondsIn_set_low qconds s.Q (4 + 3) _ 17 23 (by decide) hc
  have e12 : s1.Q.get 12 = s.Q.get 12 := Words.get_set_ne _ _ (by decide)
  have a1 : AgreeOff Q9M9MASK (s1.q 9) q9base := by
    show AgreeOff _ (s1.Q.get 12) _
    rw [e12]
    exact ha
  have p1 : Parts0 p8 p9 p12 s1 :=
    Parts0_frame (Words.get_set_ne _ _ (by decide)) (Words.get_set_ne _ _ (by decide))
      (Words.get_set_ne _ _ (by decide)) (Words.get_set_ne _ _ (by decide))
      (Words.get_set_ne _ _ (by decide)) (Words.get_set_ne _ _ (by decide))
      (Words.get_set_ne _ _ (by decide)) (Words.get_set_ne _ _ (by decide)) hp
  have b2 : Base iv [3, 13, 10, 2, 5, 1, 15, 14, 11, 6, 0] [22, 21, 20, 16, 19, 18, 17] s2 :=
    Base.writeB b1 3 _ _ rfl rfl (by decide) rfl rfl (by decide) (by decide)
  have i2 : Inv4 iv p8 p9 p12 q9base s2 :=
    ⟨b2.restrict (by decide) (fun _ h => h), t1, c1, a1, hq, p1⟩
  refine Ctl.SatA_ite (fun _ => i2) (fun _ => ?_)
  have b3 : Base iv [4, 3, 13, 10, 2, 5, 1, 15, 14, 11, 6, 0] [22, 21, 20, 16, 19, 18, 17] s3 :=
    Base.writeB b2 4 _ _ rfl rfl (by decide) rfl rfl (by decide) (by decide)
  have i3 : Inv4 iv p8 p9 p12 q9base s3 :=
    ⟨b3.restrict (by decide) (fun _ h => h), t1, c1, a1, hq, p1⟩
  refine Ctl.SatA_ite (fun _ => i3) (fun _ => ?_)
  refine Ctl.SatA_assert (bne_false_of_eq (b3.cons 5 (by decide))) ?_
  refine Ctl.SatA_assert (bne_false_of_eq (b3.cons 6 (by decide))) ?_
  have b4 : Base iv [7, 4, 3, 13, 10, 2, 5, 1, 15, 14, 11, 6, 0]
      [22, 21, 20, 16, 19, 18, 17] s4 :=
    Base.writeB b3 7 _ _ rfl rfl (by decide) rfl rfl (by decide) (by decide)
  have i4 : Inv4 iv p8 p9 p12 q9base s4 :=
    ⟨b4.restrict (by decide) (fun _ h => h), t1, c1, a1, hq, p1⟩
  refine Ctl.SatA_ite (fun _ => i4) (fun _ => ?_)
  have b5 : Base iv [7, 4, 3, 13, 10, 2, 5, 1, 15, 14, 11, 6, 0]
      [23, 22, 21, 20, 16, 19, 18, 17] s5 :=
    Base.stepQ b4 23 4 0xe7d3fbc8 20 F2 rfl rfl (by decide) rfl rfl rfl rfl (by decide)
      (by decide)
  have t5 : Tun0 s5.Q :=
    Tun0_set _ _ _ (by decide) (by decide) (by decide) (by decide) t1
  have c5c : CondsIn qconds s5.Q 17 23 :=
    CondsIn_set_high qconds s4.Q (24 + 3) _ 17 23 (by decide) c1
  have f12 : s5.Q.get 12 = s1.Q.get 12 := Words.get_set_ne _ _ (by decide)
  have a5 : AgreeOff Q9M9MASK (s5.q 9) q9base := by
    show AgreeOff _ (s5.Q.get 12) _
    rw [f12, e12]
    exact ha
  have p5 : Parts0 p8 p9 p12 s5 :=
    @Parts0_frame _ _ _ s4 s5 (Words.get_set_ne _ _ (by decide)) (Words.get_set_ne _ _ (by decide))
      (Words.get_set_ne _ _ (by decide)) (Words.get_set_ne _ _ (by decide))
      (Words.get_set_ne _ _ (by decide)) (Words.get_set_ne _ _ (by decide))
      (Words.get_set_ne _ _ (by decide)) (Words.get_set_ne _ _ (by decide)) p1
  have i5 : Inv9 iv p8 p9 p12 q9base s5 := ⟨b5, t5, c5c, a5, hq, p5⟩
  have i5a : Inv4 iv p8 p9 p12 q9base s5 :=
    ⟨b5.restrict (by decide) (by decide), t5, c5c, a5, hq, p5⟩
  refine Ctl.SatA_ite (fun _ => i5a) (fun c24 => ?_)
  have c24a : s5.Q.get (24 + 3) &&& 0x80000000 ≠ 0 := by
    simpa [St.q] using c24
  have k24 : CondsIn qconds s5.Q 17 24 :=
    CondsIn_succ qconds s5.Q 17 23 c5c (CondHolds_msb_set qconds s5.Q 24 rfl c24a)
  have hbad : (Q_BAD s5.Q 17 qconds || Q_BAD s5.Q 18 qconds || Q_BAD s5.Q 19 qconds ||
      Q_BAD s5.Q 20 qconds || Q_BAD s5.Q 21 qconds || Q_BAD s5.Q 22 qconds ||
      Q_BAD s5.Q 23 qconds || Q_BAD s5.Q 24 qconds) = false := by
    rw [Q_BAD_of_conds s5.Q qconds 17 24 17 k24 (by decide) (by decide),
      Q_BAD_of_conds s5.Q qconds 17 24 18 k24 (by decide) (by decide),
      Q_BAD_of_conds s5.Q qconds 17 24 19 k24 (by decide) (by decide),
      Q_BAD_of_conds s5.Q qconds 17 24 20 k24 (by decide) (by decide),
      Q_BAD_of_conds s5.Q qconds 17 24 21 k24 (by decide) (by decide),
      Q_BAD_of_conds s5.Q qconds 17 24 22 k24 (by decide) (by decide),
      Q_BAD_of_conds s5.Q qconds 17 24 23 k24 (by decide) (by decide),
      Q_BAD_of_conds s5.Q qconds 17 24 24 k24 (by decide) (by decide)]
    rfl
  refine Ctl.SatA_assert hbad ?_
  exact (forLoop_satA (Differs Compress iv)
    (q9body0 asserts Compress iv badchars p8 p9 p12 q9base) (Inv9 iv p8 p9 p12 q9base)
    (Post0 iv)
    (fun j t ht => q9body0_full asserts Compress iv badchars p8 p9 p12 q9base j t ht)
    65536 0 s5 i5).imp
    (fun t ht => ⟨ht.1.restrict (by decide) (by decide), ht.2⟩) (fun _ h => h)
theorem q10body0_full (asserts : Bool) (Compress : Words 4 → Words 16 → Words 4)
    (iv : Words 4) (badchars : Option (List Nat)) (i : Nat) (s : St 28) (hs : Inv10 iv s) :
    (q10body0 asserts Compress iv badchars i s).SatA (Differs Compress iv) (Inv10 iv)
      (Post0 iv) := by
  obtain ⟨hb, ht, hc⟩ := hs
  unfold q10body0
  lift_lets
  intro s1 s2 s3 s4 s5 s6 t1 t2 t3 p8 p9 p12 q9base
  have h12 : s.Q.get 12 < 4294967296 := hb.bnd 12 (by decide)
  have e12 : s1.Q.get 12 = (s.Q.get 12 &&& not32 0x00002000) |||
      ((i <<< 13) &&& 0x00002000) := Words.get_set_eq _ _ (by decide)
  have ag1 : AgreeOff 0x00002000 (s1.Q.get 12) (s.Q.get 12) := by
    rw [e12]
    exact agree_masked _ _ _ h12
  have b0 : Base iv [2, 5, 1, 15, 14, 6, 0] [20, 16, 19, 18, 17] s1 :=
    Base_setQ (hb.restrict (by decide) (fun _ h => h)) 12 _ rfl rfl (by decide)
      (masked_lt _ _ _ h12 (by decide)) (by decide) (by decide)
  have c11 : Cons s1.Q s1.block 11 :=
    Cons.tunnel_z 0x00002000 rfl (Words.get_set_ne _ _ (by decide))
      (Words.get_set_ne _ _ (by decide)) (Words.get_set_ne _ _ (by decide)) ag1 ht.2.2.2.2.1
      (Words.get_set_ne _ _ (by decide)) (hb.cons 11 (by decide))
  have b1 : Base iv [2, 5, 1, 15, 14, 11, 6, 0] [20, 16, 19, 18, 17] s1 :=
    (Base.addCons 11 c11 b0).restrict (by decide) (fun _ h => h)
  have tn1 : Tun0 s1.Q :=
    Tun0_set _ _ _ (by decide) (by decide) (by decide) (by decide) ht
  have h13 : s1.Q.get 13 < 4294967296 := b1.bnd 13 (by decide)
  have e13 : s2.Q.get 13 = (s1.Q.get 13 &&& not32 0x00000060) |||
      ((i <<< 4) &&& 0x00000060) := Words.get_set_eq _ _ (by decide)
  have ag2 : AgreeOff 0x00000060 (s2.Q.get 13) (s1.Q.get 13) := by
    rw [e13]
    exact agree_masked _ _ _ h13
  have b1a : Base iv [2, 5, 1, 15, 14, 6, 0] [20, 16, 19, 18, 17] s2 :=
    Base_setQ (b1.restrict (by decide) (fun _ h => h)) 13 _ rfl rfl (by decide)
      (masked_lt _ _ _ h13 (by decide)) (by decide) (by decide)
  have c11b : Cons s2.Q s2.block 11 :=
    Cons.tunnel_y 0x00000060 rfl (Words.get_set_ne _ _ (by decide))
      (Words.get_set_ne _ _ (by decide)) ag2 tn1.2.2.2.2.2 (Words.get_set_ne _ _ (by decide))
      (Words.get_set_ne _ _ (by decide)) (b1.cons 11 (by decide))
  have b2 : Base iv [2, 5, 1, 15, 14, 11, 6, 0] [20, 16, 19, 18, 17] s2 :=
    (Base.addCons 11 c11b b1a).restrict (by decide) (fun _ h => h)
  have g8 : s2.Q.get 8 = s1.Q.get 8 := Words.get_set_ne _ _ (by decide)
  have g9 : s2.Q.get 9 = s1.Q.get 9 := Words.get_set_ne _ _ (by decide)
  have g14 : s2.Q.get 14 = s1.Q.get 14 := Words.get_set_ne _ _ (by decide)
  have tn2 : Tun0 s2.Q := by
    unfold Tun0 at tn1 ⊢
    rw [g8, g9, g14, e13, masked_write_and _ _ _ _ (by decide) (by decide)]
    exact tn1
  have cc2 : CondsIn qconds s2.Q 17 21 :=
    CondsIn_set_low qconds s1.Q (10 + 3) _ 17 21 (by decide)
      (CondsIn_set_low qconds s.Q (9 + 3) _ 17 21 (by decide) hc)
  have b3 : Base iv [10, 2, 5, 1, 15, 14, 11, 6, 0] [20, 16, 19, 18, 17] s3 :=
    Base.writeB b2 10 _ _ rfl rfl (by decide) rfl rfl (by decide) (by decide)
  have i3 : Inv10 iv s3 := ⟨b3.restrict (by decide) (fun _ h => h), tn2, cc2⟩
  refine Ctl.SatA_ite (fun _ => i3) (fun _ => ?_)
  refine Ctl.SatA_assert (bne_false_of_eq (b3.cons 11 (by decide))) ?_
  have b4 : Base iv [13, 10, 2, 5, 1, 15, 14, 11, 6, 0] [20, 16, 19, 18, 17] s4 :=
    Base.writeB b3 13 _ _ rfl rfl (by decide) rfl rfl (by decide) (by decide)
  have i4 : Inv10 iv s4 := ⟨b4.restrict (by decide) (fun _ h => h), tn2, cc2⟩
  refine Ctl.SatA_ite (fun _ => i4) (fun _ => ?_)
  have b5 : Base iv [13, 10, 2, 5, 1, 15, 14, 11, 6, 0] [21, 20, 16, 19, 18, 17] s5 :=
    Base.stepQ b4 21 10 0x02441453 9 F2 rfl rfl (by decide) rfl rfl rfl rfl (by decide)
      (by decide)
  have tn5 : Tun0 s5.Q :=
    Tun0_set _ _ _ (by decide) (by decide) (by decide) (by decide) tn2
  have cc5 : CondsIn qconds s5.Q 17 21 :=
    CondsIn_set_high qconds s4.Q (22 + 3) _ 17 21 (by decide) cc2
  have i5 : Inv10 iv s5 := ⟨b5.restrict (by decide) (by decide), tn5, cc5⟩
  refine Ctl.SatA_ite (fun _ => i5) (fun c22 => ?_)
  have b6 : Base iv [13, 10, 2, 5, 1, 15, 14, 11, 6, 0] [22, 21, 20, 16, 19, 18, 17] s6 :=
    Base.stepQ b5 22 15 0xd8a1e681 14 F2 rfl rfl (by decide) rfl rfl rfl rfl (by decide)
      (by decide)
  have tn6 : Tun0 s6.Q :=
    Tun0_set _ _ _ (by decide) (by decide) (by decide) (by decide) tn5
  have cc6 : CondsIn qconds s6.Q 17 21 :=
    CondsIn_set_high qconds s5.Q (23 + 3) _ 17 21 (by decide) cc5
  have i6 : Inv10 iv s6 := ⟨b6.restrict (by decide) (by decide), tn6, cc6⟩
  refine Ctl.SatA_ite (fun _ => i6) (fun c23 => ?_)
  refine Ctl.SatA_ite (fun _ => i6) (fun _ => ?_)
  have e23 : s6.q 23 = t3 :=
    (b6.fwd 22 (by decide)).trans (manual_step23 _ _ _ _ _ _).symm
  refine Ctl.SatA_assert (bne_false_of_eq e23) ?_
  have c22a : s5.Q.get (22 + 3) &&& 0x80000000 ≠ 0 := by
    simpa [St.q] using c22
  have c23a : s6.Q.get (23 + 3) &&& 0x80000000 = 0 := by
    simpa [St.q] using c23
  have k22 : CondsIn qconds s5.Q 17 22 :=
    CondsIn_succ qconds s5.Q 17 21 cc5 (CondHolds_msb_set qconds s5.Q 22 rfl c22a)
  have k22a : CondsIn qconds s6.Q 17 22 :=
    CondsIn_set_high qconds s5.Q (23 + 3) _ 17 22 (by decide) k22
  have k23 : CondsIn qconds s6.Q 17 23 :=
    CondsIn_succ qconds s6.Q 17 22 k22a (CondHolds_msb_clear qconds s6.Q 23 rfl c23a)
  have h6 : s6.Q.get 12 < 4294967296 := b6.bnd 12 (by decide)
  have j6 : Inv4 iv p8 p9 p12 q9base s6 :=
    ⟨b6, tn6, k23, (agree_and_not _ _ h6).symm, and_lt_left _ _ h6, rfl, rfl, rfl⟩
  exact (forLoop_satA (Differs Compress iv)
    (q4body0 asserts Compress iv badchars p8 p9 p12 q9base) (Inv4 iv p8 p9 p12 q9base)
    (Post0 iv)
    (fun j t ht => q4body0_full asserts Compress iv badchars p8 p9 p12 q9base j t ht)
    16 0 s6 j6).imp
    (fun t ht => ⟨ht.1.restrict (by decide) (by decide), ht.2.1,
      CondsIn_mono qconds _ (by decide) ht.2.2.1⟩) (fun _ h => h)

theorem q17body0_full (A : Prop) (iv : Words 4) (badchars : Option (List Nat)) (i : Nat)
    (s : St 28) (hs : Inv17 iv s) :
    (q17body0 badchars i s).SatA A (Inv17 iv)
      (fun s => Base iv [2, 5, 1, 15, 14, 11, 6, 0] [20, 16, 19, 18, 17] s ∧ Tun0 s.Q) := by
  obtain ⟨hb, ht⟩ := hs
  unfold q17body0
  lift_lets
  intro s1 s2 s3 s4 s5 s6 s7 s8 s9
  have b1 : Base iv [15, 14, 11, 6, 0] [] s1 :=
    Base_setQ hb 20 _ rfl rfl (by decide)
      (sample_lt _ _ _ _ _ (by decide) (by decide) (by decide)) (by decide) (by decide)
  have t1 : Tun0 s1.Q := Tun0_set _ _ _ (by decide) (by decide) (by decide) (by decide) ht
  have b2 : Base iv [15, 14, 11, 6, 0] [17] s2 :=
    Base.stepQ b1 17 6 0xc040b340 9 F2 rfl rfl (by decide) rfl rfl rfl rfl (by decide)
      (by decide)
  have t2 : Tun0 s2.Q := Tun0_set _ _ _ (by decide) (by decide) (by decide) (by decide) t1
  refine Ctl.SatA_ite (fun _ => ⟨b2.restrict (fun _ h => h) (by decide), t2⟩) (fun _ => ?_)
  have b3 : Base iv [15, 14, 11, 6, 0] [18, 17] s3 :=
    Base.stepQ b2 18 11 0x265e5a51 14 F2 rfl rfl (by decide) rfl rfl rfl rfl (by decide)
      (by decide)
  have t3 : Tun0 s3.Q := Tun0_set _ _ _ (by decide) (by decide) (by decide) (by decide) t2
  refine Ctl.SatA_ite (fun _ => ⟨b3.restrict (fun _ h => h) (by decide), t3⟩) (fun _ => ?_)
  have b4 : Base iv [15, 14, 11, 6, 0] [19, 18, 17] s4 :=
    Base.stepQ b3 19 0 0xe9b6c7aa 20 F2 rfl rfl (by decide) rfl rfl rfl rfl (by decide)
      (by decide)
  have t4 : Tun0 s4.Q := Tun0_set _ _ _ (by decide) (by decide) (by decide) (by decide) t3
  refine Ctl.SatA_ite (fun _ => ⟨b4.restrict (fun _ h => h) (by decide), t4⟩) (fun _ => ?_)
  have b5a : Base iv [15, 14, 11, 6, 0] [19, 18, 17] s5 :=
    Base_setB b4 1 _ rfl rfl (by decide) (by decide)
  have f16 : Fwd s5.Q s5.block 16 :=
    Fwd16_of_unstep2 _ _ 0xf61e2562 rfl (Words.get_set_eq _ _ (by decide))
      (b5a.bnd 20 (by decide))
  have b5 : Base iv [15, 14, 11, 6, 0] [16, 19, 18, 17] s5 := Base.addFwd 16 f16 b5a
  have b6a : Base iv [15, 14, 11, 6, 0] [1, 16, 19, 18, 17] s6 :=
    Base.stepQ b5 1 1 0xe8c7b756 12 F1 rfl rfl (by decide) rfl rfl rfl rfl (by decide)
      (by decide)
  have hb1 : s6.block.get 1 < 4294967296 := by
    show (s4.block.set 1 _).get 1 < _
    rw [Words.get_set_eq _ _ (by decide)]
    exact MD5UNSTEP2_lt _ _ _ _
  have c1 : Cons s6.Q s6.block 1 :=
    Cons_of_Fwd _ _ 1 (by decide) (b6a.fwd 1 (by decide)) hb1
  have b6 : Base iv [1, 15, 14, 11, 6, 0] [1, 16, 19, 18, 17] s6 := Base.addCons 1 c1 b6a
  have t6 : Tun0 s6.Q := Tun0_set _ _ _ (by decide) (by decide) (by decide) (by decide) t4
  refine Ctl.SatA_ite (fun _ => ⟨b6.restrict (by decide) (by decide), t6⟩) (fun _ => ?_)
  have b7 : Base iv [5, 1, 15, 14, 11, 6, 0] [1, 16, 19, 18, 17] s7 :=
    Base.writeB b6 5 _ _ rfl rfl (by decide) rfl rfl (by decide) (by decide)
  have b8 : Base iv [5, 1, 15, 14, 11, 6, 0] [20, 1, 16, 19, 18, 17] s8 :=
    Base.stepQ b7 20 5 0xd62f105d 5 F2 rfl rfl (by decide) rfl rfl rfl rfl (by decide)
      (by decide)
  have t8 : Tun0 s8.Q := Tun0_set _ _ _ (by decide) (by decide) (by decide) (by decide) t6
  refine Ctl.SatA_ite (fun _ => ⟨b8.restrict (by decide) (by decide), t8⟩) (fun _ => ?_)
  refine Ctl.SatA_ite (fun _ => ⟨b8.restrict (by decide) (by decide), t8⟩) (fun _ => ?_)
  have b9 : Base iv [2, 5, 1, 15, 14, 11, 6, 0] [20, 1, 16, 19, 18, 17] s9 :=
    Base.writeB b8 2 _ _ rfl rfl (by decide) rfl rfl (by decide) (by decide)
  refine Ctl.SatA_ite (fun _ => ⟨b9.restrict (by decide) (by decide), t8⟩) (fun _ => ?_)
  exact ⟨b9.restrict (fun _ h => h) (by decide), t8⟩

theorem outerBody0_full (asserts : Bool) (Compress : Words 4 → Words 16 → Words 4)
    (iv : Words 4) (badchars : Option (List Nat)) (s : St 28) (hs : Inv0 iv s) :
    (outerBody0 asserts Compress iv badchars s).SatA (Differs Compress iv) (Inv0 iv)
      (Post0 iv) := by
  unfold outerBody0
  lift_lets
  intro s1 s2 s3 s4 s5 s6
  have hc1 : CondsIn qconds s1.Q 1 16 :=
    sampleLoop_conds qconds 1 16 (by decide)
      (fun i h1 h2 => rows_qconds_ok i h1 (by omega)) 16 1 s (by decide) (by decide)
      (fun j h1 h2 => by omega)
  have hsl := sampleLoop_base iv qconds 16 rows_qconds_lt 16 1 s (by decide) (by decide)
    ⟨hs.ivq, hs.bnd⟩
  have b1 : Base iv [] [] s1 :=
    ⟨hsl.1, hsl.2.1, fun i hi => absurd hi (List.not_mem_nil i),
      fun i hi => absurd hi (List.not_mem_nil i)⟩
  have tn : Tun0 s1.Q := Tun0_of_conds _ hc1
  have b2 : Base iv [0] [] s2 :=
    Base.writeB b1 0 _ _ rfl rfl (by decide) rfl rfl (by decide) (by decide)
  refine Ctl.SatA_ite (fun _ => b2.restrict (by decide) (fun _ h => h)) (fun _ => ?_)
  have b3 : Base iv [6, 0] [] s3 :=
    Base.writeB b2 6 _ _ rfl rfl (by decide) rfl rfl (by decide) (by decide)
  refine Ctl.SatA_ite (fun _ => b3.restrict (by decide) (fun _ h => h)) (fun _ => ?_)
  have b4 : Base iv [11, 6, 0] [] s4 :=
    Base.writeB b3 11 _ _ rfl rfl (by decide) rfl rfl (by decide) (by decide)
  refine Ctl.SatA_ite (fun _ => b4.restrict (by decide) (fun _ h => h)) (fun _ => ?_)
  have b5 : Base iv [14, 11, 6, 0] [] s5 :=
    Base.writeB b4 14 _ _ rfl rfl (by decide) rfl rfl (by decide) (by decide)
  refine Ctl.SatA_ite (fun _ => b5.restrict (by decide) (fun _ h => h)) (fun _ => ?_)
  have b6 : Base iv [15, 14, 11, 6, 0] [] s6 :=
    Base.writeB b5 15 _ _ rfl rfl (by decide) rfl rfl (by decide) (by decide)
  refine Ctl.SatA_ite (fun _ => b6.restrict (by decide) (fun _ h => h)) (fun _ => ?_)
  have hloop := forLoop_satA (Differs Compress iv) (q17body0 badchars)
    (fun t => CondsIn qconds t.Q 1 16 ∧ Inv17 iv t)
    (fun t => CondsIn qconds t.Q 1 21 ∧
      (Base iv [2, 5, 1, 15, 14, 11, 6, 0] [20, 16, 19, 18, 17] t ∧ Tun0 t.Q))
    (fun j t ht => Ctl.SatA.and_sat (q17body0_conds badchars j t ht.1)
      (q17body0_full _ iv badchars j t ht.2)) 100 0 s6 ⟨hc1, b6, tn⟩
  split
  · rename_i s7 hres
    rw [hres] at hloop
    exact hloop.2.1.restrict (by decide) (fun _ h => h)
  · rename_i s7 hres
    rw [hres] at hloop
    exact (forLoop_satA (Differs Compress iv) (q10body0 asserts Compress iv badchars)
      (Inv10 iv) (Post0 iv)
      (fun j t ht => q10body0_full asserts Compress iv badchars j t ht) 8 0 s7
      ⟨hloop.2.1, hloop.2.2, fun k h1 h2 => hloop.1 k (by omega) h2⟩).imp
      (fun t ht => ht.1.restrict (by decide) (by decide)) (fun _ h => h)
  · rename_i hres
    rw [hres] at hloop
    exact hloop

theorem MD5CollideBlock0Run_full (asserts : Bool) (Compress : Words 4 → Words 16 → Words 4)
    (iv : Words 4) (badchars : Option (List Nat)) (time : Nat) (block : Words 16) (fuel : Nat) :
    (MD5CollideBlock0Run asserts Compress iv badchars time block fuel).SatA
      (Differs Compress iv) (Post0 iv) :=
  whileLoop_satA (Differs Compress iv) (outerBody0 asserts Compress iv badchars) (Inv0 iv)
    (Post0 iv) (fun s hs => outerBody0_full asserts Compress iv badchars s hs) fuel _
    (Base_initQ0 iv _ block)
/-! ## Step consistency, second block -/

theorem TunOK_of_facts (qc : List qcond) (m9mask m9m10mask : Nat)
    (h : tunFacts1 qc m9mask m9m10mask = true) : TunOK qc m9mask m9m10mask := by
  unfold tunFacts1 at h
  simp only [Bool.and_eq_true, beq_iff_eq, List.all_eq_true, List.mem_range,
    decide_eq_true_eq] at h
  obtain ⟨⟨⟨⟨⟨⟨⟨⟨⟨⟨h1, h2⟩, h3⟩, h4⟩, h5⟩, h6⟩, h7⟩, h8⟩, h9⟩, h10⟩, h11⟩ := h
  refine ⟨h1, h2, h3, h4, h5, h6, h7, h8, h9, h10, ?_⟩
  intro i hi
  have := h11 i (by omega)
  exact ⟨this.1.1, this.1.2, this.2⟩

theorem TunOK_path (p : Nat) (hp : p < 4) :
    TunOK (qconds2.getD p []) (q9m9masks.getD p 0) (q9q10masks.getD p 0) := by
  interval_cases p
  · exact TunOK_of_facts _ _ _ (by decide)
  · exact TunOK_of_facts _ _ _ (by decide)
  · exact TunOK_of_facts _ _ _ (by decide)
  · exact TunOK_of_facts _ _ _ (by decide)

theorem sampleLoop_shape {m : Nat} (qc : List qcond) (lo top : Nat) (htop : top + 3 < m) :
    ∀ n i (s : St m), lo ≤ i → i + n = top + 1 → (∀ j, lo ≤ j → j < i → Shape qc s.Q j) →
      ∀ j, lo ≤ j → j ≤ top → Shape qc (sampleLoop qc n i s).Q j := by
  intro n
  induction n with
  | zero =>
    intro i s _ hin h j hj1 hj2
    exact h j hj1 (by omega)
  | succ n ih =>
    intro i s hi hin h
    unfold sampleLoop
    apply ih (i + 1) _ (by omega) (by omega)
    intro j hj1 hj2
    by_cases hji : j = i
    · rw [hji]
      refine ⟨(getrand32 s.rs).1, ?_⟩
      show (s.Q.set (i + 3) _).get (i + 3) = ((_ &&& _) ||| ((s.Q.set (i + 3) _).get (i + 2) &&& _))
        ^^^ _
      rw [Words.get_set_eq _ _ (by omega), Words.get_set_ne _ _ (by omega)]
    · obtain ⟨r, hr⟩ := h j hj1 (by omega)
      refine ⟨r, ?_⟩
      show (s.Q.set (i + 3) _).get (j + 3) = ((_ &&& _) ||| ((s.Q.set (i + 3) _).get (j + 2) &&& _))
        ^^^ _
      rw [Words.get_set_ne _ _ (by omega), Words.get_set_ne _ _ (by omega)]
      exact hr

theorem shape_clear (r q m p i T : Nat) (h : (m ||| p ||| i) &&& T = 0) :
    (((r &&& m) ||| (q &&& p)) ^^^ i) &&& T = 0 := by
  apply Nat.eq_of_testBit_eq
  intro k
  have e1 := congrArg (fun z => Nat.testBit z k) h
  simp only [Nat.testBit_and, Nat.testBit_or, Nat.testBit_xor, Nat.zero_testBit] at e1 ⊢
  revert e1
  cases r.testBit k <;> cases q.testBit k <;> cases m.testBit k <;> cases p.testBit k <;>
    cases i.testBit k <;> cases T.testBit k <;> simp

theorem shape_fix (r q m p i T : Nat) (h : (m ||| p) &&& T = 0) :
    (((r &&& m) ||| (q &&& p)) ^^^ i) &&& T = i &&& T := by
  apply Nat.eq_of_testBit_eq
  intro k
  have e1 := congrArg (fun z => Nat.testBit z k) h
  simp only [Nat.testBit_and, Nat.testBit_or, Nat.testBit_xor, Nat.zero_testBit] at e1 ⊢
  revert e1
  cases r.testBit k <;> cases q.testBit k <;> cases m.testBit k <;> cases p.testBit k <;>
    cases i.testBit k <;> cases T.testBit k <;> simp

theorem shape_next (r q m p i i0 T : Nat) (hm : m &&& T = 0) (hq : q &&& T = i0 &&& T)
    (hx : ((i0 &&& p) ^^^ i) &&& T = T) : (((r &&& m) ||| (q &&& p)) ^^^ i) &&& T = T := by
  apply Nat.eq_of_testBit_eq
  intro k
  have e1 := congrArg (fun z => Nat.testBit z k) hm
  have e2 := congrArg (fun z => Nat.testBit z k) hq
  have e3 := congrArg (fun z => Nat.testBit z k) hx
  simp only [Nat.testBit_and, Nat.testBit_or, Nat.testBit_xor, Nat.zero_testBit] at e1 e2 e3 ⊢
  revert e1 e2 e3
  cases r.testBit k <;> cases q.testBit k <;> cases m.testBit k <;> cases p.testBit k <;>
    cases i.testBit k <;> cases T.testBit k <;> cases i0.testBit k <;> simp

theorem sub_or_left (a b : Nat) : a &&& (a ||| b) = a := by
  apply Nat.eq_of_testBit_eq
  intro k
  simp only [Nat.testBit_and, Nat.testBit_or]
  cases a.testBit k <;> cases b.testBit k <;> rfl

theorem sub_or_right (a b : Nat) : b &&& (a ||| b) = b := by
  apply Nat.eq_of_testBit_eq
  intro k
  simp only [Nat.testBit_and, Nat.testBit_or]
  cases a.testBit k <;> cases b.testBit k <;> rfl

theorem AgreeOff.and_eq {T x y c : Nat} (h : AgreeOff T x y) (hc : T &&& c = 0) :
    x &&& c = y &&& c := by
  apply Nat.eq_of_testBit_eq
  intro k
  have e1 := congrArg (fun z => Nat.testBit z k) hc
  simp only [Nat.testBit_and, Nat.zero_testBit] at e1 ⊢
  cases hT : T.testBit k
  · rw [h k hT]
  · rw [hT] at e1
    simp only [Bool.true_and] at e1
    rw [e1, Bool.and_false, Bool.and_false]

theorem AgreeOff.refl (T x : Nat) : AgreeOff T x x := fun _ _ => rfl

theorem Tun1_Clean1_of_shape (qc : List qcond) (m9mask m9m10mask : Nat)
    (hok : TunOK qc m9mask m9m10mask) (Q : Words 25) (h9 : Shape qc Q 9) (h10 : Shape qc Q 10)
    (h11 : Shape qc Q 11) : Tun1 m9mask m9m10mask Q ∧ Clean1 m9mask m9m10mask Q := by
  obtain ⟨r9, e9⟩ := h9
  obtain ⟨r10, e10⟩ := h10
  obtain ⟨r11, e11⟩ := h11
  have q9 : Q.get 12 &&& tun9 m9mask m9m10mask = 0 := by
    rw [e9]
    exact shape_clear _ _ _ _ _ _ hok.f9
  have q10a : Q.get 13 &&& tun10 m9m10mask = 0 := by
    rw [e10]
    exact shape_clear _ _ _ _ _ _ hok.f10
  have q10b : Q.get 13 &&& tun9 m9mask m9m10mask
      = (qrow qc 10).inv &&& tun9 m9mask m9m10mask := by
    rw [e10]
    exact shape_fix _ _ _ _ _ _ hok.g10
  have q10c : Q.get 13 &&& m9mask = 0 := by
    rw [e10, shape_fix _ _ _ _ _ _ (and_sub_zero _ _ _ hok.g10 (sub_or_left _ _))]
    exact hok.i10
  have q11a : Q.get 14 &&& tun9 m9mask m9m10mask = tun9 m9mask m9m10mask := by
    rw [e11]
    exact shape_next _ _ _ _ _ _ _ hok.m11 q10b hok.x11
  have q11b : Q.get 14 &&& tun10 m9m10mask = 0 := by
    rw [e11]
    exact shape_clear _ _ _ _ _ _ hok.f11
  refine ⟨⟨q10c, q11a, q11b⟩, and_sub_zero _ _ _ q9 (sub_or_left _ _), ?_, ?_⟩
  · rw [Nat.land_assoc]
    exact and_sub_zero _ _ _ q9 (sub_or_right _ _)
  · rw [Nat.land_assoc]
    exact q10a
theorem Tun1_set {m9mask m9m10mask : Nat} (Q : Words 25) (n v : Nat) (h13 : n ≠ 13)
    (h14 : n ≠ 14) (h : Tun1 m9mask m9m10mask Q) : Tun1 m9mask m9m10mask (Q.set n v) := by
  unfold Tun1 at h ⊢
  rw [Words.get_set_ne _ _ h13, Words.get_set_ne _ _ h14]
  exact h

theorem Clean1_set {m9mask m9m10mask : Nat} (Q : Words 25) (n v : Nat) (h12 : n ≠ 12)
    (h13 : n ≠ 13) (h : Clean1 m9mask m9m10mask Q) : Clean1 m9mask m9m10mask (Q.set n v) := by
  unfold Clean1 at h ⊢
  rw [Words.get_set_ne _ _ h12, Words.get_set_ne _ _ h13]
  exact h

theorem q1body1_full (A : Prop) (iv : Words 4) (badchars : Option (List Nat)) (qc : List qcond)
    (m9mask m9m10mask : Nat) (hok : TunOK qc m9mask m9m10mask) (i : Nat) (s : St 25)
    (hs : InvS1 iv m9mask m9m10mask s) :
    (q1body1 badchars qc i s).SatA A (InvS1 iv m9mask m9m10mask)
      (PostS1 iv m9mask m9m10mask) := by
  obtain ⟨hb, ht, hc⟩ := hs
  unfold q1body1
  lift_lets
  intro s1 s2 s3 s4 s5 s6 s7 s8 s9 s10 s11
  have r1 := hok.rows 1 (by decide)
  have b1 : Base iv [15, 14, 11, 7, 6, 5] [] s1 :=
    Base_setQ hb 4 _ rfl rfl (by decide) (sample_lt _ _ _ _ _ r1.1 r1.2.1 r1.2.2) (by decide)
      (by decide)
  have t1 : Tun1 m9mask m9m10mask s1.Q := Tun1_set _ _ _ (by decide) (by decide) ht
  have c1 : Clean1 m9mask m9m10mask s1.Q := Clean1_set _ _ _ (by decide) (by decide) hc
  have b2 : Base iv [0, 15, 14, 11, 7, 6, 5] [] s2 :=
    Base.writeB b1 0 _ _ rfl rfl (by decide) rfl rfl (by decide) (by decide)
  refine Ctl.SatA_ite (fun _ => ⟨b2.restrict (by decide) (fun _ h => h), t1, c1⟩) (fun _ => ?_)
  have b3 : Base iv [1, 0, 15, 14, 11, 7, 6, 5] [] s3 :=
    Base.writeB b2 1 _ _ rfl rfl (by decide) rfl rfl (by decide) (by decide)
  refine Ctl.SatA_ite (fun _ => ⟨b3.restrict (by decide) (fun _ h => h), t1, c1⟩) (fun _ => ?_)
  have b4 : Base iv [3, 1, 0, 15, 14, 11, 7, 6, 5] [] s4 :=
    Base.writeB b3 3 _ _ rfl rfl (by decide) rfl rfl (by decide) (by decide)
  refine Ctl.SatA_ite (fun _ => ⟨b4.restrict (by decide) (fun _ h => h), t1, c1⟩) (fun _ => ?_)
  have b5 : Base iv [4, 3, 1, 0, 15, 14, 11, 7, 6, 5] [] s5 :=
    Base.writeB b4 4 _ _ rfl rfl (by decide) rfl rfl (by decide) (by decide)
  refine Ctl.SatA_ite (fun _ => ⟨b5.restrict (by decide) (fun _ h => h), t1, c1⟩) (fun _ => ?_)
  have b6 : Base iv [4, 3, 1, 0, 15, 14, 11, 7, 6, 5] [16] s6 :=
    Base.stepQ b5 16 1 0xf61e2562 5 F2 rfl rfl (by decide) rfl rfl rfl rfl (by decide)
      (by decide)
  have t6 : Tun1 m9mask m9m10mask s6.Q := Tun1_set _ _ _ (by decide) (by decide) t1
  have c6 : Clean1 m9mask m9m10mask s6.Q := Clean1_set _ _ _ (by decide) (by decide) c1
  refine Ctl.SatA_ite (fun _ => ⟨b6.restrict (by decide) (by decide), t6, c6⟩) (fun _ => ?_)
  have b7 : Base iv [4, 3, 1, 0, 15, 14, 11, 7, 6, 5] [17, 16] s7 :=
    Base.stepQ b6 17 6 0xc040b340 9 F2 rfl rfl (by decide) rfl rfl rfl rfl (by decide)
      (by decide)
  have t7 : Tun1 m9mask m9m10mask s7.Q := Tun1_set _ _ _ (by decide) (by decide) t6
  have c7 : Clean1 m9mask m9m10mask s7.Q := Clean1_set _ _ _ (by decide) (by decide) c6
  refine Ctl.SatA_ite (fun _ => ⟨b7.restrict (by decide) (by decide), t7, c7⟩) (fun _ => ?_)
  have b8 : Base iv [4, 3, 1, 0, 15, 14, 11, 7, 6, 5] [18, 17, 16] s8 :=
    Base.stepQ b7 18 11 0x265e5a51 14 F2 rfl rfl (by decide) rfl rfl rfl rfl (by decide)
      (by decide)
  have t8 : Tun1 m9mask m9m10mask s8.Q := Tun1_set _ _ _ (by decide) (by decide) t7
  have c8 : Clean1 m9mask m9m10mask s8.Q := Clean1_set _ _ _ (by decide) (by decide) c7
  refine Ctl.SatA_ite (fun _ => ⟨b8.restrict (by decide) (by decide), t8, c8⟩) (fun _ => ?_)
  have b9 : Base iv [4, 3, 1, 0, 15, 14, 11, 7, 6, 5] [19, 18, 17, 16] s9 :=
    Base.stepQ b8 19 0 0xe9b6c7aa 20 F2 rfl rfl (by decide) rfl rfl rfl rfl (by decide)
      (by decide)
  have t9 : Tun1 m9mask m9m10mask s9.Q := Tun1_set _ _ _ (by decide) (by decide) t8
  have c9 : Clean1 m9mask m9m10mask s9.Q := Clean1_set _ _ _ (by decide) (by decide) c8
  refine Ctl.SatA_ite (fun _ => ⟨b9.restrict (by decide) (by decide), t9, c9⟩) (fun _ => ?_)
  have b10 : Base iv [4, 3, 1, 0, 15, 14, 11, 7, 6, 5] [20, 19, 18, 17, 16] s10 :=
    Base.stepQ b9 20 5 0xd62f105d 5 F2 rfl rfl (by decide) rfl rfl rfl rfl (by decide)
      (by decide)
  have t10 : Tun1 m9mask m9m10mask s10.Q := Tun1_set _ _ _ (by decide) (by decide) t9
  have c10 : Clean1 m9mask m9m10mask s10.Q := Clean1_set _ _ _ (by decide) (by decide) c9
  refine Ctl.SatA_ite (fun _ => ⟨b10.restrict (by decide) (by decide), t10, c10⟩) (fun _ => ?_)
  have b11 : Base iv [2, 4, 3, 1, 0, 15, 14, 11, 7, 6, 5] [20, 19, 18, 17, 16] s11 :=
    Base.writeB b10 2 _ _ rfl rfl (by decide) rfl rfl (by decide) (by decide)
  refine Ctl.SatA_ite (fun _ => ⟨b11.restrict (by decide) (by decide), t10, c10⟩) (fun _ => ?_)
  exact ⟨b11, t10, c10⟩

theorem sample1_full (A : Prop) (iv : Words 4) (badchars : Option (List Nat)) (qc : List qcond)
    (m9mask m9m10mask : Nat) (hok : TunOK qc m9mask m9m10mask) (s : St 25)
    (hs : Inv1 iv s) :
    (sample1 badchars qc s).SatA A (Inv1 iv) (PostS1 iv m9mask m9m10mask) := by
  unfold sample1
  lift_lets
  intro s1 s2 s3 s4 s5 s6 s7 s8
  have r2 := hok.rows 2 (by decide)
  have b1 : Base iv [] [] s1 :=
    Base_setQ hs 5 _ rfl rfl (by decide) (sample_lt _ _ _ _ _ r2.1 r2.2.1 r2.2.2) (by decide)
      (by decide)
  have hsl := sampleLoop_base iv qc 16 hok.rows 14 3 s1 (by decide) (by decide)
    ⟨b1.ivq, b1.bnd⟩
  have b2 : Base iv [] [] s2 :=
    ⟨hsl.1, hsl.2.1, fun i hi => absurd hi (List.not_mem_nil i),
      fun i hi => absurd hi (List.not_mem_nil i)⟩
  have hsh := sampleLoop_shape qc 3 16 (by decide) 14 3 s1 (by decide) (by decide)
    (fun j h1 h2 => by omega)
  have htc := Tun1_Clean1_of_shape qc m9mask m9m10mask hok s2.Q
    (hsh 9 (by decide) (by decide)) (hsh 10 (by decide) (by decide))
    (hsh 11 (by decide) (by decide))
  have b3 : Base iv [5] [] s3 :=
    Base.writeB b2 5 _ _ rfl rfl (by decide) rfl rfl (by decide) (by decide)
  refine Ctl.SatA_ite (fun _ => b3.restrict (by decide) (fun _ h => h)) (fun _ => ?_)
  have b4 : Base iv [6, 5] [] s4 :=
    Base.writeB b3 6 _ _ rfl rfl (by decide) rfl rfl (by decide) (by decide)
  refine Ctl.SatA_ite (fun _ => b4.restrict (by decide) (fun _ h => h)) (fun _ => ?_)
  have b5 : Base iv [7, 6, 5] [] s5 :=
    Base.writeB b4 7 _ _ rfl rfl (by decide) rfl rfl (by decide) (by decide)
  refine Ctl.SatA_ite (fun _ => b5.restrict (by decide) (fun _ h => h)) (fun _ => ?_)
  have b6 : Base iv [11, 7, 6, 5] [] s6 :=
    Base.writeB b5 11 _ _ rfl rfl (by decide) rfl rfl (by decide) (by decide)
  refine Ctl.SatA_ite (fun _ => b6.restrict (by decide) (fun _ h => h)) (fun _ => ?_)
  have b7 : Base iv [14, 11, 7, 6, 5] [] s7 :=
    Base.writeB b6 14 _ _ rfl rfl (by decide) rfl rfl (by decide) (by decide)
  refine Ctl.SatA_ite (fun _ => b7.restrict (by decide) (fun _ h => h)) (fun _ => ?_)
  have b8 : Base iv [15, 14, 11, 7, 6, 5] [] s8 :=
    Base.writeB b7 15 _ _ rfl rfl (by decide) rfl rfl (by decide) (by decide)
  refine Ctl.SatA_ite (fun _ => b8.restrict (by decide) (fun _ h => h)) (fun _ => ?_)
  exact (forLoop_satA A (q1body1 badchars qc) (InvS1 iv m9mask m9m10mask)
    (PostS1 iv m9mask m9m10mask)
    (fun j t ht => q1body1_full A iv badchars qc m9mask m9m10mask hok j t ht) 2000 0 s8
    ⟨b8, htc.1, htc.2⟩).imp (fun t ht => ht.1.restrict (by decide) (fun _ h => h)) (fun _ h => h)
theorem Regs1_frame {s s1 : St 25} {a2 b2 c2 d2 : Nat} (h : Regs1 s a2 b2 c2 d2)
    (h18 : s1.q 18 = s.q 18) (h19 : s1.q 19 = s.q 19) (h20 : s1.q 20 = s.q 20)
    (h21 : s1.q 21 = s.q 21) (h4 : s1.b 4 = s.b 4) (h10 : s1.b 10 = s.b 10)
    (h15 : s1.b 15 = s.b 15) : Regs1 s1 a2 b2 c2 d2 := by
  unfold Regs1 at h ⊢
  rw [h18, h19, h20, h21, h4, h10, h15]
  exact h

theorem sub_tun9 (b m9 m10 n : Nat) (h : b &&& m10 = b) :
    (b &&& n) &&& (m9 ||| (m10 &&& n)) = b &&& n := by
  apply Nat.eq_of_testBit_eq
  intro k
  have e1 := congrArg (fun z => Nat.testBit z k) h
  simp only [Nat.testBit_and, Nat.testBit_or] at e1 ⊢
  revert e1
  cases b.testBit k <;> cases m9.testBit k <;> cases m10.testBit k <;> cases n.testBit k <;>
    simp

theorem Base_initQ1 (iv : Words 4) (rs : Nat) (block : Words 16) :
    Base iv [] [] (⟨rs, initQ1 iv, block⟩ : St 25) := by
  refine ⟨⟨rfl, rfl, rfl, rfl⟩, ?_, ?_, ?_⟩
  · intro n hn
    obtain ⟨k, rfl⟩ := Nat.exists_eq_add_of_le hn
    have e : (initQ1 iv).get (4 + k) = (List.replicate 21 0).getD k 0 := by
      unfold initQ1 Words.get
      rw [Nat.add_comm 4 k]
      rfl
    show (initQ1 iv).get (4 + k) < 4294967296
    rw [e]
    exact getD_lt_of_all _ _ (by decide) (by decide) k
  · intro i hi
    exact absurd hi (List.not_mem_nil i)
  · intro i hi
    exact absurd hi (List.not_mem_nil i)

theorem MD5Transform_of_Post1 (iv : Words 4) (s : St 25) (a b c d a2 b2 c2 d2 : Nat)
    (hb : Base iv [12, 9, 8, 13, 10, 2, 4, 3, 1, 0, 15, 14, 11, 7, 6, 5] [20, 19, 18, 17, 16] s)
    (hr : Regs1 s a2 b2 c2 d2) (ht : tail1 s.block a2 b2 c2 d2 = some (a, b, c, d)) :
    MD5Transform iv s.block
      = ⟨[add32 (iv.get 0) a, add32 (iv.get 1) b, add32 (iv.get 2) c, add32 (iv.get 3) d],
        rfl⟩ := by
  have hfwd : ∀ j, 0 ≤ j → j < 0 + 21 → Fwd s.Q s.block j := by
    intro j _ hj
    by_cases h16 : j < 16
    · exact Fwd_of_Cons s.Q s.block j h16 (hb.cons j (mem_all16b j h16)) (hb.bnd _ (by omega))
    · apply hb.fwd j
      have h1 : 16 ≤ j := by omega
      have h2 : j < 21 := by omega
      interval_cases j <;> decide
  have e1 := md5Steps_trail s.Q s.block 43 21 0 hfwd
  have e2 := tail1_md5 _ _ _ _ _ _ ht
  have e3 : md5Steps s.block 43 21 (s.Q.get 21) (s.Q.get 24) (s.Q.get 23) (s.Q.get 22)
      = md5Steps s.block 40 24 a2 b2 c2 d2 := by
    refine md5Steps_cons s.block 42 21 _ _ _ _ 10 0x02441453 9 d2 F2 _ rfl rfl rfl rfl hr.2.1 ?_
    refine md5Steps_cons s.block 41 22 _ _ _ _ 15 0xd8a1e681 14 c2 F2 _ rfl rfl rfl rfl
      hr.2.2.1 ?_
    refine md5Steps_cons s.block 40 23 _ _ _ _ 4 0xe7d3fbc8 20 b2 F2 _ rfl rfl rfl rfl
      hr.2.2.2 ?_
    rw [hr.1]
    rfl
  apply MD5Transform_of_steps
  rw [← hb.ivq.1, ← hb.ivq.2.1, ← hb.ivq.2.2.1, ← hb.ivq.2.2.2]
  exact (e1.trans e3).trans e2

theorem finish1_full (asserts : Bool) (Compress : Words 4 → Words 16 → Words 4) (iv : Words 4)
    (Inv : St 25 → Prop) (s : St 25) (a b c d a2 b2 c2 d2 : Nat) (hI : Inv s)
    (hb : Base iv [12, 9, 8, 13, 10, 2, 4, 3, 1, 0, 15, 14, 11, 7, 6, 5] [20, 19, 18, 17, 16] s)
    (hr : Regs1 s a2 b2 c2 d2) (ht : tail1 s.block a2 b2 c2 d2 = some (a, b, c, d)) :
    (finish1 asserts Compress iv s a b c d a2 b2 c2 d2).SatA (Differs Compress iv) Inv
      (Post1 iv) := by
  have hmd := MD5Transform_of_Post1 iv s a b c d a2 b2 c2 d2 hb hr ht
  unfold finish1
  lift_lets
  intro block2 iv1 iv2
  split_ifs with h1 h2
  · refine ⟨s.block, fun heq => ?_⟩
    have g := Words.get_mk4 (add32 (iv.get 0) a) (add32 (iv.get 1) b) (add32 (iv.get 2) c)
      (add32 (iv.get 3) d) rfl
    have g0 : iv1.get 0 = add32 (iv.get 0) a := by
      show (Compress iv s.block).get 0 = _
      rw [heq, hmd]; exact g.1
    have g1 : iv1.get 1 = add32 (iv.get 1) b := by
      show (Compress iv s.block).get 1 = _
      rw [heq, hmd]; exact g.2.1
    have g2 : iv1.get 2 = add32 (iv.get 2) c := by
      show (Compress iv s.block).get 2 = _
      rw [heq, hmd]; exact g.2.2.1
    have g3 : iv1.get 3 = add32 (iv.get 3) d := by
      show (Compress iv s.block).get 3 = _
      rw [heq, hmd]; exact g.2.2.2
    rw [g0, g1, g2, g3] at h1
    simp only [beq_self_eq_true, Bool.and_self, Bool.not_true, Bool.and_false] at h1
    exact Bool.noConfusion h1
  · exact ⟨hb, hr, ht⟩
  · exact hI

theorem q9body1_full (asserts : Bool) (Compress : Words 4 → Words 16 → Words 4)
    (iv : Words 4) (badchars : Option (List Nat)) (m9mask m9m10mask : Nat)
    (q9m9bits : List Nat) (a2 b2 c2 d2 q9save q9base q10base i : Nat) (s : St 25)
    (hm9 : m9mask < 4294967296) (htbl : ∀ x, x ∈ q9m9bits → x &&& m9mask = x)
    (hs : Inv9b iv m9mask m9m10mask q9base q10base q9save a2 b2 c2 d2 s) :
    (q9body1 asserts Compress iv badchars q9m9bits a2 b2 c2 d2 q9save i s).SatA
      (Differs Compress iv) (Inv9b iv m9mask m9m10mask q9base q10base q9save a2 b2 c2 d2)
      (Post1 iv) := by
  obtain ⟨hb, ht, ha9, ha10, hq9, hq10, has, hsv, hsb, hr⟩ := hs
  unfold q9body1
  lift_lets
  intro s1 s2 s3 s4
  have hbit := getD_sub q9m9bits m9mask i htbl
  have e12 : s1.Q.get 12 = q9save ||| q9m9bits.getD i 0 := Words.get_set_eq _ _ (by decide)
  have e13 : s1.Q.get 13 = s.Q.get 13 := Words.get_set_ne _ _ (by decide)
  have ag : AgreeOff m9mask (s1.Q.get 12) (s.Q.get 12) := by
    rw [e12]
    exact (agree_or_sub _ _ _ hbit).trans has.symm
  have hv : q9save ||| q9m9bits.getD i 0 < 4294967296 :=
    or_lt32 _ _ hsv (by rw [← hbit]; exact and_lt_right _ _ hm9)
  have k0 : Base iv [13, 2, 4, 3, 1, 0, 15, 14, 7, 6, 5] [20, 19, 18, 17, 16] s1 :=
    Base_setQ (hb.restrict (by decide) (fun _ h => h)) 12 _ rfl rfl (by decide) hv (by decide)
      (by decide)
  have c10 : Cons s1.Q s1.block 10 :=
    Cons.tunnel_y m9mask rfl (Words.get_set_ne _ _ (by decide))
      (Words.get_set_ne _ _ (by decide)) ag ht.1 (Words.get_set_ne _ _ (by decide))
      (Words.get_set_ne _ _ (by decide)) (hb.cons 10 (by decide))
  have c11 : Cons s1.Q s1.block 11 :=
    Cons.tunnel_z m9mask rfl (Words.get_set_ne _ _ (by decide))
      (Words.get_set_ne _ _ (by decide)) (Words.get_set_ne _ _ (by decide)) ag
      (and_sub_full _ _ _ ht.2.1 (sub_or_left _ _))
      (Words.get_set_ne _ _ (by decide)) (hb.cons 11 (by decide))
  have k1 : Base iv [13, 10, 2, 4, 3, 1, 0, 15, 14, 11, 7, 6, 5] [20, 19, 18, 17, 16] s1 :=
    (Base.addCons 10 c10 (Base.addCons 11 c11 k0)).restrict (by decide) (fun _ h => h)
  have t1 : Tun1 m9mask m9m10mask s1.Q := Tun1_set _ _ _ (by decide) (by decide) ht
  have a9 : AgreeOff (tun9 m9mask m9m10mask) (s1.q 9) q9base := by
    show AgreeOff _ (s1.Q.get 12) _
    rw [e12]
    exact ((agree_or_sub _ _ _ hbit).widen (sub_or_left _ _)).trans hsb
  have a10 : AgreeOff (tun10 m9m10mask) (s1.q 10) q10base := by
    show AgreeOff _ (s1.Q.get 13) _
    rw [e13]
    exact ha10
  have as1 : AgreeOff m9mask (s1.q 9) q9save := by
    show AgreeOff _ (s1.Q.get 12) _
    rw [e12]
    exact agree_or_sub _ _ _ hbit
  have r1 : Regs1 s1 a2 b2 c2 d2 :=
    Regs1_frame hr (Words.get_set_ne _ _ (by decide)) (Words.get_set_ne _ _ (by decide))
      (Words.get_set_ne _ _ (by decide)) (Words.get_set_ne _ _ (by decide)) rfl rfl rfl
  have k2 : Base iv [8, 13, 10, 2, 4, 3, 1, 0, 15, 14, 11, 7, 6, 5] [20, 19, 18, 17, 16] s2 :=
    Base.writeB k1 8 _ _ rfl rfl (by decide) rfl rfl (by decide) (by decide)
  have r2 : Regs1 s2 a2 b2 c2 d2 :=
    Regs1_frame r1 rfl rfl rfl rfl (Words.get_set_ne _ _ (by decide))
      (Words.get_set_ne _ _ (by decide)) (Words.get_set_ne _ _ (by decide))
  refine Ctl.SatA_ite
    (fun _ => ⟨k2.restrict (by decide) (fun _ h => h), t1, a9, a10, hq9, hq10, as1, hsv, hsb, r2⟩)
    (fun _ => ?_)
  have k3 : Base iv [9, 8, 13, 10, 2, 4, 3, 1, 0, 15, 14, 11, 7, 6, 5]
      [20, 19, 18, 17, 16] s3 :=
    Base.writeB k2 9 _ _ rfl rfl (by decide) rfl rfl (by decide) (by decide)
  have r3 : Regs1 s3 a2 b2 c2 d2 :=
    Regs1_frame r2 rfl rfl rfl rfl (Words.get_set_ne _ _ (by decide))
      (Words.get_set_ne _ _ (by decide)) (Words.get_set_ne _ _ (by decide))
  refine Ctl.SatA_ite
    (fun _ => ⟨k3.restrict (by decide) (fun _ h => h), t1, a9, a10, hq9, hq10, as1, hsv, hsb, r3⟩)
    (fun _ => ?_)
  refine Ctl.SatA_assert (bne_false_of_eq (k3.cons 10 (by decide))) ?_
  refine Ctl.SatA_assert (bne_false_of_eq (k3.cons 11 (by decide))) ?_
  have k4 : Base iv [12, 9, 8, 13, 10, 2, 4, 3, 1, 0, 15, 14, 11, 7, 6, 5]
      [20, 19, 18, 17, 16] s4 :=
    Base.writeB k3 12 _ _ rfl rfl (by decide) rfl rfl (by decide) (by decide)
  have r4 : Regs1 s4 a2 b2 c2 d2 :=
    Regs1_frame r3 rfl rfl rfl rfl (Words.get_set_ne _ _ (by decide))
      (Words.get_set_ne _ _ (by decide)) (Words.get_set_ne _ _ (by decide))
  have i4 : Inv9b iv m9mask m9m10mask q9base q10base q9save a2 b2 c2 d2 s4 :=
    ⟨k4.restrict (by decide) (fun _ h => h), t1, a9, a10, hq9, hq10, as1, hsv, hsb, r4⟩
  refine Ctl.SatA_ite (fun _ => i4) (fun _ => ?_)
  split
  · exact i4
  · rename_i a b c d heq
    exact finish1_full asserts Compress iv _ s4 a b c d a2 b2 c2 d2 i4 k4 r4 heq

theorem q10body1_full (asserts : Bool) (Compress : Words 4 → Words 16 → Words 4)
    (iv : Words 4) (badchars : Option (List Nat)) (qc : List qcond) (m9mask m9m10mask : Nat)
    (q9m9bits q9q10bits : List Nat) (q9base q10base i : Nat) (s : St 25)
    (hok : TunOK qc m9mask m9m10mask)
    (htbl9 : ∀ x, x ∈ q9m9bits → x &&& m9mask = x)
    (htbl10 : ∀ x, x ∈ q9q10bits → x &&& m9m10mask = x)
    (hs : Inv10b iv m9mask m9m10mask q9base q10base s) :
    (q10body1 asserts Compress iv badchars qc q9m9bits q9q10bits q9base q10base i s).SatA
      (Differs Compress iv) (Inv10b iv m9mask m9m10mask q9base q10base) (Post1 iv) := by
  obtain ⟨hb, ht, ha9, ha10, hq9, hq10⟩ := hs
  unfold q10body1
  lift_lets
  intro s1 q9save s2 s3 a2 b2 c2 d2 d2a c2a c2b c2c b2a s4
  have hbit := getD_sub q9q10bits m9m10mask i htbl10
  have hb9 : (q9q10bits.getD i 0 &&& not32 Q10MASK) &&& tun9 m9mask m9m10mask
      = q9q10bits.getD i 0 &&& not32 Q10MASK := sub_tun9 _ _ _ _ hbit
  have hb10 : (q9q10bits.getD i 0 &&& Q10MASK) &&& tun10 m9m10mask
      = q9q10bits.getD i 0 &&& Q10MASK := and_and_sub _ _ _ hbit
  have e12 : s1.Q.get 12 = q9base ||| (q9q10bits.getD i 0 &&& not32 Q10MASK) :=
    Words.get_set_eq _ _ (by decide)
  have ag1 : AgreeOff (tun9 m9mask m9m10mask) (s1.Q.get 12) (s.Q.get 12) := by
    rw [e12]
    exact (agree_or_sub _ _ _ hb9).trans ha9.symm
  have hv1 : q9base ||| (q9q10bits.getD i 0 &&& not32 Q10MASK) < 4294967296 :=
    or_lt32 _ _ hq9 (and_lt_right _ _ (by decide))
  have k0 : Base iv [2, 4, 3, 1, 0, 15, 14, 7, 6, 5] [20, 19, 18, 17, 16] s1 :=
    Base_setQ (hb.restrict (by decide) (fun _ h => h)) 12 _ rfl rfl (by decide) hv1 (by decide)
      (by decide)
  have c11 : Cons s1.Q s1.block 11 :=
    Cons.tunnel_z (tun9 m9mask m9m10mask) rfl (Words.get_set_ne _ _ (by decide))
      (Words.get_set_ne _ _ (by decide)) (Words.get_set_ne _ _ (by decide)) ag1 ht.2.1
      (Words.get_set_ne _ _ (by decide)) (hb.cons 11 (by decide))
  have k1 : Base iv [2, 4, 3, 1, 0, 15, 14, 11, 7, 6, 5] [20, 19, 18, 17, 16] s1 :=
    (Base.addCons 11 c11 k0).restrict (by decide) (fun _ h => h)
  have t1 : Tun1 m9mask m9m10mask s1.Q := Tun1_set _ _ _ (by decide) (by decide) ht
  have f13 : s1.Q.get 13 = s.Q.get 13 := Words.get_set_ne _ _ (by decide)
  have e13 : s2.Q.get 13 = q10base ||| (q9q10bits.getD i 0 &&& Q10MASK) :=
    Words.get_set_eq _ _ (by decide)
  have ag2 : AgreeOff (tun10 m9m10mask) (s2.Q.get 13) (s1.Q.get 13) := by
    rw [e13, f13]
    exact (agree_or_sub _ _ _ hb10).trans ha10.symm
  have hv2 : q10base ||| (q9q10bits.getD i 0 &&& Q10MASK) < 4294967296 :=
    or_lt32 _ _ hq10 (and_lt_right _ _ (by decide))
  have k1a : Base iv [2, 4, 3, 1, 0, 15, 14, 7, 6, 5] [20, 19, 18, 17, 16] s2 :=
    Base_setQ (k1.restrict (by decide) (fun _ h => h)) 13 _ rfl rfl (by decide) hv2 (by decide)
      (by decide)
  have c11b : Cons s2.Q s2.block 11 :=
    Cons.tunnel_y (tun10 m9m10mask) rfl (Words.get_set_ne _ _ (by decide))
      (Words.get_set_ne _ _ (by decide)) ag2 t1.2.2 (Words.get_set_ne _ _ (by decide))
      (Words.get_set_ne _ _ (by decide)) (k1.cons 11 (by decide))
  have k2 : Base iv [2, 4, 3, 1, 0, 15, 14, 11, 7, 6, 5] [20, 19, 18, 17, 16] s2 :=
    (Base.addCons 11 c11b k1a).restrict (by decide) (fun _ h => h)
  have g12 : s2.Q.get 12 = s1.Q.get 12 := Words.get_set_ne _ _ (by decide)
  have g14 : s2.Q.get 14 = s1.Q.get 14 := Words.get_set_ne _ _ (by decide)
  have t2 : Tun1 m9mask m9m10mask s2.Q := by
    have hd : tun10 m9m10mask &&& m9mask = 0 := by
      rw [Nat.land_comm]
      exact hok.dis
    unfold Tun1 at t1 ⊢
    rw [g14, ag2.and_eq hd]
    exact t1
  have a9 : AgreeOff (tun9 m9mask m9m10mask) (s2.q 9) q9base := by
    show AgreeOff _ (s2.Q.get 12) _
    rw [g12, e12]
    exact agree_or_sub _ _ _ hb9
  have a10 : AgreeOff (tun10 m9m10mask) (s2.q 10) q10base := by
    show AgreeOff _ (s2.Q.get 13) _
    rw [e13]
    exact agree_or_sub _ _ _ hb10
  have k3 : Base iv [10, 2, 4, 3, 1, 0, 15, 14, 11, 7, 6, 5] [20, 19, 18, 17, 16] s3 :=
    Base.writeB k2 10 _ _ rfl rfl (by decide) rfl rfl (by decide) (by decide)
  have i3 : Inv10b iv m9mask m9m10mask q9base q10base s3 :=
    ⟨k3.restrict (by decide) (fun _ h => h), t2, a9, a10, hq9, hq10⟩
  refine Ctl.SatA_ite (fun _ => i3) (fun _ => ?_)
  refine Ctl.SatA_assert (bne_false_of_eq (k3.cons 11 (by decide))) ?_
  refine Ctl.SatA_ite (fun _ => i3) (fun _ => ?_)
  refine Ctl.SatA_ite (fun _ => i3) (fun _ => ?_)
  refine Ctl.SatA_ite (fun _ => i3) (fun _ => ?_)
  refine Ctl.SatA_ite (fun _ => i3) (fun _ => ?_)
  have k4 : Base iv [13, 10, 2, 4, 3, 1, 0, 15, 14, 11, 7, 6, 5] [20, 19, 18, 17, 16] s4 :=
    Base.writeB k3 13 _ _ rfl rfl (by decide) rfl rfl (by decide) (by decide)
  have i4 : Inv10b iv m9mask m9m10mask q9base q10base s4 :=
    ⟨k4.restrict (by decide) (fun _ h => h), t2, a9, a10, hq9, hq10⟩
  refine Ctl.SatA_ite (fun _ => i4) (fun _ => ?_)
  have r3 : Regs1 s3 a2 b2a c2c d2a := ⟨rfl, rfl, manual_step23 _ _ _ _ _ _, rfl⟩
  have r4 : Regs1 s4 a2 b2a c2c d2a :=
    Regs1_frame r3 rfl rfl rfl rfl (Words.get_set_ne _ _ (by decide))
      (Words.get_set_ne _ _ (by decide)) (Words.get_set_ne _ _ (by decide))
  have hsave : q9save = q9base ||| (q9q10bits.getD i 0 &&& not32 Q10MASK) := e12
  have j4 : Inv9b iv m9mask m9m10mask q9base q10base q9save a2 b2a c2c d2a s4 := by
    refine ⟨k4, t2, a9, a10, hq9, hq10, ?_, ?_, ?_, r4⟩
    · show AgreeOff _ (s2.Q.get 12) (s1.Q.get 12)
      rw [g12]
      exact AgreeOff.refl _ _
    · rw [hsave]
      exact hv1
    · rw [hsave]
      exact agree_or_sub _ _ _ hb9
  exact (forLoop_satA (Differs Compress iv)
    (q9body1 asserts Compress iv badchars q9m9bits a2 b2a c2c d2a q9save)
    (Inv9b iv m9mask m9m10mask q9base q10base q9save a2 b2a c2c d2a) (Post1 iv)
    (fun j t ht => q9body1_full asserts Compress iv badchars m9mask m9m10mask q9m9bits a2 b2a
      c2c d2a q9save q9base q10base j t hok.b9 htbl9 ht)
    512 0 s4 j4).imp
    (fun t ht => ⟨ht.1.restrict (by decide) (fun _ h => h), ht.2.1, ht.2.2.1, ht.2.2.2.1,
      ht.2.2.2.2.1, ht.2.2.2.2.2.1⟩) (fun _ h => h)

theorem tunnels1_full (asserts : Bool) (Compress : Words 4 → Words 16 → Words 4)
    (iv : Words 4) (badchars : Option (List Nat)) (qc : List qcond) (m9mask m9m10mask : Nat)
    (q9m9bits q9q10bits : List Nat) (num : Nat) (s : St 25)
    (hok : TunOK qc m9mask m9m10mask)
    (htbl9 : ∀ x, x ∈ q9m9bits → x &&& m9mask = x)
    (htbl10 : ∀ x, x ∈ q9q10bits → x &&& m9m10mask = x)
    (hs : PostS1 iv m9mask m9m10mask s) :
    (tunnels1 asserts Compress iv badchars qc m9mask m9m10mask q9m9bits q9q10bits num s).SatA
      (Differs Compress iv) (Inv1 iv) (Post1 iv) := by
  obtain ⟨hb, ht, hc⟩ := hs
  unfold tunnels1
  lift_lets
  intro q9base q10base
  refine Ctl.SatA_assert (bne_false_of_eq hc.1) ?_
  refine Ctl.SatA_assert (bne_false_of_eq hc.2.1) ?_
  refine Ctl.SatA_assert (bne_false_of_eq hc.2.2) ?_
  exact (forLoop_satA (Differs Compress iv)
    (q10body1 asserts Compress iv badchars qc q9m9bits q9q10bits q9base q10base)
    (Inv10b iv m9mask m9m10mask q9base q10base) (Post1 iv)
    (fun j t ht => q10body1_full asserts Compress iv badchars qc m9mask m9m10mask q9m9bits
      q9q10bits q9base q10base j t hok htbl9 htbl10 ht)
    num 0 s ⟨hb, ht, AgreeOff.refl _ _, AgreeOff.refl _ _, hb.bnd 12 (by decide),
      hb.bnd 13 (by decide)⟩).imp
    (fun t ht => ht.1.restrict (by decide) (by decide)) (fun _ h => h)

theorem outerBody1_eq_sample1 (asserts : Bool) (Compress : Words 4 → Words 16 → Words 4)
    (iv : Words 4) (badchars : Option (List Nat)) (qc : List qcond) (m9mask m9m10mask : Nat)
    (q9m9bits q9q10bits : List Nat) (num : Nat) (s : St 25) :
    outerBody1 asserts Compress iv badchars qc m9mask m9m10mask q9m9bits q9q10bits num s =
      match sample1 badchars qc s with
      | Ctl.next s1 => Ctl.next s1
      | Ctl.done s1 =>
        tunnels1 asserts Compress iv badchars qc m9mask m9m10mask q9m9bits q9q10bits num s1
      | Ctl.abort => Ctl.abort := by
  unfold outerBody1 sample1
  lift_lets
  intro s1 s2 s3 s4 s5 s6 s7 s8
  split_ifs <;> rfl

theorem outerBody1_full (asserts : Bool) (Compress : Words 4 → Words 16 → Words 4)
    (iv : Words 4) (badchars : Option (List Nat)) (qc : List qcond) (m9mask m9m10mask : Nat)
    (q9m9bits q9q10bits : List Nat) (num : Nat) (s : St 25)
    (hok : TunOK qc m9mask m9m10mask)
    (htbl9 : ∀ x, x ∈ q9m9bits → x &&& m9mask = x)
    (htbl10 : ∀ x, x ∈ q9q10bits → x &&& m9m10mask = x) (hs : Inv1 iv s) :
    (outerBody1 asserts Compress iv badchars qc m9mask m9m10mask q9m9bits q9q10bits num s).SatA
      (Differs Compress iv) (Inv1 iv) (Post1 iv) := by
  rw [outerBody1_eq_sample1]
  have h := sample1_full (Differs Compress iv) iv badchars qc m9mask m9m10mask hok s hs
  split
  · rename_i s1 hres
    rw [hres] at h
    exact h
  · rename_i s1 hres
    rw [hres] at h
    exact tunnels1_full asserts Compress iv badchars qc m9mask m9m10mask q9m9bits q9q10bits
      num s1 hok htbl9 htbl10 h
  · rename_i hres
    rw [hres] at h
    exact h

theorem MD5CollideBlock1Run_full (asserts : Bool) (Compress : Words 4 → Words 16 → Words 4)
    (iv : Words 4) (badchars : Option (List Nat)) (time : Nat) (block : Words 16) (fuel : Nat) :
    (MD5CollideBlock1Run asserts Compress iv badchars time block fuel).SatA
      (Differs Compress iv) (Post1 iv) := by
  have hp := pathOf_lt iv
  have h9 := m9loop_returns asserts (pathOf iv) hp
  have h10 := m10loop_returns asserts (pathOf iv) hp
  have htbl9 := m9loop_sub asserts _ 512 0 [] _ h9 (by simp)
  have htbl10 := m10loop_sub asserts _ 65 0 [] _ h10 (by simp)
  unfold MD5CollideBlock1Run
  rw [h9, h10]
  exact whileLoop_satA (Differs Compress iv) _ (Inv1 iv) (Post1 iv)
    (fun s hs => outerBody1_full asserts Compress iv badchars _ _ _ _ _ _ s
      (TunOK_path (pathOf iv) hp) htbl9 htbl10 hs) fuel _ (Base_initQ1 iv _ block)
/-! ## The tunnels of the second block -/

set_option maxRecDepth 1000000 in
theorem sample1_example :
    sample1 (some unclean_map) (qconds2.getD 2 []) exSample = Ctl.done exSampled := by
  decide!

theorem q1body1_keeps (badchars : Option (List Nat)) (qc : List qcond) (P : Words 25 → Prop)
    (hP : ∀ (Q : Words 25) (n v : Nat), n = 4 ∨ 20 ≤ n → P Q → P (Q.set n v)) (i : Nat)
    (s : St 25) (hs : P s.Q) :
    (q1body1 badchars qc i s).Sat (fun t => P t.Q) (fun t => P t.Q) := by
  unfold q1body1
  lift_lets
  intro s1 s2 s3 s4 s5 s6 s7 s8 s9 s10 s11
  have h1 : P s1.Q := hP s.Q (1 + 3) _ (Or.inl rfl) hs
  have h5 : P s5.Q := h1
  have h6 : P s6.Q := hP s5.Q (17 + 3) _ (Or.inr (by decide)) h5
  have h7 : P s7.Q := hP s6.Q (18 + 3) _ (Or.inr (by decide)) h6
  have h8 : P s8.Q := hP s7.Q (19 + 3) _ (Or.inr (by decide)) h7
  have h9 : P s9.Q := hP s8.Q (20 + 3) _ (Or.inr (by decide)) h8
  have h10 : P s10.Q := hP s9.Q (21 + 3) _ (Or.inr (by decide)) h9
  refine Ctl.Sat_ite (fun _ => h1) (fun _ => ?_)
  refine Ctl.Sat_ite (fun _ => h1) (fun _ => ?_)
  refine Ctl.Sat_ite (fun _ => h1) (fun _ => ?_)
  refine Ctl.Sat_ite (fun _ => h1) (fun _ => ?_)
  refine Ctl.Sat_ite (fun _ => h6) (fun _ => ?_)
  refine Ctl.Sat_ite (fun _ => h7) (fun _ => ?_)
  refine Ctl.Sat_ite (fun _ => h8) (fun _ => ?_)
  refine Ctl.Sat_ite (fun _ => h9) (fun _ => ?_)
  refine Ctl.Sat_ite (fun _ => h10) (fun _ => ?_)
  refine Ctl.Sat_ite (fun _ => h10) (fun _ => ?_)
  exact h10

theorem sample1_clean (badchars : Option (List Nat)) (qc : List qcond)
    (m9mask m9m10mask : Nat) (hok : TunOK qc m9mask m9m10mask) (s : St 25) :
    (sample1 badchars qc s).Sat (fun _ => True)
      (fun t => Tun1 m9mask m9m10mask t.Q ∧ Clean1 m9mask m9m10mask t.Q) := by
  unfold sample1
  lift_lets
  intro s1 s2 s3 s4 s5 s6 s7 s8
  have hsh := sampleLoop_shape qc 3 16 (by decide) 14 3 s1 (by decide) (by decide)
    (fun j h1 h2 => by omega)
  have htc : Tun1 m9mask m9m10mask s8.Q ∧ Clean1 m9mask m9m10mask s8.Q :=
    Tun1_Clean1_of_shape qc m9mask m9m10mask hok s2.Q
      (hsh 9 (by decide) (by decide)) (hsh 10 (by decide) (by decide))
      (hsh 11 (by decide) (by decide))
  have hloop := forLoop_sat (q1body1 badchars qc)
    (fun t => Tun1 m9mask m9m10mask t.Q ∧ Clean1 m9mask m9m10mask t.Q)
    (fun t => Tun1 m9mask m9m10mask t.Q ∧ Clean1 m9mask m9m10mask t.Q)
    (fun j t ht => q1body1_keeps badchars qc
      (fun Q => Tun1 m9mask m9m10mask Q ∧ Clean1 m9mask m9m10mask Q)
      (fun Q n v hn hQ => ⟨Tun1_set Q n v (by omega) (by omega) hQ.1,
        Clean1_set Q n v (by omega) (by omega) hQ.2⟩) j t ht) 2000 0 s8 htc
  refine Ctl.Sat_ite (fun _ => trivial) (fun _ => ?_)
  refine Ctl.Sat_ite (fun _ => trivial) (fun _ => ?_)
  refine Ctl.Sat_ite (fun _ => trivial) (fun _ => ?_)
  refine Ctl.Sat_ite (fun _ => trivial) (fun _ => ?_)
  refine Ctl.Sat_ite (fun _ => trivial) (fun _ => ?_)
  refine Ctl.Sat_ite (fun _ => trivial) (fun _ => ?_)
  exact hloop.mono (fun _ _ => trivial) (fun _ h => h)

theorem assert_skip {α : Type} {asserts b : Bool} {x y : α} (hb : b = false) :
    (if (asserts && b) = true then x else y) = y := by
  rw [hb, Bool.and_false]
  rfl

theorem tunnel_exact9 (q b n c m9 m10 : Nat) (h1 : q &&& m9 = 0) (h2 : q &&& m10 &&& n = 0)
    (hb : b &&& m10 = b) (hc : c &&& m9 = c) :
    ((q ||| (b &&& n)) ||| c) &&& (m9 ||| (m10 &&& n)) = (b &&& n) ||| c := by
  apply Nat.eq_of_testBit_eq
  intro k
  have e1 := congrArg (fun z => Nat.testBit z k) h1
  have e2 := congrArg (fun z => Nat.testBit z k) h2
  have e3 := congrArg (fun z => Nat.testBit z k) hb
  have e4 := congrArg (fun z => Nat.testBit z k) hc
  simp only [Nat.testBit_and, Nat.testBit_or, Nat.zero_testBit] at e1 e2 e3 e4 ⊢
  revert e1 e2 e3 e4
  cases q.testBit k <;> cases b.testBit k <;> cases n.testBit k <;> cases c.testBit k <;>
    cases m9.testBit k <;> cases m10.testBit k <;> simp

theorem tunnel_exact10 (q b n m10 : Nat) (h : q &&& m10 &&& n = 0) (hb : b &&& m10 = b) :
    (q ||| (b &&& n)) &&& (m10 &&& n) = b &&& n := by
  apply Nat.eq_of_testBit_eq
  intro k
  have e1 := congrArg (fun z => Nat.testBit z k) h
  have e3 := congrArg (fun z => Nat.testBit z k) hb
  simp only [Nat.testBit_and, Nat.testBit_or, Nat.zero_testBit] at e1 e3 ⊢
  revert e1 e3
  cases q.testBit k <;> cases b.testBit k <;> cases n.testBit k <;> cases m10.testBit k <;>
    simp
/-! ## Step consistency and the compression function: the results -/

/-- C11.  Step-unstep consistency, first block.  Whenever `MD5CollideBlock0` returns, every
word `block[i]`, `i = 0, ..., 15`, is `MD5UNSTEP` of the final trail at step `i` with the
constant and the shift of that step of round 1; the first four entries of `QandIV` are
`iv[0], iv[3], iv[2], iv[1]`; and `Q[1], ..., Q[16]` is the register trail of round 1 of MD5
on `iv` and `block`.  And a run ends on a failed `assert` only if `Compress` differs from
the MD5 compression function on some block: none of the assertions on `block[5]`,
`block[6]`, `block[8]` to `block[12]` and on the trail fails. -/
theorem MD5CollideBlock0_step_unstep (asserts : Bool) (Compress : Words 4 → Words 16 → Words 4)
    (iv : Words 4) (badchars : Option (List Nat)) (time : Nat) (block0 : Words 16)
    (fuel : Nat) :
    (∀ r, MD5CollideBlock0Run asserts Compress iv badchars time block0 fuel
        = Outcome.returned r →
      (∀ i, i < 16 →
        r.st.block.get i = MD5UNSTEP r.st.Q i (md5K.getD i 0) (md5S.getD i 0)) ∧
      (r.st.Q.get 0 = iv.get 0 ∧ r.st.Q.get 1 = iv.get 3 ∧ r.st.Q.get 2 = iv.get 2 ∧
        r.st.Q.get 3 = iv.get 1) ∧
      (∀ i, i < 16 → r.st.Q.get (i + 4)
        = MD5STEP F1 (r.st.Q.get i) (r.st.Q.get (i + 3)) (r.st.Q.get (i + 2))
          (r.st.Q.get (i + 1)) (add32 (r.st.block.get i) (md5K.getD i 0)) (md5S.getD i 0))) ∧
    (MD5CollideBlock0Run asserts Compress iv badchars time block0 fuel = Outcome.assertFailed →
      ∃ block, Compress iv block ≠ MD5Transform iv block) := by
  have h := MD5CollideBlock0Run_full asserts Compress iv badchars time block0 fuel
  constructor
  · intro r hr
    rw [hr] at h
    have hb : Base iv [12, 9, 8, 7, 4, 3, 13, 10, 2, 5, 1, 15, 14, 11, 6, 0]
      [23, 22, 21, 20, 16, 19, 18, 17] r.st := h.1
    refine ⟨fun i hi => hb.cons i (mem_all16 i hi), hb.ivq, fun i hi => ?_⟩
    have f := Fwd_of_Cons r.st.Q r.st.block i hi (hb.cons i (mem_all16 i hi))
      (hb.bnd _ (by omega))
    unfold Fwd at f
    rw [md5F_lt16 i hi, md5G_lt16 i hi] at f
    exact f
  · intro hr
    rw [hr] at h
    exact h

/-- Witness of C11 on the run `run0_example`. -/
theorem MD5CollideBlock0_step_unstep_witness :
    MD5CollideBlock0Run true MD5Transform stdIV (some unclean_map) 1612755449 zeroBlock 1
      = Outcome.returned exRet0 ∧
    (∀ i, i < 16 →
      exRet0.st.block.get i = MD5UNSTEP exRet0.st.Q i (md5K.getD i 0) (md5S.getD i 0)) ∧
    (exRet0.st.Q.get 0 = stdIV.get 0 ∧ exRet0.st.Q.get 1 = stdIV.get 3 ∧
      exRet0.st.Q.get 2 = stdIV.get 2 ∧ exRet0.st.Q.get 3 = stdIV.get 1) ∧
    (∀ i, i < 16 → exRet0.st.Q.get (i + 4)
      = MD5STEP F1 (exRet0.st.Q.get i) (exRet0.st.Q.get (i + 3)) (exRet0.st.Q.get (i + 2))
        (exRet0.st.Q.get (i + 1)) (add32 (exRet0.st.block.get i) (md5K.getD i 0))
        (md5S.getD i 0)) :=
  ⟨run0_example,
    (MD5CollideBlock0_step_unstep true MD5Transform stdIV (some unclean_map) 1612755449
      zeroBlock 1).1 exRet0 run0_example⟩

/-- C12.  Step-unstep consistency, second block.  Whenever `MD5CollideBlock1` returns, on
whichever of the four paths `iv` selects, every word `block[i]`, `i = 0, ..., 15`, is
`MD5UNSTEP` of the final trail at step `i` with the constant and the shift of that step
of round 1; the first four entries of `QandIV` are `iv[0], iv[3], iv[2], iv[1]`; and
`Q[1], ..., Q[16]` is the register trail of round 1 of MD5 on `iv` and `block`.  And a run
ends on a failed `assert` only if `Compress` differs from the MD5 compression function on
some block: none of the assertions on `block[10]`, `block[11]` and on `q9base`, `q10base`
fails. -/
theorem MD5CollideBlock1_step_unstep (asserts : Bool) (Compress : Words 4 → Words 16 → Words 4)
    (iv : Words 4) (badchars : Option (List Nat)) (time : Nat) (block0 : Words 16)
    (fuel : Nat) :
    (∀ r, MD5CollideBlock1Run asserts Compress iv badchars time block0 fuel
        = Outcome.returned r →
      (∀ i, i < 16 →
        r.st.block.get i = MD5UNSTEP r.st.Q i (md5K.getD i 0) (md5S.getD i 0)) ∧
      (r.st.Q.get 0 = iv.get 0 ∧ r.st.Q.get 1 = iv.get 3 ∧ r.st.Q.get 2 = iv.get 2 ∧
        r.st.Q.get 3 = iv.get 1) ∧
      (∀ i, i < 16 → r.st.Q.get (i + 4)
        = MD5STEP F1 (r.st.Q.get i) (r.st.Q.get (i + 3)) (r.st.Q.get (i + 2))
          (r.st.Q.get (i + 1)) (add32 (r.st.block.get i) (md5K.getD i 0)) (md5S.getD i 0))) ∧
    (MD5CollideBlock1Run asserts Compress iv badchars time block0 fuel = Outcome.assertFailed →
      ∃ block, Compress iv block ≠ MD5Transform iv block) := by
  have h := MD5CollideBlock1Run_full asserts Compress iv badchars time block0 fuel
  constructor
  · intro r hr
    rw [hr] at h
    have hb : Base iv [12, 9, 8, 13, 10, 2, 4, 3, 1, 0, 15, 14, 11, 7, 6, 5]
      [20, 19, 18, 17, 16] r.st := h.1
    refine ⟨fun i hi => hb.cons i (mem_all16b i hi), hb.ivq, fun i hi => ?_⟩
    have f := Fwd_of_Cons r.st.Q r.st.block i hi (hb.cons i (mem_all16b i hi))
      (hb.bnd _ (by omega))
    unfold Fwd at f
    rw [md5F_lt16 i hi, md5G_lt16 i hi] at f
    exact f
  · intro hr
    rw [hr] at h
    exact h

/-- Witness of C12 on the run `run1_example` (path 2). -/
theorem MD5CollideBlock1_step_unstep_witness :
    MD5CollideBlock1Run true MD5Transform exIV1 (some unclean_map) 1635797866 zeroBlock 2
      = Outcome.returned exRet1 ∧
    (∀ i, i < 16 →
      exRet1.st.block.get i = MD5UNSTEP exRet1.st.Q i (md5K.getD i 0) (md5S.getD i 0)) ∧
    (exRet1.st.Q.get 0 = exIV1.get 0 ∧ exRet1.st.Q.get 1 = exIV1.get 3 ∧
      exRet1.st.Q.get 2 = exIV1.get 2 ∧ exRet1.st.Q.get 3 = exIV1.get 1) ∧
    (∀ i, i < 16 → exRet1.st.Q.get (i + 4)
      = MD5STEP F1 (exRet1.st.Q.get i) (exRet1.st.Q.get (i + 3)) (exRet1.st.Q.get (i + 2))
        (exRet1.st.Q.get (i + 1)) (add32 (exRet1.st.block.get i) (md5K.getD i 0))
        (md5S.getD i 0)) :=
  ⟨run1_example,
    (MD5CollideBlock1_step_unstep true MD5Transform exIV1 (some unclean_map) 1635797866
      zeroBlock 2).1 exRet1 run1_example⟩

/-- C14.  The tunnel frame of the second block.  For each path, with the tables
`q9m9bits` and `q9q10bits` that the precomputations return, and for each accepted sample
of `Q[2], ..., Q[16]` and `Q[1]` (`sample1` leaves with `success = 1`): the three
assertions on `q9base = Q[9]` and `q10base = Q[10]` pass, so that the enumeration of the
tunnels starts; `q9base` and `q10base` have the tunnel bits clear; and for all `k` and `j`
the value `q9base | (q9q10bits[k] & ~Q10MASK) | q9m9bits[j]` written to `Q[9]` agrees with
`q9base` on every bit outside `q9m9masks[path] | (q9q10masks[path] & ~Q10MASK)`, the value
`q10base | (q9q10bits[k] & Q10MASK)` written to `Q[10]` agrees with `q10base` on every bit
outside `q9q10masks[path] & Q10MASK`, and the tunnel bits of the two values are exactly
the enumerated subsets. -/
theorem block1_tunnel_frame (asserts : Bool) (Compress : Words 4 → Words 16 → Words 4)
    (iv : Words 4) (badchars : Option (List Nat)) (path : Nat) (q9m9bits q9q10bits : List Nat)
    (numq9q10 : Nat) (s s1 : St 25) (hp : path < 4)
    (h9 : m9loop asserts (q9m9masks.getD path 0) 512 0 [] = Outcome.returned q9m9bits)
    (h10 : m10loop asserts (q9q10masks.getD path 0) 65 0 []
      = Outcome.returned (q9q10bits, numq9q10))
    (hs : sample1 badchars (qconds2.getD path []) s = Ctl.done s1) :
    tunnels1 asserts Compress iv badchars (qconds2.getD path []) (q9m9masks.getD path 0)
        (q9q10masks.getD path 0) q9m9bits q9q10bits numq9q10 s1
      = forLoop (q10body1 asserts Compress iv badchars (qconds2.getD path []) q9m9bits
          q9q10bits (s1.q 9) (s1.q 10)) numq9q10 0 s1 ∧
    s1.q 9 &&& q9m9masks.getD path 0 = 0 ∧
    s1.q 9 &&& q9q10masks.getD path 0 &&& not32 Q10MASK = 0 ∧
    s1.q 10 &&& q9q10masks.getD path 0 &&& Q10MASK = 0 ∧
    ∀ k j, k < numq9q10 → j < 512 →
      (∀ b, (q9m9masks.getD path 0 ||| (q9q10masks.getD path 0 &&& not32 Q10MASK)).testBit b
          = false →
        ((s1.q 9 ||| (q9q10bits.getD k 0 &&& not32 Q10MASK)) ||| q9m9bits.getD j 0).testBit b
          = (s1.q 9).testBit b) ∧
      (∀ b, (q9q10masks.getD path 0 &&& Q10MASK).testBit b = false →
        (s1.q 10 ||| (q9q10bits.getD k 0 &&& Q10MASK)).testBit b = (s1.q 10).testBit b) ∧
      ((s1.q 9 ||| (q9q10bits.getD k 0 &&& not32 Q10MASK)) ||| q9m9bits.getD j 0) &&&
          (q9m9masks.getD path 0 ||| (q9q10masks.getD path 0 &&& not32 Q10MASK))
        = (q9q10bits.getD k 0 &&& not32 Q10MASK) ||| q9m9bits.getD j 0 ∧
      (s1.q 10 ||| (q9q10bits.getD k 0 &&& Q10MASK)) &&&
          (q9q10masks.getD path 0 &&& Q10MASK)
        = q9q10bits.getD k 0 &&& Q10MASK := by
  have hok := TunOK_path path hp
  have htbl9 := m9loop_sub asserts _ 512 0 [] q9m9bits h9 (by simp)
  have htbl10 := m10loop_sub asserts _ 65 0 [] (q9q10bits, numq9q10) h10 (by simp)
  have hsat := sample1_clean badchars _ _ _ hok s
  rw [hs] at hsat
  have hc : Clean1 (q9m9masks.getD path 0) (q9q10masks.getD path 0) s1.Q := hsat.2
  refine ⟨?_, hc.1, hc.2.1, hc.2.2, ?_⟩
  · unfold tunnels1
    lift_lets
    intro q9base q10base
    have e1 : (q9base &&& q9m9masks.getD path 0 != 0) = false := bne_false_of_eq hc.1
    have e2 : (q9base &&& q9q10masks.getD path 0 &&& not32 Q10MASK != 0) = false :=
      bne_false_of_eq hc.2.1
    have e3 : (q10base &&& q9q10masks.getD path 0 &&& Q10MASK != 0) = false :=
      bne_false_of_eq hc.2.2
    rw [assert_skip e1, assert_skip e2, assert_skip e3]
  · intro k j _ _
    have hb10 := getD_sub q9q10bits _ k htbl10
    have hb9 := getD_sub q9m9bits _ j htbl9
    refine ⟨?_, ?_, tunnel_exact9 _ _ _ _ _ _ hc.1 hc.2.1 hb10 hb9,
      tunnel_exact10 _ _ _ _ hc.2.2 hb10⟩
    · exact ((agree_or_sub _ _ _ hb9).widen (sub_or_left _ _)).trans
        (agree_or_sub _ _ _ (sub_tun9 _ _ _ _ hb10))
    · exact agree_or_sub _ _ _ (and_and_sub _ _ _ hb10)

/-- Witness of C14 on path 2, at the second pass of the run `run1_example`. -/
theorem block1_tunnel_frame_witness :
    (2 < 4 ∧
      m9loop true (q9m9masks.getD 2 0) 512 0 []
        = Outcome.returned ((List.range 512).map (deposit (q9m9masks.getD 2 0))) ∧
      m10loop true (q9q10masks.getD 2 0) 65 0 []
        = Outcome.returned ((List.range 16).map (deposit (q9q10masks.getD 2 0)), 16) ∧
      sample1 (some unclean_map) (qconds2.getD 2 []) exSample = Ctl.done exSampled) ∧
    (tunnels1 true MD5Transform exIV1 (some unclean_map) (qconds2.getD 2 [])
        (q9m9masks.getD 2 0) (q9q10masks.getD 2 0)
        ((List.range 512).map (deposit (q9m9masks.getD 2 0)))
        ((List.range 16).map (deposit (q9q10masks.getD 2 0))) 16 exSampled
      = forLoop (q10body1 true MD5Transform exIV1 (some unclean_map) (qconds2.getD 2 [])
          ((List.range 512).map (deposit (q9m9masks.getD 2 0)))
          ((List.range 16).map (deposit (q9q10masks.getD 2 0)))
          (exSampled.q 9) (exSampled.q 10)) 16 0 exSampled ∧
    exSampled.q 9 &&& q9m9masks.getD 2 0 = 0 ∧
    exSampled.q 9 &&& q9q10masks.getD 2 0 &&& not32 Q10MASK = 0 ∧
    exSampled.q 10 &&& q9q10masks.getD 2 0 &&& Q10MASK = 0 ∧
    ∀ k j, k < 16 → j < 512 →
      (∀ b, (q9m9masks.getD 2 0 ||| (q9q10masks.getD 2 0 &&& not32 Q10MASK)).testBit b
          = false →
        ((exSampled.q 9 |||
            (((List.range 16).map (deposit (q9q10masks.getD 2 0))).getD k 0 &&& not32 Q10MASK))
          ||| ((List.range 512).map (deposit (q9m9masks.getD 2 0))).getD j 0).testBit b
          = (exSampled.q 9).testBit b) ∧
      (∀ b, (q9q10masks.getD 2 0 &&& Q10MASK).testBit b = false →
        (exSampled.q 10 |||
            (((List.range 16).map (deposit (q9q10masks.getD 2 0))).getD k 0 &&& Q10MASK)).testBit b
          = (exSampled.q 10).testBit b) ∧
      ((exSampled.q 9 |||
            (((List.range 16).map (deposit (q9q10masks.getD 2 0))).getD k 0 &&& not32 Q10MASK))
          ||| ((List.range 512).map (deposit (q9m9masks.getD 2 0))).getD j 0) &&&
          (q9m9masks.getD 2 0 ||| (q9q10masks.getD 2 0 &&& not32 Q10MASK))
        = (((List.range 16).map (deposit (q9q10masks.getD 2 0))).getD k 0 &&& not32 Q10MASK)
          ||| ((List.range 512).map (deposit (q9m9masks.getD 2 0))).getD j 0 ∧
      (exSampled.q 10 |||
          (((List.range 16).map (deposit (q9q10masks.getD 2 0))).getD k 0 &&& Q10MASK)) &&&
          (q9q10masks.getD 2 0 &&& Q10MASK)
        = ((List.range 16).map (deposit (q9q10masks.getD 2 0))).getD k 0 &&& Q10MASK) :=
  ⟨⟨by decide, m9loop_returns true 2 (by decide), m10loop_returns true 2 (by decide),
      sample1_example⟩,
    block1_tunnel_frame true MD5Transform exIV1 (some unclean_map) 2 _ _ _ exSample exSampled
      (by decide) (m9loop_returns true 2 (by decide)) (m10loop_returns true 2 (by decide))
      sample1_example⟩

/-- C20.  The unrolled compression of the engines agrees with MD5.  Whenever
`MD5CollideBlock0` returns, its registers `a, b, c, d` are those of the unrolled steps 25 to
64 on `Q[21], Q[24], Q[23], Q[22]`, and `iv[0]+a, iv[1]+b, iv[2]+c, iv[3]+d` is
`MD5Transform` of `iv` and `block`; whenever `MD5CollideBlock1` returns, `a2, b2, c2, d2`
are `Q[21]` and the results of steps 24, 23, 22 on the trail, `a, b, c, d` are those of the
unrolled steps 25 to 64 on them, and `iv[0]+a, ..., iv[3]+d` is `MD5Transform` of `iv` and
`block`; with `MD5Transform` for `Compress` no run of either engine ends on a failed
`assert`, so the assertion that compares the two never fails; and the unrolled steps 25 to
64 of both engines are the steps 25 to 64 of MD5 (`md5Steps`, with the standard constants,
shifts and order of the message words) on any block and registers. -/
theorem unrolled_compression_agrees_with_MD5 (asserts : Bool)
    (Compress : Words 4 → Words 16 → Words 4) (iv : Words 4) (badchars : Option (List Nat))
    (time : Nat) (block0 : Words 16) (fuel : Nat) :
    (∀ r, MD5CollideBlock0Run asserts Compress iv badchars time block0 fuel
        = Outcome.returned r →
      tail0 r.st.block (r.st.q 21) (r.st.q 24) (r.st.q 23) (r.st.q 22)
        = some (r.a, r.b, r.c, r.d) ∧
      MD5Transform iv r.st.block
        = ⟨[add32 (iv.get 0) r.a, add32 (iv.get 1) r.b, add32 (iv.get 2) r.c,
          add32 (iv.get 3) r.d], rfl⟩) ∧
    (∀ r, MD5CollideBlock1Run asserts Compress iv badchars time block0 fuel
        = Outcome.returned r →
      Regs1 r.st r.a2 r.b2 r.c2 r.d2 ∧
      tail1 r.st.block r.a2 r.b2 r.c2 r.d2 = some (r.a, r.b, r.c, r.d) ∧
      MD5Transform iv r.st.block
        = ⟨[add32 (iv.get 0) r.a, add32 (iv.get 1) r.b, add32 (iv.get 2) r.c,
          add32 (iv.get 3) r.d], rfl⟩) ∧
    MD5CollideBlock0Run asserts MD5Transform iv badchars time block0 fuel
      ≠ Outcome.assertFailed ∧
    MD5CollideBlock1Run asserts MD5Transform iv badchars time block0 fuel
      ≠ Outcome.assertFailed ∧
    (∀ block a b c d r, tail0 block a b c d = some r → md5Steps block 40 24 a b c d = r) ∧
    (∀ block a b c d r, tail1 block a b c d = some r → md5Steps block 40 24 a b c d = r) := by
  refine ⟨?_, ?_, ?_, ?_, fun block a b c d r h => tail0_md5 block a b c d r h,
    fun block a b c d r h => tail1_md5 block a b c d r h⟩
  · intro r hr
    have h := MD5CollideBlock0Run_full asserts Compress iv badchars time block0 fuel
    rw [hr] at h
    exact ⟨h.2, MD5Transform_of_Post0 iv r.st r.a r.b r.c r.d h.1 h.2⟩
  · intro r hr
    have h := MD5CollideBlock1Run_full asserts Compress iv badchars time block0 fuel
    rw [hr] at h
    exact ⟨h.2.1, h.2.2,
      MD5Transform_of_Post1 iv r.st r.a r.b r.c r.d r.a2 r.b2 r.c2 r.d2 h.1 h.2.1 h.2.2⟩
  · intro hr
    have h := MD5CollideBlock0Run_full asserts MD5Transform iv badchars time block0 fuel
    rw [hr] at h
    obtain ⟨b, hb⟩ := h
    exact hb rfl
  · intro hr
    have h := MD5CollideBlock1Run_full asserts MD5Transform iv badchars time block0 fuel
    rw [hr] at h
    obtain ⟨b, hb⟩ := h
    exact hb rfl

/-- Witness of C20 on the runs `run0_example` and `run1_example`. -/
theorem unrolled_compression_agrees_with_MD5_witness :
    (MD5CollideBlock0Run true MD5Transform stdIV (some unclean_map) 1612755449 zeroBlock 1
        = Outcome.returned exRet0 ∧
      MD5CollideBlock1Run true MD5Transform exIV1 (some unclean_map) 1635797866 zeroBlock 2
        = Outcome.returned exRet1) ∧
    (tail0 exRet0.st.block (exRet0.st.q 21) (exRet0.st.q 24) (exRet0.st.q 23) (exRet0.st.q 22)
        = some (exRet0.a, exRet0.b, exRet0.c, exRet0.d) ∧
      MD5Transform stdIV exRet0.st.block
        = ⟨[add32 (stdIV.get 0) exRet0.a, add32 (stdIV.get 1) exRet0.b,
          add32 (stdIV.get 2) exRet0.c, add32 (stdIV.get 3) exRet0.d], rfl⟩) ∧
    (Regs1 exRet1.st exRet1.a2 exRet1.b2 exRet1.c2 exRet1.d2 ∧
      tail1 exRet1.st.block exRet1.a2 exRet1.b2 exRet1.c2 exRet1.d2
        = some (exRet1.a, exRet1.b, exRet1.c, exRet1.d) ∧
      MD5Transform exIV1 exRet1.st.block
        = ⟨[add32 (exIV1.get 0) exRet1.a, add32 (exIV1.get 1) exRet1.b,
          add32 (exIV1.get 2) exRet1.c, add32 (exIV1.get 3) exRet1.d], rfl⟩) :=
  ⟨⟨run0_example, run1_example⟩,
    (unrolled_compression_agrees_with_MD5 true MD5Transform stdIV (some unclean_map) 1612755449
      zeroBlock 1).1 exRet0 run0_example,
    (unrolled_compression_agrees_with_MD5 true MD5Transform exIV1 (some unclean_map) 1635797866
      zeroBlock 2).2.1 exRet1 run1_example⟩

/-! ## The guards of steps 35 and 48 to 63 -/

theorem ite_none_some_and {α : Type} {c : Prop} [Decidable c] {x : Option α} {r : α}
    (h : (if c then none else x) = some r) : ¬ c ∧ x = some r := by
  split_ifs at h with hc
  exact ⟨hc, h⟩

theorem of_not_bne {x : Nat} (h : ¬ ((x != 0) = true)) : x = 0 := by
  simpa using h

theorem of_not_beq {x : Nat} (h : ¬ ((x == 0) = true)) : x ≠ 0 := by
  simpa using h

theorem md5Steps_snoc (block : Words 16) (n : Nat) :
    ∀ (i a b c d w x y z : Nat), md5Steps block n i a b c d = (w, x, y, z) →
      md5Steps block (n + 1) i a b c d
        = (z, MD5STEP (md5F (i + n)) w x y z
            (add32 (block.get (md5G (i + n))) (md5K.getD (i + n) 0)) (md5S.getD (i + n) 0), x, y) := by
  induction n with
  | zero =>
    intro i a b c d w x y z h
    have e : (a, b, c, d) = (w, x, y, z) := h
    injection e with e1 e2
    injection e2 with e2 e3
    injection e3 with e3 e4
    subst e1 e2 e3 e4
    rfl
  | succ n ih =>
    intro i a b c d w x y z h
    rw [md5Steps_succ] at h
    rw [md5Steps_succ, ih (i + 1) _ _ _ _ w x y z h]
    have e : i + 1 + n = i + (n + 1) := by omega
    rw [e]

theorem md5Steps_snoc_cons (block : Words 16) (n i a b c d w x y z g k sh v : Nat)
    (f : Nat → Nat → Nat → Nat) (h : md5Steps block n i a b c d = (w, x, y, z))
    (hf : md5F (i + n) = f) (hg : md5G (i + n) = g) (hk : md5K.getD (i + n) 0 = k)
    (hs : md5S.getD (i + n) 0 = sh) (hv : v = MD5STEP f w x y z (add32 (block.get g) k) sh) :
    md5Steps block (n + 1) i a b c d = (z, v, x, y) := by
  rw [md5Steps_snoc block n i a b c d w x y z h, hf, hg, hk, hs, ← hv]

theorem regsAfter_eq (block : Words 16) (a b c d k n : Nat) (t : Nat × Nat × Nat × Nat)
    (hn : k - 24 = n) (h : md5Steps block n 24 a b c d = t) :
    regsAfter block a b c d k = unrotate (k % 4) t := by
  unfold regsAfter
  rw [hn, h]

theorem parityRow_odd (k a b c d : Nat) (hk : k % 2 = 1) (h : (a ^^^ c) &&& 0x80000000 = 0) :
    parityRow k (a, b, c, d) := by
  unfold parityRow
  simp only [hk, if_true]
  exact h

theorem parityRow_even (k a b c d : Nat) (hk : k % 2 = 0) (h1 : k ≠ 50) (h2 : k ≠ 60)
    (h : (d ^^^ b) &&& 0x80000000 = 0) : parityRow k (a, b, c, d) := by
  unfold parityRow
  have e : ¬ (k % 2 = 1) := by omega
  have e2 : ¬ (k = 50 ∨ k = 60) := by omega
  simp only [if_neg e, if_neg e2]
  exact h

theorem parityRow_flip (k a b c d : Nat) (hk : k = 50 ∨ k = 60)
    (h : (d ^^^ b) &&& 0x80000000 ≠ 0) : parityRow k (a, b, c, d) := by
  unfold parityRow
  have e : ¬ (k % 2 = 1) := by omega
  simp only [if_neg e, if_pos hk]
  exact h

theorem tail0_guards (block : Words 16) (a b c d : Nat) (r : Nat × Nat × Nat × Nat) :
    tail0 block a b c d = some r →
      preSum35 block (regsAfter block a b c d 34) &&& (1 <<< 15) = 0 ∧
      ∀ k, 48 ≤ k → k ≤ 63 → parityRow k (regsAfter block a b c d k) := by
  unfold tail0
  lift_lets
  intro v25 v26 v27 v28 v29 v30 v31 v32 v33 v34 w35 x35 v35 v36 v37 v38 v39 v40 v41 v42 v43 v44
  intro v45 v46 v47 v48 v49 v50 v51 v52 v53 v54 v55 v56 v57 v58 v59 v60 v61 v62 v63 v64
  intro h
  obtain ⟨g35, h⟩ := ite_none_some_and h
  obtain ⟨g48, h⟩ := ite_none_some_and h
  obtain ⟨g49, h⟩ := ite_none_some_and h
  obtain ⟨g50, h⟩ := ite_none_some_and h
  obtain ⟨g51, h⟩ := ite_none_some_and h
  obtain ⟨g52, h⟩ := ite_none_some_and h
  obtain ⟨g53, h⟩ := ite_none_some_and h
  obtain ⟨g54, h⟩ := ite_none_some_and h
  obtain ⟨g55, h⟩ := ite_none_some_and h
  obtain ⟨g56, h⟩ := ite_none_some_and h
  obtain ⟨g57, h⟩ := ite_none_some_and h
  obtain ⟨g58, h⟩ := ite_none_some_and h
  obtain ⟨g59, h⟩ := ite_none_some_and h
  obtain ⟨g60, h⟩ := ite_none_some_and h
  obtain ⟨g61, h⟩ := ite_none_some_and h
  obtain ⟨g62, h⟩ := ite_none_some_and h
  obtain ⟨g63, h⟩ := ite_none_some_and h
  have E0 : md5Steps block 0 24 a b c d = (a, b, c, d) := rfl
  have E1 : md5Steps block 1 24 a b c d = (d, v25, b, c) :=
    md5Steps_snoc_cons block 0 24 a b c d a b c d 9 568446438 5 v25 F2 E0
      rfl rfl rfl rfl rfl
  have E2 : md5Steps block 2 24 a b c d = (c, v26, v25, b) :=
    md5Steps_snoc_cons block 1 24 a b c d d v25 b c 14 3275163606 9 v26 F2 E1
      rfl rfl rfl rfl rfl
  have E3 : md5Steps block 3 24 a b c d = (b, v27, v26, v25) :=
    md5Steps_snoc_cons block 2 24 a b c d c v26 v25 b 3 4107603335 14 v27 F2 E2
      rfl rfl rfl rfl rfl
  have E4 : md5Steps block 4 24 a b c d = (v25, v28, v27, v26) :=
    md5Steps_snoc_cons block 3 24 a b c d b v27 v26 v25 8 1163531501 20 v28 F2 E3
      rfl rfl rfl rfl rfl
  have E5 : md5Steps block 5 24 a b c d = (v26, v29, v28, v27) :=
    md5Steps_snoc_cons block 4 24 a b c d v25 v28 v27 v26 13 2850285829 5 v29 F2 E4
      rfl rfl rfl rfl rfl
  have E6 : md5Steps block 6 24 a b c d = (v27, v30, v29, v28) :=
    md5Steps_snoc_cons block 5 24 a b c d v26 v29 v28 v27 2 4243563512 9 v30 F2 E5
      rfl rfl rfl rfl rfl
  have E7 : md5Steps block 7 24 a b c d = (v28, v31, v30, v29) :=
    md5Steps_snoc_cons block 6 24 a b c d v27 v30 v29 v28 7 1735328473 14 v31 F2 E6
      rfl rfl rfl rfl rfl
  have E8 : md5Steps block 8 24 a b c d = (v29, v32, v31, v30) :=
    md5Steps_snoc_cons block 7 24 a b c d v28 v31 v30 v29 12 2368359562 20 v32 F2 E7
      rfl rfl rfl rfl rfl
  have E9 : md5Steps block 9 24 a b c d = (v30, v33, v32, v31) :=
    md5Steps_snoc_cons block 8 24 a b c d v29 v32 v31 v30 5 4294588738 4 v33 F3 E8
      rfl rfl rfl rfl rfl
  have E10 : md5Steps block 10 24 a b c d = (v31, v34, v33, v32) :=
    md5Steps_snoc_cons block 9 24 a b c d v30 v33 v32 v31 8 2272392833 11 v34 F3 E9
      rfl rfl rfl rfl rfl
  have R34 : regsAfter block a b c d 34 = (v33, v32, v31, v34) :=
    regsAfter_eq block a b c d 34 10 _ rfl E10
  have E11 : md5Steps block 11 24 a b c d = (v32, v35, v34, v33) :=
    md5Steps_snoc_cons block 10 24 a b c d v31 v34 v33 v32 11 1839030562 16 v35 F3 E10
      rfl rfl rfl rfl (manual_step35 _ _ _ _ _ _)
  have E12 : md5Steps block 12 24 a b c d = (v33, v36, v35, v34) :=
    md5Steps_snoc_cons block 11 24 a b c d v32 v35 v34 v33 14 4259657740 23 v36 F3 E11
      rfl rfl rfl rfl rfl
  have E13 : md5Steps block 13 24 a b c d = (v34, v37, v36, v35) :=
    md5Steps_snoc_cons block 12 24 a b c d v33 v36 v35 v34 1 2763975236 4 v37 F3 E12
      rfl rfl rfl rfl rfl
  have E14 : md5Steps block 14 24 a b c d = (v35, v38, v37, v36) :=
    md5Steps_snoc_cons block 13 24 a b c d v34 v37 v36 v35 4 1272893353 11 v38 F3 E13
      rfl rfl rfl rfl rfl
  have E15 : md5Steps block 15 24 a b c d = (v36, v39, v38, v37) :=
    md5Steps_snoc_cons block 14 24 a b c d v35 v38 v37 v36 7 4139469664 16 v39 F3 E14
      rfl rfl rfl rfl rfl
  have E16 : md5Steps block 16 24 a b c d = (v37, v40, v39, v38) :=
    md5Steps_snoc_cons block 15 24 a b c d v36 v39 v38 v37 10 3200236656 23 v40 F3 E15
      rfl rfl rfl rfl rfl
  have E17 : md5Steps block 17 24 a b c d = (v38, v41, v40, v39) :=
    md5Steps_snoc_cons block 16 24 a b c d v37 v40 v39 v38 13 681279174 4 v41 F3 E16
      rfl rfl rfl rfl rfl
  have E18 : md5Steps block 18 24 a b c d = (v39, v42, v41, v40) :=
    md5Steps_snoc_cons block 17 24 a b c d v38 v41 v40 v39 0 3936430074 11 v42 F3 E17
      rfl rfl rfl rfl rfl
  have E19 : md5Steps block 19 24 a b c d = (v40, v43, v42, v41) :=
    md5Steps_snoc_cons block 18 24 a b c d v39 v42 v41 v40 3 3572445317 16 v43 F3 E18
      rfl rfl rfl rfl rfl
  have E20 : md5Steps block 20 24 a b c d = (v41, v44, v43, v42) :=
    md5Steps_snoc_cons block 19 24 a b c d v40 v43 v42 v41 6 76029189 23 v44 F3 E19
      rfl rfl rfl rfl rfl
  have E21 : md5Steps block 21 24 a b c d = (v42, v45, v44, v43) :=
    md5Steps_snoc_cons block 20 24 a b c d v41 v44 v43 v42 9 3654602809 4 v45 F3 E20
      rfl rfl rfl rfl rfl
  have E22 : md5Steps block 22 24 a b c d = (v43, v46, v45, v44) :=
    md5Steps_snoc_cons block 21 24 a b c d v42 v45 v44 v43 12 3873151461 11 v46 F3 E21
      rfl rfl rfl rfl rfl
  have E23 : md5Steps block 23 24 a b c d = (v44, v47, v46, v45) :=
    md5Steps_snoc_cons block 22 24 a b c d v43 v46 v45 v44 15 530742520 16 v47 F3 E22
      rfl rfl rfl rfl rfl
  have E24 : md5Steps block 24 24 a b c d = (v45, v48, v47, v46) :=
    md5Steps_snoc_cons block 23 24 a b c d v44 v47 v46 v45 2 3299628645 23 v48 F3 E23
      rfl rfl rfl rfl rfl
  have R48 : regsAfter block a b c d 48 = (v45, v48, v47, v46) :=
    regsAfter_eq block a b c d 48 24 _ rfl E24
  have E25 : md5Steps block 25 24 a b c d = (v46, v49, v48, v47) :=
    md5Steps_snoc_cons block 24 24 a b c d v45 v48 v47 v46 0 4096336452 6 v49 F4 E24
      rfl rfl rfl rfl rfl
  have R49 : regsAfter block a b c d 49 = (v49, v48, v47, v46) :=
    regsAfter_eq block a b c d 49 25 _ rfl E25
  have E26 : md5Steps block 26 24 a b c d = (v47, v50, v49, v48) :=
    md5Steps_snoc_cons block 25 24 a b c d v46 v49 v48 v47 7 1126891415 10 v50 F4 E25
      rfl rfl rfl rfl rfl
  have R50 : regsAfter block a b c d 50 = (v49, v48, v47, v50) :=
    regsAfter_eq block a b c d 50 26 _ rfl E26
  have E27 : md5Steps block 27 24 a b c d = (v48, v51, v50, v49) :=
    md5Steps_snoc_cons block 26 24 a b c d v47 v50 v49 v48 14 2878612391 15 v51 F4 E26
      rfl rfl rfl rfl rfl
  have R51 : regsAfter block a b c d 51 = (v49, v48, v51, v50) :=
    regsAfter_eq block a b c d 51 27 _ rfl E27
  have E28 : md5Steps block 28 24 a b c d = (v49, v52, v51, v50) :=
    md5Steps_snoc_cons block 27 24 a b c d v48 v51 v50 v49 5 4237533241 21 v52 F4 E27
      rfl rfl rfl rfl rfl
  have R52 : regsAfter block a b c d 52 = (v49, v52, v51, v50) :=
    regsAfter_eq block a b c d 52 28 _ rfl E28
  have E29 : md5Steps block 29 24 a b c d = (v50, v53, v52, v51) :=
    md5Steps_snoc_cons block 28 24 a b c d v49 v52 v51 v50 12 1700485571 6 v53 F4 E28
      rfl rfl rfl rfl rfl
  have R53 : regsAfter block a b c d 53 = (v53, v52, v51, v50) :=
    regsAfter_eq block a b c d 53 29 _ rfl E29
  have E30 : md5Steps block 30 24 a b c d = (v51, v54, v53, v52) :=
    md5Steps_snoc_cons block 29 24 a b c d v50 v53 v52 v51 3 2399980690 10 v54 F4 E29
      rfl rfl rfl rfl rfl
  have R54 : regsAfter block a b c d 54 = (v53, v52, v51, v54) :=
    regsAfter_eq block a b c d 54 30 _ rfl E30
  have E31 : md5Steps block 31 24 a b c d = (v52, v55, v54, v53) :=
    md5Steps_snoc_cons block 30 24 a b c d v51 v54 v53 v52 10 4293915773 15 v55 F4 E30
      rfl rfl rfl rfl rfl
  have R55 : regsAfter block a b c d 55 = (v53, v52, v55, v54) :=
    regsAfter_eq block a b c d 55 31 _ rfl E31
  have E32 : md5Steps block 32 24 a b c d = (v53, v56, v55, v54) :=
    md5Steps_snoc_cons block 31 24 a b c d v52 v55 v54 v53 1 2240044497 21 v56 F4 E31
      rfl rfl rfl rfl rfl
  have R56 : regsAfter block a b c d 56 = (v53, v56, v55, v54) :=
    regsAfter_eq block a b c d 56 32 _ rfl E32
  have E33 : md5Steps block 33 24 a b c d = (v54, v57, v56, v55) :=
    md5Steps_snoc_cons block 32 24 a b c d v53 v56 v55 v54 8 1873313359 6 v57 F4 E32
      rfl rfl rfl rfl rfl
  have R57 : regsAfter block a b c d 57 = (v57, v56, v55, v54) :=
    regsAfter_eq block a b c d 57 33 _ rfl E33
  have E34 : md5Steps block 34 24 a b c d = (v55, v58, v57, v56) :=
    md5Steps_snoc_cons block 33 24 a b c d v54 v57 v56 v55 15 4264355552 10 v58 F4 E33
      rfl rfl rfl rfl rfl
  have R58 : regsAfter block a b c d 58 = (v57, v56, v55, v58) :=
    regsAfter_eq block a b c d 58 34 _ rfl E34
  have E35 : md5Steps block 35 24 a b c d = (v56, v59, v58, v57) :=
    md5Steps_snoc_cons block 34 24 a b c d v55 v58 v57 v56 6 2734768916 15 v59 F4 E34
      rfl rfl rfl rfl rfl
  have R59 : regsAfter block a b c d 59 = (v57, v56, v59, v58) :=
    regsAfter_eq block a b c d 59 35 _ rfl E35
  have E36 : md5Steps block 36 24 a b c d = (v57, v60, v59, v58) :=
    md5Steps_snoc_cons block 35 24 a b c d v56 v59 v58 v57 13 1309151649 21 v60 F4 E35
      rfl rfl rfl rfl rfl
  have R60 : regsAfter block a b c d 60 = (v57, v60, v59, v58) :=
    regsAfter_eq block a b c d 60 36 _ rfl E36
  have E37 : md5Steps block 37 24 a b c d = (v58, v61, v60, v59) :=
    md5Steps_snoc_cons block 36 24 a b c d v57 v60 v59 v58 4 4149444226 6 v61 F4 E36
      rfl rfl rfl rfl rfl
  have R61 : regsAfter block a b c d 61 = (v61, v60, v59, v58) :=
    regsAfter_eq block a b c d 61 37 _ rfl E37
  have E38 : md5Steps block 38 24 a b c d = (v59, v62, v61, v60) :=
    md5Steps_snoc_cons block 37 24 a b c d v58 v61 v60 v59 11 3174756917 10 v62 F4 E37
      rfl rfl rfl rfl rfl
  have R62 : regsAfter block a b c d 62 = (v61, v60, v59, v62) :=
    regsAfter_eq block a b c d 62 38 _ rfl E38
  have E39 : md5Steps block 39 24 a b c d = (v60, v63, v62, v61) :=
    md5Steps_snoc_cons block 38 24 a b c d v59 v62 v61 v60 2 718787259 15 v63 F4 E38
      rfl rfl rfl rfl rfl
  have R63 : regsAfter block a b c d 63 = (v61, v60, v63, v62) :=
    regsAfter_eq block a b c d 63 39 _ rfl E39
  have E40 : md5Steps block 40 24 a b c d = (v61, v64, v63, v62) :=
    md5Steps_snoc_cons block 39 24 a b c d v60 v63 v62 v61 9 3951481745 21 v64 F4 E39
      rfl rfl rfl rfl rfl
  refine ⟨?_, fun k h1 h2 => ?_⟩
  · rw [R34]
    exact of_not_bne g35
  interval_cases k
  · rw [R48]
    exact parityRow_even 48 _ _ _ _ rfl (by decide) (by decide) (of_not_bne g48)
  · rw [R49]
    exact parityRow_odd 49 _ _ _ _ rfl (of_not_bne g49)
  · rw [R50]
    exact parityRow_flip 50 _ _ _ _ (by decide) (of_not_beq g50)
  · rw [R51]
    exact parityRow_odd 51 _ _ _ _ rfl (of_not_bne g51)
  · rw [R52]
    exact parityRow_even 52 _ _ _ _ rfl (by decide) (by decide) (of_not_bne g52)
  · rw [R53]
    exact parityRow_odd 53 _ _ _ _ rfl (of_not_bne g53)
  · rw [R54]
    exact parityRow_even 54 _ _ _ _ rfl (by decide) (by decide) (of_not_bne g54)
  · rw [R55]
    exact parityRow_odd 55 _ _ _ _ rfl (of_not_bne g55)
  · rw [R56]
    exact parityRow_even 56 _ _ _ _ rfl (by decide) (by decide) (of_not_bne g56)
  · rw [R57]
    exact parityRow_odd 57 _ _ _ _ rfl (of_not_bne g57)
  · rw [R58]
    exact parityRow_even 58 _ _ _ _ rfl (by decide) (by decide) (of_not_bne g58)
  · rw [R59]
    exact parityRow_odd 59 _ _ _ _ rfl (of_not_bne g59)
  · rw [R60]
    exact parityRow_flip 60 _ _ _ _ (by decide) (of_not_beq g60)
  · rw [R61]
    exact parityRow_odd 61 _ _ _ _ rfl (of_not_bne g61)
  · rw [R62]
    exact parityRow_even 62 _ _ _ _ rfl (by decide) (by decide) (of_not_bne g62)
  · rw [R63]
    exact parityRow_odd 63 _ _ _ _ rfl (of_not_bne g63)

theorem tail1_guards (block : Words 16) (a b c d : Nat) (r : Nat × Nat × Nat × Nat) :
    tail1 block a b c d = some r →
      preSum35 block (regsAfter block a b c d 34) &&& (1 <<< 15) ≠ 0 ∧
      ∀ k, 48 ≤ k → k ≤ 63 → parityRow k (regsAfter block a b c d k) := by
  unfold tail1
  lift_lets
  intro v25 v26 v27 v28 v29 v30 v31 v32 v33 v34 w35 x35 v35 v36 v37 v38 v39 v40 v41 v42 v43 v44
  intro v45 v46 v47 v48 v49 v50 v51 v52 v53 v54 v55 v56 v57 v58 v59 v60 v61 v62 v63 v64
  intro h
  obtain ⟨g35, h⟩ := ite_none_some_and h
  obtain ⟨g48, h⟩ := ite_none_some_and h
  obtain ⟨g49, h⟩ := ite_none_some_and h
  obtain ⟨g50, h⟩ := ite_none_some_and h
  obtain ⟨g51, h⟩ := ite_none_some_and h
  obtain ⟨g52, h⟩ := ite_none_some_and h
  obtain ⟨g53, h⟩ := ite_none_some_and h
  obtain ⟨g54, h⟩ := ite_none_some_and h
  obtain ⟨g55, h⟩ := ite_none_some_and h
  obtain ⟨g56, h⟩ := ite_none_some_and h
  obtain ⟨g57, h⟩ := ite_none_some_and h
  obtain ⟨g58, h⟩ := ite_none_some_and h
  obtain ⟨g59, h⟩ := ite_none_some_and h
  obtain ⟨g60, h⟩ := ite_none_some_and h
  obtain ⟨g61, h⟩ := ite_none_some_and h
  obtain ⟨g62, h⟩ := ite_none_some_and h
  obtain ⟨g63, h⟩ := ite_none_some_and h
  have E0 : md5Steps block 0 24 a b c d = (a, b, c, d) := rfl
  have E1 : md5Steps block 1 24 a b c d = (d, v25, b, c) :=
    md5Steps_snoc_cons block 0 24 a b c d a b c d 9 568446438 5 v25 F2 E0
      rfl rfl rfl rfl rfl
  have E2 : md5Steps block 2 24 a b c d = (c, v26, v25, b) :=
    md5Steps_snoc_cons block 1 24 a b c d d v25 b c 14 3275163606 9 v26 F2 E1
      rfl rfl rfl rfl rfl
  have E3 : md5Steps block 3 24 a b c d = (b, v27, v26, v25) :=
    md5Steps_snoc_cons block 2 24 a b c d c v26 v25 b 3 4107603335 14 v27 F2 E2
      rfl rfl rfl rfl rfl
  have E4 : md5Steps block 4 24 a b c d = (v25, v28, v27, v26) :=
    md5Steps_snoc_cons block 3 24 a b c d b v27 v26 v25 8 1163531501 20 v28 F2 E3
      rfl rfl rfl rfl rfl
  have E5 : md5Steps block 5 24 a b c d = (v26, v29, v28, v27) :=
    md5Steps_snoc_cons block 4 24 a b c d v25 v28 v27 v26 13 2850285829 5 v29 F2 E4
      rfl rfl rfl rfl rfl
  have E6 : md5Steps block 6 24 a b c d = (v27, v30, v29, v28) :=
    md5Steps_snoc_cons block 5 24 a b c d v26 v29 v28 v27 2 4243563512 9 v30 F2 E5
      rfl rfl rfl rfl rfl
  have E7 : md5Steps block 7 24 a b c d = (v28, v31, v30, v29) :=
    md5Steps_snoc_cons block 6 24 a b c d v27 v30 v29 v28 7 1735328473 14 v31 F2 E6
      rfl rfl rfl rfl rfl
  have E8 : md5Steps block 8 24 a b c d = (v29, v32, v31, v30) :=
    md5Steps_snoc_cons block 7 24 a b c d v28 v31 v30 v29 12 2368359562 20 v32 F2 E7
      rfl rfl rfl rfl rfl
  have E9 : md5Steps block 9 24 a b c d = (v30, v33, v32, v31) :=
    md5Steps_snoc_cons block 8 24 a b c d v29 v32 v31 v30 5 4294588738 4 v33 F3 E8
      rfl rfl rfl rfl rfl
  have E10 : md5Steps block 10 24 a b c d = (v31, v34, v33, v32) :=
    md5Steps_snoc_cons block 9 24 a b c d v30 v33 v32 v31 8 2272392833 11 v34 F3 E9
      rfl rfl rfl rfl rfl
  have R34 : regsAfter block a b c d 34 = (v33, v32, v31, v34) :=
    regsAfter_eq block a b c d 34 10 _ rfl E10
  have E11 : md5Steps block 11 24 a b c d = (v32, v35, v34, v33) :=
    md5Steps_snoc_cons block 10 24 a b c d v31 v34 v33 v32 11 1839030562 16 v35 F3 E10
      rfl rfl rfl rfl (manual_step35 _ _ _ _ _ _)
  have E12 : md5Steps block 12 24 a b c d = (v33, v36, v35, v34) :=
    md5Steps_snoc_cons block 11 24 a b c d v32 v35 v34 v33 14 4259657740 23 v36 F3 E11
      rfl rfl rfl rfl rfl
  have E13 : md5Steps block 13 24 a b c d = (v34, v37, v36, v35) :=
    md5Steps_snoc_cons block 12 24 a b c d v33 v36 v35 v34 1 2763975236 4 v37 F3 E12
      rfl rfl rfl rfl rfl
  have E14 : md5Steps block 14 24 a b c d = (v35, v38, v37, v36) :=
    md5Steps_snoc_cons block 13 24 a b c d v34 v37 v36 v35 4 1272893353 11 v38 F3 E13
      rfl rfl rfl rfl rfl
  have E15 : md5Steps block 15 24 a b c d = (v36, v39, v38, v37) :=
    md5Steps_snoc_cons block 14 24 a b c d v35 v38 v37 v36 7 4139469664 16 v39 F3 E14
      rfl rfl rfl rfl rfl
  have E16 : md5Steps block 16 24 a b c d = (v37, v40, v39, v38) :=
    md5Steps_snoc_cons block 15 24 a b c d v36 v39 v38 v37 10 3200236656 23 v40 F3 E15
      rfl rfl rfl rfl rfl
  have E17 : md5Steps block 17 24 a b c d = (v38, v41, v40, v39) :=
    md5Steps_snoc_cons block 16 24 a b c d v37 v40 v39 v38 13 681279174 4 v41 F3 E16
      rfl rfl rfl rfl rfl
  have E18 : md5Steps block 18 24 a b c d = (v39, v42, v41, v40) :=
    md5Steps_snoc_cons block 17 24 a b c d v38 v41 v40 v39 0 3936430074 11 v42 F3 E17
      rfl rfl rfl rfl rfl
  have E19 : md5Steps block 19 24 a b c d = (v40, v43, v42, v41) :=
    md5Steps_snoc_cons block 18 24 a b c d v39 v42 v41 v40 3 3572445317 16 v43 F3 E18
      rfl rfl rfl rfl rfl
  have E20 : md5Steps block 20 24 a b c d = (v41, v44, v43, v42) :=
    md5Steps_snoc_cons block 19 24 a b c d v40 v43 v42 v41 6 76029189 23 v44 F3 E19
      rfl rfl rfl rfl rfl
  have E21 : md5Steps block 21 24 a b c d = (v42, v45, v44, v43) :=
    md5Steps_snoc_cons block 20 24 a b c d v41 v44 v43 v42 9 3654602809 4 v45 F3 E20
      rfl rfl rfl rfl rfl
  have E22 : md5Steps block 22 24 a b c d = (v43, v46, v45, v44) :=
    md5Steps_snoc_cons block 21 24 a b c d v42 v45 v44 v43 12 3873151461 11 v46 F3 E21
      rfl rfl rfl rfl rfl
  have E23 : md5Steps block 23 24 a b c d = (v44, v47, v46, v45) :=
    md5Steps_snoc_cons block 22 24 a b c d v43 v46 v45 v44 15 530742520 16 v47 F3 E22
      rfl rfl rfl rfl rfl
  have E24 : md5Steps block 24 24 a b c d = (v45, v48, v47, v46) :=
    md5Steps_snoc_cons block 23 24 a b c d v44 v47 v46 v45 2 3299628645 23 v48 F3 E23
      rfl rfl rfl rfl rfl
  have R48 : regsAfter block a b c d 48 = (v45, v48, v47, v46) :=
    regsAfter_eq block a b c d 48 24 _ rfl E24
  have E25 : md5Steps block 25 24 a b c d = (v46, v49, v48, v47) :=
    md5Steps_snoc_cons block 24 24 a b c d v45 v48 v47 v46 0 4096336452 6 v49 F4 E24
      rfl rfl rfl rfl rfl
  have R49 : regsAfter block a b c d 49 = (v49, v48, v47, v46) :=
    regsAfter_eq block a b c d 49 25 _ rfl E25
  have E26 : md5Steps block 26 24 a b c d = (v47, v50, v49, v48) :=
    md5Steps_snoc_cons block 25 24 a b c d v46 v49 v48 v47 7 1126891415 10 v50 F4 E25
      rfl rfl rfl rfl rfl
  have R50 : regsAfter block a b c d 50 = (v49, v48, v47, v50) :=
    regsAfter_eq block a b c d 50 26 _ rfl E26
  have E27 : md5Steps block 27 24 a b c d = (v48, v51, v50, v49) :=
    md5Steps_snoc_cons block 26 24 a b c d v47 v50 v49 v48 14 2878612391 15 v51 F4 E26
      rfl rfl rfl rfl rfl
  have R51 : regsAfter block a b c d 51 = (v49, v48, v51, v50) :=
    regsAfter_eq block a b c d 51 27 _ rfl E27
  have E28 : md5Steps block 28 24 a b c d = (v49, v52, v51, v50) :=
    md5Steps_snoc_cons block 27 24 a b c d v48 v51 v50 v49 5 4237533241 21 v52 F4 E27
      rfl rfl rfl rfl rfl
  have R52 : regsAfter block a b c d 52 = (v49, v52, v51, v50) :=
    regsAfter_eq block a b c d 52 28 _ rfl E28
  have E29 : md5Steps block 29 24 a b c d = (v50, v53, v52, v51) :=
    md5Steps_snoc_cons block 28 24 a b c d v49 v52 v51 v50 12 1700485571 6 v53 F4 E28
      rfl rfl rfl rfl rfl
  have R53 : regsAfter block a b c d 53 = (v53, v52, v51, v50) :=
    regsAfter_eq block a b c d 53 29 _ rfl E29
  have E30 : md5Steps block 30 24 a b c d = (v51, v54, v53, v52) :=
    md5Steps_snoc_cons block 29 24 a b c d v50 v53 v52 v51 3 2399980690 10 v54 F4 E29
      rfl rfl rfl rfl rfl
  have R54 : regsAfter block a b c d 54 = (v53, v52, v51, v54) :=
    regsAfter_eq block a b c d 54 30 _ rfl E30
  have E31 : md5Steps block 31 24 a b c d = (v52, v55, v54, v53) :=
    md5Steps_snoc_cons block 30 24 a b c d v51 v54 v53 v52 10 4293915773 15 v55 F4 E30
      rfl rfl rfl rfl rfl
  have R55 : regsAfter block a b c d 55 = (v53, v52, v55, v54) :=
    regsAfter_eq block a b c d 55 31 _ rfl E31
  have E32 : md5Steps block 32 24 a b c d = (v53, v56, v55, v54) :=
    md5Steps_snoc_cons block 31 24 a b c d v52 v55 v54 v53 1 2240044497 21 v56 F4 E31
      rfl rfl rfl rfl rfl
  have R56 : regsAfter block a b c d 56 = (v53, v56, v55, v54) :=
    regsAfter_eq block a b c d 56 32 _ rfl E32
  have E33 : md5Steps block 33 24 a b c d = (v54, v57, v56, v55) :=
    md5Steps_snoc_cons block 32 24 a b c d v53 v56 v55 v54 8 1873313359 6 v57 F4 E32
      rfl rfl rfl rfl rfl
  have R57 : regsAfter block a b c d 57 = (v57, v56, v55, v54) :=
    regsAfter_eq block a b c d 57 33 _ rfl E33
  have E34 : md5Steps block 34 24 a b c d = (v55, v58, v57, v56) :=
    md5Steps_snoc_cons block 33 24 a b c d v54 v57 v56 v55 15 4264355552 10 v58 F4 E33
      rfl rfl rfl rfl rfl
  have R58 : regsAfter block a b c d 58 = (v57, v56, v55, v58) :=
    regsAfter_eq block a b c d 58 34 _ rfl E34
  have E35 : md5Steps block 35 24 a b c d = (v56, v59, v58, v57) :=
    md5Steps_snoc_cons block 34 24 a b c d v55 v58 v57 v56 6 2734768916 15 v59 F4 E34
      rfl rfl rfl rfl rfl
  have R59 : regsAfter block a b c d 59 = (v57, v56, v59, v58) :=
    regsAfter_eq block a b c d 59 35 _ rfl E35
  have E36 : md5Steps block 36 24 a b c d = (v57, v60, v59, v58) :=
    md5Steps_snoc_cons block 35 24 a b c d v56 v59 v58 v57 13 1309151649 21 v60 F4 E35
      rfl rfl rfl rfl rfl
  have R60 : regsAfter block a b c d 60 = (v57, v60, v59, v58) :=
    regsAfter_eq block a b c d 60 36 _ rfl E36
  have E37 : md5Steps block 37 24 a b c d = (v58, v61, v60, v59) :=
    md5Steps_snoc_cons block 36 24 a b c d v57 v60 v59 v58 4 4149444226 6 v61 F4 E36
      rfl rfl rfl rfl rfl
  have R61 : regsAfter block a b c d 61 = (v61, v60, v59, v58) :=
    regsAfter_eq block a b c d 61 37 _ rfl E37
  have E38 : md5Steps block 38 24 a b c d = (v59, v62, v61, v60) :=
    md5Steps_snoc_cons block 37 24 a b c d v58 v61 v60 v59 11 3174756917 10 v62 F4 E37
      rfl rfl rfl rfl rfl
  have R62 : regsAfter block a b c d 62 = (v61, v60, v59, v62) :=
    regsAfter_eq block a b c d 62 38 _ rfl E38
  have E39 : md5Steps block 39 24 a b c d = (v60, v63, v62, v61) :=
    md5Steps_snoc_cons block 38 24 a b c d v59 v62 v61 v60 2 718787259 15 v63 F4 E38
      rfl rfl rfl rfl rfl
  have R63 : regsAfter block a b c d 63 = (v61, v60, v63, v62) :=
    regsAfter_eq block a b c d 63 39 _ rfl E39
  have E40 : md5Steps block 40 24 a b c d = (v61, v64, v63, v62) :=
    md5Steps_snoc_cons block 39 24 a b c d v60 v63 v62 v61 9 3951481745 21 v64 F4 E39
      rfl rfl rfl rfl rfl
  refine ⟨?_, fun k h1 h2 => ?_⟩
  · rw [R34]
    exact of_not_beq g35
  interval_cases k
  · rw [R48]
    exact parityRow_even 48 _ _ _ _ rfl (by decide) (by decide) (of_not_bne g48)
  · rw [R49]
    exact parityRow_odd 49 _ _ _ _ rfl (of_not_bne g49)
  · rw [R50]
    exact parityRow_flip 50 _ _ _ _ (by decide) (of_not_beq g50)
  · rw [R51]
    exact parityRow_odd 51 _ _ _ _ rfl (of_not_bne g51)
  · rw [R52]
    exact parityRow_even 52 _ _ _ _ rfl (by decide) (by decide) (of_not_bne g52)
  · rw [R53]
    exact parityRow_odd 53 _ _ _ _ rfl (of_not_bne g53)
  · rw [R54]
    exact parityRow_even 54 _ _ _ _ rfl (by decide) (by decide) (of_not_bne g54)
  · rw [R55]
    exact parityRow_odd 55 _ _ _ _ rfl (of_not_bne g55)
  · rw [R56]
    exact parityRow_even 56 _ _ _ _ rfl (by decide) (by decide) (of_not_bne g56)
  · rw [R57]
    exact parityRow_odd 57 _ _ _ _ rfl (of_not_bne g57)
  · rw [R58]
    exact parityRow_even 58 _ _ _ _ rfl (by decide) (by decide) (of_not_bne g58)
  · rw [R59]
    exact parityRow_odd 59 _ _ _ _ rfl (of_not_bne g59)
  · rw [R60]
    exact parityRow_flip 60 _ _ _ _ (by decide) (of_not_beq g60)
  · rw [R61]
    exact parityRow_odd 61 _ _ _ _ rfl (of_not_bne g61)
  · rw [R62]
    exact parityRow_even 62 _ _ _ _ rfl (by decide) (by decide) (of_not_bne g62)
  · rw [R63]
    exact parityRow_odd 63 _ _ _ _ rfl (of_not_bne g63)


/-! ## What the inner loops leave unchanged -/

theorem q9body0_frame (asserts : Bool) (Compress : Words 4 → Words 16 → Words 4)
    (iv : Words 4) (badchars : Option (List Nat)) (P : St 28 → Prop)
    (hQ : ∀ s v, P s → P (s.setQ 9 v))
    (hB : ∀ s i v, (i = 8 ∨ i = 9 ∨ i = 12) → P s → P (s.setB i v))
    (p8 p9 p12 q9base i : Nat) (s : St 28) (hs : P s) :
    (q9body0 asserts Compress iv badchars p8 p9 p12 q9base i s).Sat P (fun r => P r.st) := by
  unfold q9body0
  lift_lets
  intro s1 s2 s3 s4
  have h1 : P s1 := hQ _ _ hs
  have h2 : P s2 := hB _ 8 _ (by simp) h1
  have h3 : P s3 := hB _ 9 _ (by simp) h2
  have h4 : P s4 := hB _ 12 _ (by simp) h3
  split_ifs
  all_goals first
    | trivial
    | exact h2
    | exact h3
    | exact h4
    | (split
       · exact h4
       · exact finish0_keeps asserts Compress iv _ s4 _ _ _ _ h4)

theorem q4body0_frame (asserts : Bool) (Compress : Words 4 → Words 16 → Words 4)
    (iv : Words 4) (badchars : Option (List Nat)) (P : St 28 → Prop)
    (hQ : ∀ s n v, (n = 4 ∨ n = 9 ∨ n = 24) → P s → P (s.setQ n v))
    (hB : ∀ s i v, (i = 3 ∨ i = 4 ∨ i = 7 ∨ i = 8 ∨ i = 9 ∨ i = 12) → P s → P (s.setB i v))
    (p8 p9 p12 q9base i : Nat) (s : St 28) (hs : P s) :
    (q4body0 asserts Compress iv badchars p8 p9 p12 q9base i s).Sat P (fun r => P r.st) := by
  unfold q4body0
  lift_lets
  intro s1 s2 s3 s4 s5
  have h1 : P s1 := hQ _ 4 _ (by simp) hs
  have h2 : P s2 := hB _ 3 _ (by simp) h1
  have h3 : P s3 := hB _ 4 _ (by simp) h2
  have h4 : P s4 := hB _ 7 _ (by simp) h3
  have h5 : P s5 := hQ _ 24 _ (by simp) h4
  split_ifs
  all_goals first
    | trivial
    | exact h2
    | exact h3
    | exact h4
    | exact h5
    | exact forLoop_sat
        (q9body0 asserts Compress iv badchars p8 p9 p12 q9base) P (fun r => P r.st)
        (fun j t ht => q9body0_frame asserts Compress iv badchars P
          (fun s v h => hQ s 9 v (by simp) h)
          (fun s i v hi h => hB s i v (by omega) h) p8 p9 p12 q9base j t ht)
        65536 0 s5 h5

theorem outerBody0_of_q10 (asserts : Bool) (Compress : Words 4 → Words 16 → Words 4)
    (iv : Words 4) (badchars : Option (List Nat)) (Post : Ret 28 → Prop)
    (h10 : ∀ i s, (q10body0 asserts Compress iv badchars i s).Sat (fun _ => True) Post)
    (s : St 28) :
    (outerBody0 asserts Compress iv badchars s).Sat (fun _ => True) Post := by
  unfold outerBody0
  lift_lets
  intro s1 s2 s3 s4 s5 s6
  split_ifs
  all_goals first
    | trivial
    | (split
       · trivial
       · exact forLoop_sat (q10body0 asserts Compress iv badchars) (fun _ => True) Post
           (fun j t _ => h10 j t) _ _ _ trivial
       · trivial)

theorem MD5CollideBlock0Run_of_q10 (asserts : Bool)
    (Compress : Words 4 → Words 16 → Words 4) (iv : Words 4) (badchars : Option (List Nat))
    (Post : Ret 28 → Prop)
    (h10 : ∀ i s, (q10body0 asserts Compress iv badchars i s).Sat (fun _ => True) Post)
    (time : Nat) (block0 : Words 16) (fuel : Nat) (r : Ret 28)
    (h : MD5CollideBlock0Run asserts Compress iv badchars time block0 fuel = Outcome.returned r) :
    Post r :=
  whileLoop_sat (outerBody0 asserts Compress iv badchars) (fun _ => True) Post
    (fun s _ => outerBody0_of_q10 asserts Compress iv badchars Post h10 s) fuel _ r trivial h

/-! ## The carry bit of step 23, first block -/

theorem carry0_setQ (s : St 28) (n v : Nat) (hn : n = 4 ∨ n = 9 ∨ n = 24)
    (h : preSum23 (s.q 19) (s.q 22) (s.q 21) (s.q 20) (s.b 15) &&& (1 <<< 17) = 0) :
    preSum23 ((s.setQ n v).q 19) ((s.setQ n v).q 22) ((s.setQ n v).q 21) ((s.setQ n v).q 20)
      ((s.setQ n v).b 15) &&& (1 <<< 17) = 0 := by
  have e : ∀ j, j = 19 ∨ j = 20 ∨ j = 21 ∨ j = 22 → (s.setQ n v).q j = s.q j := by
    intro j hj
    exact Words.get_set_ne _ _ (by omega)
  rw [e 19 (by simp), e 20 (by simp), e 21 (by simp), e 22 (by simp)]
  exact h

theorem carry0_setB (s : St 28) (i v : Nat)
    (hi : i = 3 ∨ i = 4 ∨ i = 7 ∨ i = 8 ∨ i = 9 ∨ i = 12)
    (h : preSum23 (s.q 19) (s.q 22) (s.q 21) (s.q 20) (s.b 15) &&& (1 <<< 17) = 0) :
    preSum23 ((s.setB i v).q 19) ((s.setB i v).q 22) ((s.setB i v).q 21) ((s.setB i v).q 20)
      ((s.setB i v).b 15) &&& (1 <<< 17) = 0 := by
  have e : (s.setB i v).b 15 = s.b 15 := Words.get_set_ne _ _ (by omega)
  rw [e]
  exact h

theorem q10body0_carry (asserts : Bool) (Compress : Words 4 → Words 16 → Words 4)
    (iv : Words 4) (badchars : Option (List Nat)) (i : Nat) (s : St 28) :
    (q10body0 asserts Compress iv badchars i s).Sat (fun _ => True) (fun r =>
      preSum23 (r.st.q 19) (r.st.q 22) (r.st.q 21) (r.st.q 20) (r.st.b 15) &&& (1 <<< 17)
        = 0) := by
  unfold q10body0
  lift_lets
  intro s1 s2 s3 s4 s5 s6 t1 t2 t3 p8 p9 p12 q9base
  split_ifs with b10 a11 b13 c22 c23 c17 at23
  · trivial
  · trivial
  · trivial
  · trivial
  · trivial
  · trivial
  · trivial
  · have h6 : preSum23 (s6.q 19) (s6.q 22) (s6.q 21) (s6.q 20) (s6.b 15) &&& (1 <<< 17) = 0 := by
      unfold preSum23
      exact of_not_bne c17
    exact (forLoop_sat
      (q4body0 asserts Compress iv badchars p8 p9 p12 q9base)
      (fun s => preSum23 (s.q 19) (s.q 22) (s.q 21) (s.q 20) (s.b 15) &&& (1 <<< 17) = 0)
      (fun r => preSum23 (r.st.q 19) (r.st.q 22) (r.st.q 21) (r.st.q 20) (r.st.b 15)
        &&& (1 <<< 17) = 0)
      (fun j t ht => q4body0_frame asserts Compress iv badchars _
        carry0_setQ carry0_setB p8 p9 p12 q9base j t ht)
      16 0 s6 h6).mono (fun _ _ => trivial) (fun _ h => h)

/-! ## The value of `Q[4]` in the loop over `q4ctr` -/

theorem q4body0_tunnel (asserts : Bool) (Compress : Words 4 → Words 16 → Words 4)
    (iv : Words 4) (badchars : Option (List Nat)) (p8 p9 p12 q9base i : Nat) (s : St 28) :
    (q4body0 asserts Compress iv badchars p8 p9 p12 q9base i s).Sat
      (fun t => t.q 4 = tunnel4 (s.q 4) i) (fun r => r.st.q 4 = tunnel4 (s.q 4) i) := by
  unfold q4body0
  lift_lets
  intro s1 s2 s3 s4 s5
  have h1 : s1.q 4 = tunnel4 (s.q 4) i := by
    unfold tunnel4
    exact Words.get_set_eq _ _ (by decide)
  have h2 : s2.q 4 = tunnel4 (s.q 4) i := h1
  have h3 : s3.q 4 = tunnel4 (s.q 4) i := h2
  have h4 : s4.q 4 = tunnel4 (s.q 4) i := h3
  have h5 : s5.q 4 = tunnel4 (s.q 4) i := by
    have e : s5.q 4 = s4.q 4 := Words.get_set_ne _ _ (by decide)
    rw [e]
    exact h4
  split_ifs
  all_goals first
    | trivial
    | exact h2
    | exact h3
    | exact h4
    | exact h5
    | exact forLoop_sat
        (q9body0 asserts Compress iv badchars p8 p9 p12 q9base)
        (fun t => t.q 4 = tunnel4 (s.q 4) i) (fun r => r.st.q 4 = tunnel4 (s.q 4) i)
        (fun j t ht => q9body0_frame asserts Compress iv badchars
          (fun t => t.q 4 = tunnel4 (s.q 4) i)
          (fun u v h => by
            have e : (u.setQ 9 v).q 4 = u.q 4 := Words.get_set_ne _ _ (by decide)
            show (u.setQ 9 v).q 4 = tunnel4 (s.q 4) i
            rw [e]
            exact h)
          (fun u k v _ h => h) p8 p9 p12 q9base j t ht)
        65536 0 s5 h5

/-! ## The carry bit of step 23, second block -/

theorem q9body1_frame (asserts : Bool) (Compress : Words 4 → Words 16 → Words 4)
    (iv : Words 4) (badchars : Option (List Nat)) (P : St 25 → Prop)
    (hQ : ∀ s v, P s → P (s.setQ 9 v))
    (hB : ∀ s i v, (i = 8 ∨ i = 9 ∨ i = 12) → P s → P (s.setB i v))
    (q9m9bits : List Nat) (a2 b2 c2 d2 q9save i : Nat) (s : St 25) (hs : P s) :
    (q9body1 asserts Compress iv badchars q9m9bits a2 b2 c2 d2 q9save i s).Sat P
      (fun r => P r.st ∧ r.a2 = a2 ∧ r.b2 = b2 ∧ r.c2 = c2 ∧ r.d2 = d2) := by
  unfold q9body1
  lift_lets
  intro s1 s2 s3 s4
  have h1 : P s1 := hQ _ _ hs
  have h2 : P s2 := hB _ 8 _ (by simp) h1
  have h3 : P s3 := hB _ 9 _ (by simp) h2
  have h4 : P s4 := hB _ 12 _ (by simp) h3
  split_ifs
  all_goals first
    | trivial
    | exact h2
    | exact h3
    | exact h4
    | (split
       · exact h4
       · exact finish1_keeps asserts Compress iv _ s4 _ _ _ _ _ _ _ _ h4)

theorem outerBody1_of_q10 (asserts : Bool) (Compress : Words 4 → Words 16 → Words 4)
    (iv : Words 4) (badchars : Option (List Nat)) (Post : Ret1 → Prop)
    (qc : List qcond) (m9mask m9m10mask : Nat) (q9m9bits q9q10bits : List Nat) (num : Nat)
    (h10 : ∀ q9base q10base i s,
      (q10body1 asserts Compress iv badchars qc q9m9bits q9q10bits q9base q10base i s).Sat
        (fun _ => True) Post)
    (s : St 25) :
    (outerBody1 asserts Compress iv badchars qc m9mask m9m10mask q9m9bits q9q10bits num s).Sat
      (fun _ => True) Post := by
  have ht : ∀ t, (tunnels1 asserts Compress iv badchars qc m9mask m9m10mask q9m9bits q9q10bits
      num t).Sat (fun _ => True) Post := by
    intro t
    unfold tunnels1
    lift_lets
    intro q9base q10base
    split_ifs
    all_goals first
      | trivial
      | exact forLoop_sat
          (q10body1 asserts Compress iv badchars qc q9m9bits q9q10bits q9base q10base)
          (fun _ => True) Post (fun j u _ => h10 q9base q10base j u) _ _ _ trivial
  unfold outerBody1
  lift_lets
  intro s1 s2 s3 s4 s5 s6 s7 s8
  split_ifs
  all_goals first
    | trivial
    | (split
       · trivial
       · exact ht _
       · trivial)

theorem MD5CollideBlock1Run_of_q10 (asserts : Bool)
    (Compress : Words 4 → Words 16 → Words 4) (iv : Words 4) (badchars : Option (List Nat))
    (Post : Ret1 → Prop)
    (h10 : ∀ qc q9m9bits q9q10bits q9base q10base i s,
      (q10body1 asserts Compress iv badchars qc q9m9bits q9q10bits q9base q10base i s).Sat
        (fun _ => True) Post)
    (time : Nat) (block0 : Words 16) (fuel : Nat) (r : Ret1)
    (h : MD5CollideBlock1Run asserts Compress iv badchars time block0 fuel = Outcome.returned r) :
    Post r := by
  have hp := pathOf_lt iv
  have h9 := m9loop_returns asserts (pathOf iv) hp
  have h10' := m10loop_returns asserts (pathOf iv) hp
  unfold MD5CollideBlock1Run at h
  rw [h9, h10'] at h
  exact whileLoop_sat _ (fun _ => True) Post
    (fun s _ => outerBody1_of_q10 asserts Compress iv badchars Post _ _ _ _ _ _
      (h10 _ _ _) s)
    fuel _ r trivial h

theorem carry1_setQ (d2 : Nat) (s : St 25) (v : Nat)
    (h : preSum23 (s.q 19) d2 (s.q 21) (s.q 20) (s.b 15) &&& (1 <<< 17) ≠ 0) :
    preSum23 ((s.setQ 9 v).q 19) d2 ((s.setQ 9 v).q 21) ((s.setQ 9 v).q 20)
      ((s.setQ 9 v).b 15) &&& (1 <<< 17) ≠ 0 := by
  have e : ∀ j, j = 19 ∨ j = 20 ∨ j = 21 → (s.setQ 9 v).q j = s.q j := by
    intro j hj
    exact Words.get_set_ne _ _ (by omega)
  rw [e 19 (by simp), e 20 (by simp), e 21 (by simp)]
  exact h

theorem carry1_setB (d2 : Nat) (s : St 25) (i v : Nat) (hi : i = 8 ∨ i = 9 ∨ i = 12 ∨ i = 13)
    (h : preSum23 (s.q 19) d2 (s.q 21) (s.q 20) (s.b 15) &&& (1 <<< 17) ≠ 0) :
    preSum23 ((s.setB i v).q 19) d2 ((s.setB i v).q 21) ((s.setB i v).q 20)
      ((s.setB i v).b 15) &&& (1 <<< 17) ≠ 0 := by
  have e : (s.setB i v).b 15 = s.b 15 := Words.get_set_ne _ _ (by omega)
  rw [e]
  exact h

theorem q10body1_carry (asserts : Bool) (Compress : Words 4 → Words 16 → Words 4)
    (iv : Words 4) (badchars : Option (List Nat)) (qc : List qcond)
    (q9m9bits q9q10bits : List Nat) (q9base q10base i : Nat) (s : St 25) :
    (q10body1 asserts Compress iv badchars qc q9m9bits q9q10bits q9base q10base i s).Sat
      (fun _ => True) (fun r =>
        preSum23 (r.st.q 19) r.d2 (r.st.q 21) (r.st.q 20) (r.st.b 15) &&& (1 <<< 17) ≠ 0) := by
  unfold q10body1
  lift_lets
  intro s1 q9save s2 s3 a2 b2 c2 d2 d2a c2a c2b c2c b2a s4
  split_ifs with b10 a11 c22 c17 c23 c24 b13
  · trivial
  · trivial
  · trivial
  · trivial
  · trivial
  · trivial
  · trivial
  · have h3 : preSum23 (s3.q 19) d2a (s3.q 21) (s3.q 20) (s3.b 15) &&& (1 <<< 17) ≠ 0 := by
      unfold preSum23
      exact of_not_beq c17
    have h4 : preSum23 (s4.q 19) d2a (s4.q 21) (s4.q 20) (s4.b 15) &&& (1 <<< 17) ≠ 0 :=
      carry1_setB d2a s3 13 _ (by simp) h3
    exact (forLoop_sat
      (q9body1 asserts Compress iv badchars q9m9bits a2 b2a c2c d2a q9save)
      (fun s => preSum23 (s.q 19) d2a (s.q 21) (s.q 20) (s.b 15) &&& (1 <<< 17) ≠ 0)
      (fun r => preSum23 (r.st.q 19) d2a (r.st.q 21) (r.st.q 20) (r.st.b 15) &&& (1 <<< 17) ≠ 0
        ∧ r.a2 = a2 ∧ r.b2 = b2a ∧ r.c2 = c2c ∧ r.d2 = d2a)
      (fun j t ht => q9body1_frame asserts Compress iv badchars _
        (carry1_setQ d2a) (fun s i v hi h => carry1_setB d2a s i v (by omega) h)
        q9m9bits a2 b2a c2c d2a q9save j t ht)
      512 0 s4 h4).mono (fun _ _ => trivial) (fun r h => by
        have e : r.d2 = d2a := h.2.2.2.2
        rw [e]
        exact h.1)

/-! ## The registers of steps 25 to 64 -/

theorem unrotate_zero (t : Nat × Nat × Nat × Nat) : unrotate 0 t = t := by
  obtain ⟨w, x, y, z⟩ := t
  rfl

theorem regsAfter_64 (block : Words 16) (a b c d : Nat) :
    regsAfter block a b c d 64 = md5Steps block 40 24 a b c d := by
  unfold regsAfter
  exact unrotate_zero _

theorem regsAfter_rotation (block : Words 16) (a b c d k j : Nat) (hk : 25 ≤ k)
    (hj4 : j < 4) (hj : j ≠ regWritten k) :
    regOf (regsAfter block a b c d k) j = regOf (regsAfter block a b c d (k - 1)) j := by
  obtain ⟨n, rfl⟩ : ∃ n, k = n + 25 := ⟨k - 25, by omega⟩
  unfold regsAfter
  rcases ht : md5Steps block n 24 a b c d with ⟨w, x, y, z⟩
  have e1 : n + 25 - 24 = n + 1 := by omega
  have e2 : n + 25 - 1 - 24 = n := by omega
  rw [e1, e2, md5Steps_snoc block n 24 a b c d w x y z ht, ht]
  unfold regWritten at hj
  have h4 : n % 4 = 0 ∨ n % 4 = 1 ∨ n % 4 = 2 ∨ n % 4 = 3 := by omega
  rcases h4 with h | h | h | h
  · have m1 : (n + 25) % 4 = 1 := by omega
    have m2 : (n + 25 - 1) % 4 = 0 := by omega
    rw [m1] at hj
    rw [m1, m2]
    interval_cases j <;> first | rfl | exact absurd rfl hj
  · have m1 : (n + 25) % 4 = 2 := by omega
    have m2 : (n + 25 - 1) % 4 = 1 := by omega
    rw [m1] at hj
    rw [m1, m2]
    interval_cases j <;> first | rfl | exact absurd rfl hj
  · have m1 : (n + 25) % 4 = 3 := by omega
    have m2 : (n + 25 - 1) % 4 = 2 := by omega
    rw [m1] at hj
    rw [m1, m2]
    interval_cases j <;> first | rfl | exact absurd rfl hj
  · have m1 : (n + 25) % 4 = 0 := by omega
    have m2 : (n + 25 - 1) % 4 = 3 := by omega
    rw [m1] at hj
    rw [m1, m2]
    interval_cases j <;> first | rfl | exact absurd rfl hj

theorem bit_clear_iff (x k : Nat) : x &&& (1 <<< k) = 0 ↔ x.testBit k = false := by
  rw [Nat.one_shiftLeft, Nat.and_two_pow]
  cases x.testBit k
  · simp
  · simp

theorem bit_set_iff (x k : Nat) : x &&& (1 <<< k) ≠ 0 ↔ x.testBit k = true := by
  rw [Nat.one_shiftLeft, Nat.and_two_pow]
  cases x.testBit k
  · simp
  · simp

/-- C22.  Round-4 sign guards.  In both engines the steps 25 to 64 (`tail0`, `tail1`) hand
registers to the output check and the final verification only if the registers
recomputed for the block satisfy, after step 48 and after every step 49..63, the row of
the parity table for that step (`parityRow`): `(a ^ c) & 2^31 = 0` after every step that
writes `a` or `c`, `(d ^ b) & 2^31 = 0` after steps 48, 52, 54, 56, 58, 62 and
`(d ^ b) & 2^31 != 0` after steps 50 and 60.  `regsAfter` are the registers of MD5 under
the names of the source: step `k` writes the register `regWritten k` (`a, d, c, b` in
rotation) and leaves the three others, and the registers after step 64 are the result.
The same table holds for `tail0` and `tail1`, and so at every return of
`MD5CollideBlock0` and of `MD5CollideBlock1`. -/
theorem round4_sign_guards (asserts : Bool) (Compress : Words 4 → Words 16 → Words 4)
    (iv : Words 4) (badchars : Option (List Nat)) (time : Nat) (block0 : Words 16)
    (fuel : Nat) :
    (∀ block a b c d r, tail0 block a b c d = some r →
      regsAfter block a b c d 64 = r ∧
      ∀ k, 48 ≤ k → k ≤ 63 → parityRow k (regsAfter block a b c d k)) ∧
    (∀ block a b c d r, tail1 block a b c d = some r →
      regsAfter block a b c d 64 = r ∧
      ∀ k, 48 ≤ k → k ≤ 63 → parityRow k (regsAfter block a b c d k)) ∧
    (∀ block a b c d k j, 25 ≤ k → j < 4 → j ≠ regWritten k →
      regOf (regsAfter block a b c d k) j = regOf (regsAfter block a b c d (k - 1)) j) ∧
    (∀ k, 49 ≤ k → k ≤ 63 →
      regWritten k = (if k % 4 = 1 then 0 else if k % 4 = 2 then 3 else if k % 4 = 3 then 2
        else 1)) ∧
    (∀ r, MD5CollideBlock0Run asserts Compress iv badchars time block0 fuel
        = Outcome.returned r →
      regsAfter r.st.block (r.st.q 21) (r.st.q 24) (r.st.q 23) (r.st.q 22) 64
        = (r.a, r.b, r.c, r.d) ∧
      ∀ k, 48 ≤ k → k ≤ 63 →
        parityRow k (regsAfter r.st.block (r.st.q 21) (r.st.q 24) (r.st.q 23) (r.st.q 22) k)) ∧
    (∀ r, MD5CollideBlock1Run asserts Compress iv badchars time block0 fuel
        = Outcome.returned r →
      regsAfter r.st.block r.a2 r.b2 r.c2 r.d2 64 = (r.a, r.b, r.c, r.d) ∧
      ∀ k, 48 ≤ k → k ≤ 63 → parityRow k (regsAfter r.st.block r.a2 r.b2 r.c2 r.d2 k)) := by
  have t0 : ∀ block a b c d r, tail0 block a b c d = some r →
      regsAfter block a b c d 64 = r ∧
      ∀ k, 48 ≤ k → k ≤ 63 → parityRow k (regsAfter block a b c d k) := by
    intro block a b c d r h
    refine ⟨?_, (tail0_guards block a b c d r h).2⟩
    rw [regsAfter_64]
    exact tail0_md5 block a b c d r h
  have t1 : ∀ block a b c d r, tail1 block a b c d = some r →
      regsAfter block a b c d 64 = r ∧
      ∀ k, 48 ≤ k → k ≤ 63 → parityRow k (regsAfter block a b c d k) := by
    intro block a b c d r h
    refine ⟨?_, (tail1_guards block a b c d r h).2⟩
    rw [regsAfter_64]
    exact tail1_md5 block a b c d r h
  refine ⟨t0, t1, fun block a b c d k j hk hj4 hj => regsAfter_rotation block a b c d k j hk hj4 hj,
    ?_, ?_, ?_⟩
  · intro k h1 h2
    interval_cases k <;> rfl
  · intro r hr
    have hp := MD5CollideBlock0Run_full asserts Compress iv badchars time block0 fuel
    rw [hr] at hp
    exact t0 _ _ _ _ _ _ hp.2
  · intro r hr
    have hp := MD5CollideBlock1Run_full asserts Compress iv badchars time block0 fuel
    rw [hr] at hp
    exact t1 _ _ _ _ _ _ hp.2.2

/-- Witness of C22 on the run `run0_example`: the row of step 50 of the parity table. -/
theorem round4_sign_guards_witness :
    MD5CollideBlock0Run true MD5Transform stdIV (some unclean_map) 1612755449 zeroBlock 1
      = Outcome.returned exRet0 ∧
    parityRow 50 (regsAfter exRet0.st.block (exRet0.st.q 21) (exRet0.st.q 24)
      (exRet0.st.q 23) (exRet0.st.q 22) 50) :=
  ⟨run0_example,
    ((round4_sign_guards true MD5Transform stdIV (some unclean_map) 1612755449 zeroBlock
      1).2.2.2.2.1 exRet0 run0_example).2 50 (by decide) (by decide)⟩

/-- C23.  Carry-control bits.  The manual expansions of steps 23 and 35 compute the same
register value as `MD5STEP` with the shifts 14 and 16.  Steps 25 to 64 hand registers to
the final verification only if bit 15 of the pre-rotate sum of step 35
(`c + (F3(d, a, b) + block[11] + 0x6d9d6122)`) is 0 in the first block and 1 in the second
block.  At every return of `MD5CollideBlock0` bit 17 of the pre-rotate sum of step 23
(`Q[19] + F2(Q[22], Q[21], Q[20]) + block[15] + 0xd8a1e681`) is 0, bit 15 of the
pre-rotate sum of step 35 is 0, and `Q[23]` is the value of the manual expansion (the
asserted `Q[23] == t`); at every return of `MD5CollideBlock1` bit 17 of the pre-rotate sum
of step 23 (`c2 + F2(d2, a2, b2) + block[15] + 0xd8a1e681`) is 1, bit 15 of the
pre-rotate sum of step 35 is 1, and the register `c2` is the value of step 23. -/
theorem carry_control_bits (asserts : Bool) (Compress : Words 4 → Words 16 → Words 4)
    (iv : Words 4) (badchars : Option (List Nat)) (time : Nat) (block0 : Words 16)
    (fuel : Nat) :
    (∀ w x y z data k,
      add32 (shl32 (add32 (add32 (add32 w (F2 x y z)) data) k) 14 |||
        (add32 (add32 (add32 w (F2 x y z)) data) k >>> (32 - 14))) x
        = MD5STEP F2 w x y z (add32 data k) 14) ∧
    (∀ c d a b w k,
      add32 (shl32 (add32 c (add32 (add32 (F3 d a b) w) k)) 16 |||
        (add32 c (add32 (add32 (F3 d a b) w) k) >>> 16)) d
        = MD5STEP F3 c d a b (add32 w k) 16) ∧
    (∀ block a b c d r, tail0 block a b c d = some r →
      preSum35 block (regsAfter block a b c d 34) &&& (1 <<< 15) = 0 ∧
      (preSum35 block (regsAfter block a b c d 34)).testBit 15 = false) ∧
    (∀ block a b c d r, tail1 block a b c d = some r →
      preSum35 block (regsAfter block a b c d 34) &&& (1 <<< 15) ≠ 0 ∧
      (preSum35 block (regsAfter block a b c d 34)).testBit 15 = true) ∧
    (∀ r, MD5CollideBlock0Run asserts Compress iv badchars time block0 fuel
        = Outcome.returned r →
      (preSum23 (r.st.q 19) (r.st.q 22) (r.st.q 21) (r.st.q 20) (r.st.b 15)).testBit 17
        = false ∧
      r.st.q 23
        = add32 (shl32 (preSum23 (r.st.q 19) (r.st.q 22) (r.st.q 21) (r.st.q 20) (r.st.b 15))
            14 |||
          (preSum23 (r.st.q 19) (r.st.q 22) (r.st.q 21) (r.st.q 20) (r.st.b 15) >>> (32 - 14)))
          (r.st.q 22) ∧
      (preSum35 r.st.block
        (regsAfter r.st.block (r.st.q 21) (r.st.q 24) (r.st.q 23) (r.st.q 22) 34)).testBit 15
        = false) ∧
    (∀ r, MD5CollideBlock1Run asserts Compress iv badchars time block0 fuel
        = Outcome.returned r →
      (preSum23 (r.st.q 19) r.d2 (r.st.q 21) (r.st.q 20) (r.st.b 15)).testBit 17 = true ∧
      r.c2
        = add32 (shl32 (preSum23 (r.st.q 19) r.d2 (r.st.q 21) (r.st.q 20) (r.st.b 15)) 14 |||
          (preSum23 (r.st.q 19) r.d2 (r.st.q 21) (r.st.q 20) (r.st.b 15) >>> (32 - 14)))
          r.d2 ∧
      (preSum35 r.st.block (regsAfter r.st.block r.a2 r.b2 r.c2 r.d2 34)).testBit 15
        = true) := by
  have t0 : ∀ block a b c d r, tail0 block a b c d = some r →
      preSum35 block (regsAfter block a b c d 34) &&& (1 <<< 15) = 0 ∧
      (preSum35 block (regsAfter block a b c d 34)).testBit 15 = false := by
    intro block a b c d r h
    have g := (tail0_guards block a b c d r h).1
    exact ⟨g, (bit_clear_iff _ _).1 g⟩
  have t1 : ∀ block a b c d r, tail1 block a b c d = some r →
      preSum35 block (regsAfter block a b c d 34) &&& (1 <<< 15) ≠ 0 ∧
      (preSum35 block (regsAfter block a b c d 34)).testBit 15 = true := by
    intro block a b c d r h
    have g := (tail1_guards block a b c d r h).1
    exact ⟨g, (bit_set_iff _ _).1 g⟩
  refine ⟨manual_step23, manual_step35, t0, t1, ?_, ?_⟩
  · intro r hr
    have hp := MD5CollideBlock0Run_full asserts Compress iv badchars time block0 fuel
    rw [hr] at hp
    have hc := MD5CollideBlock0Run_of_q10 asserts Compress iv badchars _
      (q10body0_carry asserts Compress iv badchars) time block0 fuel r hr
    simp only [] at hc
    refine ⟨(bit_clear_iff _ _).1 hc, ?_, (t0 _ _ _ _ _ _ hp.2).2⟩
    have f := hp.1.fwd 22 (by simp)
    unfold Fwd at f
    rw [show md5F 22 = F2 from rfl, show md5G 22 = 15 from rfl,
      show md5K.getD 22 0 = 0xd8a1e681 from rfl, show md5S.getD 22 0 = 14 from rfl] at f
    unfold preSum23
    rw [manual_step23]
    exact f
  · intro r hr
    have hp := MD5CollideBlock1Run_full asserts Compress iv badchars time block0 fuel
    rw [hr] at hp
    have hc := MD5CollideBlock1Run_of_q10 asserts Compress iv badchars _
      (q10body1_carry asserts Compress iv badchars) time block0 fuel r hr
    simp only [] at hc
    refine ⟨(bit_set_iff _ _).1 hc, ?_, (t1 _ _ _ _ _ _ hp.2.2).2⟩
    have f := hp.2.1.2.2.1
    unfold preSum23
    rw [manual_step23]
    exact f

/-- Witness of C23 on the run `run1_example`: bit 17 of the pre-rotate sum of step 23 of
the second block. -/
theorem carry_control_bits_witness :
    MD5CollideBlock1Run true MD5Transform exIV1 (some unclean_map) 1635797866 zeroBlock 2
      = Outcome.returned exRet1 ∧
    (preSum23 (exRet1.st.q 19) exRet1.d2 (exRet1.st.q 21) (exRet1.st.q 20)
      (exRet1.st.b 15)).testBit 17 = true :=
  ⟨run1_example,
    ((carry_control_bits true MD5Transform exIV1 (some unclean_map) 1635797866 zeroBlock
      2).2.2.2.2.2 exRet1 run1_example).1⟩

/-! ## The condition tables: `cbits` against `mask` -/

/-- C24, counterexample: row 4 of `qconds` has `mask = 0x44000033` and
`cbits = 0x83ffffc8`, while the complement of the mask is `0xbbffffcc`; so it is not true
that `cbits = ~mask` in every row 1..24 of every table. -/
theorem cbits_not_complement_of_mask :
    (qrow qconds 4).mask = 0x44000033 ∧ (qrow qconds 4).cbits = 0x83ffffc8 ∧
    not32 (qrow qconds 4).mask = 0xbbffffcc ∧
    ¬ (∀ t ∈ condTables, ∀ i, 1 ≤ i → i ≤ 24 → (qrow t i).cbits = not32 (qrow t i).mask) := by
  refine ⟨by decide, by decide, by decide, fun h => ?_⟩
  have h4 := h qconds (by decide) 4 (by decide) (by decide)
  revert h4
  decide

set_option maxRecDepth 100000 in
/-- C24, amended: in every row 1..24 of the five tables `cbits` and `mask` are disjoint
and `cbits` is the complement of `mask` together with the tunnel bits of the row.  The
tunnel bits are empty except in rows 4, 9, 10 of `qconds` (`0x38000004`,
`Q9M9MASK | 0x2000`, `0x60`) and in rows 9, 10 of the table of path `p`
(`q9m9masks[p] | (q9q10masks[p] & ~Q10MASK)` and `q9q10masks[p] & Q10MASK`); so
`cbits = ~mask` holds in every row except these, where it fails. -/
theorem cbits_complement_of_mask_and_tunnel :
    (∀ t ∈ condTables, ∀ i, i < 25 → 1 ≤ i → (qrow t i).mask &&& (qrow t i).cbits = 0) ∧
    (∀ i, i < 25 → 1 ≤ i → i ≠ 4 → i ≠ 9 → i ≠ 10 →
      (qrow qconds i).cbits = not32 (qrow qconds i).mask) ∧
    (qrow qconds 4).cbits = not32 ((qrow qconds 4).mask ||| 0x38000004) ∧
    (qrow qconds 9).cbits = not32 ((qrow qconds 9).mask ||| (Q9M9MASK ||| 0x2000)) ∧
    (qrow qconds 10).cbits = not32 ((qrow qconds 10).mask ||| 0x60) ∧
    (qrow qconds 4).cbits ≠ not32 (qrow qconds 4).mask ∧
    (qrow qconds 9).cbits ≠ not32 (qrow qconds 9).mask ∧
    (qrow qconds 10).cbits ≠ not32 (qrow qconds 10).mask ∧
    (∀ p, p < 4 →
      (∀ i, i < 25 → 1 ≤ i → i ≠ 9 → i ≠ 10 →
        (qrow (qconds2.getD p []) i).cbits = not32 (qrow (qconds2.getD p []) i).mask) ∧
      (qrow (qconds2.getD p []) 9).cbits
        = not32 ((qrow (qconds2.getD p []) 9).mask |||
            tun9 (q9m9masks.getD p 0) (q9q10masks.getD p 0)) ∧
      (qrow (qconds2.getD p []) 10).cbits
        = not32 ((qrow (qconds2.getD p []) 10).mask ||| tun10 (q9q10masks.getD p 0)) ∧
      (qrow (qconds2.getD p []) 9).cbits ≠ not32 (qrow (qconds2.getD p []) 9).mask ∧
      (qrow (qconds2.getD p []) 10).cbits ≠ not32 (qrow (qconds2.getD p []) 10).mask) := by
  refine ⟨by decide!, by decide!, by decide!, by decide!, by decide!, by decide!, by decide!,
    by decide!, fun p hp => ?_⟩
  interval_cases p <;> decide!

/-! ## The tunnel of `Q[4]` -/

theorem testBit_tunnel4_mask (k : Nat) :
    Nat.testBit 0x38000004 k = (k == 2 || k == 27 || k == 28 || k == 29) := by
  by_cases hk : k < 32
  · revert k
    decide
  · have h1 : Nat.testBit 0x38000004 k = false :=
      Nat.testBit_lt_two_pow (lt_of_lt_of_le (by decide : 0x38000004 < 2 ^ 32)
        (Nat.pow_le_pow_right (by decide) (by omega)))
    rw [h1]
    have e2 : (k == 2) = false := by simp; omega
    have e27 : (k == 27) = false := by simp; omega
    have e28 : (k == 28) = false := by simp; omega
    have e29 : (k == 29) = false := by simp; omega
    rw [e2, e27, e28, e29]
    rfl

theorem testBit_tunnel4_keep (k : Nat) :
    Nat.testBit (not32 0x38000004) k
      = (decide (k < 32) && !(k == 2 || k == 27 || k == 28 || k == 29)) := by
  by_cases hk : k < 32
  · revert k
    decide
  · have h1 : Nat.testBit (not32 0x38000004) k = false :=
      Nat.testBit_lt_two_pow (lt_of_lt_of_le (by decide : not32 0x38000004 < 2 ^ 32)
        (Nat.pow_le_pow_right (by decide) (by omega)))
    rw [h1]
    simp [hk]

theorem testBit_lt16 (c j : Nat) (hc : c < 16) (hj : 4 ≤ j) : c.testBit j = false :=
  Nat.testBit_lt_two_pow (lt_of_lt_of_le hc
    (by rw [show 16 = 2 ^ 4 by norm_num]
        exact Nat.pow_le_pow_right (by decide) hj))

theorem testBit_tunnel4 (q c k : Nat) (hc : c < 16) :
    (tunnel4 q c).testBit k
      = if k = 2 then c.testBit 0 else if k = 27 then c.testBit 1 else
        if k = 28 then c.testBit 2 else if k = 29 then c.testBit 3 else
        (decide (k < 32) && q.testBit k) := by
  unfold tunnel4
  rw [Nat.testBit_or, Nat.testBit_and, Nat.testBit_and, Nat.testBit_or, testBit_tunnel4_mask,
    testBit_tunnel4_keep, Nat.testBit_shiftLeft, Nat.testBit_shiftLeft]
  by_cases h2 : k = 2
  · subst h2; simp
  by_cases h27 : k = 27
  · subst h27; simp [testBit_lt16 c 25 hc (by decide)]
  by_cases h28 : k = 28
  · subst h28; simp [testBit_lt16 c 26 hc (by decide)]
  by_cases h29 : k = 29
  · subst h29; simp [testBit_lt16 c 27 hc (by decide)]
  have e2 : (k == 2) = false := by simpa using h2
  have e27 : (k == 27) = false := by simpa using h27
  have e28 : (k == 28) = false := by simpa using h28
  have e29 : (k == 29) = false := by simpa using h29
  rw [if_neg h2, if_neg h27, if_neg h28, if_neg h29, e2, e27, e28, e29]
  simp [Bool.and_comm]

/-- C25, counterexample: with `Q[4] = 0` and `q4ctr = 2` the update gives `0x08000000`:
bit 1 of the counter is set but bit 3 of the new `Q[4]` is not, so the four counter bits
are not written at positions 2..5 (nor at 26..29: with `q4ctr = 1` bit 26 stays 0). -/
theorem tunnel4_not_four_bits_twice :
    tunnel4 0 2 = 0x08000000 ∧ Nat.testBit 2 1 = true ∧ (tunnel4 0 2).testBit 3 = false ∧
    Nat.testBit 1 0 = true ∧ (tunnel4 0 1).testBit 26 = false ∧
    ¬ (∀ q c j, q < 4294967296 → c < 16 → j < 4 →
        (tunnel4 q c).testBit (2 + j) = c.testBit j ∧
        (tunnel4 q c).testBit (26 + j) = c.testBit j) := by
  refine ⟨by decide, by decide, by decide, by decide, by decide, fun h => ?_⟩
  have h1 := (h 0 2 1 (by decide) (by decide) (by decide)).1
  revert h1
  decide

/-- C25, amended: for every 32-bit `Q[4]` and every counter `q4ctr` in 0..15 the update writes
bit 0 of the counter at bit 2 and bits 1, 2, 3 of the counter at bits 27, 28, 29 of
`Q[4]` (each counter bit once: the mask `0x38000004` drops the copies at bits 3, 4, 5
and 26), leaves every other bit of `Q[4]` unchanged, and the 16 counter values
0..15 give 16 distinct values of `Q[4]`.  The value `tunnel4 Q[4] q4ctr` is what the
body of the loop over `q4ctr` stores in `Q[4]` and keeps there to its end. -/
theorem tunnel4_writes_bits_2_27_28_29 (q c : Nat) (hq : q < 4294967296) (hc : c < 16) :
    (∀ asserts Compress iv badchars p8 p9 p12 q9base (s : St 28),
      (q4body0 asserts Compress iv badchars p8 p9 p12 q9base c s).Sat
        (fun t => t.q 4 = tunnel4 (s.q 4) c) (fun r => r.st.q 4 = tunnel4 (s.q 4) c)) ∧
    (tunnel4 q c).testBit 2 = c.testBit 0 ∧ (tunnel4 q c).testBit 27 = c.testBit 1 ∧
    (tunnel4 q c).testBit 28 = c.testBit 2 ∧ (tunnel4 q c).testBit 29 = c.testBit 3 ∧
    (∀ k, k ≠ 2 → k ≠ 27 → k ≠ 28 → k ≠ 29 → (tunnel4 q c).testBit k = q.testBit k) ∧
    (∀ c2, c2 < 16 → tunnel4 q c = tunnel4 q c2 → c = c2) := by
  refine ⟨fun asserts Compress iv badchars p8 p9 p12 q9base s =>
      q4body0_tunnel asserts Compress iv badchars p8 p9 p12 q9base c s,
    by simp [testBit_tunnel4 q c _ hc], by simp [testBit_tunnel4 q c _ hc],
    by simp [testBit_tunnel4 q c _ hc], by simp [testBit_tunnel4 q c _ hc],
    fun k h2 h27 h28 h29 => ?_, fun c2 hc2 e => ?_⟩
  · rw [testBit_tunnel4 q c k hc, if_neg h2, if_neg h27, if_neg h28, if_neg h29]
    by_cases hk : k < 32
    · simp [hk]
    · have : q.testBit k = false :=
        Nat.testBit_lt_two_pow (lt_of_lt_of_le hq
          (by rw [show 4294967296 = 2 ^ 32 by norm_num]
              exact Nat.pow_le_pow_right (by decide) (by omega)))
      simp [hk, this]
  · have b0 : c.testBit 0 = c2.testBit 0 := by
      have := congrArg (fun z => Nat.testBit z 2) e
      simpa [testBit_tunnel4 q c _ hc, testBit_tunnel4 q c2 _ hc2] using this
    have b1 : c.testBit 1 = c2.testBit 1 := by
      have := congrArg (fun z => Nat.testBit z 27) e
      simpa [testBit_tunnel4 q c _ hc, testBit_tunnel4 q c2 _ hc2] using this
    have b2 : c.testBit 2 = c2.testBit 2 := by
      have := congrArg (fun z => Nat.testBit z 28) e
      simpa [testBit_tunnel4 q c _ hc, testBit_tunnel4 q c2 _ hc2] using this
    have b3 : c.testBit 3 = c2.testBit 3 := by
      have := congrArg (fun z => Nat.testBit z 29) e
      simpa [testBit_tunnel4 q c _ hc, testBit_tunnel4 q c2 _ hc2] using this
    apply Nat.eq_of_testBit_eq
    intro k
    by_cases hk : k < 4
    · interval_cases k
      · exact b0
      · exact b1
      · exact b2
      · exact b3
    · rw [testBit_lt16 c k hc (by omega), testBit_lt16 c2 k hc2 (by omega)]

/-- C25, witness: `Q[4] = 0x12345678` and `q4ctr = 5`. -/
theorem tunnel4_writes_bits_2_27_28_29_witness :
    0x12345678 < 4294967296 ∧ 5 < 16 ∧ (tunnel4 0x12345678 5).testBit 2 = Nat.testBit 5 0 ∧
    tunnel4 0x12345678 5 = 0x1234567c :=
  ⟨by decide, by decide, (tunnel4_writes_bits_2_27_28_29 0x12345678 5 (by decide) (by decide)).2.1, by decide⟩

/-! ## The path selector of the second block -/

theorem pathOf_bits (iv : Words 4) :
    pathOf iv = ((iv.get 1).testBit 0).toNat + 2 * ((iv.get 1).testBit 6).toNat := by
  unfold pathOf
  have h1 : iv.get 1 &&& 1 = ((iv.get 1).testBit 0).toNat := by
    rw [Nat.and_one_is_mod, Nat.testBit_zero]
    rcases Nat.mod_two_eq_zero_or_one (iv.get 1) with h | h <;> rw [h] <;> rfl
  have h2 : (iv.get 1 >>> 5) &&& 2 = 2 * ((iv.get 1).testBit 6).toNat := by
    have := Nat.and_two_pow (iv.get 1 >>> 5) 1
    rw [Nat.testBit_shiftRight] at this
    rw [show (2 : Nat) ^ 1 = 2 by norm_num] at this
    rw [this, Nat.mul_comm]
  rw [h1, h2]
  cases (iv.get 1).testBit 0 <;> cases (iv.get 1).testBit 6 <;> rfl

/-- C26, counterexample: the IVs with `iv[1] = 0` and `iv[1] = 64` agree on bit 0 and on
bit 5 of `iv[1]` (and on all of `iv[0]`, `iv[2]`, `iv[3]`), but select the paths 0 and 2. -/
theorem path_not_determined_by_bits_0_and_5 :
    Nat.testBit 0 0 = Nat.testBit 64 0 ∧ Nat.testBit 0 5 = Nat.testBit 64 5 ∧
    pathOf ⟨[0, 0, 0, 0], rfl⟩ = 0 ∧ pathOf ⟨[0, 64, 0, 0], rfl⟩ = 2 ∧
    ¬ (∀ iv iv2 : Words 4, (iv.get 1).testBit 0 = (iv2.get 1).testBit 0 →
        (iv.get 1).testBit 5 = (iv2.get 1).testBit 5 → pathOf iv = pathOf iv2) := by
  refine ⟨by decide, by decide, by decide, by decide, fun h => ?_⟩
  have h1 := h ⟨[0, 0, 0, 0], rfl⟩ ⟨[0, 64, 0, 0], rfl⟩ (by decide) (by decide)
  revert h1
  decide

/-- C26, amended: the path `(iv[1]&1) | ((iv[1] >> 5) & 2)` is bit 0 of `iv[1]` plus twice
bit 6 of `iv[1]` (the shift by 5 brings bit 6, not bit 5, to the position of the mask 2).
So two IVs select the same path exactly when `iv[1]` agrees on bits 0 and 6, the path is
below 4, and each path `p` is forced by `iv[1] = (p & 1) + 64 * (p >> 1)`. -/
theorem path_determined_by_bits_0_and_6 :
    (∀ iv : Words 4,
      pathOf iv = ((iv.get 1).testBit 0).toNat + 2 * ((iv.get 1).testBit 6).toNat) ∧
    (∀ iv iv2 : Words 4, pathOf iv = pathOf iv2 ↔
      ((iv.get 1).testBit 0 = (iv2.get 1).testBit 0 ∧
       (iv.get 1).testBit 6 = (iv2.get 1).testBit 6)) ∧
    (∀ iv : Words 4, pathOf iv < 4) ∧
    (∀ p, p < 4 → ∀ a c d, pathOf ⟨[a, p % 2 + 64 * (p / 2), c, d], rfl⟩ = p) := by
  refine ⟨pathOf_bits, fun iv iv2 => ?_, fun iv => ?_, fun p hp a c d => ?_⟩
  · rw [pathOf_bits, pathOf_bits]
    cases (iv.get 1).testBit 0 <;> cases (iv.get 1).testBit 6 <;>
      cases (iv2.get 1).testBit 0 <;> cases (iv2.get 1).testBit 6 <;> decide
  · rw [pathOf_bits]
    cases (iv.get 1).testBit 0 <;> cases (iv.get 1).testBit 6 <;> decide
  · have e : ∀ x, pathOf ⟨[a, x, c, d], rfl⟩ = (x &&& 1) ||| ((x >>> 5) &&& 2) := fun _ => rfl
    rw [e]
    interval_cases p <;> rfl

/-! ## The IV of the drivers -/

theorem ivRedraw_false_iff (iv : Words 4) : ivRedraw iv = false ↔ IVPrecondition iv := by
  unfold ivRedraw IVPrecondition
  simp

theorem drawBody_sat (s : Words 4 × Nat) :
    (drawBody s).Sat (fun _ => True) (fun r => IVPrecondition r.1) := by
  unfold drawBody
  lift_lets
  intro r0 r1 r2 r3 iv
  by_cases h : ivRedraw iv = true
  · rw [if_pos h]
    trivial
  · rw [if_neg h]
    exact (ivRedraw_false_iff iv).1 (by simpa using h)

theorem drawIV_example :
    drawIV 1612755449 4
      = Outcome.returned
          (⟨[1399647614, 2775136070, 167780072, 1828636454], rfl⟩, 11731614082756552926) := by
  decide!

/-- C27, counterexample: in the standard IV the word `IV[2] = 0x98badcfe` has bits 25 and
24 both 0, so the first half of the block-0 IV precondition fails and the loop of the
drivers that draws the IV would draw again on it. -/
theorem standard_iv_fails_precondition :
    stdIV = ⟨[0x67452301, 0xefcdab89, 0x98badcfe, 0x10325476], rfl⟩ ∧
    (stdIV.get 2 >>> 25) &&& 1 = 0 ∧ (stdIV.get 2 >>> 24) &&& 1 = 0 ∧
    ¬ IVPrecondition stdIV ∧ ivRedraw stdIV = true := by
  refine ⟨rfl, by decide, by decide, ?_, by decide⟩
  intro h
  exact h.1 (by decide)

/-- C27, amended: the loop of the drivers that draws the IV stops on an IV exactly when
that IV satisfies the block-0 IV precondition, so every IV that the drivers hand to
`MD5CollideBlock0` satisfies it; the loop of `main` never fails an assertion.  The
standard IV satisfies only the half of the precondition on `IV[3]` (bits 25 and 24 equal),
not the half on `IV[2]`; the drivers overwrite it before the first call. -/
theorem drawn_iv_satisfies_precondition :
    (∀ iv : Words 4, ivRedraw iv = false ↔ IVPrecondition iv) ∧
    (∀ time fuel r, drawIV time fuel = Outcome.returned r → IVPrecondition r.1) ∧
    (∀ time fuel, drawIV time fuel ≠ Outcome.assertFailed) ∧
    ((stdIV.get 3 >>> 25) &&& 1) = ((stdIV.get 3 >>> 24) &&& 1) ∧
    ((stdIV.get 2 >>> 25) &&& 1) = ((stdIV.get 2 >>> 24) &&& 1) := by
  refine ⟨ivRedraw_false_iff, fun time fuel r h => ?_, fun time fuel => ?_, by decide,
    by decide⟩
  · exact whileLoop_sat drawBody (fun _ => True) (fun r => IVPrecondition r.1)
      (fun s _ => drawBody_sat s) fuel _ r trivial h
  · unfold drawIV
    generalize (stdIV, seedState time 0) = s
    induction fuel generalizing s with
    | zero => simp [whileLoop]
    | succ n ih =>
      unfold whileLoop
      unfold drawBody
      lift_lets
      intro r0 r1 r2 r3 iv
      by_cases h : ivRedraw iv = true
      · rw [if_pos h]
        exact ih _
      · rw [if_neg h]
        simp

/-- C27, witness: the loop of `main` with `time(NULL) = 1612755449` stops at the fourth
pass, on an IV that satisfies the precondition. -/
theorem drawn_iv_satisfies_precondition_witness :
    drawIV 1612755449 4
      = Outcome.returned
          (⟨[1399647614, 2775136070, 167780072, 1828636454], rfl⟩, 11731614082756552926) ∧
    IVPrecondition ⟨[1399647614, 2775136070, 167780072, 1828636454], rfl⟩ :=
  ⟨drawIV_example, drawn_iv_satisfies_precondition.2.1 1612755449 4
    (⟨[1399647614, 2775136070, 167780072, 1828636454], rfl⟩, 11731614082756552926)
    drawIV_example⟩

/-! ## The output-difference check of the first block -/

/-- The four conditions of the output-difference check on the chaining value
`iv + (a, b, c, d)`. -/
theorem finish0_outputCheck (asserts : Bool) (Compress : Words 4 → Words 16 → Words 4)
    (iv : Words 4) (s : St 28) (a b c d : Nat) :
    (finish0 asserts Compress iv s a b c d).Sat (fun _ => True) (fun r =>
      add32 (iv.get 1) r.b &&& 0x02000000 = 0 ∧
      (add32 (iv.get 2) r.c ^^^ add32 (iv.get 1) r.b) &&& 0x82000000 = 0 ∧
      (add32 (iv.get 3) r.d ^^^ add32 (iv.get 2) r.c) &&& 0x82000000 = 0 ∧
      (add32 (iv.get 2) r.c ^^^ add32 (iv.get 1) r.b) &&& 1 = 0) := by
  unfold finish0
  lift_lets
  intro n1 n2 n3 block2 iv1 iv2
  split_ifs with h1 h2 h3
  · trivial
  · trivial
  · simp only [Bool.or_eq_true, bne_iff_ne, ne_eq, not_or, not_not] at h1
    exact ⟨h1.1.1.1, h1.1.1.2, h1.1.2, h1.2⟩
  · trivial

/-- C21.  Output-difference check.  Whenever `MD5CollideBlock0` returns a block, the new
chaining value `newIV = iv + (a, b, c, d)` of that block, which is the MD5 compression
of the block from `iv`, satisfies `newIV[1] & 0x02000000 = 0`,
`(newIV[2] ^ newIV[1]) & 0x82000000 = 0`, `(newIV[3] ^ newIV[2]) & 0x82000000 = 0` and
`(newIV[2] ^ newIV[1]) & 1 = 0`; `a, b, c, d` are the registers after step 64 that the
engine computed for the block. -/
theorem MD5CollideBlock0_output_difference_check (asserts : Bool)
    (Compress : Words 4 → Words 16 → Words 4) (iv : Words 4) (badchars : Option (List Nat))
    (time : Nat) (block0 : Words 16) (fuel : Nat) (r : Ret 28)
    (h : MD5CollideBlock0Run asserts Compress iv badchars time block0 fuel
      = Outcome.returned r) :
    MD5CollideBlock0 asserts Compress iv badchars time block0 fuel
      = Outcome.returned r.st.block ∧
    MD5Transform iv r.st.block
      = ⟨[add32 (iv.get 0) r.a, add32 (iv.get 1) r.b, add32 (iv.get 2) r.c,
          add32 (iv.get 3) r.d], rfl⟩ ∧
    (add32 (iv.get 1) r.b &&& 0x02000000 = 0 ∧
      (add32 (iv.get 2) r.c ^^^ add32 (iv.get 1) r.b) &&& 0x82000000 = 0 ∧
      (add32 (iv.get 3) r.d ^^^ add32 (iv.get 2) r.c) &&& 0x82000000 = 0 ∧
      (add32 (iv.get 2) r.c ^^^ add32 (iv.get 1) r.b) &&& 1 = 0) ∧
    ((MD5Transform iv r.st.block).get 1 &&& 0x02000000 = 0 ∧
      ((MD5Transform iv r.st.block).get 2 ^^^ (MD5Transform iv r.st.block).get 1)
        &&& 0x82000000 = 0 ∧
      ((MD5Transform iv r.st.block).get 3 ^^^ (MD5Transform iv r.st.block).get 2)
        &&& 0x82000000 = 0 ∧
      ((MD5Transform iv r.st.block).get 2 ^^^ (MD5Transform iv r.st.block).get 1)
        &&& 1 = 0) := by
  have hc := MD5CollideBlock0Run_onlyFinish asserts Compress iv badchars _
    (finish0_outputCheck asserts Compress iv) time block0 fuel r h
  simp only [] at hc
  have hp := MD5CollideBlock0Run_full asserts Compress iv badchars time block0 fuel
  rw [h] at hp
  have ht := MD5Transform_of_Post0 iv r.st r.a r.b r.c r.d hp.1 hp.2
  have g := Words.get_mk4 (add32 (iv.get 0) r.a) (add32 (iv.get 1) r.b)
    (add32 (iv.get 2) r.c) (add32 (iv.get 3) r.d) rfl
  refine ⟨?_, ht, hc, ?_⟩
  · unfold MD5CollideBlock0
    rw [h]
  · rw [ht, g.2.1, g.2.2.1, g.2.2.2]
    exact hc

/-- Witness of C21 on the run `run0_example`. -/
theorem MD5CollideBlock0_output_difference_check_witness :
    MD5CollideBlock0Run true MD5Transform stdIV (some unclean_map) 1612755449 zeroBlock 1
      = Outcome.returned exRet0 ∧
    (MD5Transform stdIV exRet0.st.block).get 1 &&& 0x02000000 = 0 :=
  ⟨run0_example,
    (MD5CollideBlock0_output_difference_check true MD5Transform stdIV (some unclean_map)
      1612755449 zeroBlock 1 exRet0 run0_example).2.2.2.1⟩

/-! ## The generator xorshift64* -/

theorem testBit_ge_of_lt {x N i : Nat} (hx : x < 2 ^ N) (hi : N ≤ i) : x.testBit i = false :=
  Nat.testBit_lt_two_pow (lt_of_lt_of_le hx (Nat.pow_le_pow_right (by decide) hi))

theorem xorShiftRight_inj (k N : Nat) (hk : 0 < k) (x y : Nat) (hx : x < 2 ^ N)
    (hy : y < 2 ^ N) (h : x ^^^ (x >>> k) = y ^^^ (y >>> k)) : x = y := by
  have key : ∀ n i, N ≤ i + n → x.testBit i = y.testBit i := by
    intro n
    induction n with
    | zero =>
      intro i hi
      rw [testBit_ge_of_lt hx (by omega), testBit_ge_of_lt hy (by omega)]
    | succ n ih =>
      intro i hi
      have e := congrArg (fun z => Nat.testBit z i) h
      simp only [Nat.testBit_xor, Nat.testBit_shiftRight] at e
      have e2 := ih (k + i) (by omega)
      rw [e2] at e
      revert e
      cases x.testBit i <;> cases y.testBit i <;> cases y.testBit (k + i) <;> simp
  exact Nat.eq_of_testBit_eq (fun i => key N i (by omega))

theorem xorShiftLeft_inj (k N : Nat) (hk : 0 < k) (x y : Nat)
    (h : x ^^^ ((x <<< k) % 2 ^ N) = y ^^^ ((y <<< k) % 2 ^ N)) : x = y := by
  apply Nat.eq_of_testBit_eq
  intro i
  induction i using Nat.strong_induction_on with
  | _ i ih =>
    have e := congrArg (fun z => Nat.testBit z i) h
    simp only [Nat.testBit_xor, Nat.testBit_mod_two_pow, Nat.testBit_shiftLeft] at e
    by_cases hik : k ≤ i
    · have e2 := ih (i - k) (by omega)
      rw [e2] at e
      revert e
      cases x.testBit i <;> cases y.testBit i <;> cases y.testBit (i - k) <;>
        cases decide (i < N) <;> cases decide (i ≥ k) <;> simp
    · have hd : decide (i ≥ k) = false := by simpa using hik
      rw [hd] at e
      simpa using e

theorem xorShiftLeft_lt (k N x : Nat) (hx : x < 2 ^ N) : x ^^^ ((x <<< k) % 2 ^ N) < 2 ^ N :=
  Nat.xor_lt_two_pow hx (Nat.mod_lt _ (Nat.two_pow_pos N))

theorem xorShiftRight_lt (k N x : Nat) (hx : x < 2 ^ N) : x ^^^ (x >>> k) < 2 ^ N := by
  apply Nat.xor_lt_two_pow hx
  rw [Nat.shiftRight_eq_div_pow]
  exact lt_of_le_of_lt (Nat.div_le_self _ _) hx

theorem xorshift64star_state (x : Nat) :
    (xorshift64star x).2
      = ((x ^^^ (x >>> 12)) ^^^ (((x ^^^ (x >>> 12)) <<< 25) % 2 ^ 64)) ^^^
        (((x ^^^ (x >>> 12)) ^^^ (((x ^^^ (x >>> 12)) <<< 25) % 2 ^ 64)) >>> 27) := rfl

theorem xorshift64star_value (x : Nat) :
    (xorshift64star x).1 = ((xorshift64star x).2 * 0x2545F4914F6CDD1D) % 2 ^ 64 := rfl

theorem xorshift64star_state_lt (x : Nat) (hx : x < 2 ^ 64) : (xorshift64star x).2 < 2 ^ 64 := by
  rw [xorshift64star_state]
  exact xorShiftRight_lt 27 64 _ (xorShiftLeft_lt 25 64 _ (xorShiftRight_lt 12 64 _ hx))

theorem xorshift64star_state_inj (x y : Nat) (hx : x < 2 ^ 64) (hy : y < 2 ^ 64)
    (h : (xorshift64star x).2 = (xorshift64star y).2) : x = y := by
  rw [xorshift64star_state, xorshift64star_state] at h
  have h1 := xorShiftRight_inj 27 64 (by decide) _ _
    (xorShiftLeft_lt 25 64 _ (xorShiftRight_lt 12 64 _ hx))
    (xorShiftLeft_lt 25 64 _ (xorShiftRight_lt 12 64 _ hy)) h
  have h2 := xorShiftLeft_inj 25 64 (by decide) _ _ h1
  exact xorShiftRight_inj 12 64 (by decide) _ _ hx hy h2

theorem xorshift64star_zero : xorshift64star 0 = (0, 0) := by decide

theorem mul_odd_mod_eq_zero (x : Nat) (hx : x < 2 ^ 64) :
    (x * 0x2545F4914F6CDD1D) % 2 ^ 64 = 0 ↔ x = 0 := by
  constructor
  · intro h
    have hd : 2 ^ 64 ∣ x * 0x2545F4914F6CDD1D := Nat.dvd_of_mod_eq_zero h
    have hc : Nat.Coprime (2 ^ 64) 0x2545F4914F6CDD1D :=
      Nat.Coprime.pow_left 64 (by decide)
    have hx2 : 2 ^ 64 ∣ x := hc.dvd_of_dvd_mul_right hd
    exact Nat.eq_zero_of_dvd_of_lt hx2 hx
  · intro h
    subst h
    rfl

theorem stateAfter_zero (n : Nat) : stateAfter n 0 = 0 := by
  induction n with
  | zero => rfl
  | succ n ih =>
    show stateAfter n (getrand32 0).2 = 0
    have e : (getrand32 0).2 = 0 := by decide
    rw [e, ih]

/-- C29.  The state transition of xorshift64* (`x ^= x>>12; x ^= x<<25; x ^= x>>27` on
64-bit words) maps 64-bit words to 64-bit words and is injective on them; so a nonzero
state never becomes zero, while the zero state is a fixed point from which every 32-bit
draw is 0.  The multiplier `0x2545F4914F6CDD1D` is odd, so the returned value is zero
exactly when the new state is zero, and the seed `rs = xorshift64star(&rs)` stored by
the engines is nonzero exactly when `time ^ c` is nonzero, that is, when the low 64
bits of `time(NULL)` differ from the seed constant `c`. -/
theorem xorshift64star_injective_and_zero :
    (∀ x, x < 2 ^ 64 → (xorshift64star x).2 < 2 ^ 64) ∧
    (∀ x y, x < 2 ^ 64 → y < 2 ^ 64 → (xorshift64star x).2 = (xorshift64star y).2 → x = y) ∧
    (∀ x, x < 2 ^ 64 → x ≠ 0 → (xorshift64star x).2 ≠ 0) ∧
    (xorshift64star 0 = (0, 0) ∧ getrand32 0 = (0, 0)) ∧
    (∀ n, stateAfter n 0 = 0 ∧ drawAt n 0 = 0) ∧
    0x2545F4914F6CDD1D % 2 = 1 ∧
    (∀ x, x < 2 ^ 64 → ((xorshift64star x).1 = 0 ↔ x = 0)) ∧
    (∀ time c, c < 2 ^ 64 →
      (seedState time c ≠ 0 ↔ (time % 2 ^ 64) ^^^ c ≠ 0) ∧
      (seedState time c = 0 ↔ time % 2 ^ 64 = c)) := by
  have hz : ∀ x, x < 2 ^ 64 → ((xorshift64star x).2 = 0 ↔ x = 0) := by
    intro x hx
    constructor
    · intro h
      exact xorshift64star_state_inj x 0 hx (by decide)
        (by rw [h, xorshift64star_zero])
    · intro h
      subst h
      rfl
  have hv : ∀ x, x < 2 ^ 64 → ((xorshift64star x).1 = 0 ↔ x = 0) := by
    intro x hx
    rw [xorshift64star_value, mul_odd_mod_eq_zero _ (xorshift64star_state_lt x hx)]
    exact hz x hx
  refine ⟨xorshift64star_state_lt, xorshift64star_state_inj,
    fun x hx h0 h => h0 ((hz x hx).1 h), ⟨by decide, by decide⟩, fun n => ⟨stateAfter_zero n, ?_⟩,
    by decide, hv, fun time c hc => ?_⟩
  · unfold drawAt
    rw [stateAfter_zero]
    decide
  · have hlt : (time % 2 ^ 64) ^^^ c < 2 ^ 64 :=
      Nat.xor_lt_two_pow (Nat.mod_lt _ (Nat.two_pow_pos 64)) hc
    have e : seedState time c = (xorshift64star ((time % 2 ^ 64) ^^^ c)).1 := rfl
    rw [e]
    refine ⟨not_congr (hv _ hlt), ?_⟩
    rw [hv _ hlt]
    constructor
    · intro h
      exact Nat.eq_of_testBit_eq (fun i => by
        have := congrArg (fun z => Nat.testBit z i) h
        simp only [Nat.testBit_xor, Nat.zero_testBit] at this
        revert this
        cases (time % 2 ^ 64).testBit i <;> cases c.testBit i <;> simp)
    · intro h
      rw [h, Nat.xor_self]

/-! ## Two runs that differ in the initial buffer -/

theorem Ctl.Rel_ite {σ ρ : Type} {R : σ → σ → Prop} {P : ρ → ρ → Prop} {b b1 : Bool}
    {x y x1 y1 : Ctl σ ρ} (hb : b1 = b) (hx : b = true → Ctl.Rel R P x x1)
    (hy : ¬ b = true → Ctl.Rel R P y y1) :
    Ctl.Rel R P (if b = true then x else y) (if b1 = true then x1 else y1) := by
  subst hb
  split_ifs with h
  · exact hx h
  · exact hy h

theorem Ctl.Rel_refl {σ ρ : Type} {R : σ → σ → Prop} {P : ρ → ρ → Prop}
    (hR : ∀ s, R s s) (hP : ∀ r, P r r) (c : Ctl σ ρ) : Ctl.Rel R P c c := by
  cases c with
  | next s => exact hR s
  | done r => exact hP r
  | abort => trivial

theorem Ctl.Rel_imp {σ ρ : Type} {R R1 : σ → σ → Prop} {P P1 : ρ → ρ → Prop}
    (hR : ∀ s t, R s t → R1 s t) (hP : ∀ r t, P r t → P1 r t) {c c1 : Ctl σ ρ}
    (h : Ctl.Rel R P c c1) : Ctl.Rel R1 P1 c c1 := by
  cases c <;> cases c1 <;> first | exact hR _ _ h | exact hP _ _ h | exact h

theorem forLoop_rel {σ ρ : Type} (body body1 : Nat → σ → Ctl σ ρ) (R : σ → σ → Prop)
    (P : ρ → ρ → Prop) (hbody : ∀ i s t, R s t → Ctl.Rel R P (body i s) (body1 i t)) :
    ∀ n i s t, R s t → Ctl.Rel R P (forLoop body n i s) (forLoop body1 n i t) := by
  intro n
  induction n with
  | zero => intro i s t h; exact h
  | succ n ih =>
    intro i s t h
    have hb := hbody i s t h
    unfold forLoop
    revert hb
    cases body i s <;> cases body1 i t <;> intro hb
    all_goals first
      | exact ih _ _ _ hb
      | exact hb
      | exact False.elim hb

theorem whileLoop_rel {σ ρ : Type} (body body1 : σ → Ctl σ ρ) (R : σ → σ → Prop)
    (hbody : ∀ s t, R s t → Ctl.Rel R Eq (body s) (body1 t)) :
    ∀ fuel s t, R s t → whileLoop body fuel s = whileLoop body1 fuel t := by
  intro fuel
  induction fuel with
  | zero => intro s t _; rfl
  | succ n ih =>
    intro s t h
    have hb := hbody s t h
    unfold whileLoop
    revert hb
    cases body s <;> cases body1 t <;> intro hb
    all_goals first
      | exact ih _ _ hb
      | exact congrArg Outcome.returned hb
      | rfl
      | exact False.elim hb

theorem SameOn_refl {m : Nat} (W : List Nat) (s : St m) : SameOn W s s :=
  ⟨rfl, rfl, fun _ _ => rfl⟩

theorem SameOn_q {m : Nat} {W : List Nat} {s t : St m} (h : SameOn W s t) (n : Nat) :
    t.q n = s.q n := by
  unfold St.q
  rw [h.2.1]

theorem SameOn_b {m : Nat} {W : List Nat} {s t : St m} (h : SameOn W s t) (i : Nat)
    (hi : i ∈ W) : t.b i = s.b i :=
  h.2.2 i hi

theorem SameOn_mono {m : Nat} {W : List Nat} {s t : St m} (h : SameOn W s t) (V : List Nat)
    (hsub : ∀ i, i ∈ V → i ∈ W) : SameOn V s t :=
  ⟨h.1, h.2.1, fun i hi => h.2.2 i (hsub i hi)⟩

theorem SameOn_setQ {m : Nat} {W : List Nat} {s t : St m} (h : SameOn W s t) (n : Nat)
    {v v1 : Nat} (hv : v1 = v) : SameOn W (s.setQ n v) (t.setQ n v1) := by
  subst hv
  refine ⟨h.1, ?_, h.2.2⟩
  show t.Q.set (n + 3) v1 = s.Q.set (n + 3) v1
  rw [h.2.1]

theorem SameOn_setB {m : Nat} {W : List Nat} {s t : St m} (h : SameOn W s t) (i : Nat)
    (hi : i < 16) {v v1 : Nat} (hv : v1 = v) : SameOn (i :: W) (s.setB i v) (t.setB i v1) := by
  subst hv
  refine ⟨h.1, h.2.1, fun j hj => ?_⟩
  show (t.block.set i v1).get j = (s.block.set i v1).get j
  by_cases e : i = j
  · subst e
    rw [Words.get_set_eq _ _ hi, Words.get_set_eq _ _ hi]
  · rw [Words.get_set_ne _ _ e, Words.get_set_ne _ _ e]
    rcases List.mem_cons.1 hj with h1 | h1
    · exact absurd h1.symm e
    · exact h.2.2 j h1

theorem SameOn_eq {m : Nat} {W : List Nat} {s t : St m} (h : SameOn W s t)
    (hall : ∀ i, i < 16 → i ∈ W) : t = s := by
  obtain ⟨rs, Q, b⟩ := s
  obtain ⟨rs1, Q1, b1⟩ := t
  obtain ⟨h1, h2, h3⟩ := h
  simp only at h1 h2 h3
  subst h1 h2
  have e : b1 = b := Words.ext_get (fun i hi => h3 i (hall i hi))
  rw [e]

theorem SameOn_sampleQ {m : Nat} {W : List Nat} (qc : List qcond) (i : Nat) {s t : St m}
    (h : SameOn W s t) : SameOn W (sampleQ qc i s) (sampleQ qc i t) := by
  unfold sampleQ
  refine ⟨?_, ?_, h.2.2⟩
  · show (getrand32 t.rs).2 = (getrand32 s.rs).2
    rw [h.1]
  · show t.Q.set (i + 3) _ = s.Q.set (i + 3) _
    rw [h.1, h.2.1]

theorem SameOn_sampleLoop {m : Nat} {W : List Nat} (qc : List qcond) (n : Nat) :
    ∀ (i : Nat) (s t : St m), SameOn W s t →
      SameOn W (sampleLoop qc n i s) (sampleLoop qc n i t) := by
  induction n with
  | zero => intro i s t h; exact h
  | succ n ih =>
    intro i s t h
    exact ih (i + 1) _ _ (SameOn_sampleQ qc i h)

/-! ## The first block, side by side -/

theorem q9body0_rel (asserts : Bool) (Compress : Words 4 → Words 16 → Words 4)
    (iv : Words 4) (badchars : Option (List Nat)) (p8 p9 p12 q9base i : Nat) (s t : St 28)
    (h : SameOn [7, 4, 3, 13, 10, 2, 5, 1, 15, 14, 11, 6, 0] s t) :
    Ctl.Rel (SameOn [7, 4, 3, 13, 10, 2, 5, 1, 15, 14, 11, 6, 0]) Eq
      (q9body0 asserts Compress iv badchars p8 p9 p12 q9base i s)
      (q9body0 asserts Compress iv badchars p8 p9 p12 q9base i t) := by
  unfold q9body0
  lift_lets
  intro s1 s2 s3 s4 t1 t2 t3 t4
  have r1 : SameOn [7, 4, 3, 13, 10, 2, 5, 1, 15, 14, 11, 6, 0] s1 t1 := SameOn_setQ h 9 rfl
  have r2 : SameOn [8, 7, 4, 3, 13, 10, 2, 5, 1, 15, 14, 11, 6, 0] s2 t2 :=
    SameOn_setB r1 8 (by decide) (by simp only [SameOn_q r1])
  have r3 : SameOn [9, 8, 7, 4, 3, 13, 10, 2, 5, 1, 15, 14, 11, 6, 0] s3 t3 :=
    SameOn_setB r2 9 (by decide) (by simp only [SameOn_q r2])
  have r4 : SameOn [12, 9, 8, 7, 4, 3, 13, 10, 2, 5, 1, 15, 14, 11, 6, 0] s4 t4 :=
    SameOn_setB r3 12 (by decide) (by simp only [SameOn_q r3])
  have e4 : t4 = s4 := SameOn_eq r4 (by decide)
  refine Ctl.Rel_ite (by rw [SameOn_b r2 8 (by simp), r2.2.1]) (fun _ => trivial) (fun _ => ?_)
  refine Ctl.Rel_ite (by rw [SameOn_b r2 8 (by simp)])
    (fun _ => SameOn_mono r2 _ (by decide)) (fun _ => ?_)
  refine Ctl.Rel_ite (by rw [SameOn_b r3 9 (by simp), r3.2.1]) (fun _ => trivial) (fun _ => ?_)
  refine Ctl.Rel_ite (by rw [SameOn_b r3 9 (by simp)])
    (fun _ => SameOn_mono r3 _ (by decide)) (fun _ => ?_)
  refine Ctl.Rel_ite (by rw [SameOn_b r3 10 (by simp), r3.2.1]) (fun _ => trivial) (fun _ => ?_)
  refine Ctl.Rel_ite (by rw [SameOn_b r3 11 (by simp), r3.2.1]) (fun _ => trivial) (fun _ => ?_)
  rw [e4]
  exact Ctl.Rel_refl (SameOn_refl _) (fun _ => rfl) _

theorem q4body0_rel (asserts : Bool) (Compress : Words 4 → Words 16 → Words 4)
    (iv : Words 4) (badchars : Option (List Nat)) (p8 p9 p12 q9base i : Nat) (s t : St 28)
    (h : SameOn [13, 10, 2, 5, 1, 15, 14, 11, 6, 0] s t) :
    Ctl.Rel (SameOn [13, 10, 2, 5, 1, 15, 14, 11, 6, 0]) Eq
      (q4body0 asserts Compress iv badchars p8 p9 p12 q9base i s)
      (q4body0 asserts Compress iv badchars p8 p9 p12 q9base i t) := by
  unfold q4body0
  lift_lets
  intro s1 s2 s3 s4 s5 t1 t2 t3 t4 t5
  have r1 : SameOn [13, 10, 2, 5, 1, 15, 14, 11, 6, 0] s1 t1 :=
    SameOn_setQ h 4 (by simp only [SameOn_q h])
  have r2 : SameOn [3, 13, 10, 2, 5, 1, 15, 14, 11, 6, 0] s2 t2 :=
    SameOn_setB r1 3 (by decide) (by rw [r1.2.1])
  have r3 : SameOn [4, 3, 13, 10, 2, 5, 1, 15, 14, 11, 6, 0] s3 t3 :=
    SameOn_setB r2 4 (by decide) (by rw [r2.2.1])
  have r4 : SameOn [7, 4, 3, 13, 10, 2, 5, 1, 15, 14, 11, 6, 0] s4 t4 :=
    SameOn_setB r3 7 (by decide) (by rw [r3.2.1])
  have r5 : SameOn [7, 4, 3, 13, 10, 2, 5, 1, 15, 14, 11, 6, 0] s5 t5 :=
    SameOn_setQ r4 24 (by simp only [SameOn_q r4, SameOn_b r4 4 (by simp)])
  refine Ctl.Rel_ite (by rw [SameOn_b r2 3 (by simp)])
    (fun _ => SameOn_mono r2 _ (by decide)) (fun _ => ?_)
  refine Ctl.Rel_ite (by rw [SameOn_b r3 4 (by simp)])
    (fun _ => SameOn_mono r3 _ (by decide)) (fun _ => ?_)
  refine Ctl.Rel_ite (by rw [SameOn_b r3 5 (by simp), r3.2.1]) (fun _ => trivial) (fun _ => ?_)
  refine Ctl.Rel_ite (by rw [SameOn_b r3 6 (by simp), r3.2.1]) (fun _ => trivial) (fun _ => ?_)
  refine Ctl.Rel_ite (by rw [SameOn_b r4 7 (by simp)])
    (fun _ => SameOn_mono r4 _ (by decide)) (fun _ => ?_)
  refine Ctl.Rel_ite (by rw [SameOn_q r5 24])
    (fun _ => SameOn_mono r5 _ (by decide)) (fun _ => ?_)
  refine Ctl.Rel_ite (by rw [r5.2.1]) (fun _ => trivial) (fun _ => ?_)
  exact Ctl.Rel_imp (fun _ _ h => SameOn_mono h _ (by decide)) (fun _ _ h => h)
    (forLoop_rel
      (q9body0 asserts Compress iv badchars p8 p9 p12 q9base)
      (q9body0 asserts Compress iv badchars p8 p9 p12 q9base)
      (SameOn [7, 4, 3, 13, 10, 2, 5, 1, 15, 14, 11, 6, 0]) Eq
      (fun j u v huv => q9body0_rel asserts Compress iv badchars p8 p9 p12 q9base j u v huv)
      65536 0 s5 t5 r5)

theorem q10body0_rel (asserts : Bool) (Compress : Words 4 → Words 16 → Words 4)
    (iv : Words 4) (badchars : Option (List Nat)) (i : Nat) (s t : St 28)
    (h : SameOn [2, 5, 1, 15, 14, 11, 6, 0] s t) :
    Ctl.Rel (SameOn [2, 5, 1, 15, 14, 11, 6, 0]) Eq
      (q10body0 asserts Compress iv badchars i s)
      (q10body0 asserts Compress iv badchars i t) := by
  unfold q10body0
  lift_lets
  intro s1 s2 s3 s4 s5 s6 x1 x2 x3 p8 p9 p12 q9base t1 t2 t3 t4 t5 t6 y1 y2 y3 p8a p9a p12a
    q9basea
  have r1 : SameOn [2, 5, 1, 15, 14, 11, 6, 0] s1 t1 :=
    SameOn_setQ h 9 (by simp only [SameOn_q h])
  have r2 : SameOn [2, 5, 1, 15, 14, 11, 6, 0] s2 t2 :=
    SameOn_setQ r1 10 (by simp only [SameOn_q r1])
  have r3 : SameOn [10, 2, 5, 1, 15, 14, 11, 6, 0] s3 t3 :=
    SameOn_setB r2 10 (by decide) (by rw [r2.2.1])
  have r4 : SameOn [13, 10, 2, 5, 1, 15, 14, 11, 6, 0] s4 t4 :=
    SameOn_setB r3 13 (by decide) (by rw [r3.2.1])
  have r5 : SameOn [13, 10, 2, 5, 1, 15, 14, 11, 6, 0] s5 t5 :=
    SameOn_setQ r4 22 (by simp only [SameOn_q r4, SameOn_b r4 10 (by simp)])
  have r6 : SameOn [13, 10, 2, 5, 1, 15, 14, 11, 6, 0] s6 t6 :=
    SameOn_setQ r5 23 (by simp only [SameOn_q r5, SameOn_b r5 15 (by simp)])
  have e1 : y1 = x1 := by
    simp only [y1, x1, SameOn_q r6, SameOn_b r6 15 (by simp)]
  have e3 : y3 = x3 := by
    simp only [y3, x3, y2, x2, e1, SameOn_q r6]
  have ep8 : p8a = p8 := by simp only [p8a, p8, SameOn_q r6]
  have ep9 : p9a = p9 := by simp only [p9a, p9, SameOn_q r6]
  have ep12 : p12a = p12 := by simp only [p12a, p12, SameOn_q r6]
  have eq9 : q9basea = q9base := by simp only [q9basea, q9base, SameOn_q r6]
  refine Ctl.Rel_ite (by rw [SameOn_b r3 10 (by simp)])
    (fun _ => SameOn_mono r3 _ (by decide)) (fun _ => ?_)
  refine Ctl.Rel_ite (by rw [SameOn_b r3 11 (by simp), r3.2.1]) (fun _ => trivial) (fun _ => ?_)
  refine Ctl.Rel_ite (by rw [SameOn_b r4 13 (by simp)])
    (fun _ => SameOn_mono r4 _ (by decide)) (fun _ => ?_)
  refine Ctl.Rel_ite (by rw [SameOn_q r5 22])
    (fun _ => SameOn_mono r5 _ (by decide)) (fun _ => ?_)
  refine Ctl.Rel_ite (by rw [SameOn_q r6 23])
    (fun _ => SameOn_mono r6 _ (by decide)) (fun _ => ?_)
  refine Ctl.Rel_ite (by rw [e1])
    (fun _ => SameOn_mono r6 _ (by decide)) (fun _ => ?_)
  refine Ctl.Rel_ite (by rw [SameOn_q r6 23, e3]) (fun _ => trivial) (fun _ => ?_)
  rw [ep8, ep9, ep12, eq9]
  exact Ctl.Rel_imp (fun _ _ h => SameOn_mono h _ (by decide)) (fun _ _ h => h)
    (forLoop_rel
      (q4body0 asserts Compress iv badchars p8 p9 p12 q9base)
      (q4body0 asserts Compress iv badchars p8 p9 p12 q9base)
      (SameOn [13, 10, 2, 5, 1, 15, 14, 11, 6, 0]) Eq
      (fun j u v huv => q4body0_rel asserts Compress iv badchars p8 p9 p12 q9base j u v huv)
      16 0 s6 t6 r6)

theorem SameOn_sample {m : Nat} {W : List Nat} {s t : St m} (h : SameOn W s t)
    {rs rs1 : Nat} {Q Q1 : Words m} (hrs : rs1 = rs) (hQ : Q1 = Q) :
    SameOn W { s with rs := rs, Q := Q } { t with rs := rs1, Q := Q1 } :=
  ⟨hrs, hQ, h.2.2⟩

theorem q17body0_rel (badchars : Option (List Nat)) (i : Nat) (s t : St 28)
    (h : SameOn [15, 14, 11, 6, 0] s t) :
    Ctl.Rel (SameOn [15, 14, 11, 6, 0]) (SameOn [2, 5, 1, 15, 14, 11, 6, 0])
      (q17body0 badchars i s) (q17body0 badchars i t) := by
  unfold q17body0
  lift_lets
  intro s1 s2 s3 s4 s5 s6 s7 s8 s9 t1 t2 t3 t4 t5 t6 t7 t8 t9
  have r1 : SameOn [15, 14, 11, 6, 0] s1 t1 :=
    SameOn_sample h (by rw [h.1]) (by rw [h.1, h.2.1, SameOn_q h 16])
  have r2 : SameOn [15, 14, 11, 6, 0] s2 t2 :=
    SameOn_setQ r1 18 (by simp only [SameOn_q r1, SameOn_b r1 6 (by simp)])
  have r3 : SameOn [15, 14, 11, 6, 0] s3 t3 :=
    SameOn_setQ r2 19 (by simp only [SameOn_q r2, SameOn_b r2 11 (by simp)])
  have r4 : SameOn [15, 14, 11, 6, 0] s4 t4 :=
    SameOn_setQ r3 20 (by simp only [SameOn_q r3, SameOn_b r3 0 (by simp)])
  have r5 : SameOn [1, 15, 14, 11, 6, 0] s5 t5 :=
    SameOn_setB r4 1 (by decide) (by rw [r4.2.1])
  have r6 : SameOn [1, 15, 14, 11, 6, 0] s6 t6 :=
    SameOn_setQ r5 2 (by simp only [r5.2.1, SameOn_q r5, SameOn_b r5 1 (by simp)])
  have r7 : SameOn [5, 1, 15, 14, 11, 6, 0] s7 t7 :=
    SameOn_setB r6 5 (by decide) (by rw [r6.2.1])
  have r8 : SameOn [5, 1, 15, 14, 11, 6, 0] s8 t8 :=
    SameOn_setQ r7 21 (by simp only [SameOn_q r7, SameOn_b r7 5 (by simp)])
  have r9 : SameOn [2, 5, 1, 15, 14, 11, 6, 0] s9 t9 :=
    SameOn_setB r8 2 (by decide) (by rw [r8.2.1])
  refine Ctl.Rel_ite (by rw [r2.2.1]) (fun _ => r2) (fun _ => ?_)
  refine Ctl.Rel_ite (by rw [r3.2.1]) (fun _ => r3) (fun _ => ?_)
  refine Ctl.Rel_ite (by rw [r4.2.1]) (fun _ => r4) (fun _ => ?_)
  refine Ctl.Rel_ite (by rw [SameOn_b r6 1 (by simp)])
    (fun _ => SameOn_mono r6 _ (by decide)) (fun _ => ?_)
  refine Ctl.Rel_ite (by rw [r8.2.1]) (fun _ => SameOn_mono r8 _ (by decide)) (fun _ => ?_)
  refine Ctl.Rel_ite (by rw [SameOn_b r8 5 (by simp)])
    (fun _ => SameOn_mono r8 _ (by decide)) (fun _ => ?_)
  refine Ctl.Rel_ite (by rw [SameOn_b r9 2 (by simp)])
    (fun _ => SameOn_mono r9 _ (by decide)) (fun _ => ?_)
  exact r9

theorem outerBody0_rel (asserts : Bool) (Compress : Words 4 → Words 16 → Words 4)
    (iv : Words 4) (badchars : Option (List Nat)) (s t : St 28) (h : SameOn [] s t) :
    Ctl.Rel (SameOn []) Eq
      (outerBody0 asserts Compress iv badchars s)
      (outerBody0 asserts Compress iv badchars t) := by
  unfold outerBody0
  lift_lets
  intro s1 s2 s3 s4 s5 s6 t1 t2 t3 t4 t5 t6
  have r1 : SameOn [] s1 t1 := SameOn_sampleLoop qconds 16 1 s t h
  have r2 : SameOn [0] s2 t2 := SameOn_setB r1 0 (by decide) (by rw [r1.2.1])
  have r3 : SameOn [6, 0] s3 t3 := SameOn_setB r2 6 (by decide) (by rw [r2.2.1])
  have r4 : SameOn [11, 6, 0] s4 t4 := SameOn_setB r3 11 (by decide) (by rw [r3.2.1])
  have r5 : SameOn [14, 11, 6, 0] s5 t5 := SameOn_setB r4 14 (by decide) (by rw [r4.2.1])
  have r6 : SameOn [15, 14, 11, 6, 0] s6 t6 := SameOn_setB r5 15 (by decide) (by rw [r5.2.1])
  refine Ctl.Rel_ite (by rw [SameOn_b r2 0 (by simp)])
    (fun _ => SameOn_mono r2 _ (by decide)) (fun _ => ?_)
  refine Ctl.Rel_ite (by rw [SameOn_b r3 6 (by simp)])
    (fun _ => SameOn_mono r3 _ (by decide)) (fun _ => ?_)
  refine Ctl.Rel_ite (by rw [SameOn_b r4 11 (by simp)])
    (fun _ => SameOn_mono r4 _ (by decide)) (fun _ => ?_)
  refine Ctl.Rel_ite (by rw [SameOn_b r5 14 (by simp)])
    (fun _ => SameOn_mono r5 _ (by decide)) (fun _ => ?_)
  refine Ctl.Rel_ite (by rw [SameOn_b r6 15 (by simp)])
    (fun _ => SameOn_mono r6 _ (by decide)) (fun _ => ?_)
  have hl := forLoop_rel (q17body0 badchars) (q17body0 badchars) (SameOn [15, 14, 11, 6, 0])
    (SameOn [2, 5, 1, 15, 14, 11, 6, 0])
    (fun j u v huv => q17body0_rel badchars j u v huv) 100 0 s6 t6 r6
  revert hl
  generalize forLoop (q17body0 badchars) 100 0 s6 = x
  generalize forLoop (q17body0 badchars) 100 0 t6 = y
  intro hl
  cases x <;> cases y
  all_goals first
    | exact False.elim hl
    | trivial
    | skip
  · exact SameOn_mono hl _ (by decide)
  · rename_i u v
    exact Ctl.Rel_imp (fun _ _ h => SameOn_mono h _ (by decide)) (fun _ _ h => h)
      (forLoop_rel
        (q10body0 asserts Compress iv badchars) (q10body0 asserts Compress iv badchars)
        (SameOn [2, 5, 1, 15, 14, 11, 6, 0]) Eq
        (fun j a b hab => q10body0_rel asserts Compress iv badchars j a b hab)
        8 0 u v hl)

/-- The output of `MD5CollideBlock0` does not depend on the buffer it is given. -/
theorem MD5CollideBlock0Run_buffer (asserts : Bool) (Compress : Words 4 → Words 16 → Words 4)
    (iv : Words 4) (badchars : Option (List Nat)) (time : Nat) (block block1 : Words 16)
    (fuel : Nat) :
    MD5CollideBlock0Run asserts Compress iv badchars time block fuel
      = MD5CollideBlock0Run asserts Compress iv badchars time block1 fuel :=
  whileLoop_rel (outerBody0 asserts Compress iv badchars) (outerBody0 asserts Compress iv badchars)
    (SameOn []) (fun s t h => outerBody0_rel asserts Compress iv badchars s t h) fuel _ _
    ⟨rfl, rfl, fun _ h => absurd h (List.not_mem_nil _)⟩

/-! ## The second block, side by side -/

theorem q9body1_rel (asserts : Bool) (Compress : Words 4 → Words 16 → Words 4)
    (iv : Words 4) (badchars : Option (List Nat)) (q9m9bits : List Nat)
    (a2 b2 c2 d2 q9save i : Nat) (s t : St 25)
    (h : SameOn [13, 10, 2, 4, 3, 1, 0, 15, 14, 11, 7, 6, 5] s t) :
    Ctl.Rel (SameOn [13, 10, 2, 4, 3, 1, 0, 15, 14, 11, 7, 6, 5]) Eq
      (q9body1 asserts Compress iv badchars q9m9bits a2 b2 c2 d2 q9save i s)
      (q9body1 asserts Compress iv badchars q9m9bits a2 b2 c2 d2 q9save i t) := by
  unfold q9body1
  lift_lets
  intro s1 s2 s3 s4 t1 t2 t3 t4
  have r1 : SameOn [13, 10, 2, 4, 3, 1, 0, 15, 14, 11, 7, 6, 5] s1 t1 := SameOn_setQ h 9 rfl
  have r2 : SameOn [8, 13, 10, 2, 4, 3, 1, 0, 15, 14, 11, 7, 6, 5] s2 t2 :=
    SameOn_setB r1 8 (by decide) (by rw [r1.2.1])
  have r3 : SameOn [9, 8, 13, 10, 2, 4, 3, 1, 0, 15, 14, 11, 7, 6, 5] s3 t3 :=
    SameOn_setB r2 9 (by decide) (by rw [r2.2.1])
  have r4 : SameOn [12, 9, 8, 13, 10, 2, 4, 3, 1, 0, 15, 14, 11, 7, 6, 5] s4 t4 :=
    SameOn_setB r3 12 (by decide) (by rw [r3.2.1])
  have e4 : t4 = s4 := SameOn_eq r4 (by decide)
  refine Ctl.Rel_ite (by rw [SameOn_b r2 8 (by simp)])
    (fun _ => SameOn_mono r2 _ (by decide)) (fun _ => ?_)
  refine Ctl.Rel_ite (by rw [SameOn_b r3 9 (by simp)])
    (fun _ => SameOn_mono r3 _ (by decide)) (fun _ => ?_)
  refine Ctl.Rel_ite (by rw [SameOn_b r3 10 (by simp), r3.2.1]) (fun _ => trivial) (fun _ => ?_)
  refine Ctl.Rel_ite (by rw [SameOn_b r3 11 (by simp), r3.2.1]) (fun _ => trivial) (fun _ => ?_)
  rw [e4]
  exact Ctl.Rel_refl (SameOn_refl _) (fun _ => rfl) _

theorem q10body1_rel (asserts : Bool) (Compress : Words 4 → Words 16 → Words 4)
    (iv : Words 4) (badchars : Option (List Nat)) (qc : List qcond)
    (q9m9bits q9q10bits : List Nat) (q9base q10base i : Nat) (s t : St 25)
    (h : SameOn [2, 4, 3, 1, 0, 15, 14, 11, 7, 6, 5] s t) :
    Ctl.Rel (SameOn [2, 4, 3, 1, 0, 15, 14, 11, 7, 6, 5]) Eq
      (q10body1 asserts Compress iv badchars qc q9m9bits q9q10bits q9base q10base i s)
      (q10body1 asserts Compress iv badchars qc q9m9bits q9q10bits q9base q10base i t) := by
  unfold q10body1
  lift_lets
  intro s1 q9save s2 s3 a2 b2 c2 d2 d2a c2a c2b c2c b2a s4
    t1 q9savet t2 t3 a2t b2t c2t d2t d2at c2at c2bt c2ct b2at t4
  have r1 : SameOn [2, 4, 3, 1, 0, 15, 14, 11, 7, 6, 5] s1 t1 := SameOn_setQ h 9 rfl
  have r2 : SameOn [2, 4, 3, 1, 0, 15, 14, 11, 7, 6, 5] s2 t2 := SameOn_setQ r1 10 rfl
  have r3 : SameOn [10, 2, 4, 3, 1, 0, 15, 14, 11, 7, 6, 5] s3 t3 :=
    SameOn_setB r2 10 (by decide) (by rw [r2.2.1])
  have r4 : SameOn [13, 10, 2, 4, 3, 1, 0, 15, 14, 11, 7, 6, 5] s4 t4 :=
    SameOn_setB r3 13 (by decide) (by rw [r3.2.1])
  have eqs : q9savet = q9save := by simp only [q9savet, q9save, SameOn_q r1]
  have ea2 : a2t = a2 := by simp only [a2t, a2, SameOn_q r3]
  have eb2 : b2t = b2 := by simp only [b2t, b2, SameOn_q r3]
  have ec2 : c2t = c2 := by simp only [c2t, c2, SameOn_q r3]
  have ed2 : d2t = d2 := by simp only [d2t, d2, SameOn_q r3]
  have ed2a : d2at = d2a := by
    simp only [d2at, d2a, ea2, eb2, ec2, ed2, SameOn_b r3 10 (by simp)]
  have ec2a : c2at = c2a := by
    simp only [c2at, c2a, ea2, eb2, ec2, ed2a, SameOn_b r3 15 (by simp)]
  have ec2c : c2ct = c2c := by
    simp only [c2ct, c2c, c2bt, c2b, ec2a, ed2a]
  have eb2a : b2at = b2a := by
    simp only [b2at, b2a, ea2, eb2, ec2c, ed2a, SameOn_b r3 4 (by simp)]
  refine Ctl.Rel_ite (by rw [SameOn_b r3 10 (by simp)])
    (fun _ => SameOn_mono r3 _ (by decide)) (fun _ => ?_)
  refine Ctl.Rel_ite (by rw [SameOn_b r3 11 (by simp), r3.2.1]) (fun _ => trivial) (fun _ => ?_)
  refine Ctl.Rel_ite (by rw [ed2a]) (fun _ => SameOn_mono r3 _ (by decide)) (fun _ => ?_)
  refine Ctl.Rel_ite (by rw [ec2a]) (fun _ => SameOn_mono r3 _ (by decide)) (fun _ => ?_)
  refine Ctl.Rel_ite (by rw [ec2c]) (fun _ => SameOn_mono r3 _ (by decide)) (fun _ => ?_)
  refine Ctl.Rel_ite (by rw [eb2a]) (fun _ => SameOn_mono r3 _ (by decide)) (fun _ => ?_)
  refine Ctl.Rel_ite (by rw [SameOn_b r4 13 (by simp)])
    (fun _ => SameOn_mono r4 _ (by decide)) (fun _ => ?_)
  rw [ea2, eb2a, ec2c, ed2a, eqs]
  exact Ctl.Rel_imp (fun _ _ h => SameOn_mono h _ (by decide)) (fun _ _ h => h)
    (forLoop_rel
      (q9body1 asserts Compress iv badchars q9m9bits a2 b2a c2c d2a q9save)
      (q9body1 asserts Compress iv badchars q9m9bits a2 b2a c2c d2a q9save)
      (SameOn [13, 10, 2, 4, 3, 1, 0, 15, 14, 11, 7, 6, 5]) Eq
      (fun j u v huv =>
        q9body1_rel asserts Compress iv badchars q9m9bits a2 b2a c2c d2a q9save j u v huv)
      512 0 s4 t4 r4)

theorem q1body1_rel (badchars : Option (List Nat)) (qc : List qcond) (i : Nat) (s t : St 25)
    (h : SameOn [15, 14, 11, 7, 6, 5] s t) :
    Ctl.Rel (SameOn [15, 14, 11, 7, 6, 5]) (SameOn [2, 4, 3, 1, 0, 15, 14, 11, 7, 6, 5])
      (q1body1 badchars qc i s) (q1body1 badchars qc i t) := by
  unfold q1body1
  lift_lets
  intro s1 s2 s3 s4 s5 s6 s7 s8 s9 s10 s11 t1 t2 t3 t4 t5 t6 t7 t8 t9 t10 t11
  have r1 : SameOn [15, 14, 11, 7, 6, 5] s1 t1 :=
    SameOn_sample h (by rw [h.1]) (by rw [h.1, h.2.1, SameOn_q h 0])
  have r2 : SameOn [0, 15, 14, 11, 7, 6, 5] s2 t2 :=
    SameOn_setB r1 0 (by decide) (by rw [r1.2.1])
  have r3 : SameOn [1, 0, 15, 14, 11, 7, 6, 5] s3 t3 :=
    SameOn_setB r2 1 (by decide) (by rw [r2.2.1])
  have r4 : SameOn [3, 1, 0, 15, 14, 11, 7, 6, 5] s4 t4 :=
    SameOn_setB r3 3 (by decide) (by rw [r3.2.1])
  have r5 : SameOn [4, 3, 1, 0, 15, 14, 11, 7, 6, 5] s5 t5 :=
    SameOn_setB r4 4 (by decide) (by rw [r4.2.1])
  have r6 : SameOn [4, 3, 1, 0, 15, 14, 11, 7, 6, 5] s6 t6 :=
    SameOn_setQ r5 17 (by simp only [SameOn_q r5, SameOn_b r5 1 (by simp)])
  have r7 : SameOn [4, 3, 1, 0, 15, 14, 11, 7, 6, 5] s7 t7 :=
    SameOn_setQ r6 18 (by simp only [SameOn_q r6, SameOn_b r6 6 (by simp)])
  have r8 : SameOn [4, 3, 1, 0, 15, 14, 11, 7, 6, 5] s8 t8 :=
    SameOn_setQ r7 19 (by simp only [SameOn_q r7, SameOn_b r7 11 (by simp)])
  have r9 : SameOn [4, 3, 1, 0, 15, 14, 11, 7, 6, 5] s9 t9 :=
    SameOn_setQ r8 20 (by simp only [SameOn_q r8, SameOn_b r8 0 (by simp)])
  have r10 : SameOn [4, 3, 1, 0, 15, 14, 11, 7, 6, 5] s10 t10 :=
    SameOn_setQ r9 21 (by simp only [SameOn_q r9, SameOn_b r9 5 (by simp)])
  have r11 : SameOn [2, 4, 3, 1, 0, 15, 14, 11, 7, 6, 5] s11 t11 :=
    SameOn_setB r10 2 (by decide) (by rw [r10.2.1])
  refine Ctl.Rel_ite (by rw [SameOn_b r2 0 (by simp)])
    (fun _ => SameOn_mono r2 _ (by decide)) (fun _ => ?_)
  refine Ctl.Rel_ite (by rw [SameOn_b r3 1 (by simp)])
    (fun _ => SameOn_mono r3 _ (by decide)) (fun _ => ?_)
  refine Ctl.Rel_ite (by rw [SameOn_b r4 3 (by simp)])
    (fun _ => SameOn_mono r4 _ (by decide)) (fun _ => ?_)
  refine Ctl.Rel_ite (by rw [SameOn_b r5 4 (by simp)])
    (fun _ => SameOn_mono r5 _ (by decide)) (fun _ => ?_)
  refine Ctl.Rel_ite (by rw [r6.2.1]) (fun _ => SameOn_mono r6 _ (by decide)) (fun _ => ?_)
  refine Ctl.Rel_ite (by rw [r7.2.1]) (fun _ => SameOn_mono r7 _ (by decide)) (fun _ => ?_)
  refine Ctl.Rel_ite (by rw [r8.2.1]) (fun _ => SameOn_mono r8 _ (by decide)) (fun _ => ?_)
  refine Ctl.Rel_ite (by rw [r9.2.1]) (fun _ => SameOn_mono r9 _ (by decide)) (fun _ => ?_)
  refine Ctl.Rel_ite (by rw [r10.2.1]) (fun _ => SameOn_mono r10 _ (by decide)) (fun _ => ?_)
  refine Ctl.Rel_ite (by rw [SameOn_b r11 2 (by simp)])
    (fun _ => SameOn_mono r11 _ (by decide)) (fun _ => ?_)
  exact r11

theorem tunnels1_rel (asserts : Bool) (Compress : Words 4 → Words 16 → Words 4)
    (iv : Words 4) (badchars : Option (List Nat)) (qc : List qcond) (m9mask m9m10mask : Nat)
    (q9m9bits q9q10bits : List Nat) (num : Nat) (s t : St 25)
    (h : SameOn [2, 4, 3, 1, 0, 15, 14, 11, 7, 6, 5] s t) :
    Ctl.Rel (SameOn [2, 4, 3, 1, 0, 15, 14, 11, 7, 6, 5]) Eq
      (tunnels1 asserts Compress iv badchars qc m9mask m9m10mask q9m9bits q9q10bits num s)
      (tunnels1 asserts Compress iv badchars qc m9mask m9m10mask q9m9bits q9q10bits num t) := by
  unfold tunnels1
  lift_lets
  intro q9base q10base q9baset q10baset
  have e9 : q9baset = q9base := by simp only [q9baset, q9base, SameOn_q h]
  have e10 : q10baset = q10base := by simp only [q10baset, q10base, SameOn_q h]
  rw [e9, e10]
  refine Ctl.Rel_ite rfl (fun _ => trivial) (fun _ => ?_)
  refine Ctl.Rel_ite rfl (fun _ => trivial) (fun _ => ?_)
  refine Ctl.Rel_ite rfl (fun _ => trivial) (fun _ => ?_)
  exact forLoop_rel
    (q10body1 asserts Compress iv badchars qc q9m9bits q9q10bits q9base q10base)
    (q10body1 asserts Compress iv badchars qc q9m9bits q9q10bits q9base q10base)
    (SameOn [2, 4, 3, 1, 0, 15, 14, 11, 7, 6, 5]) Eq
    (fun j u v huv =>
      q10body1_rel asserts Compress iv badchars qc q9m9bits q9q10bits q9base q10base j u v huv)
    num 0 s t h

theorem outerBody1_rel (asserts : Bool) (Compress : Words 4 → Words 16 → Words 4)
    (iv : Words 4) (badchars : Option (List Nat)) (qc : List qcond) (m9mask m9m10mask : Nat)
    (q9m9bits q9q10bits : List Nat) (num : Nat) (s t : St 25) (h : SameOn [] s t) :
    Ctl.Rel (SameOn []) Eq
      (outerBody1 asserts Compress iv badchars qc m9mask m9m10mask q9m9bits q9q10bits num s)
      (outerBody1 asserts Compress iv badchars qc m9mask m9m10mask q9m9bits q9q10bits num t) := by
  unfold outerBody1
  lift_lets
  intro s1 s2 s3 s4 s5 s6 s7 s8 t1 t2 t3 t4 t5 t6 t7 t8
  have r1 : SameOn [] s1 t1 :=
    SameOn_sample h (by rw [h.1]) (by rw [h.1, h.2.1, SameOn_q h 0])
  have r2 : SameOn [] s2 t2 := SameOn_sampleLoop qc 14 3 s1 t1 r1
  have r3 : SameOn [5] s3 t3 := SameOn_setB r2 5 (by decide) (by rw [r2.2.1])
  have r4 : SameOn [6, 5] s4 t4 := SameOn_setB r3 6 (by decide) (by rw [r3.2.1])
  have r5 : SameOn [7, 6, 5] s5 t5 := SameOn_setB r4 7 (by decide) (by rw [r4.2.1])
  have r6 : SameOn [11, 7, 6, 5] s6 t6 := SameOn_setB r5 11 (by decide) (by rw [r5.2.1])
  have r7 : SameOn [14, 11, 7, 6, 5] s7 t7 := SameOn_setB r6 14 (by decide) (by rw [r6.2.1])
  have r8 : SameOn [15, 14, 11, 7, 6, 5] s8 t8 :=
    SameOn_setB r7 15 (by decide) (by rw [r7.2.1])
  refine Ctl.Rel_ite (by rw [SameOn_b r3 5 (by simp)])
    (fun _ => SameOn_mono r3 _ (by decide)) (fun _ => ?_)
  refine Ctl.Rel_ite (by rw [SameOn_b r4 6 (by simp)])
    (fun _ => SameOn_mono r4 _ (by decide)) (fun _ => ?_)
  refine Ctl.Rel_ite (by rw [SameOn_b r5 7 (by simp)])
    (fun _ => SameOn_mono r5 _ (by decide)) (fun _ => ?_)
  refine Ctl.Rel_ite (by rw [SameOn_b r6 11 (by simp)])
    (fun _ => SameOn_mono r6 _ (by decide)) (fun _ => ?_)
  refine Ctl.Rel_ite (by rw [SameOn_b r7 14 (by simp)])
    (fun _ => SameOn_mono r7 _ (by decide)) (fun _ => ?_)
  refine Ctl.Rel_ite (by rw [SameOn_b r8 15 (by simp)])
    (fun _ => SameOn_mono r8 _ (by decide)) (fun _ => ?_)
  have hl := forLoop_rel (q1body1 badchars qc) (q1body1 badchars qc)
    (SameOn [15, 14, 11, 7, 6, 5]) (SameOn [2, 4, 3, 1, 0, 15, 14, 11, 7, 6, 5])
    (fun j u v huv => q1body1_rel badchars qc j u v huv) 2000 0 s8 t8 r8
  revert hl
  generalize forLoop (q1body1 badchars qc) 2000 0 s8 = x
  generalize forLoop (q1body1 badchars qc) 2000 0 t8 = y
  intro hl
  cases x <;> cases y
  all_goals first
    | exact False.elim hl
    | trivial
    | skip
  · exact SameOn_mono hl _ (by decide)
  · rename_i u v
    exact Ctl.Rel_imp (fun _ _ h => SameOn_mono h _ (by decide)) (fun _ _ h => h)
      (tunnels1_rel asserts Compress iv badchars qc m9mask m9m10mask q9m9bits q9q10bits num
        u v hl)

/-- The output of `MD5CollideBlock1` does not depend on the buffer it is given. -/
theorem MD5CollideBlock1Run_buffer (asserts : Bool) (Compress : Words 4 → Words 16 → Words 4)
    (iv : Words 4) (badchars : Option (List Nat)) (time : Nat) (block block1 : Words 16)
    (fuel : Nat) :
    MD5CollideBlock1Run asserts Compress iv badchars time block fuel
      = MD5CollideBlock1Run asserts Compress iv badchars time block1 fuel := by
  have hp := pathOf_lt iv
  have h9 := m9loop_returns asserts (pathOf iv) hp
  have h10 := m10loop_returns asserts (pathOf iv) hp
  unfold MD5CollideBlock1Run
  rw [h9, h10]
  exact whileLoop_rel _ _ (SameOn [])
    (fun s t h => outerBody1_rel asserts Compress iv badchars _ _ _ _ _ _ s t h) fuel _ _
    ⟨rfl, rfl, fun _ h => absurd h (List.not_mem_nil _)⟩

/-- C28.  The returned block does not depend on what the output buffer held before the
call.  For each engine and for every `Compress`, `iv`, `badchars`, seed `time` of the
random stream, bound `fuel` and build mode, two runs that differ only in the initial
contents `block`, `block1` of the buffer end in the same way: both return, with the same
sixteen words (and the same trail, generator state and registers), or both fail an
`assert`, or both are still running after `fuel` passes of the outer loop.  They take
the same branches: started in states with the same generator state and trail and any two
buffers, one pass of the outer loop body takes the same exit in both runs, with equal
results at a `return` and again the same generator state and trail at a `continue`. -/
theorem output_independent_of_initial_buffer (asserts : Bool)
    (Compress : Words 4 → Words 16 → Words 4) (iv : Words 4) (badchars : Option (List Nat))
    (time : Nat) (fuel : Nat) (block block1 : Words 16) :
    MD5CollideBlock0 asserts Compress iv badchars time block fuel
      = MD5CollideBlock0 asserts Compress iv badchars time block1 fuel ∧
    MD5CollideBlock1 asserts Compress iv badchars time block fuel
      = MD5CollideBlock1 asserts Compress iv badchars time block1 fuel ∧
    MD5CollideBlock0Run asserts Compress iv badchars time block fuel
      = MD5CollideBlock0Run asserts Compress iv badchars time block1 fuel ∧
    MD5CollideBlock1Run asserts Compress iv badchars time block fuel
      = MD5CollideBlock1Run asserts Compress iv badchars time block1 fuel ∧
    (∀ s t : St 28, SameOn [] s t →
      Ctl.Rel (SameOn []) Eq (outerBody0 asserts Compress iv badchars s)
        (outerBody0 asserts Compress iv badchars t)) ∧
    (∀ qc m9mask m9m10mask q9m9bits q9q10bits num (s t : St 25), SameOn [] s t →
      Ctl.Rel (SameOn []) Eq
        (outerBody1 asserts Compress iv badchars qc m9mask m9m10mask q9m9bits q9q10bits num s)
        (outerBody1 asserts Compress iv badchars qc m9mask m9m10mask q9m9bits q9q10bits num
          t)) := by
  have h0 := MD5CollideBlock0Run_buffer asserts Compress iv badchars time block block1 fuel
  have h1 := MD5CollideBlock1Run_buffer asserts Compress iv badchars time block block1 fuel
  refine ⟨?_, ?_, h0, h1, fun s t h => outerBody0_rel asserts Compress iv badchars s t h,
    fun qc m9mask m9m10mask q9m9bits q9q10bits num s t h =>
      outerBody1_rel asserts Compress iv badchars qc m9mask m9m10mask q9m9bits q9q10bits num
        s t h⟩
  · unfold MD5CollideBlock0
    rw [h0]
  · unfold MD5CollideBlock1
    rw [h1]

/-- Witness of C28: the run `run0_example`, started on a buffer of sixteen words
`0xffffffff` instead of sixteen zero words, returns the same result. -/
theorem output_independent_of_initial_buffer_witness :
    MD5CollideBlock0Run true MD5Transform stdIV (some unclean_map) 1612755449
      ⟨[4294967295, 4294967295, 4294967295, 4294967295, 4294967295, 4294967295, 4294967295,
        4294967295, 4294967295, 4294967295, 4294967295, 4294967295, 4294967295, 4294967295,
        4294967295, 4294967295], rfl⟩ 1
      = Outcome.returned exRet0 :=
  ((output_independent_of_initial_buffer true MD5Transform stdIV (some unclean_map)
    1612755449 1 zeroBlock _).2.2.1).symm.trans run0_example
end Md5Coll
